import Mathlib

/-!
TrabalhoSO: kernel, frame manager and secondary-storage allocator.

A shallow embedding of `sec_alloc.c`, `quadros.c` and `T2/so.c`.  C `int`s are
unbounded `Int`s wherever the values stay within the range of an `int`; the one
sum that can leave it on arguments the code accepts, `base + n` in the guard of
`sec_alloc_free`, is taken modulo 2^32 (`int_soma`).  Arrays are lists, a `for`
loop over an array is a recursion over the list or over the index range, and a
pointer into a table is the index of the slot.
-/

set_option autoImplicit false

/-! ## sec_alloc.c -/

/-- The allocator of `sec_alloc.c`.  `bitmap` has one cell per word of the
secondary memory (0 = free, anything else = used); the field `size` of the C
struct is the length of that array. -/
structure sec_alloc_t where
  bitmap : List Nat
  deriving DecidableEq, Repr

/-- The field `size` of the C struct: the number of cells of `bitmap`. -/
def sec_alloc_t.size (self : sec_alloc_t) : Int := self.bitmap.length

/-- `sec_alloc_cria`: a bitmap of `mem_tam(mem)` cells, all zero. -/
def sec_alloc_cria (mem_tam : Nat) : sec_alloc_t :=
  { bitmap := List.replicate mem_tam 0 }

/-- The outer `for` loop of `sec_alloc_alloc`, started at index `i` with the
cells from `i` on still to be visited and `run` free cells counted so far.
`some base` is the `return base` inside the loop, `none` is falling out of it. -/
def sec_alloc_busca (n : Int) : List Nat → Int → Int → Option Int
  | [], _, _ => none
  | c :: resto, i, run =>
    if c = 0 then
      if run + 1 = n then some (i - n + 1)
      else sec_alloc_busca n resto (i + 1) (run + 1)
    else sec_alloc_busca n resto (i + 1) 0

/-- The loop `for (j = 0; j < n; j++) bitmap[base + j] = v`, by the number of
iterations. -/
def sec_alloc_preenche (bitmap : List Nat) (base : Int) (v : Nat) : Nat → List Nat
  | 0 => bitmap
  | j + 1 => (sec_alloc_preenche bitmap base v j).set (base + (j : Int)).toNat v

/-- `sec_alloc_alloc`: the returned `int` and the allocator afterwards. -/
def sec_alloc_alloc (self : sec_alloc_t) (n : Int) : Int × sec_alloc_t :=
  if n ≤ 0 ∨ n > self.size then (-1, self)
  else
    match sec_alloc_busca n self.bitmap 0 0 with
    | some base => (base, { bitmap := sec_alloc_preenche self.bitmap base 1 n.toNat })
    | none => (-1, self)

/-- The `int` that the addition of two C `int`s gives on a two's complement machine: the
sum modulo 2^32, taken in -2147483648 .. 2147483647. -/
def int_soma (a b : Int) : Int := (a + b + 2147483648) % 4294967296 - 2147483648

/-- The loop `for (i = 0; i < n; i++) bitmap[base + i] = 0` of `sec_alloc_free`, by the
number of iterations.  A write outside the array has no defined effect: the result is
`none` from the first such write on. -/
def sec_alloc_libera (bitmap : List Nat) (base : Int) : Nat → Option (List Nat)
  | 0 => some bitmap
  | j + 1 =>
    match sec_alloc_libera bitmap base j with
    | none => none
    | some b =>
      if 0 ≤ base + (j : Int) ∧ base + (j : Int) < (b.length : Int) then
        some (b.set (base + (j : Int)).toNat 0)
      else none

/-- `sec_alloc_free`: the allocator afterwards, `none` when the loop has written outside
the bitmap.  The sum `base + n` of the guard is an `int` addition. -/
def sec_alloc_free (self : sec_alloc_t) (base n : Int) : Option sec_alloc_t :=
  if base < 0 ∨ n ≤ 0 ∨ int_soma base n > self.size then some self
  else (sec_alloc_libera self.bitmap base n.toNat).map (fun b => { bitmap := b })

/-- `sec_alloc_size`. -/
def sec_alloc_size (self : sec_alloc_t) : Int := self.size

/-- Words `b .. b+n-1` exist and are all free in `bitmap`. -/
def RunLivre (bitmap : List Nat) (b n : Nat) : Prop :=
  ∀ j, j < n → bitmap[b + j]? = some 0

instance (bitmap : List Nat) (b n : Nat) : Decidable (RunLivre bitmap b n) := by
  unfold RunLivre; exact Nat.decidableBallLT n _

/-! ## quadros.c -/

/-- The frame manager of `quadros.c`.  The counters `n_quadros`, `fifo_head`, `fifo_tail`
and `fifo_count` never go below zero in the C code and are natural numbers here; frame
numbers, pids and pages are `int`s; a cell of `is_free` is `true` for a non-zero `char`. -/
structure quadros_t where
  n_quadros : Nat
  owner_pid : List Int
  owner_pagina : List Int
  fifo_queue : List Int
  fifo_head : Nat
  fifo_tail : Nat
  fifo_count : Nat
  is_free : List Bool
  deriving DecidableEq, Repr

/-- `quadros_cria`: `mem_tam` is `mem_tam(mem)`, `TAM_PAGINA` the constant of `mmu.h`, and
`lixo` the content `malloc` left in the cells of `fifo_queue`, which the function does not
initialise. -/
def quadros_cria (mem_tam TAM_PAGINA : Nat) (lixo : Nat → Int) : quadros_t :=
  let n := mem_tam / TAM_PAGINA
  { n_quadros := n
    owner_pid := List.replicate n (-1)
    owner_pagina := List.replicate n (-1)
    fifo_queue := (List.range n).map lixo
    fifo_head := 0
    fifo_tail := 0
    fifo_count := 0
    is_free := List.replicate n true }

/-- `quadros_encontra_livre`. -/
def quadros_encontra_livre (self : quadros_t) : Int :=
  match (List.range self.n_quadros).find? (fun i => self.is_free.getD i false) with
  | some i => (i : Int)
  | none => -1

/-- `quadros_seleciona_vitima`. -/
def quadros_seleciona_vitima (self : quadros_t) : Int :=
  if self.fifo_count = 0 then -1
  else self.fifo_queue.getD self.fifo_head 0

/-- One iteration (index `i`) of the loop of `quadros_seleciona_vitima_lru`; the pair is
`(best, best_age)`.  The callback gives `some age` when it returns true. -/
def quadros_lru_passo (self : quadros_t) (get_age_cb : Int → Int → Option Nat)
    (st : Int × Nat) (i : Nat) : Int × Nat :=
  if self.is_free.getD i true then st
  else
    match get_age_cb (self.owner_pid.getD i (-1)) (self.owner_pagina.getD i (-1)) with
    | none => st
    | some age => if st.1 = -1 ∨ age < st.2 then ((i : Int), age) else st

/-- `quadros_seleciona_vitima_lru`. -/
def quadros_seleciona_vitima_lru (self : quadros_t)
    (get_age_cb : Int → Int → Option Nat) : Int :=
  if self.fifo_count = 0 then -1
  else
    let r := (List.range self.n_quadros).foldl (quadros_lru_passo self get_age_cb)
      (-1, 0xffffffff)
    if r.1 = -1 then quadros_seleciona_vitima self
    else r.1

/-- `quadros_remove_vitima`: the returned frame and the manager afterwards. -/
def quadros_remove_vitima (self : quadros_t) : Int × quadros_t :=
  if self.fifo_count = 0 then (-1, self)
  else
    let v := self.fifo_queue.getD self.fifo_head 0
    (v, { self with
            fifo_head := (self.fifo_head + 1) % self.n_quadros
            fifo_count := self.fifo_count - 1
            is_free := self.is_free.set v.toNat true
            owner_pid := self.owner_pid.set v.toNat (-1)
            owner_pagina := self.owner_pagina.set v.toNat (-1) })

/-- One iteration (index `i`) of the first loop of `quadros_free_pid`. -/
def quadros_free_pid_marca (pid : Int) (self : quadros_t) (i : Nat) : quadros_t :=
  if self.is_free.getD i true = false ∧ self.owner_pid.getD i (-1) = pid then
    { self with
        is_free := self.is_free.set i true
        owner_pid := self.owner_pid.set i (-1)
        owner_pagina := self.owner_pagina.set i (-1) }
  else self

/-- One iteration (index `i`) of the second loop of `quadros_free_pid`; the triple is
`(fifo_queue, new_tail, new_count)`. -/
def quadros_free_pid_compacta (self : quadros_t) (st : List Int × Nat × Nat) (i : Nat) :
    List Int × Nat × Nat :=
  let idx := (self.fifo_head + i) % self.n_quadros
  let q := st.1.getD idx 0
  if self.is_free.getD q.toNat true = false then
    (st.1.set st.2.1 q, st.2.1 + 1, st.2.2 + 1)
  else st

/-- `quadros_free_pid`. -/
def quadros_free_pid (self : quadros_t) (pid : Int) : quadros_t :=
  let self := (List.range self.n_quadros).foldl (quadros_free_pid_marca pid) self
  let r := (List.range self.fifo_count).foldl (quadros_free_pid_compacta self)
    (self.fifo_queue, 0, 0)
  { self with
      fifo_queue := r.1
      fifo_head := 0
      fifo_tail := r.2.1 % self.n_quadros
      fifo_count := r.2.2 }

/-- `quadros_numero_quadros`. -/
def quadros_numero_quadros (self : quadros_t) : Int := self.n_quadros

/-- `quadros_assign`. -/
def quadros_assign (self : quadros_t) (quadro pid pagina : Int) : quadros_t :=
  if quadro < 0 ∨ quadro ≥ self.n_quadros then self
  else
    let self := { self with
                    owner_pid := self.owner_pid.set quadro.toNat pid
                    owner_pagina := self.owner_pagina.set quadro.toNat pagina
                    is_free := self.is_free.set quadro.toNat false }
    if self.fifo_count < self.n_quadros then
      { self with
          fifo_queue := self.fifo_queue.set self.fifo_tail quadro
          fifo_tail := (self.fifo_tail + 1) % self.n_quadros
          fifo_count := self.fifo_count + 1 }
    else
      { self with
          fifo_queue := self.fifo_queue.set self.fifo_tail quadro
          fifo_tail := (self.fifo_tail + 1) % self.n_quadros
          fifo_head := (self.fifo_tail + 1) % self.n_quadros }

/-- `quadros_owner_pid`. -/
def quadros_owner_pid (self : quadros_t) (quadro : Int) : Int :=
  if quadro < 0 ∨ quadro ≥ self.n_quadros then -1
  else self.owner_pid.getD quadro.toNat (-1)

/-- `quadros_owner_pagina`. -/
def quadros_owner_pagina (self : quadros_t) (quadro : Int) : Int :=
  if quadro < 0 ∨ quadro ≥ self.n_quadros then -1
  else self.owner_pagina.getD quadro.toNat (-1)

/-- The content of the FIFO queue, oldest first: the `fifo_count` cells of the ring
starting at `fifo_head`. -/
def quadros_fila (self : quadros_t) : List Int :=
  (List.range self.fifo_count).map
    (fun i => self.fifo_queue.getD ((self.fifo_head + i) % self.n_quadros) 0)

/-- Frame `i` is occupied (exists and is not free). -/
def quadros_ocupado (self : quadros_t) (i : Nat) : Prop :=
  i < self.n_quadros ∧ self.is_free.getD i true = false

instance (self : quadros_t) (i : Nat) : Decidable (quadros_ocupado self i) := by
  unfold quadros_ocupado; exact instDecidableAnd

/-- The states of the frame manager reachable from `quadros_cria` by its three mutating
operations, `quadros_assign`, `quadros_remove_vitima` and `quadros_free_pid`. -/
inductive quadros_alcancavel : quadros_t → Prop
  | cria (mem_tam TAM_PAGINA : Nat) (lixo : Nat → Int) :
      quadros_alcancavel (quadros_cria mem_tam TAM_PAGINA lixo)
  | assign (self : quadros_t) (quadro pid pagina : Int) :
      quadros_alcancavel self → quadros_alcancavel (quadros_assign self quadro pid pagina)
  | remove (self : quadros_t) :
      quadros_alcancavel self → quadros_alcancavel (quadros_remove_vitima self).2
  | free_pid (self : quadros_t) (pid : Int) :
      quadros_alcancavel self → quadros_alcancavel (quadros_free_pid self pid)

/-- The states reached from a fresh manager by `quadros_assign` calls that each target a
frame that is free at that moment and `quadros_remove_vitima` calls, together with the
frames assigned so far that no `quadros_remove_vitima` has returned yet, in the order of
their assignment. -/
inductive quadros_fifo_alc : quadros_t → List Int → Prop
  | cria (mem_tam TAM_PAGINA : Nat) (lixo : Nat → Int) :
      quadros_fifo_alc (quadros_cria mem_tam TAM_PAGINA lixo) []
  | assign (self : quadros_t) (pend : List Int) (quadro pid pagina : Int) :
      quadros_fifo_alc self pend → 0 ≤ quadro → quadro < self.n_quadros →
      self.is_free.getD quadro.toNat false = true →
      quadros_fifo_alc (quadros_assign self quadro pid pagina) (pend ++ [quadro])
  | remove (self : quadros_t) (pend : List Int) :
      quadros_fifo_alc self pend →
      quadros_fifo_alc (quadros_remove_vitima self).2 pend.tail

/-- Two frames, both assigned, the older one taken out and assigned again: the ring has
wrapped, `fifo_head = 1`, the queue is frame 1 then frame 0. -/
def quadros_ex_volta : quadros_t :=
  quadros_assign
    (quadros_remove_vitima
      (quadros_assign (quadros_assign (quadros_cria 2 1 (fun _ => 0)) 0 1 0) 1 2 0)).2
    0 3 0

/-- Two frames; frame 0 is assigned, frame 1 is assigned twice (the second time with the
queue full), then the queue is emptied by two `quadros_remove_vitima`. -/
def quadros_ex_vazia : quadros_t :=
  (quadros_remove_vitima
    (quadros_remove_vitima
      (quadros_assign (quadros_assign (quadros_assign (quadros_cria 2 1 (fun _ => 0))
        0 1 0) 1 2 0) 1 2 5)).2).2

/-- The age the callback of `quadros_seleciona_vitima_lru` obtains for frame `i`: `none`
when the frame is free (the loop skips it) or the callback returns false. -/
def quadros_idade (self : quadros_t) (get_age_cb : Int → Int → Option Nat) (i : Nat) :
    Option Nat :=
  if self.is_free.getD i true then none
  else get_age_cb (self.owner_pid.getD i (-1)) (self.owner_pagina.getD i (-1))

/-- The link between a manager and the frames waiting in its queue, kept by
`quadros_assign` on a free frame and by `quadros_remove_vitima`: the arrays have
`n_quadros` cells, the ring is well formed, its content is `pend`, and `pend` lists every
occupied frame once. -/
def quadros_rep (self : quadros_t) (pend : List Int) : Prop :=
  self.owner_pid.length = self.n_quadros ∧
  self.owner_pagina.length = self.n_quadros ∧
  self.fifo_queue.length = self.n_quadros ∧
  self.is_free.length = self.n_quadros ∧
  (0 < self.n_quadros → self.fifo_head < self.n_quadros) ∧
  self.fifo_tail = (self.fifo_head + self.fifo_count) % self.n_quadros ∧
  self.fifo_count = pend.length ∧
  (∀ i, i < self.fifo_count →
    self.fifo_queue.getD ((self.fifo_head + i) % self.n_quadros) 0 = pend.getD i 0) ∧
  pend.Nodup ∧
  (∀ x, x ∈ pend → 0 ≤ x ∧ x < self.n_quadros) ∧
  (∀ f : Nat, f < self.n_quadros → (self.is_free.getD f true = false ↔ (f : Int) ∈ pend))

/-! ## T2/so.c: types -/

/-- The states of a process (`estado_processo_t` of `so.h`), in the order of the table
`estado_nome` of `so_imprime_relatorio_final`. -/
inductive estado_processo_t where
  | LIVRE
  | PRONTO
  | EXECUTANDO
  | BLOQUEADO
  | TERMINADO
  deriving DecidableEq, Repr

open estado_processo_t

/-- The value of the enumeration, used as index of the per-state metric arrays. -/
def estado_processo_t.idx : estado_processo_t → Nat
  | LIVRE => 0
  | PRONTO => 1
  | EXECUTANDO => 2
  | BLOQUEADO => 3
  | TERMINADO => 4

/-- Why a process is blocked (`motivo_bloqueio` of the PCB). -/
inductive motivo_bloqueio_t where
  | BLOQUEIO_NENHUM
  | BLOQUEIO_IO_LE
  | BLOQUEIO_IO_ESCR
  | BLOQUEIO_PID
  deriving DecidableEq, Repr

open motivo_bloqueio_t

/-- The two schedulers (`tipo_escalonador_t`). -/
inductive tipo_escalonador_t where
  | ESCAL_CIRCULAR
  | ESCAL_PRIORIDADE
  deriving DecidableEq, Repr

open tipo_escalonador_t

/-- The saved registers of a process (`estado_cpu` of the PCB). -/
structure estado_cpu_t where
  regA : Int
  regPC : Int
  regERRO : Int
  regX : Int
  deriving DecidableEq, Repr

/-- The PCB (`processo_t` of `so.h`), with the fields `so.c` reads and writes.  The
priority, a `float` in C, is a rational number; the two metric arrays have one cell per
state. -/
structure processo_t where
  pid : Int
  estado : estado_processo_t
  estado_cpu : estado_cpu_t
  motivo_bloqueio : motivo_bloqueio_t
  pid_esperado : Int
  dispositivo_esperado : Int
  terminal : Int
  prioridade : ℚ
  tempo_criacao : Int
  tempo_termino : Int
  num_preempcoes : Int
  tempo_total_pronto : Int
  ultimo_tempo_pronto : Int
  ultimo_tempo_mudanca_estado : Int
  contagem_estado : List Int
  tempo_total_estado : List Int
  deriving DecidableEq

instance : Inhabited processo_t :=
  ⟨{ pid := 0, estado := LIVRE, estado_cpu := ⟨0, 0, 0, 0⟩,
     motivo_bloqueio := BLOQUEIO_NENHUM, pid_esperado := 0, dispositivo_esperado := 0,
     terminal := 0, prioridade := 0, tempo_criacao := 0, tempo_termino := 0,
     num_preempcoes := 0, tempo_total_pronto := 0, ultimo_tempo_pronto := 0,
     ultimo_tempo_mudanca_estado := 0, contagem_estado := [0, 0, 0, 0, 0],
     tempo_total_estado := [0, 0, 0, 0, 0] }⟩

/-- A program file as the loader of `programa.h` presents it: load address
(`prog_end_carga`), size (`prog_tamanho`) and the word at each address (`prog_dado`). -/
structure programa_t where
  end_carga : Int
  tamanho : Nat
  dado : Int → Int

/-- The constants of the headers `so.h`, `irq.h`, `dispositivos.h` and `cpu.h` that `so.c`
uses, and the program files `prog_cria` can open (by name), all taken as parameters. -/
structure so_const_t where
  MAX_PROCESSOS : Nat
  N_IRQ : Nat
  IRQ_RESET : Int
  IRQ_ERR_CPU : Int
  IRQ_SISTEMA : Int
  IRQ_RELOGIO : Int
  SO_LE : Int
  SO_ESCR : Int
  SO_CRIA_PROC : Int
  SO_MATA_PROC : Int
  SO_ESPERA_PROC : Int
  D_RELOGIO_INSTRUCOES : Int
  D_RELOGIO_TIMER : Int
  D_RELOGIO_INTERRUPCAO : Int
  D_TERM_A : Int
  TERM_TECLADO : Int
  TERM_TECLADO_OK : Int
  TERM_TELA : Int
  TERM_TELA_OK : Int
  CPU_END_A : Int
  CPU_END_PC : Int
  CPU_END_erro : Int
  CPU_END_TRATADOR : Int
  prog_cria : List Int → Option programa_t

/-- Modelled from the spec: the memory collaborator of `memoria.h` (absent),
word-addressable read and write with an OK/error result.  `le a` is the word read at
address `a` (`none` for an error) and `esc_ok a` tells whether a write at `a` succeeds. -/
structure mem_t where
  le : Int → Option Int
  esc_ok : Int → Bool

/-- Modelled from the spec: `mem_le` of the memory collaborator. -/
def mem_le (mem : mem_t) (ender : Int) : Option Int := mem.le ender

/-- Modelled from the spec: `mem_escreve` of the memory collaborator; `none` is an error,
otherwise the word is stored. -/
def mem_escreve (mem : mem_t) (ender valor : Int) : Option mem_t :=
  if mem.esc_ok ender then
    some { mem with le := fun a => if a = ender then some valor else mem.le a }
  else none

/-- Modelled from the spec: the I/O collaborator of `es.h` (absent), read and write of
device registers by address with an OK/error result.  The devices answer as they please:
`le k a` is the answer to a read of register `a` when it is the `k`-th access (`none` for
an error), `esc k a v` tells whether the write of `v` to `a` as `k`-th access succeeds.
`k` counts the accesses made and `escritas` logs the successful writes. -/
structure es_t where
  le : Nat → Int → Option Int
  esc : Nat → Int → Int → Bool
  k : Nat
  escritas : List (Int × Int)

/-- Modelled from the spec: `es_le` of the I/O collaborator. -/
def es_le (es : es_t) (ender : Int) : Option Int × es_t :=
  (es.le es.k ender, { es with k := es.k + 1 })

/-- Modelled from the spec: `es_escreve` of the I/O collaborator; the Boolean is
`ERR_OK`. -/
def es_escreve (es : es_t) (ender valor : Int) : Bool × es_t :=
  (es.esc es.k ender valor,
   { es with
       k := es.k + 1
       escritas := if es.esc es.k ender valor then es.escritas ++ [(ender, valor)]
                   else es.escritas })

/-- The global metrics (`metricas_globais_t`). -/
structure metricas_globais_t where
  tempo_total_execucao : Int
  tempo_total_ocioso : Int
  num_processos_criados : Int
  num_preempcoes_total : Int
  num_irq : List Int
  inicio_tempo_ocioso : Int
  deriving DecidableEq, Repr

/-- The kernel (`struct so_t`).  `cpu` and `console` are left out: the kernel only
registers its entry point with the first and prints to the second.  The three counters of
the ready queue never go below zero and are natural numbers. -/
structure so_t where
  mem : mem_t
  es : es_t
  erro_interno : Bool
  tabela_processos : List processo_t
  processo_em_execucao_idx : Int
  proximo_pid : Int
  fila_prontos : List Int
  fila_prontos_inicio : Nat
  fila_prontos_fim : Nat
  fila_prontos_tamanho : Nat
  quantum_total : Int
  quantum_restante : Int
  deve_preemptar : Bool
  escalonador_atual : tipo_escalonador_t
  metricas : metricas_globais_t

/-- The PCB `self->tabela_processos[i]`. -/
def so_proc (self : so_t) (i : Int) : processo_t :=
  self.tabela_processos.getD i.toNat default

/-- A write through the pointer `&self->tabela_processos[i]`: the PCB of slot `i` becomes
`f` of what it was.  The C code never forms the pointer for a negative `i`. -/
def so_muda_proc (self : so_t) (i : Int) (f : processo_t → processo_t) : so_t :=
  if i < 0 then self
  else { self with tabela_processos := self.tabela_processos.set i.toNat (f (so_proc self i)) }

/-- The statement `v[i] += d` on a metric array. -/
def soma_em (v : List Int) (i : Nat) (d : Int) : List Int :=
  v.set i (v.getD i 0 + d)

/-! ## T2/so.c: time, state changes and the ready queue -/

/-- The call `es_le(self->es, ender, &v)`: the value read (`none` for an error) and the
kernel with its devices after the access. -/
def so_es_le (self : so_t) (ender : Int) : Option Int × so_t :=
  ((es_le self.es ender).1, { self with es := (es_le self.es ender).2 })

/-- The call `es_escreve(self->es, ender, valor)`: whether it returned `ERR_OK` and the
kernel with its devices after the access. -/
def so_es_escreve (self : so_t) (ender valor : Int) : Bool × so_t :=
  ((es_escreve self.es ender valor).1, { self with es := (es_escreve self.es ender valor).2 })

/-- The statement `self->erro_interno = true`. -/
def so_erro (self : so_t) : so_t := { self with erro_interno := true }

/-- The expression `self->proximo_pid++`: its value and the kernel afterwards. -/
def so_novo_pid (self : so_t) : Int × so_t :=
  (self.proximo_pid, { self with proximo_pid := self.proximo_pid + 1 })

/-- `so_get_tempo`: the instruction clock, 0 when it cannot be read. -/
def so_get_tempo (K : so_const_t) (self : so_t) : Int × so_t :=
  let r := so_es_le self K.D_RELOGIO_INSTRUCOES
  (r.1.getD 0, r.2)

/-- What `so_atualiza_estado` does to the PCB once the clock has been read. -/
def processo_muda_estado (proc : processo_t) (tempo_agora : Int)
    (novo_estado : estado_processo_t) : processo_t :=
  let estado_antigo := proc.estado
  if estado_antigo = novo_estado then proc
  else
    let tempo_no_estado_antigo := tempo_agora - proc.ultimo_tempo_mudanca_estado
    let proc :=
      if tempo_no_estado_antigo > 0 then
        { proc with
            tempo_total_estado :=
              soma_em proc.tempo_total_estado estado_antigo.idx tempo_no_estado_antigo }
      else proc
    let proc :=
      { proc with
          estado := novo_estado
          contagem_estado := soma_em proc.contagem_estado novo_estado.idx 1
          ultimo_tempo_mudanca_estado := tempo_agora }
    let proc :=
      if novo_estado = PRONTO then { proc with ultimo_tempo_pronto := tempo_agora }
      else proc
    let proc :=
      if estado_antigo = PRONTO ∧ novo_estado = EXECUTANDO then
        { proc with
            tempo_total_pronto :=
              proc.tempo_total_pronto + (tempo_agora - proc.ultimo_tempo_pronto) }
      else proc
    if (novo_estado = TERMINADO ∨ novo_estado = LIVRE) ∧ proc.tempo_termino < 0 ∧
        estado_antigo ≠ LIVRE then
      { proc with tempo_termino := tempo_agora }
    else proc

/-- `so_atualiza_estado`, the PCB given by its slot. -/
def so_atualiza_estado (K : so_const_t) (self : so_t) (idx : Int)
    (novo_estado : estado_processo_t) : so_t :=
  let r := so_get_tempo K self
  so_muda_proc r.2 idx (fun proc => processo_muda_estado proc r.1 novo_estado)

/-- `fila_prontos_insere`. -/
def fila_prontos_insere (K : so_const_t) (self : so_t) (idx_proc : Int) : so_t :=
  if self.fila_prontos_tamanho = K.MAX_PROCESSOS then self
  else
    { self with
        fila_prontos := self.fila_prontos.set self.fila_prontos_fim idx_proc
        fila_prontos_fim := (self.fila_prontos_fim + 1) % K.MAX_PROCESSOS
        fila_prontos_tamanho := self.fila_prontos_tamanho + 1 }

/-- `fila_prontos_remove`. -/
def fila_prontos_remove (K : so_const_t) (self : so_t) : Int × so_t :=
  if self.fila_prontos_tamanho = 0 then (-1, self)
  else
    (self.fila_prontos.getD self.fila_prontos_inicio 0,
     { self with
         fila_prontos_inicio := (self.fila_prontos_inicio + 1) % K.MAX_PROCESSOS
         fila_prontos_tamanho := self.fila_prontos_tamanho - 1 })

/-- `so_insere_em_pronto`. -/
def so_insere_em_pronto (K : so_const_t) (self : so_t) (idx_proc : Int) : so_t :=
  if self.escalonador_atual = ESCAL_CIRCULAR then fila_prontos_insere K self idx_proc
  else self

/-- `so_registra_preempcao`, the PCB given by its slot. -/
def so_registra_preempcao (self : so_t) (idx : Int) : so_t :=
  let self := so_muda_proc self idx
    (fun proc => { proc with num_preempcoes := proc.num_preempcoes + 1 })
  { self with
      metricas := { self.metricas with
                      num_preempcoes_total := self.metricas.num_preempcoes_total + 1 } }

/-- `so_calcula_prioridade`, the PCB given by its slot; the arithmetic is exact. -/
def so_calcula_prioridade (self : so_t) (idx : Int) : so_t :=
  let t_exec := self.quantum_total - self.quantum_restante
  let t_exec := if t_exec < 0 then 0 else t_exec
  let percentual_usado : ℚ := (t_exec : ℚ) / (self.quantum_total : ℚ)
  so_muda_proc self idx
    (fun proc => { proc with prioridade := (proc.prioridade + percentual_usado) / 2 })

/-! ## T2/so.c: the schedulers -/

/-- The end of an idle interval, in both schedulers: when `inicio_tempo_ocioso > 0` the
time since then is added to `tempo_total_ocioso` and the mark is cleared. -/
def so_fim_ocioso (K : so_const_t) (self : so_t) : so_t :=
  if self.metricas.inicio_tempo_ocioso > 0 then
    let r := so_get_tempo K self
    { r.2 with
        metricas := { r.2.metricas with
                        tempo_total_ocioso := r.2.metricas.tempo_total_ocioso +
                          (r.1 - r.2.metricas.inicio_tempo_ocioso)
                        inicio_tempo_ocioso := 0 } }
  else self

/-- The start of an idle interval, in both schedulers: no process is selected and, when
`inicio_tempo_ocioso = 0`, the clock is stored there. -/
def so_inicio_ocioso (K : so_const_t) (self : so_t) : so_t :=
  let self := { self with processo_em_execucao_idx := -1 }
  if self.metricas.inicio_tempo_ocioso = 0 then
    let r := so_get_tempo K self
    { r.2 with metricas := { r.2.metricas with inicio_tempo_ocioso := r.1 } }
  else self

/-- Step 4 of `so_escalona_rr`: the next process is taken from the ready queue. -/
def so_escalona_rr_proximo (K : so_const_t) (self : so_t) : so_t :=
  let r := fila_prontos_remove K self
  let proximo_idx := r.1
  if proximo_idx ≠ -1 then
    let self := so_atualiza_estado K (so_fim_ocioso K r.2) proximo_idx EXECUTANDO
    { self with
        processo_em_execucao_idx := proximo_idx
        quantum_restante := self.quantum_total }
  else so_inicio_ocioso K r.2

/-- `so_escalona_rr`.  After step 1 `proc_atual` is `NULL` when there was no current
process or it has just been preempted. -/
def so_escalona_rr (K : so_const_t) (self : so_t) : so_t :=
  let idx_atual := self.processo_em_execucao_idx
  if self.deve_preemptar = true ∧ idx_atual ≠ -1 then
    let self := so_registra_preempcao self idx_atual
    let self := so_atualiza_estado K self idx_atual PRONTO
    let self := so_insere_em_pronto K self idx_atual
    so_escalona_rr_proximo K
      { self with processo_em_execucao_idx := -1, deve_preemptar := false }
  else
    let self := { self with deve_preemptar := false }
    if idx_atual ≠ -1 ∧ (so_proc self idx_atual).estado ≠ EXECUTANDO then
      so_escalona_rr_proximo K { self with processo_em_execucao_idx := -1 }
    else if idx_atual ≠ -1 then self
    else so_escalona_rr_proximo K self

/-- One iteration (slot `i`) of the scan of `so_escalona_prio`; the pair is
`(melhor_idx, melhor_prio)`. -/
def so_escalona_prio_passo (self : so_t) (st : Int × ℚ) (i : Nat) : Int × ℚ :=
  let p := so_proc self i
  if p.estado = PRONTO ∧ p.prioridade < st.2 then ((i : Int), p.prioridade)
  else st

/-- The second half of `so_escalona_prio`: the scan of the table and the dispatch of the
best ready process. -/
def so_escalona_prio_proximo (K : so_const_t) (self : so_t) : so_t :=
  let r := (List.range K.MAX_PROCESSOS).foldl (so_escalona_prio_passo self)
    (-1, 1000000000)
  let melhor_idx := r.1
  if melhor_idx ≠ -1 then
    let self := so_atualiza_estado K (so_fim_ocioso K self) melhor_idx EXECUTANDO
    { self with
        processo_em_execucao_idx := melhor_idx
        quantum_restante := self.quantum_total }
  else so_inicio_ocioso K self

/-- The first half of `so_escalona_prio`: what happens to the current process. -/
def so_escalona_prio_atual (K : so_const_t) (self : so_t) : so_t :=
  let idx_atual := self.processo_em_execucao_idx
  if idx_atual ≠ -1 then
    let estado := (so_proc self idx_atual).estado
    let self :=
      if estado = BLOQUEADO ∨ estado = TERMINADO then
        { so_calcula_prioridade self idx_atual with processo_em_execucao_idx := -1 }
      else if self.deve_preemptar = true then
        let self := so_calcula_prioridade self idx_atual
        let self := so_registra_preempcao self idx_atual
        let self := so_atualiza_estado K self idx_atual PRONTO
        { self with processo_em_execucao_idx := -1 }
      else self
    { self with deve_preemptar := false }
  else self

/-- `so_escalona_prio`. -/
def so_escalona_prio (K : so_const_t) (self : so_t) : so_t :=
  let self := so_escalona_prio_atual K self
  if self.processo_em_execucao_idx = -1 then so_escalona_prio_proximo K self
  else self

/-- `so_escalona`. -/
def so_escalona (K : so_const_t) (self : so_t) : so_t :=
  if self.escalonador_atual = ESCAL_CIRCULAR then so_escalona_rr K self
  else so_escalona_prio K self

/-! ## T2/so.c: saving and restoring the CPU state -/

/-- `so_salva_estado_da_cpu`: the four reads stop at the first that fails. -/
def so_salva_estado_da_cpu (K : so_const_t) (self : so_t) : so_t :=
  let idx := self.processo_em_execucao_idx
  if idx = -1 then self
  else
    match mem_le self.mem K.CPU_END_A with
    | none => so_erro self
    | some a =>
      let self := so_muda_proc self idx
        (fun proc => { proc with estado_cpu := { proc.estado_cpu with regA := a } })
      match mem_le self.mem K.CPU_END_PC with
      | none => so_erro self
      | some pc =>
        let self := so_muda_proc self idx
          (fun proc => { proc with estado_cpu := { proc.estado_cpu with regPC := pc } })
        match mem_le self.mem K.CPU_END_erro with
        | none => so_erro self
        | some e =>
          let self := so_muda_proc self idx
            (fun proc => { proc with estado_cpu := { proc.estado_cpu with regERRO := e } })
          match mem_le self.mem 59 with
          | none => so_erro self
          | some x =>
            so_muda_proc self idx
              (fun proc => { proc with estado_cpu := { proc.estado_cpu with regX := x } })

/-- The four writes of `so_despacha`, stopping at the first that fails: whether all four
succeeded, and the memory with the writes made. -/
def so_despacha_escreve (K : so_const_t) (mem : mem_t) (cpu : estado_cpu_t) :
    Bool × mem_t :=
  match mem_escreve mem K.CPU_END_A cpu.regA with
  | none => (false, mem)
  | some m1 =>
    match mem_escreve m1 K.CPU_END_PC cpu.regPC with
    | none => (false, m1)
    | some m2 =>
      match mem_escreve m2 K.CPU_END_erro cpu.regERRO with
      | none => (false, m2)
      | some m3 =>
        match mem_escreve m3 59 cpu.regX with
        | none => (false, m3)
        | some m4 => (true, m4)

/-- `so_despacha`: 1 tells the trap stub to halt, 0 to return to the process. -/
def so_despacha (K : so_const_t) (self : so_t) : Int × so_t :=
  if self.processo_em_execucao_idx = -1 then (1, self)
  else
    let r := so_despacha_escreve K self.mem
      (so_proc self self.processo_em_execucao_idx).estado_cpu
    if r.1 then (0, { self with mem := r.2 })
    else (1, { self with mem := r.2, erro_interno := true })

/-! ## T2/so.c: loading programs and reading strings -/

/-- The loop of `so_carrega_programa`: `n` words from address `ender` on; `false` when a
write fails. -/
def so_carrega_laco (prog : programa_t) : Nat → Int → mem_t → Bool × mem_t
  | 0, _, mem => (true, mem)
  | n + 1, ender, mem =>
    match mem_escreve mem ender (prog.dado ender) with
    | none => (false, mem)
    | some m => so_carrega_laco prog n (ender + 1) m

/-- `so_carrega_programa`: the load address or -1. -/
def so_carrega_programa (K : so_const_t) (self : so_t) (nome : List Int) : Int × so_t :=
  match K.prog_cria nome with
  | none => (-1, self)
  | some prog =>
    let r := so_carrega_laco prog prog.tamanho prog.end_carga self.mem
    if r.1 then (prog.end_carga, { self with mem := r.2 })
    else (-1, { self with mem := r.2 })

/-- `copia_str_da_mem`: the result and the characters stored in `str`. -/
def copia_str_da_mem : Nat → mem_t → Int → Bool × List Int
  | 0, _, _ => (false, [])
  | tam + 1, mem, ender =>
    match mem_le mem ender with
    | none => (false, [])
    | some caractere =>
      if caractere < 0 ∨ caractere > 255 then (false, [])
      else if caractere = 0 then (true, [caractere])
      else
        let r := copia_str_da_mem tam mem (ender + 1)
        (r.1, caractere :: r.2)

/-- A C string literal as the list of its character codes. -/
def c_str (s : String) : List Int := s.toList.map (fun c => (c.toNat : Int))

/-! ## T2/so.c: processes -/

/-- `so_inicializa_metricas_processo`, the PCB given by its slot. -/
def so_inicializa_metricas_processo (K : so_const_t) (self : so_t) (idx : Int)
    (pid ender_carga : Int) : so_t :=
  let r := so_get_tempo K self
  let tempo_agora := r.1
  let self := so_muda_proc r.2 idx (fun proc =>
    { proc with
        pid := pid
        estado := PRONTO
        prioridade := 1 / 2
        tempo_criacao := tempo_agora
        tempo_termino := -1
        num_preempcoes := 0
        tempo_total_pronto := 0
        ultimo_tempo_pronto := tempo_agora
        ultimo_tempo_mudanca_estado := tempo_agora
        contagem_estado := [0, 1, 0, 0, 0]
        tempo_total_estado := [0, 0, 0, 0, 0]
        estado_cpu := { regPC := ender_carga, regA := 0, regX := 0, regERRO := 0 }
        motivo_bloqueio := BLOQUEIO_NENHUM
        pid_esperado := -1
        dispositivo_esperado := -1 })
  { self with
      metricas := { self.metricas with
                      num_processos_criados := self.metricas.num_processos_criados + 1 } }

/-- `so_imprime_relatorio_final`: what it changes in the kernel (the printing is left
out). -/
def so_imprime_relatorio_final (K : so_const_t) (self : so_t) : so_t :=
  let r := so_get_tempo K self
  let tempo_final := r.1
  let self : so_t :=
    { r.2 with metricas := { r.2.metricas with tempo_total_execucao := tempo_final } }
  if self.metricas.inicio_tempo_ocioso > 0 then
    { self with
        metricas := { self.metricas with
                        tempo_total_ocioso := self.metricas.tempo_total_ocioso +
                          (tempo_final - self.metricas.inicio_tempo_ocioso)
                        inicio_tempo_ocioso := 0 } }
  else self

/-! ## T2/so.c: system calls -/

/-- The return of a system call: `proc->estado_cpu.regA = v` for the PCB of slot `idx`. -/
def so_retorna (self : so_t) (idx : Int) (v : Int) : so_t :=
  so_muda_proc self idx
    (fun proc => { proc with estado_cpu := { proc.estado_cpu with regA := v } })

/-- `so_chamada_le`. -/
def so_chamada_le (K : so_const_t) (self : so_t) : so_t :=
  let idx := self.processo_em_execucao_idx
  if idx = -1 then self
  else
    let term := (so_proc self idx).terminal
    let r := so_es_le self (term + K.TERM_TECLADO_OK)
    match r.1 with
    | none => so_atualiza_estado K (so_erro r.2) idx LIVRE
    | some estado =>
      if estado ≠ 0 then
        let d := so_es_le r.2 (term + K.TERM_TECLADO)
        match d.1 with
        | none => so_atualiza_estado K (so_erro d.2) idx LIVRE
        | some dado => so_retorna d.2 idx dado
      else
        so_muda_proc (so_atualiza_estado K r.2 idx BLOQUEADO) idx
          (fun proc => { proc with
                           motivo_bloqueio := BLOQUEIO_IO_LE
                           dispositivo_esperado := term })

/-- `so_chamada_escr`. -/
def so_chamada_escr (K : so_const_t) (self : so_t) : so_t :=
  let idx := self.processo_em_execucao_idx
  if idx = -1 then self
  else
    let term := (so_proc self idx).terminal
    let r := so_es_le self (term + K.TERM_TELA_OK)
    match r.1 with
    | none => so_atualiza_estado K (so_erro r.2) idx LIVRE
    | some estado =>
      if estado ≠ 0 then
        let dado := (so_proc r.2 idx).estado_cpu.regX
        let w := so_es_escreve r.2 (term + K.TERM_TELA) dado
        if w.1 then so_retorna w.2 idx 0
        else so_atualiza_estado K (so_erro w.2) idx LIVRE
      else
        so_muda_proc (so_atualiza_estado K r.2 idx BLOQUEADO) idx
          (fun proc => { proc with
                           motivo_bloqueio := BLOQUEIO_IO_ESCR
                           dispositivo_esperado := term })

/-- `so_chamada_cria_proc`. -/
def so_chamada_cria_proc (K : so_const_t) (self : so_t) : so_t :=
  let idx := self.processo_em_execucao_idx
  if idx = -1 then self
  else
    match (List.range K.MAX_PROCESSOS).find? (fun (i : Nat) => (so_proc self i).estado = LIVRE) with
    | none => so_retorna self idx (-1)
    | some novo_idx =>
      let ender_proc := (so_proc self idx).estado_cpu.regX
      let nome := copia_str_da_mem 100 self.mem ender_proc
      if nome.1 = false then so_retorna self idx (-1)
      else
        let c := so_carrega_programa K self nome.2.dropLast
        let ender_carga := c.1
        let self := c.2
        if ender_carga < 0 then so_retorna self idx (-1)
        else
          let pid := so_novo_pid self
          let self := so_inicializa_metricas_processo K pid.2 novo_idx pid.1 ender_carga
          let self := so_muda_proc self novo_idx
            (fun proc => { proc with terminal := K.D_TERM_A + ((novo_idx : Int) % 4) * 4 })
          let self := so_insere_em_pronto K self novo_idx
          so_retorna self idx (so_proc self novo_idx).pid

/-- The reap of `so_chamada_mata_proc`: the first process blocked waiting for `pid_alvo`
is made ready and the target, in slot `idx_alvo`, is freed. -/
def so_mata_coleta (K : so_const_t) (self : so_t) (idx_alvo : Int) (pid_alvo : Int) : so_t :=
  match (List.range K.MAX_PROCESSOS).find? (fun (i : Nat) =>
      (so_proc self i).estado = BLOQUEADO ∧
      (so_proc self i).motivo_bloqueio = BLOQUEIO_PID ∧
      (so_proc self i).pid_esperado = pid_alvo) with
  | none => self
  | some i =>
    let self := so_atualiza_estado K self i PRONTO
    let self := so_muda_proc self i (fun proc =>
      { proc with
          motivo_bloqueio := BLOQUEIO_NENHUM
          estado_cpu := { proc.estado_cpu with regA := 0 } })
    let self := so_insere_em_pronto K self i
    so_atualiza_estado K self idx_alvo LIVRE

/-- `so_chamada_mata_proc`. -/
def so_chamada_mata_proc (K : so_const_t) (self : so_t) : so_t :=
  let idx := self.processo_em_execucao_idx
  if idx = -1 then self
  else
    let x := (so_proc self idx).estado_cpu.regX
    let pid_alvo := if x = 0 then (so_proc self idx).pid else x
    match (List.range K.MAX_PROCESSOS).find? (fun (i : Nat) =>
        (so_proc self i).estado ≠ LIVRE ∧ (so_proc self i).estado ≠ TERMINADO ∧
        (so_proc self i).pid = pid_alvo) with
    | none => so_retorna self idx (-1)
    | some idx_alvo =>
      let self := so_atualiza_estado K self idx_alvo TERMINADO
      let self := so_mata_coleta K self idx_alvo pid_alvo
      let self := so_retorna self idx 0
      if pid_alvo = 1 then so_imprime_relatorio_final K self
      else self

/-- `so_chamada_espera_proc`. -/
def so_chamada_espera_proc (K : so_const_t) (self : so_t) : so_t :=
  let idx := self.processo_em_execucao_idx
  if idx = -1 then self
  else
    let pid_alvo := (so_proc self idx).estado_cpu.regX
    if pid_alvo = (so_proc self idx).pid then so_retorna self idx (-1)
    else if pid_alvo ≤ 0 then so_retorna self idx (-1)
    else
      match (List.range K.MAX_PROCESSOS).find? (fun (i : Nat) =>
          (so_proc self i).estado ≠ LIVRE ∧ (so_proc self i).pid = pid_alvo) with
      | none => so_retorna self idx (-1)
      | some idx_alvo =>
        if (so_proc self idx_alvo).estado = TERMINADO then
          so_retorna (so_atualiza_estado K self idx_alvo LIVRE) idx 0
        else
          so_muda_proc (so_atualiza_estado K self idx BLOQUEADO) idx
            (fun proc => { proc with
                             motivo_bloqueio := BLOQUEIO_PID
                             pid_esperado := pid_alvo })

/-- `so_trata_irq_chamada_sistema`. -/
def so_trata_irq_chamada_sistema (K : so_const_t) (self : so_t) : so_t :=
  let idx := self.processo_em_execucao_idx
  if idx = -1 then so_erro self
  else
    let id_chamada := (so_proc self idx).estado_cpu.regA
    if id_chamada = K.SO_LE then so_chamada_le K self
    else if id_chamada = K.SO_ESCR then so_chamada_escr K self
    else if id_chamada = K.SO_CRIA_PROC then so_chamada_cria_proc K self
    else if id_chamada = K.SO_MATA_PROC then so_chamada_mata_proc K self
    else if id_chamada = K.SO_ESPERA_PROC then so_chamada_espera_proc K self
    else so_atualiza_estado K self idx TERMINADO

/-! ## T2/so.c: interrupts -/

/-- `so_trata_reset`. -/
def so_trata_reset (K : so_const_t) (self : so_t) : so_t :=
  let c := so_carrega_programa K self (c_str "trata_int.maq")
  let self := if c.1 ≠ K.CPU_END_TRATADOR then so_erro c.2 else c.2
  let w := so_es_escreve self K.D_RELOGIO_TIMER 50
  let self := if w.1 then w.2 else so_erro w.2
  let c := so_carrega_programa K self (c_str "init.maq")
  if c.1 ≠ 100 then so_erro c.2
  else
    let pid := so_novo_pid c.2
    let self := so_inicializa_metricas_processo K pid.2 0 pid.1 c.1
    let self := so_muda_proc self 0 (fun proc => { proc with terminal := K.D_TERM_A })
    so_insere_em_pronto K self 0

/-- `so_trata_irq_err_cpu`. -/
def so_trata_irq_err_cpu (K : so_const_t) (self : so_t) : so_t :=
  if self.processo_em_execucao_idx ≠ -1 then
    so_atualiza_estado K self self.processo_em_execucao_idx LIVRE
  else so_erro self

/-- The quantum logic of `so_trata_irq_relogio`. -/
def so_relogio_quantum (self : so_t) : so_t :=
  if self.processo_em_execucao_idx ≠ -1 then
    let self : so_t := { self with quantum_restante := self.quantum_restante - 1 }
    if self.quantum_restante = 0 then { self with deve_preemptar := true }
    else self
  else self

/-- `so_trata_irq_relogio`. -/
def so_trata_irq_relogio (K : so_const_t) (self : so_t) : so_t :=
  let e1 := so_es_escreve self K.D_RELOGIO_INTERRUPCAO 0
  let e2 := so_es_escreve e1.2 K.D_RELOGIO_TIMER 50
  let self := if e1.1 = false ∨ e2.1 = false then so_erro e2.2 else e2.2
  so_relogio_quantum self

/-- `so_trata_irq_desconhecida`. -/
def so_trata_irq_desconhecida (self : so_t) : so_t := so_erro self

/-- The metric of `so_trata_irq`: `num_irq[irq]++` when `irq` is a known interrupt. -/
def so_conta_irq (K : so_const_t) (self : so_t) (irq : Int) : so_t :=
  if 0 ≤ irq ∧ irq < K.N_IRQ then
    { self with
        metricas := { self.metricas with
                        num_irq := soma_em self.metricas.num_irq irq.toNat 1 } }
  else self

/-- `so_trata_irq`; the `switch` is the chain of comparisons with its labels. -/
def so_trata_irq (K : so_const_t) (self : so_t) (irq : Int) : so_t :=
  let self := so_conta_irq K self irq
  if irq = K.IRQ_RESET then so_trata_reset K self
  else if irq = K.IRQ_SISTEMA then so_trata_irq_chamada_sistema K self
  else if irq = K.IRQ_ERR_CPU then so_trata_irq_err_cpu K self
  else if irq = K.IRQ_RELOGIO then so_trata_irq_relogio K self
  else so_trata_irq_desconhecida self

/-- One iteration (slot `i`) of the loop of `so_trata_pendencias`. -/
def so_trata_pendencia (K : so_const_t) (self : so_t) (i : Nat) : so_t :=
  let proc := so_proc self i
  if proc.estado ≠ BLOQUEADO then self
  else if proc.motivo_bloqueio = BLOQUEIO_IO_LE then
    let term := proc.dispositivo_esperado
    let r := so_es_le self (term + K.TERM_TECLADO_OK)
    match r.1 with
    | none => so_atualiza_estado K r.2 i LIVRE
    | some estado =>
      if estado ≠ 0 then
        let d := so_es_le r.2 (term + K.TERM_TECLADO)
        match d.1 with
        | none => so_atualiza_estado K d.2 i LIVRE
        | some dado =>
          let self := so_retorna d.2 i dado
          let self := so_atualiza_estado K self i PRONTO
          let self := so_muda_proc self i
            (fun proc => { proc with motivo_bloqueio := BLOQUEIO_NENHUM })
          so_insere_em_pronto K self i
      else r.2
  else if proc.motivo_bloqueio = BLOQUEIO_IO_ESCR then
    let term := proc.dispositivo_esperado
    let r := so_es_le self (term + K.TERM_TELA_OK)
    match r.1 with
    | none => so_atualiza_estado K r.2 i LIVRE
    | some estado =>
      if estado ≠ 0 then
        let dado := (so_proc r.2 i).estado_cpu.regX
        let w := so_es_escreve r.2 (term + K.TERM_TELA) dado
        if w.1 then
          let self := so_retorna w.2 i 0
          let self := so_atualiza_estado K self i PRONTO
          let self := so_muda_proc self i
            (fun proc => { proc with motivo_bloqueio := BLOQUEIO_NENHUM })
          so_insere_em_pronto K self i
        else so_atualiza_estado K w.2 i LIVRE
      else r.2
  else self

/-- `so_trata_pendencias`. -/
def so_trata_pendencias (K : so_const_t) (self : so_t) : so_t :=
  (List.range K.MAX_PROCESSOS).foldl (so_trata_pendencia K) self

/-- `so_trata_interrupcao`, the entry of the kernel: the value returned to the trap stub
and the kernel afterwards. -/
def so_trata_interrupcao (K : so_const_t) (self : so_t) (irq : Int) : Int × so_t :=
  let self := so_salva_estado_da_cpu K self
  let self := so_trata_irq K self irq
  let self := so_trata_pendencias K self
  let self := so_escalona K self
  so_despacha K self

/-- `so_cria`.  `malloc` leaves the PCBs and the cells of the ready queue uninitialised:
`lixo_proc` and `lixo_fila` are what they hold; only `estado` is set, to `LIVRE`. -/
def so_cria (K : so_const_t) (mem : mem_t) (es : es_t) (lixo_proc : Nat → processo_t)
    (lixo_fila : Nat → Int) : so_t :=
  { mem := mem
    es := es
    erro_interno := false
    tabela_processos :=
      (List.range K.MAX_PROCESSOS).map (fun i => { lixo_proc i with estado := LIVRE })
    processo_em_execucao_idx := -1
    proximo_pid := 1
    fila_prontos := (List.range K.MAX_PROCESSOS).map lixo_fila
    fila_prontos_inicio := 0
    fila_prontos_fim := 0
    fila_prontos_tamanho := 0
    quantum_total := 3
    quantum_restante := 0
    deve_preemptar := false
    escalonador_atual := ESCAL_CIRCULAR
    metricas :=
      { tempo_total_execucao := 0
        tempo_total_ocioso := 0
        num_processos_criados := 0
        num_preempcoes_total := 0
        num_irq := List.replicate K.N_IRQ 0
        inicio_tempo_ocioso := 0 } }

/-- The kernel built with the scheduler `modo`: `so_cria` with the constant of its line
`self->escalonador_atual = ESCAL_CIRCULAR` replaced, as its comment tells to do to run the
priority scheduler. -/
def so_cria_modo (K : so_const_t) (modo : tipo_escalonador_t) (mem : mem_t) (es : es_t)
    (lixo_proc : Nat → processo_t) (lixo_fila : Nat → Int) : so_t :=
  { so_cria K mem es lixo_proc lixo_fila with escalonador_atual := modo }

/-- The kernel states reachable from `so_cria` (in either scheduler mode) by traps: each
trap has any IRQ code, and finds the memory and the devices in any condition (`mem`, `es`),
the CPU and the devices having run since the previous trap. -/
inductive so_alcancavel (K : so_const_t) : so_t → Prop
  | cria (modo : tipo_escalonador_t) (mem : mem_t) (es : es_t)
      (lixo_proc : Nat → processo_t) (lixo_fila : Nat → Int) :
      so_alcancavel K (so_cria_modo K modo mem es lixo_proc lixo_fila)
  | trap (self : so_t) (irq : Int) (mem : mem_t) (es : es_t) :
      so_alcancavel K self →
      so_alcancavel K (so_trata_interrupcao K { self with mem := mem, es := es } irq).2

/-! ## T2/so.c: views of the state and an example machine -/

/-- The content of the ready queue, oldest first: the `fila_prontos_tamanho` cells of the
ring starting at `fila_prontos_inicio`. -/
def so_fila (K : so_const_t) (self : so_t) : List Int :=
  (List.range self.fila_prontos_tamanho).map
    (fun i => self.fila_prontos.getD ((self.fila_prontos_inicio + i) % K.MAX_PROCESSOS) 0)

/-- A set of values for the constants: four process slots, the program files
`trata_int.maq` (loaded at 60), `init.maq` (loaded at 100) and `p` (loaded at 200). -/
def so_const_ex : so_const_t :=
  { MAX_PROCESSOS := 4
    N_IRQ := 6
    IRQ_RESET := 0
    IRQ_ERR_CPU := 1
    IRQ_SISTEMA := 2
    IRQ_RELOGIO := 3
    SO_LE := 1
    SO_ESCR := 2
    SO_CRIA_PROC := 7
    SO_MATA_PROC := 8
    SO_ESPERA_PROC := 9
    D_RELOGIO_INSTRUCOES := 16
    D_RELOGIO_TIMER := 18
    D_RELOGIO_INTERRUPCAO := 19
    D_TERM_A := 0
    TERM_TECLADO := 0
    TERM_TECLADO_OK := 1
    TERM_TELA := 2
    TERM_TELA_OK := 3
    CPU_END_A := 51
    CPU_END_PC := 50
    CPU_END_erro := 52
    CPU_END_TRATADOR := 60
    prog_cria := fun nome =>
      if nome = c_str "trata_int.maq" then some ⟨60, 2, fun _ => 0⟩
      else if nome = c_str "init.maq" then some ⟨100, 2, fun _ => 0⟩
      else if nome = c_str "p" then some ⟨200, 2, fun _ => 0⟩
      else none }

/-- A memory in which every access succeeds, holding `a` in the cell of register A, `x` in
cell 59 (register X), the string `p` at address 300 and 0 elsewhere. -/
def mem_ex (a x : Int) : mem_t :=
  { le := fun e =>
      if e = 51 then some a else if e = 59 then some x else if e = 300 then some 112
      else some 0
    esc_ok := fun _ => true }

/-- Devices that answer every read with 0 and accept every write. -/
def es_ex : es_t :=
  { le := fun _ _ => some 0, esc := fun _ _ _ => true, k := 0, escritas := [] }

/-- A trap on the example machine: the memory holds `a` and `x` for the registers A and X
of the interrupted process. -/
def so_trap_ex (self : so_t) (irq a x : Int) : so_t :=
  (so_trata_interrupcao so_const_ex { self with mem := mem_ex a x, es := es_ex } irq).2

/-- The example machine after boot: a fresh kernel in mode `modo` that took the RESET
interrupt; `init` (pid 1, slot 0) is running. -/
def so_ex_boot (modo : tipo_escalonador_t) : so_t :=
  so_trap_ex (so_cria_modo so_const_ex modo (mem_ex 0 0) es_ex (fun _ => default) (fun _ => 0))
    0 0 0

/-- Round-robin: after boot `init` spawns `p` (pid 2, slot 1), which waits in the ready
queue. -/
def so_ex_cria_filho : so_t :=
  so_trap_ex (so_ex_boot ESCAL_CIRCULAR) 2 7 300

/-- Round-robin: `init` then kills the ready process with KILL(2). -/
def so_ex_mata_pronto : so_t :=
  so_trap_ex so_ex_cria_filho 2 8 2

/-- Priority mode: after boot the CPU reports an error of `init`. -/
def so_ex_erro_cpu : so_t :=
  so_trap_ex (so_ex_boot ESCAL_PRIORIDADE) 1 0 0

/-- Single runner: every PCB in state `EXECUTANDO` sits in the slot
`processo_em_execucao_idx`. -/
def so_um_executando (self : so_t) : Prop :=
  ∀ (i : Nat) (p : processo_t), self.tabela_processos[i]? = some p →
    p.estado = EXECUTANDO → self.processo_em_execucao_idx = (i : Int)

/-- No PCB is in state `EXECUTANDO`. -/
def so_ninguem_executando (self : so_t) : Prop :=
  ∀ (i : Nat) (p : processo_t), self.tabela_processos[i]? = some p → p.estado ≠ EXECUTANDO

/-- From `s0` to `s` the current process is the same and no PCB has entered the state
`EXECUTANDO`. -/
def so_sem_novo_executando (s0 s : so_t) : Prop :=
  s.processo_em_execucao_idx = s0.processo_em_execucao_idx ∧
  ∀ (i : Nat) (p : processo_t), s.tabela_processos[i]? = some p → p.estado = EXECUTANDO →
    ∃ p0, s0.tabela_processos[i]? = some p0 ∧ p0.estado = EXECUTANDO

/-! ## T2/so.c: views used by the statements about system calls -/

/-- The pid a KILL of the current process aims at: its register X, or its own pid when X
is 0. -/
def so_mata_pid_alvo (self : so_t) : Int :=
  if (so_proc self self.processo_em_execucao_idx).estado_cpu.regX = 0 then
    (so_proc self self.processo_em_execucao_idx).pid
  else (so_proc self self.processo_em_execucao_idx).estado_cpu.regX

/-- The PCB is alive: ready, running or blocked. -/
def processo_vivo (p : processo_t) : Prop :=
  p.estado = PRONTO ∨ p.estado = EXECUTANDO ∨ p.estado = BLOQUEADO

instance (p : processo_t) : Decidable (processo_vivo p) := by
  unfold processo_vivo; exact instDecidableOr

/-- The PCB is blocked in a WAIT for the process `pid`. -/
def processo_espera (p : processo_t) (pid : Int) : Prop :=
  p.estado = BLOQUEADO ∧ p.motivo_bloqueio = BLOQUEIO_PID ∧ p.pid_esperado = pid

instance (p : processo_t) (pid : Int) : Decidable (processo_espera p pid) := by
  unfold processo_espera; exact instDecidableAnd

/-- The example machine at the entry of the interrupt handler: the trap found `a` and `x`
in the registers A and X of the interrupted process and has saved them in its PCB. -/
def so_ex_entrada (self : so_t) (a x : Int) : so_t :=
  so_salva_estado_da_cpu so_const_ex { self with mem := mem_ex a x, es := es_ex }

/-- Example: after boot `init` issues KILL(5); no process has pid 5. -/
def so_ex_mata_ausente : so_t := so_ex_entrada (so_ex_boot ESCAL_CIRCULAR) 8 5

/-- Example: after boot `init` issues WAIT(5); no process has pid 5. -/
def so_ex_espera_ausente : so_t := so_ex_entrada (so_ex_boot ESCAL_CIRCULAR) 9 5

/-- Example (round-robin): `init` spawns `p` (pid 2) and then kills pid 1, itself. -/
def so_ex_mata_init : so_t :=
  so_trap_ex so_ex_cria_filho 2 8 1

/-- Example (round-robin): `init` spawns `p` (pid 2, slot 1) and blocks in WAIT(2); `p` is
dispatched. -/
def so_ex_espera_filho : so_t :=
  so_trap_ex so_ex_cria_filho 2 9 2

/-- The register A of the current process holds none of the five system-call numbers. -/
def so_chamada_desconhecida (K : so_const_t) (self : so_t) : Prop :=
  (so_proc self self.processo_em_execucao_idx).estado_cpu.regA ≠ K.SO_LE ∧
  (so_proc self self.processo_em_execucao_idx).estado_cpu.regA ≠ K.SO_ESCR ∧
  (so_proc self self.processo_em_execucao_idx).estado_cpu.regA ≠ K.SO_CRIA_PROC ∧
  (so_proc self self.processo_em_execucao_idx).estado_cpu.regA ≠ K.SO_MATA_PROC ∧
  (so_proc self self.processo_em_execucao_idx).estado_cpu.regA ≠ K.SO_ESPERA_PROC

instance (K : so_const_t) (self : so_t) : Decidable (so_chamada_desconhecida K self) := by
  unfold so_chamada_desconhecida; exact instDecidableAnd


/-! ## T2/so.c: the ring of the ready queue -/

/-- The ring of the ready queue is well formed: the array has `MAX_PROCESSOS` cells, the
head is a valid position, at most `MAX_PROCESSOS` entries are queued and the tail is the
head advanced by the number of entries. -/
def so_fila_ok (K : so_const_t) (self : so_t) : Prop :=
  self.fila_prontos.length = K.MAX_PROCESSOS ∧
  self.fila_prontos_inicio ≤ K.MAX_PROCESSOS - 1 ∧
  self.fila_prontos_tamanho ≤ K.MAX_PROCESSOS ∧
  self.fila_prontos_fim =
    (self.fila_prontos_inicio + self.fila_prontos_tamanho) % K.MAX_PROCESSOS

instance (K : so_const_t) (self : so_t) : Decidable (so_fila_ok K self) := by
  unfold so_fila_ok; exact instDecidableAnd

/-- From `s` to `s'` nothing that controls scheduling has changed: same current process,
same pid counter, same ready queue, same quantum, same flag and same scheduler. -/
def so_mesmo_controle (s s' : so_t) : Prop :=
  s'.processo_em_execucao_idx = s.processo_em_execucao_idx ∧
  s'.proximo_pid = s.proximo_pid ∧
  s'.fila_prontos = s.fila_prontos ∧
  s'.fila_prontos_inicio = s.fila_prontos_inicio ∧
  s'.fila_prontos_fim = s.fila_prontos_fim ∧
  s'.fila_prontos_tamanho = s.fila_prontos_tamanho ∧
  s'.quantum_total = s.quantum_total ∧
  s'.quantum_restante = s.quantum_restante ∧
  s'.deve_preemptar = s.deve_preemptar ∧
  s'.escalonador_atual = s.escalonador_atual

/-- Round-robin on the example machine: `init` spawns `p`, kills it with KILL(`pid`) and
reaps it with WAIT(`pid`); the index of the child stays in the ready queue. -/
def so_ex_ciclo (s : so_t) (pid : Int) : so_t :=
  so_trap_ex (so_trap_ex (so_trap_ex s 2 7 300) 2 8 pid) 2 9 pid

/-- Round-robin on the example machine: three such rounds and a fourth SPAWN fill the
ready queue with the index 1, then the clock interrupts twice. -/
def so_ex_fila_cheia : so_t :=
  so_trap_ex (so_trap_ex (so_trap_ex
    (so_ex_ciclo (so_ex_ciclo (so_ex_ciclo (so_ex_boot ESCAL_CIRCULAR) 2) 3) 4)
    2 7 300) 3 0 0) 3 0 0

/-- The kernel at the call of the scheduler in the third clock interrupt after
`so_ex_fila_cheia`, when the quantum of `init` ends. -/
def so_ex_entrada_rr : so_t :=
  so_trata_pendencias so_const_ex
    (so_trata_irq so_const_ex (so_ex_entrada so_ex_fila_cheia 0 0) 3)

/-- The kernel at the call of the scheduler in the third clock interrupt after
`so_ex_cria_filho`, when the quantum of `init` ends with the child in the ready queue. -/
def so_ex_entrada_rr_filho : so_t :=
  so_trata_pendencias so_const_ex
    (so_trata_irq so_const_ex
      (so_ex_entrada (so_trap_ex (so_trap_ex so_ex_cria_filho 3 0 0) 3 0 0) 0 0) 3)

/-! ## T2/so.c: the writes of the interrupt handlers, one by one -/

/-- The kernel at the call of `so_escalona` in `so_trata_interrupcao`: the CPU state has
been saved, the interrupt handled and the pending I/O swept. -/
def so_entrada (K : so_const_t) (self : so_t) (irq : Int) : so_t :=
  so_trata_pendencias K (so_trata_irq K (so_salva_estado_da_cpu K self) irq)

/-- One write made by `so_salva_estado_da_cpu`, by a handler of `so_trata_irq` other than
the quantum logic of the clock, or by `so_trata_pendencias`, with what holds where the code
makes it:
* `inerte`: an access to the memory or to a device, or `erro_interno = true`;
* `conta`, `relatorio`: the global metrics;
* `regs`: saved registers of a PCB;
* `libera`, `termina`, `pronto`: `so_atualiza_estado` to `LIVRE`, to `TERMINADO` (of a PCB
  that is not `LIVRE`, or of the current process) and to `PRONTO` (of a `BLOQUEADO` PCB);
* `bloqueia`: the current process is made `BLOQUEADO` and its reason is stored;
* `desbloqueia`: the reason of a PCB that has just been made `PRONTO` is cleared;
* `insere`: a `PRONTO` PCB is put in the ready queue;
* `cria`: a pid is taken, a PCB is initialised with it and put in the ready queue. -/
inductive so_passo (K : so_const_t) : so_t → so_t → Prop
  | inerte (s s' : so_t) :
      so_mesmo_controle s s' → s'.tabela_processos = s.tabela_processos →
      s'.metricas = s.metricas → s'.es.le = s.es.le → s'.es.esc = s.es.esc →
      s.es.k ≤ s'.es.k → so_passo K s s'
  | conta (s : so_t) (irq : Int) : so_passo K s (so_conta_irq K s irq)
  | relatorio (s : so_t) : so_passo K s (so_imprime_relatorio_final K s)
  | regs (s : so_t) (i : Int) (f : processo_t → processo_t) :
      (∀ p, f p = { p with estado_cpu := (f p).estado_cpu }) →
      so_passo K s (so_muda_proc s i f)
  | libera (s : so_t) (i : Int) : so_passo K s (so_atualiza_estado K s i LIVRE)
  | termina (s : so_t) (i : Int) :
      (so_proc s i).estado ≠ LIVRE ∨ i = s.processo_em_execucao_idx →
      so_passo K s (so_atualiza_estado K s i TERMINADO)
  | bloqueia (s : so_t) (i : Int) (f : processo_t → processo_t) (m : motivo_bloqueio_t) :
      i = s.processo_em_execucao_idx → i ≠ -1 → m ≠ BLOQUEIO_NENHUM →
      (∀ p, f p = { p with motivo_bloqueio := m
                           pid_esperado := (f p).pid_esperado
                           dispositivo_esperado := (f p).dispositivo_esperado }) →
      so_passo K s (so_muda_proc (so_atualiza_estado K s i BLOQUEADO) i f)
  | pronto (s : so_t) (i : Int) :
      (so_proc s i).estado = BLOQUEADO → so_passo K s (so_atualiza_estado K s i PRONTO)
  | desbloqueia (s : so_t) (i : Int) (f : processo_t → processo_t) :
      (so_proc s i).estado = PRONTO →
      (∀ p, f p = { p with motivo_bloqueio := BLOQUEIO_NENHUM
                           estado_cpu := (f p).estado_cpu }) →
      so_passo K s (so_muda_proc s i f)
  | insere (s : so_t) (i : Int) :
      (so_proc s i).estado = PRONTO → so_passo K s (so_insere_em_pronto K s i)
  | cria (s : so_t) (i : Int) (ender terminal : Int) :
      so_passo K s (so_insere_em_pronto K (so_muda_proc
        (so_inicializa_metricas_processo K (so_novo_pid s).2 i (so_novo_pid s).1 ender) i
        (fun proc => { proc with terminal := terminal })) i)

/-- A sequence of such writes. -/
inductive so_passos (K : so_const_t) : so_t → so_t → Prop
  | nada (s : so_t) : so_passos K s s
  | mais (s t u : so_t) : so_passos K s t → so_passo K t u → so_passos K s u

/-- The PCB that `so_inicializa_metricas_processo` stores over `proc`. -/
def processo_inicial (proc : processo_t) (pid tempo_agora ender_carga : Int) : processo_t :=
  { proc with
      pid := pid
      estado := PRONTO
      prioridade := 1 / 2
      tempo_criacao := tempo_agora
      tempo_termino := -1
      num_preempcoes := 0
      tempo_total_pronto := 0
      ultimo_tempo_pronto := tempo_agora
      ultimo_tempo_mudanca_estado := tempo_agora
      contagem_estado := [0, 1, 0, 0, 0]
      tempo_total_estado := [0, 0, 0, 0, 0]
      estado_cpu := { regPC := ender_carga, regA := 0, regX := 0, regERRO := 0 }
      motivo_bloqueio := BLOQUEIO_NENHUM
      pid_esperado := -1
      dispositivo_esperado := -1 }

/-! ## T2/so.c: the pids given out in a run -/

/-- The values `a`, ..., `b - 1` of the pid counter, the last one first. -/
def so_pids_entre (a b : Int) : List Int :=
  ((List.range (b - a).toNat).map (fun (k : Nat) => a + (k : Int))).reverse

/-- A run of the kernel from `so_cria` with the pids it has given out, the newest first.
The pid given to a process is the value of `self->proximo_pid++`: a trap gives out the
values the counter went through, `proximo_pid` before the trap up to `proximo_pid - 1`
after it. -/
inductive so_execucao (K : so_const_t) : so_t → List Int → Prop
  | cria (modo : tipo_escalonador_t) (mem : mem_t) (es : es_t)
      (lixo_proc : Nat → processo_t) (lixo_fila : Nat → Int) :
      so_execucao K (so_cria_modo K modo mem es lixo_proc lixo_fila) []
  | trap (self : so_t) (pids : List Int) (irq : Int) (mem : mem_t) (es : es_t) :
      so_execucao K self pids →
      so_execucao K (so_trata_interrupcao K { self with mem := mem, es := es } irq).2
        (so_pids_entre self.proximo_pid
          (so_trata_interrupcao K { self with mem := mem, es := es } irq).2.proximo_pid
          ++ pids)

/-- From `s` to `s'` the pid counter has not gone back, and every PCB has the pid it had or
one of the values the counter went through. -/
def so_pids_novos (s s' : so_t) : Prop :=
  s.proximo_pid ≤ s'.proximo_pid ∧
  ∀ j : Nat, (so_proc s' (j : Int)).pid = (so_proc s (j : Int)).pid ∨
    (s.proximo_pid ≤ (so_proc s' (j : Int)).pid ∧ (so_proc s' (j : Int)).pid < s'.proximo_pid)

/-- Round-robin on the example machine: `init` spawns `p` (pid 2, slot 1), kills it, reaps
it and spawns `p` again, which takes the freed slot 1. -/
def so_ex_reuso : so_t :=
  so_trap_ex (so_ex_ciclo (so_ex_boot ESCAL_CIRCULAR) 2) 2 7 300

/-! ## T2/so.c: the quantum and the priorities -/

/-- From `s` to `s'` the current process, the quantum, the preemption flag and the
scheduler are the same. -/
def so_mesmo_quantum (s s' : so_t) : Prop :=
  s'.processo_em_execucao_idx = s.processo_em_execucao_idx ∧
  s'.quantum_total = s.quantum_total ∧
  s'.quantum_restante = s.quantum_restante ∧
  s'.deve_preemptar = s.deve_preemptar ∧
  s'.escalonador_atual = s.escalonador_atual

/-- The priority of every PCB that is not `LIVRE`, and of the current process, lies in
[0, 1]. -/
def so_prio_limites (s : so_t) : Prop :=
  ∀ j : Nat, ((so_proc s (j : Int)).estado ≠ LIVRE ∨ s.processo_em_execucao_idx = (j : Int)) →
    0 ≤ (so_proc s (j : Int)).prioridade ∧ (so_proc s (j : Int)).prioridade ≤ 1

/-- Priority mode on the example machine: `init` spawns `p` and the clock interrupts three
times; at the third the quantum of `init` ends. -/
def so_ex_prio_quantum : so_t :=
  so_trap_ex (so_trap_ex (so_trap_ex (so_trap_ex (so_ex_boot ESCAL_PRIORIDADE) 2 7 300)
    3 0 0) 3 0 0) 3 0 0

/-- Priority mode, between traps: the quantum is 3, the quantum left is not negative and
is at least 1 while a process is selected, and the priorities are within their limits. -/
def so_prio_inv (s : so_t) : Prop :=
  s.escalonador_atual = ESCAL_PRIORIDADE ∧ s.quantum_total = 3 ∧ 0 ≤ s.quantum_restante ∧
  (s.processo_em_execucao_idx ≠ -1 → 1 ≤ s.quantum_restante) ∧ so_prio_limites s

/-- Priority mode, at the call of the scheduler: as `so_prio_inv`, but the quantum left of
the current process may be 0 when `deve_preemptar` is set. -/
def so_prio_inv_entrada (s : so_t) : Prop :=
  s.escalonador_atual = ESCAL_PRIORIDADE ∧ s.quantum_total = 3 ∧ 0 ≤ s.quantum_restante ∧
  (s.processo_em_execucao_idx ≠ -1 → 1 ≤ s.quantum_restante ∨ s.deve_preemptar = true) ∧
  so_prio_limites s

/-- From `s` to `s'` the length of the quantum and the scheduler are the same. -/
def so_mesmos_fixos (s s' : so_t) : Prop :=
  s'.quantum_total = s.quantum_total ∧ s'.escalonador_atual = s.escalonador_atual

/-! ## T2/so.c: the balance of the per-state times -/

/-- The balance of the metrics of a PCB: the five accumulators of `tempo_total_estado` add
up to the time from the creation to the last change of state. -/
def processo_balanco (p : processo_t) : Prop :=
  p.tempo_total_estado.length = 5 ∧
  p.tempo_total_estado.sum = p.ultimo_tempo_mudanca_estado - p.tempo_criacao

instance (p : processo_t) : Decidable (processo_balanco p) := by
  unfold processo_balanco; exact instDecidableAnd

/-- The assumption on the instruction clock during one trap, where `le k a` is the answer
of the devices to a read of register `a` as `k`-th access and `k0` is the number of the
first access of the trap: the clock can be read at every access, it never reads less than
`T`, and it never decreases from one access to a later one. -/
def relogio_ok (K : so_const_t) (le : Nat → Int → Option Int) (k0 : Nat) (T : Int) : Prop :=
  ∀ k, k0 ≤ k → ∃ t, le k K.D_RELOGIO_INSTRUCOES = some t ∧ T ≤ t ∧
    ∀ k2 t2, k ≤ k2 → le k2 K.D_RELOGIO_INSTRUCOES = some t2 → t ≤ t2

/-- The kernel states reachable from `so_cria` by traps while the instruction clock never
decreases and is always readable, each with a time `T` of the clock not before the end of
its last trap: in the next trap the clock reads at least `T`, and that trap ends at a time
`T'` which is at least every value the clock had at an access of the trap. -/
inductive so_alcancavel_relogio (K : so_const_t) : so_t → Int → Prop
  | cria (modo : tipo_escalonador_t) (mem : mem_t) (es : es_t)
      (lixo_proc : Nat → processo_t) (lixo_fila : Nat → Int) (T : Int) :
      so_alcancavel_relogio K (so_cria_modo K modo mem es lixo_proc lixo_fila) T
  | trap (self : so_t) (T : Int) (irq : Int) (mem : mem_t) (es : es_t) (T' : Int) :
      so_alcancavel_relogio K self T →
      relogio_ok K es.le es.k T →
      T ≤ T' →
      (∀ k t, es.k ≤ k →
        k < (so_trata_interrupcao K { self with mem := mem, es := es } irq).2.es.k →
        es.le k K.D_RELOGIO_INSTRUCOES = some t → t ≤ T') →
      so_alcancavel_relogio K (so_trata_interrupcao K { self with mem := mem, es := es } irq).2
        T'

/-- The PCBs whose metrics are followed: those that are not `LIVRE`, the current process,
the entries of the ready queue, and the slot `x`. -/
def so_acompanhado (K : so_const_t) (s : so_t) (x : Int) (j : Nat) : Prop :=
  (so_proc s (j : Int)).estado ≠ LIVRE ∨ s.processo_em_execucao_idx = (j : Int) ∨
    (j : Int) ∈ so_fila K s ∨ (j : Int) = x

/-- The time `u` was seen on the clock: it is at most `T`, or it was read at one of the
accesses `k0`, ..., `kfim - 1`. -/
def relogio_visto (K : so_const_t) (le : Nat → Int → Option Int) (k0 : Nat) (T : Int)
    (kfim : Nat) (u : Int) : Prop :=
  u ≤ T ∨ ∃ k, k0 ≤ k ∧ k < kfim ∧ le k K.D_RELOGIO_INSTRUCOES = some u

/-- The invariant of the balance inside a trap whose devices answer by `le` from access
`k0` on: the ready queue is a well-formed ring, and every followed PCB of the table is in
balance and its last change of state was at a time seen on the clock. -/
def so_bal (K : so_const_t) (le : Nat → Int → Option Int) (k0 : Nat) (T : Int) (x : Int)
    (s : so_t) : Prop :=
  s.es.le = le ∧ k0 ≤ s.es.k ∧ so_fila_ok K s ∧
  ∀ j : Nat, j < s.tabela_processos.length → so_acompanhado K s x j →
    processo_balanco (so_proc s (j : Int)) ∧
    relogio_visto K le k0 T s.es.k (so_proc s (j : Int)).ultimo_tempo_mudanca_estado

/-- From `s` to `s'` the devices are the same and no access has been undone. -/
def so_es_avanca (s s' : so_t) : Prop :=
  s'.es.le = s.es.le ∧ s.es.k ≤ s'.es.k

/-- The invariant of the balance between traps, at a time `T` of the clock: the ready
queue is a well-formed ring, and every followed PCB of the table is in balance and its last
change of state was not after `T`. -/
def so_balanco_inv (K : so_const_t) (s : so_t) (T : Int) : Prop :=
  so_fila_ok K s ∧
  ∀ j : Nat, j < s.tabela_processos.length → so_acompanhado K s (-1) j →
    processo_balanco (so_proc s (j : Int)) ∧
    (so_proc s (j : Int)).ultimo_tempo_mudanca_estado ≤ T

/-- Devices whose registers all read the number of accesses made so far, starting at `k0`:
an instruction clock that ticks at every access. -/
def es_ex_relogio (k0 : Nat) : es_t :=
  { le := fun k _ => some (k : Int), esc := fun _ _ _ => true, k := k0, escritas := [] }

/-- A trap on the example machine with the ticking clock at `k0`. -/
def so_trap_relogio (self : so_t) (irq a x : Int) (k0 : Nat) : so_t :=
  (so_trata_interrupcao so_const_ex
    { self with mem := mem_ex a x, es := es_ex_relogio k0 } irq).2

/-- Round-robin with the ticking clock: boot at time 10, `init` spawns `p` at time 100,
and the clock interrupts at times 200, 300 and 400; at the last one the quantum of `init`
ends and `p` is dispatched. -/
def so_ex_relogio : so_t :=
  so_trap_relogio (so_trap_relogio (so_trap_relogio (so_trap_relogio (so_trap_relogio
    (so_cria_modo so_const_ex ESCAL_CIRCULAR (mem_ex 0 0) es_ex (fun _ => default)
      (fun _ => 0)) 0 0 0 10) 2 7 300 100) 3 0 0 200) 3 0 0 300) 3 0 0 400

/-! ## T2/so.c: more states of the example machine -/

/-- Round-robin: `init` has spawned `p` (pid 2, slot 1, `PRONTO`) and enters the kernel
with WAIT(2). -/
def so_ex_espera_vivo : so_t := so_ex_entrada so_ex_cria_filho 9 2

/-- Round-robin: `init` has spawned and killed `p` (pid 2, slot 1, `TERMINADO`) and enters
the kernel with WAIT(2). -/
def so_ex_espera_morto : so_t := so_ex_entrada so_ex_mata_pronto 9 2

/-- Devices that answer every read with 1 and accept every write: the terminals are
ready. -/
def es_ex_pronto : es_t :=
  { le := fun _ _ => some 1, esc := fun _ _ _ => true, k := 0, escritas := [] }

/-- Round-robin: `init` enters the kernel with WRITE of the value 65 while the screen of
its terminal is ready. -/
def so_ex_escr_pronta : so_t :=
  so_salva_estado_da_cpu so_const_ex
    { so_ex_boot ESCAL_CIRCULAR with mem := mem_ex 2 65, es := es_ex_pronto }

/-- A memory in which every read fails and every write succeeds. -/
def mem_ex_falha : mem_t :=
  { le := fun _ => none, esc_ok := fun _ => true }

/-- A memory like `mem_ex a x` whose word at address 300 is 999, not a character. -/
def mem_ex_nome_ruim (a x : Int) : mem_t :=
  { le := fun e =>
      if e = 51 then some a else if e = 59 then some x else if e = 300 then some 999
      else some 0
    esc_ok := fun _ => true }

/-- Round-robin: after boot `init` issues SPAWN with X = 300, where no name can be
read. -/
def so_ex_cria_nome_ruim : so_t :=
  (so_trata_interrupcao so_const_ex
    { so_ex_boot ESCAL_CIRCULAR with mem := mem_ex_nome_ruim 7 300, es := es_ex } 2).2

/-- A trap on the example machine with every terminal ready. -/
def so_trap_pronto (self : so_t) (irq a x : Int) : so_t :=
  (so_trata_interrupcao so_const_ex { self with mem := mem_ex a x, es := es_ex_pronto } irq).2

/-- Priority mode: the kernel at the call of the scheduler when `init`, just dispatched,
issues READ with the keyboard not ready and blocks (first round). -/
def so_ex_prio_rodada1 : so_t :=
  so_entrada so_const_ex
    { so_ex_boot ESCAL_PRIORIDADE with mem := mem_ex 1 0, es := es_ex } 2

/-- Priority mode: the same in the second round, after the keyboard became ready and `init`
was dispatched again. -/
def so_ex_prio_rodada2 : so_t :=
  so_entrada so_const_ex
    { so_trap_pronto (so_trap_ex (so_ex_boot ESCAL_PRIORIDADE) 2 1 0) 3 0 0 with
        mem := mem_ex 1 0, es := es_ex } 2

/-- Priority mode: the same in the third round. -/
def so_ex_prio_rodada3 : so_t :=
  so_entrada so_const_ex
    { so_trap_pronto (so_trap_ex (so_trap_pronto
        (so_trap_ex (so_ex_boot ESCAL_PRIORIDADE) 2 1 0) 3 0 0) 2 1 0) 3 0 0 with
        mem := mem_ex 1 0, es := es_ex } 2

/-- Round-robin: the ready queue is full of the index 1 (three rounds of spawn, kill and
reap, and a fourth SPAWN) and `init` is running. -/
def so_ex_fila_cheia_inicio : so_t :=
  so_trap_ex (so_ex_ciclo (so_ex_ciclo (so_ex_ciclo (so_ex_boot ESCAL_CIRCULAR) 2) 3) 4)
    2 7 300

/-- Round-robin on the example machine: after boot `init` spawns `p` three times; the four
slots of the table are occupied. -/
def so_ex_tabela_cheia : so_t :=
  so_trap_ex (so_trap_ex (so_trap_ex (so_ex_boot ESCAL_CIRCULAR) 2 7 300) 2 7 300) 2 7 300

/-- From `s` to `s'`, every PCB that is `BLOQUEADO` in `s'` either has a block reason, or
was already `BLOQUEADO` in `s` with the same reason. -/
def so_bloqueio_mantido (s s' : so_t) : Prop :=
  ∀ j : Nat, (so_proc s' (j : Int)).estado = BLOQUEADO →
    (so_proc s' (j : Int)).motivo_bloqueio ≠ BLOQUEIO_NENHUM ∨
    ((so_proc s (j : Int)).estado = BLOQUEADO ∧
      (so_proc s' (j : Int)).motivo_bloqueio = (so_proc s (j : Int)).motivo_bloqueio)

/-- Priority mode on the example machine: `init` spawns `p` (pid 2, slot 1), kills it, reaps
it and spawns `p` again (pid 3), which takes the freed slot 1. -/
def so_ex_reuso_prio : so_t :=
  so_trap_ex (so_ex_ciclo (so_ex_boot ESCAL_PRIORIDADE) 2) 2 7 300

/-- Then `init` blocks in WAIT(3), the child is dispatched and issues READ while the keyboard
is not ready. -/
def so_ex_bloqueio_reuso : so_t :=
  so_trap_ex (so_trap_ex so_ex_reuso_prio 2 9 3) 2 1 0

/-- Two frames; frame 0 is assigned to page 0 of process 1 and, while still occupied,
assigned again to its page 5. -/
def quadros_ex_duplo : quadros_t :=
  quadros_assign (quadros_assign (quadros_cria 2 1 (fun _ => 0)) 0 1 0) 0 1 5

/-- The kernel when the loop of `so_trata_pendencias` reaches slot `n`: the iterations of
the slots below `n` have run. -/
def so_pendencias_ate (K : so_const_t) (self : so_t) (n : Nat) : so_t :=
  (List.range n).foldl (so_trata_pendencia K) self

/-- The slots woken by a pass of `so_trata_pendencias` on `self`, `BLOQUEADO` before the pass
and `PRONTO` after it, in increasing order. -/
def so_pendencias_acordados (K : so_const_t) (self : so_t) : List Int :=
  ((List.range K.MAX_PROCESSOS).filter (fun i : Nat =>
    decide ((so_proc self (i : Int)).estado = BLOQUEADO ∧
      (so_proc (so_trata_pendencias K self) (i : Int)).estado = PRONTO))).map
    (fun i : Nat => (i : Int))

/-- Devices whose registers all read 1, except the register at address 0 (the keyboard data
of terminal A), which cannot be read. -/
def es_ex_dado_falha : es_t :=
  { le := fun _ a => if a = 0 then none else some 1, esc := fun _ _ _ => true, k := 0,
    escritas := [] }

/-- Round-robin on the example machine: after boot `init` issues READ while the keyboard is
not ready and blocks; no process is left to run. -/
def so_ex_le_bloqueia : so_t := so_trap_ex (so_ex_boot ESCAL_CIRCULAR) 2 1 0

/-- A clock interrupt after `so_ex_le_bloqueia`, at the call of `so_trata_pendencias`, with
the devices `es`. -/
def so_ex_pend_inicio (es : es_t) : so_t :=
  so_trata_irq so_const_ex
    (so_salva_estado_da_cpu so_const_ex { so_ex_le_bloqueia with mem := mem_ex 0 0, es := es }) 3

/-- Round-robin on the example machine: from `so_ex_fila_cheia_inicio` (ready queue 1, 1, 1,
1 with `init` running), `init` blocks in READ, the process of slot 1 is dispatched and
spawns a child in slot 2: the ready queue is 1, 1, 1, 2, full. -/
def so_ex_pend_fila_cheia : so_t :=
  so_trap_ex (so_trap_ex so_ex_fila_cheia_inicio 2 1 0) 2 7 300

/-- A clock interrupt after `so_ex_pend_fila_cheia` with every terminal ready, at the call of
`so_trata_pendencias`. -/
def so_ex_pend_cheia_inicio : so_t :=
  so_trata_irq so_const_ex
    (so_salva_estado_da_cpu so_const_ex
      { so_ex_pend_fila_cheia with mem := mem_ex 0 0, es := es_ex_pronto }) 3

/-- From `s` to `s'` the current process and the idle accounting are the same. -/
def so_mesmo_ocioso (s s' : so_t) : Prop :=
  s'.processo_em_execucao_idx = s.processo_em_execucao_idx ∧
  s'.metricas.tempo_total_ocioso = s.metricas.tempo_total_ocioso ∧
  s'.metricas.inicio_tempo_ocioso = s.metricas.inicio_tempo_ocioso

/-- An idle interval after the kernel state `s`: zero or more complete traps (any IRQ, any
memory and devices) that each end with no current process, followed by a trap taken up to
its call of the scheduler; the second state is the kernel at that call. -/
inductive so_intervalo_ocioso (K : so_const_t) : so_t → so_t → Prop
  | chamada (s : so_t) (irq : Int) (mem : mem_t) (es : es_t) :
      so_intervalo_ocioso K s (so_entrada K { s with mem := mem, es := es } irq)
  | trap (s u : so_t) (irq : Int) (mem : mem_t) (es : es_t) :
      (so_trata_interrupcao K { s with mem := mem, es := es } irq).2.processo_em_execucao_idx
        = -1 →
      so_intervalo_ocioso K (so_trata_interrupcao K { s with mem := mem, es := es } irq).2 u →
      so_intervalo_ocioso K s u

/-- Devices whose instruction clock (address 16) reads `t` and whose other registers read
`v`; every write is accepted. -/
def es_ex_tempo (t v : Int) : es_t :=
  { le := fun _ a => if a = 16 then some t else some v, esc := fun _ _ _ => true, k := 0,
    escritas := [] }

/-- Round-robin on the example machine, the clock at `t0`: after boot `init` issues READ
while the keyboard is not ready; the kernel at the call of the scheduler. -/
def so_ex_ocioso_inicio (t0 : Int) : so_t :=
  so_entrada so_const_ex
    { so_ex_boot ESCAL_CIRCULAR with mem := mem_ex 1 0, es := es_ex_tempo t0 0 } 2

/-- Then, the clock at `t1`, a clock interrupt with the keyboard ready; the kernel at the
call of the scheduler. -/
def so_ex_ocioso_fim (t0 t1 : Int) : so_t :=
  so_entrada so_const_ex
    { so_escalona so_const_ex (so_ex_ocioso_inicio t0) with
        mem := mem_ex 0 0, es := es_ex_tempo t1 1 } 3

/-- The same with a clock interrupt in between, the clock at `tm`, while the keyboard is
still not ready. -/
def so_ex_ocioso_fim_longo (t0 tm t1 : Int) : so_t :=
  so_entrada so_const_ex
    { (so_trata_interrupcao so_const_ex
        { so_escalona so_const_ex (so_ex_ocioso_inicio t0) with
            mem := mem_ex 0 0, es := es_ex_tempo tm 0 } 3).2 with
        mem := mem_ex 0 0, es := es_ex_tempo t1 1 } 3

/-- From `s` to `s'` the idle accounting is the same, the devices are the same and no
access has been undone. -/
def so_ocioso_avanca (s s' : so_t) : Prop :=
  s'.metricas.tempo_total_ocioso = s.metricas.tempo_total_ocioso ∧
  s'.metricas.inicio_tempo_ocioso = s.metricas.inicio_tempo_ocioso ∧
  so_es_avanca s s'

/-- The number of words in use: the cells of the bitmap that are not 0. -/
def sec_alloc_usadas (self : sec_alloc_t) : Nat :=
  self.bitmap.countP (fun c => decide (c ≠ 0))

/-- The second allocator is reached from the first one by calls of `sec_alloc_alloc` only
(any sizes, successful or not): no `sec_alloc_free` in between. -/
inductive sec_alloc_so_aloca : sec_alloc_t → sec_alloc_t → Prop
  | nada (s : sec_alloc_t) : sec_alloc_so_aloca s s
  | mais (s t : sec_alloc_t) (n : Int) :
      sec_alloc_so_aloca s t → sec_alloc_so_aloca s (sec_alloc_alloc t n).2

/-- From `s` to `s'` the length of the quantum and the quantum left are the same. -/
def so_quantum_igual (s s' : so_t) : Prop :=
  s'.quantum_total = s.quantum_total ∧ s'.quantum_restante = s.quantum_restante

/-- Between traps, in either mode: the quantum is 3, the quantum left lies between 0 and
the quantum, and it is at least 1 while a process is selected. -/
def so_quantum_inv (s : so_t) : Prop :=
  s.quantum_total = 3 ∧ 0 ≤ s.quantum_restante ∧ s.quantum_restante ≤ s.quantum_total ∧
  (s.processo_em_execucao_idx ≠ -1 → 1 ≤ s.quantum_restante)

/-- Inside a trap, from the clock handler to the call of the scheduler: as
`so_quantum_inv`, but the quantum left of the current process may be 0 when
`deve_preemptar` is set. -/
def so_quantum_inv_entrada (s : so_t) : Prop :=
  s.quantum_total = 3 ∧ 0 ≤ s.quantum_restante ∧ s.quantum_restante ≤ s.quantum_total ∧
  (s.processo_em_execucao_idx ≠ -1 → 1 ≤ s.quantum_restante ∨ s.deve_preemptar = true)

/-- Round-robin on the example machine: after boot the clock interrupts once. -/
def so_ex_um_relogio : so_t := so_trap_ex (so_ex_boot ESCAL_CIRCULAR) 3 0 0

/-- The ring buffer of the frame manager is well formed: the arrays have `n_quadros` cells,
`fifo_head` and `fifo_count` are within their limits, `fifo_tail` is where the queue ends,
every cell of the queue holds the number of a frame, and a free frame has owner pid and
owner page -1. -/
def quadros_anel_ok (self : quadros_t) : Prop :=
  self.owner_pid.length = self.n_quadros ∧
  self.owner_pagina.length = self.n_quadros ∧
  self.fifo_queue.length = self.n_quadros ∧
  self.is_free.length = self.n_quadros ∧
  self.fifo_head < self.n_quadros ∧
  self.fifo_count ≤ self.n_quadros ∧
  self.fifo_tail = (self.fifo_head + self.fifo_count) % self.n_quadros ∧
  (∀ i, i < self.fifo_count →
    0 ≤ self.fifo_queue.getD ((self.fifo_head + i) % self.n_quadros) 0 ∧
    self.fifo_queue.getD ((self.fifo_head + i) % self.n_quadros) 0 < (self.n_quadros : Int)) ∧
  (∀ f : Nat, self.is_free[f]? = some true →
    self.owner_pid[f]? = some (-1) ∧ self.owner_pagina[f]? = some (-1))

/-! ## Further example states -/

/-- Priority mode on the example machine: `init` spawns `p` and the clock interrupts three
times; the kernel at the call of the scheduler in the third interrupt, where the quantum of
`init` ends while `p` is ready. -/
def so_ex_prio_dois_prontos : so_t :=
  so_entrada so_const_ex
    { so_trap_ex (so_trap_ex (so_trap_ex (so_ex_boot ESCAL_PRIORIDADE) 2 7 300) 3 0 0) 3 0 0
        with mem := mem_ex 0 0, es := es_ex } 3

/-- Round-robin on the example machine: `init` spawns pid 2 (slot 1) and pid 3 (slot 2) and
blocks in WAIT(3); pid 2 is dispatched and blocks in WAIT(3) too; pid 3 is dispatched and
issues KILL(0), killing itself. -/
def so_ex_dois_esperam : so_t :=
  so_ex_entrada
    (so_trap_ex (so_trap_ex (so_trap_ex so_ex_cria_filho 2 7 300) 2 9 3) 2 9 3) 8 0

/-- Round-robin on the example machine: `init` spawns pid 2 (slot 1) and blocks in READ with
the keyboard not ready; pid 2 is dispatched and blocks in READ too.  Then a clock interrupt
with the devices `es`, at the call of `so_trata_pendencias`. -/
def so_ex_pend_dois (es : es_t) : so_t :=
  so_trata_irq so_const_ex
    (so_salva_estado_da_cpu so_const_ex
      { so_trap_ex (so_trap_ex so_ex_cria_filho 2 1 0) 2 1 0 with
          mem := mem_ex 0 0, es := es }) 3

theorem sec_alloc_preenche_length (bitmap : List Nat) (base : Int) (v : Nat) (m : Nat) :
    (sec_alloc_preenche bitmap base v m).length = bitmap.length := by
  induction m with
  | zero => rfl
  | succ j ih => simp [sec_alloc_preenche, ih]

theorem sec_alloc_preenche_get (bitmap : List Nat) (b : Nat) (v : Nat) (m k : Nat) :
    (sec_alloc_preenche bitmap (b : Int) v m)[k]? =
      if b ≤ k ∧ k < b + m ∧ k < bitmap.length then some v else bitmap[k]? := by
  induction m with
  | zero =>
    have : ¬ (b ≤ k ∧ k < b + 0 ∧ k < bitmap.length) := by omega
    simp only [sec_alloc_preenche, this, if_false]
  | succ j ih =>
    have hidx : ((b : Int) + (j : Int)).toNat = b + j := by omega
    simp only [sec_alloc_preenche, hidx, List.getElem?_set, sec_alloc_preenche_length, ih]
    by_cases h1 : b + j = k
    · subst h1
      by_cases h2 : b + j < bitmap.length
      · simp [h2]
      · have : bitmap[b + j]? = none := by
          rw [List.getElem?_eq_none_iff]; omega
        simp [h2, this]
    · simp only [h1, if_false]
      by_cases h3 : b ≤ k ∧ k < b + j ∧ k < bitmap.length
      · have : b ≤ k ∧ k < b + (j + 1) ∧ k < bitmap.length := by omega
        simp [h3, this]
      · have : ¬ (b ≤ k ∧ k < b + (j + 1) ∧ k < bitmap.length) := by omega
        simp [h3, this]

theorem RunLivre.bound {bitmap : List Nat} {b n : Nat} (h : RunLivre bitmap b n) (hn : 0 < n) :
    b + n ≤ bitmap.length := by
  have := h (n - 1) (by omega)
  have h2 : b + (n - 1) < bitmap.length := by
    by_contra hc
    rw [List.getElem?_eq_none_iff.mpr (by omega)] at this
    cases this
  omega

theorem sec_alloc_busca_spec (n : Nat) (hn : 0 < n) (bitmap : List Nat) :
    ∀ (l : List Nat) (i run : Nat),
      i + l.length = bitmap.length → (∀ j, l[j]? = bitmap[i + j]?) →
      run < n → run ≤ i → (∀ j, i - run ≤ j → j < i → bitmap[j]? = some 0) →
      (∀ b, RunLivre bitmap b n → i - run ≤ b) →
      match sec_alloc_busca (n : Int) l (i : Int) (run : Int) with
      | some base => ∃ b : Nat, base = (b : Int) ∧ RunLivre bitmap b n ∧
          ∀ b', RunLivre bitmap b' n → b ≤ b'
      | none => ∀ b, ¬ RunLivre bitmap b n := by
  intro l
  induction l with
  | nil =>
    intro i run hlen _ hrun _ _ hmin
    simp only [sec_alloc_busca]
    intro b hb
    have h1 := hb.bound hn
    have h2 := hmin b hb
    simp at hlen
    omega
  | cons c resto ih =>
    intro i run hlen hl hrun hri hz hmin
    have hc : bitmap[i]? = some c := by
      have := hl 0
      simpa using this.symm
    have hl2 : ∀ j, resto[j]? = bitmap[i + 1 + j]? := by
      intro j
      have := hl (j + 1)
      simp only [List.getElem?_cons_succ] at this
      rw [this]; congr 1; omega
    have hlen2 : i + 1 + resto.length = bitmap.length := by
      simp at hlen; omega
    simp only [sec_alloc_busca]
    by_cases h0 : c = 0
    · subst h0
      simp only [if_true]
      by_cases hfull : (run : Int) + 1 = (n : Int)
      · simp only [hfull, if_true]
        refine ⟨i - run, by omega, ?_, ?_⟩
        · intro j hj
          by_cases hji : i - run + j = i
          · rw [hji]; exact hc
          · exact hz _ (by omega) (by omega)
        · intro b' hb'
          exact hmin b' hb'
      · simp only [hfull, if_false]
        have := ih (i + 1) (run + 1) hlen2 hl2 (by omega) (by omega)
          (by
            intro j hj1 hj2
            by_cases hji : j = i
            · rw [hji]; exact hc
            · exact hz _ (by omega) (by omega))
          (by
            intro b hb
            have := hmin b hb
            omega)
        simpa using this
    · simp only [h0, if_false]
      have := ih (i + 1) 0 hlen2 hl2 (by omega) (by omega)
        (by intro j hj1 hj2; omega)
        (by
          intro b hb
          have h1 := hmin b hb
          by_contra hlt
          have h2 : b ≤ i := by omega
          have h3 := hb (i - b) (by omega)
          rw [show b + (i - b) = i by omega, hc] at h3
          simp at h3
          exact h0 h3)
      simpa using this

theorem sec_alloc_busca_inicio (n : Nat) (hn : 0 < n) (bitmap : List Nat) :
    match sec_alloc_busca (n : Int) bitmap 0 0 with
    | some base => ∃ b : Nat, base = (b : Int) ∧ RunLivre bitmap b n ∧
        ∀ b', RunLivre bitmap b' n → b ≤ b'
    | none => ∀ b, ¬ RunLivre bitmap b n := by
  have := sec_alloc_busca_spec n hn bitmap bitmap 0 0 (by simp) (by simp) hn (le_refl _)
    (by intro j _ h; omega) (by intro b _; omega)
  simpa using this

/-- C1: for every allocator state and every `n` with `1 ≤ n ≤ size` for which a run of
`n` consecutive free words exists, `sec_alloc_alloc` returns the smallest base `b` whose
words `b .. b+n-1` are all free, sets exactly those `n` cells to used (1) and leaves every
other cell of the bitmap (and its length) unchanged. -/
theorem sec_alloc_alloc_first_fit (self : sec_alloc_t) (n : Int) (h1 : 1 ≤ n)
    (h2 : n ≤ self.size) (hex : ∃ b, RunLivre self.bitmap b n.toNat) :
    ∃ b : Nat, (sec_alloc_alloc self n).1 = (b : Int) ∧
      RunLivre self.bitmap b n.toNat ∧
      (∀ b', RunLivre self.bitmap b' n.toNat → b ≤ b') ∧
      (sec_alloc_alloc self n).2.bitmap.length = self.bitmap.length ∧
      (∀ k, b ≤ k → k < b + n.toNat → (sec_alloc_alloc self n).2.bitmap[k]? = some 1) ∧
      (∀ k, (k < b ∨ b + n.toNat ≤ k) →
        (sec_alloc_alloc self n).2.bitmap[k]? = self.bitmap[k]?) := by
  obtain ⟨m, rfl⟩ : ∃ m : Nat, n = (m : Int) := ⟨n.toNat, by omega⟩
  have hm : 0 < m := by omega
  have hspec := sec_alloc_busca_inicio m hm self.bitmap
  have hguard : ¬ ((m : Int) ≤ 0 ∨ (m : Int) > self.size) := by omega
  simp only [sec_alloc_alloc, hguard, if_false, Int.toNat_ofNat]
  cases hb : sec_alloc_busca (m : Int) self.bitmap 0 0 with
  | none =>
    rw [hb] at hspec
    obtain ⟨b, hbr⟩ := hex
    exact absurd (by simpa using hbr) (hspec b)
  | some base =>
    rw [hb] at hspec
    obtain ⟨b, rfl, hfree, hmin⟩ := hspec
    have hbound := hfree.bound hm
    refine ⟨b, rfl, hfree, hmin, sec_alloc_preenche_length _ _ _ _, ?_, ?_⟩
    · intro k hk1 hk2
      simp only [sec_alloc_preenche_get]
      rw [if_pos ⟨hk1, hk2, by omega⟩]
    · intro k hk
      simp only [sec_alloc_preenche_get]
      rw [if_neg (by omega)]

theorem sec_alloc_alloc_first_fit_witness :
    ∃ b : Nat, (sec_alloc_alloc ⟨[1, 0, 0, 1, 0, 0, 0]⟩ 3).1 = (b : Int) ∧
      RunLivre [1, 0, 0, 1, 0, 0, 0] b (3 : Int).toNat ∧
      (∀ b', RunLivre [1, 0, 0, 1, 0, 0, 0] b' (3 : Int).toNat → b ≤ b') ∧
      (sec_alloc_alloc ⟨[1, 0, 0, 1, 0, 0, 0]⟩ 3).2.bitmap.length = 7 ∧
      (∀ k, b ≤ k → k < b + (3 : Int).toNat →
        (sec_alloc_alloc ⟨[1, 0, 0, 1, 0, 0, 0]⟩ 3).2.bitmap[k]? = some 1) ∧
      (∀ k, (k < b ∨ b + (3 : Int).toNat ≤ k) →
        (sec_alloc_alloc ⟨[1, 0, 0, 1, 0, 0, 0]⟩ 3).2.bitmap[k]? =
          ([1, 0, 0, 1, 0, 0, 0] : List Nat)[k]?) :=
  sec_alloc_alloc_first_fit ⟨[1, 0, 0, 1, 0, 0, 0]⟩ 3 (by decide) (by decide)
    ⟨4, by decide⟩

/-- C2: `sec_alloc_alloc` returns -1 exactly when `n ≤ 0`, `n > size`, or the bitmap has no
run of `n` consecutive free words; and whenever it returns -1 the allocator is unchanged. -/
theorem sec_alloc_alloc_fails_iff (self : sec_alloc_t) (n : Int) :
    ((sec_alloc_alloc self n).1 = -1 ↔
      (n ≤ 0 ∨ n > self.size ∨ ¬ ∃ b, RunLivre self.bitmap b n.toNat)) ∧
    ((sec_alloc_alloc self n).1 = -1 → (sec_alloc_alloc self n).2 = self) := by
  by_cases hguard : n ≤ 0 ∨ n > self.size
  · have hr : sec_alloc_alloc self n = (-1, self) := by
      simp only [sec_alloc_alloc, hguard, if_true]
    rw [hr]
    refine ⟨⟨fun _ => ?_, fun _ => rfl⟩, fun _ => rfl⟩
    rcases hguard with h | h
    · exact Or.inl h
    · exact Or.inr (Or.inl h)
  · obtain ⟨m, rfl⟩ : ∃ m : Nat, n = (m : Int) := ⟨n.toNat, by omega⟩
    have hm : 0 < m := by omega
    have hspec := sec_alloc_busca_inicio m hm self.bitmap
    simp only [sec_alloc_alloc, hguard, if_false, Int.toNat_ofNat]
    cases hb : sec_alloc_busca (m : Int) self.bitmap 0 0 with
    | none =>
      rw [hb] at hspec
      refine ⟨⟨fun _ => Or.inr (Or.inr ?_), fun _ => rfl⟩, fun _ => rfl⟩
      rintro ⟨b, hbr⟩
      exact hspec b hbr
    | some base =>
      rw [hb] at hspec
      obtain ⟨b, rfl, hfree, _⟩ := hspec
      refine ⟨⟨fun h => ?_, fun h => ?_⟩, fun h => ?_⟩
      · simp only at h; omega
      · rcases h with h | h | h
        · omega
        · omega
        · exact absurd ⟨b, hfree⟩ h
      · simp only at h; omega

/-- Within the bitmap the loop of `sec_alloc_free` fills the run with 0. -/
theorem sec_alloc_libera_dentro (bitmap : List Nat) (b m : Nat) (h : b + m ≤ bitmap.length) :
    sec_alloc_libera bitmap (b : Int) m = some (sec_alloc_preenche bitmap (b : Int) 0 m) := by
  induction m with
  | zero => rfl
  | succ j ih =>
    have hlen : (sec_alloc_preenche bitmap (b : Int) 0 j).length = bitmap.length :=
      sec_alloc_preenche_length _ _ _ _
    rw [sec_alloc_libera, ih (by omega)]
    dsimp only
    rw [if_pos ⟨by omega, by rw [hlen]; omega⟩]
    rfl

/-- The `int` sum of two `int`s whose sum is an `int` is their sum. -/
theorem int_soma_exata (a b : Int) (h1 : -2147483648 ≤ a + b) (h2 : a + b ≤ 2147483647) :
    int_soma a b = a + b := by
  unfold int_soma
  omega

/-- The `int` sum of two `int`s with a sum that is not negative is at most their sum. -/
theorem int_soma_le (a b : Int) (h : 0 ≤ a + b) : int_soma a b ≤ a + b := by
  unfold int_soma
  omega

/-- What `sec_alloc_free` does when the sum of its guard does not wrap around: with
`base ≥ 0`, `n > 0` and `base + n ≤ size` it sets the cells `base .. base+n-1` to free (0)
and leaves every other cell unchanged; with a negative base, `n ≤ 0`, or `base + n > size`
where `base + n` is an `int`, it changes nothing. -/
theorem sec_alloc_free_efeito (self : sec_alloc_t) (base n : Int) :
    (0 ≤ base ∧ 0 < n ∧ base + n ≤ self.size →
      ∃ s : sec_alloc_t, sec_alloc_free self base n = some s ∧
      s.bitmap.length = self.bitmap.length ∧
      (∀ k : Nat, base ≤ k → (k : Int) < base + n → s.bitmap[k]? = some 0) ∧
      (∀ k : Nat, ((k : Int) < base ∨ base + n ≤ k) → s.bitmap[k]? = self.bitmap[k]?)) ∧
    ((base < 0 ∨ n ≤ 0 ∨ (base + n > self.size ∧ base + n ≤ 2147483647)) →
      sec_alloc_free self base n = some self) := by
  constructor
  · rintro ⟨hb, hn, hs⟩
    obtain ⟨b, rfl⟩ : ∃ b : Nat, base = (b : Int) := ⟨base.toNat, by omega⟩
    obtain ⟨m, rfl⟩ : ∃ m : Nat, n = (m : Int) := ⟨n.toNat, by omega⟩
    have hsoma := int_soma_le (b : Int) (m : Int) (by omega)
    have hguard : ¬ ((b : Int) < 0 ∨ (m : Int) ≤ 0 ∨
        int_soma (b : Int) (m : Int) > self.size) := by
      omega
    have hlen : b + m ≤ self.bitmap.length := by
      simp only [sec_alloc_t.size] at hs; omega
    refine ⟨{ bitmap := sec_alloc_preenche self.bitmap (b : Int) 0 m }, ?_,
      sec_alloc_preenche_length _ _ _ _, ?_, ?_⟩
    · simp only [sec_alloc_free, hguard, if_false, Int.toNat_ofNat,
        sec_alloc_libera_dentro self.bitmap b m hlen, Option.map_some']
    · intro k hk1 hk2
      simp only [sec_alloc_preenche_get]
      rw [if_pos ⟨by omega, by omega, by omega⟩]
    · intro k hk
      simp only [sec_alloc_preenche_get]
      rw [if_neg (by omega)]
  · intro h
    have hguard : base < 0 ∨ n ≤ 0 ∨ int_soma base n > self.size := by
      rcases h with h | h | ⟨h1, h2⟩
      · exact Or.inl h
      · exact Or.inr (Or.inl h)
      · by_cases hb : base < 0
        · exact Or.inl hb
        · by_cases hn : n ≤ 0
          · exact Or.inr (Or.inl hn)
          · refine Or.inr (Or.inr ?_)
            rw [int_soma_exata base n (by omega) h2]
            exact h1
    simp only [sec_alloc_free, hguard, if_true]

/-- C3: `sec_alloc_free` evaluated on a bitmap of three words with `base = 2147483647` and
`n = 1`, arguments outside the range (`base ≥ 0`, `n > 0`, `base + n > size`).  The `int`
sum of the guard wraps around to -2147483648, which is not greater than `size`: the guard
does not reject the call, and the loop writes the cell 2147483647, outside the bitmap.  The
call does not come back with the allocator unchanged, as it does for `base = 7`, where the
sum does not wrap. -/
theorem sec_alloc_free_soma_estoura :
    (0 : Int) ≤ 2147483647 ∧ (0 : Int) < 1 ∧
    (2147483647 : Int) + 1 > sec_alloc_t.size ⟨[1, 1, 0]⟩ ∧
    int_soma 2147483647 1 = -2147483648 ∧
    ¬ (int_soma 2147483647 1 > sec_alloc_t.size ⟨[1, 1, 0]⟩) ∧
    sec_alloc_libera [1, 1, 0] 2147483647 1 = none ∧
    sec_alloc_free ⟨[1, 1, 0]⟩ 2147483647 1 = none ∧
    sec_alloc_free ⟨[1, 1, 0]⟩ 2147483647 1 ≠ some ⟨[1, 1, 0]⟩ ∧
    sec_alloc_free ⟨[1, 1, 0]⟩ 7 1 = some ⟨[1, 1, 0]⟩ := by
  decide

/-! ## quadros.c: victim selection -/

theorem quadros_lru_passo_eq (self : quadros_t) (cb : Int → Int → Option Nat)
    (st : Int × Nat) (i : Nat) :
    quadros_lru_passo self cb st i =
      match quadros_idade self cb i with
      | none => st
      | some age => if st.1 = -1 ∨ age < st.2 then ((i : Int), age) else st := by
  unfold quadros_lru_passo quadros_idade
  by_cases h : self.is_free.getD i true = true
  · rw [if_pos h, if_pos h]
  · rw [if_neg h, if_neg h]

theorem quadros_idade_some (self : quadros_t) (cb : Int → Int → Option Nat) (i a : Nat)
    (h : quadros_idade self cb i = some a) :
    self.is_free.getD i true = false ∧
      cb (self.owner_pid.getD i (-1)) (self.owner_pagina.getD i (-1)) = some a := by
  unfold quadros_idade at h
  by_cases hf : self.is_free.getD i true = true
  · rw [if_pos hf] at h; cases h
  · rw [if_neg hf] at h
    exact ⟨Bool.eq_false_iff.mpr hf, h⟩

theorem quadros_lru_laco (self : quadros_t) (cb : Int → Int → Option Nat) (ini : Nat) :
    ∀ m : Nat,
      (((List.range m).foldl (quadros_lru_passo self cb) (-1, ini)).1 = -1 ∧
        ∀ j, j < m → quadros_idade self cb j = none) ∨
      (∃ i : Nat, ((List.range m).foldl (quadros_lru_passo self cb) (-1, ini)).1 = (i : Int) ∧
        i < m ∧
        quadros_idade self cb i =
          some ((List.range m).foldl (quadros_lru_passo self cb) (-1, ini)).2 ∧
        ∀ j, j < m → ∀ a, quadros_idade self cb j = some a →
          ((List.range m).foldl (quadros_lru_passo self cb) (-1, ini)).2 ≤ a ∧
          (a = ((List.range m).foldl (quadros_lru_passo self cb) (-1, ini)).2 → i ≤ j)) := by
  intro m
  induction m with
  | zero =>
    left
    exact ⟨rfl, fun j hj => absurd hj (Nat.not_lt_zero j)⟩
  | succ m ih =>
    rw [List.range_succ, List.foldl_append]
    simp only [List.foldl_cons, List.foldl_nil]
    generalize (List.range m).foldl (quadros_lru_passo self cb) (-1, ini) = r at ih ⊢
    rw [quadros_lru_passo_eq]
    cases hid : quadros_idade self cb m with
    | none =>
      simp only
      rcases ih with ⟨h1, h2⟩ | ⟨i, h1, h2, h3, h4⟩
      · left
        refine ⟨h1, fun j hj => ?_⟩
        by_cases hjm : j = m
        · rw [hjm]; exact hid
        · exact h2 j (by omega)
      · right
        refine ⟨i, h1, by omega, h3, fun j hj a ha => ?_⟩
        by_cases hjm : j = m
        · rw [hjm, hid] at ha; cases ha
        · exact h4 j (by omega) a ha
    | some age =>
      simp only
      right
      rcases ih with ⟨h1, h2⟩ | ⟨i, h1, h2, h3, h4⟩
      · simp only [h1, true_or, if_true]
        refine ⟨m, rfl, by omega, hid, fun j hj a ha => ?_⟩
        by_cases hjm : j = m
        · rw [hjm, hid] at ha
          cases ha
          exact ⟨le_refl _, fun _ => by omega⟩
        · rw [h2 j (by omega)] at ha; cases ha
      · have hne : ¬ (r.1 = -1) := by rw [h1]; omega
        by_cases hlt : age < r.2
        · simp only [hlt, or_true, if_true]
          refine ⟨m, rfl, by omega, hid, fun j hj a ha => ?_⟩
          by_cases hjm : j = m
          · rw [hjm, hid] at ha
            cases ha
            exact ⟨le_refl _, fun _ => by omega⟩
          · have := h4 j (by omega) a ha
            exact ⟨by omega, fun hEq => by omega⟩
        · simp only [hne, hlt, or_self, if_false]
          refine ⟨i, h1, by omega, h3, fun j hj a ha => ?_⟩
          by_cases hjm : j = m
          · rw [hjm, hid] at ha
            cases ha
            exact ⟨by omega, fun _ => by omega⟩
          · exact h4 j (by omega) a ha

/-- C5 as stated fails: in a state reachable from `quadros_cria` by `quadros_assign` and
`quadros_remove_vitima`, frame 0 is occupied and the age callback succeeds for it, yet
`quadros_seleciona_vitima_lru` returns -1 because the FIFO queue is empty. -/
theorem quadros_lru_fila_vazia_contraexemplo :
    quadros_alcancavel quadros_ex_vazia ∧
    quadros_ocupado quadros_ex_vazia 0 ∧
    quadros_idade quadros_ex_vazia (fun _ _ => some 7) 0 = some 7 ∧
    quadros_seleciona_vitima_lru quadros_ex_vazia (fun _ _ => some 7) = -1 := by
  refine ⟨?_, by decide, by decide, by decide⟩
  unfold quadros_ex_vazia
  exact .remove _ (.remove _ (.assign _ _ _ _ (.assign _ _ _ _ (.assign _ _ _ _
    (.cria 2 1 _)))))

/-- C5 (amended): in every state whose FIFO queue is not empty (`fifo_count ≠ 0`) and in
which the age callback succeeds for at least one occupied frame,
`quadros_seleciona_vitima_lru` returns an occupied frame `i` for which the callback
succeeds, whose age is at most the age of every occupied frame for which the callback
succeeds, and which has the lowest index among the frames of that age.  The function
returns only a frame number, so the manager is not modified. -/
theorem quadros_lru_minimo (self : quadros_t) (cb : Int → Int → Option Nat)
    (hc : self.fifo_count ≠ 0)
    (hex : ∃ j, j < self.n_quadros ∧ quadros_idade self cb j ≠ none) :
    ∃ (i a : Nat), quadros_seleciona_vitima_lru self cb = (i : Int) ∧
      quadros_ocupado self i ∧ quadros_idade self cb i = some a ∧
      ∀ j, j < self.n_quadros → ∀ a', quadros_idade self cb j = some a' →
        a ≤ a' ∧ (a' = a → i ≤ j) := by
  unfold quadros_seleciona_vitima_lru
  simp only [hc, if_false]
  rcases quadros_lru_laco self cb 0xffffffff self.n_quadros with ⟨_, h2⟩ | ⟨i, h1, h2, h3, h4⟩
  · obtain ⟨j, hj, hne⟩ := hex
    exact absurd (h2 j hj) hne
  · have hne : ¬ (((List.range self.n_quadros).foldl (quadros_lru_passo self cb)
        (-1, 0xffffffff)).1 = -1) := by rw [h1]; omega
    simp only [hne, if_false]
    exact ⟨i, _, h1, ⟨h2, (quadros_idade_some self cb i _ h3).1⟩, h3, h4⟩

theorem quadros_lru_minimo_witness :
    ∃ (i a : Nat), quadros_seleciona_vitima_lru quadros_ex_volta
        (fun p _ => some p.toNat) = (i : Int) ∧
      quadros_ocupado quadros_ex_volta i ∧
      quadros_idade quadros_ex_volta (fun p _ => some p.toNat) i = some a ∧
      ∀ j, j < quadros_ex_volta.n_quadros → ∀ a',
        quadros_idade quadros_ex_volta (fun p _ => some p.toNat) j = some a' →
        a ≤ a' ∧ (a' = a → i ≤ j) :=
  quadros_lru_minimo quadros_ex_volta (fun p _ => some p.toNat) (by decide)
    ⟨0, by decide, by decide⟩

/-- C6: when the age callback fails for every occupied frame,
`quadros_seleciona_vitima_lru` returns what `quadros_seleciona_vitima` returns in the same
state, which is -1 when the FIFO queue is empty and the frame stored at `fifo_head`
otherwise. -/
theorem quadros_lru_cai_para_fifo (self : quadros_t) (cb : Int → Int → Option Nat)
    (hfalha : ∀ i, quadros_ocupado self i →
      cb (self.owner_pid.getD i (-1)) (self.owner_pagina.getD i (-1)) = none) :
    quadros_seleciona_vitima_lru self cb = quadros_seleciona_vitima self ∧
    (self.fifo_count = 0 → quadros_seleciona_vitima self = -1) ∧
    (self.fifo_count ≠ 0 →
      quadros_seleciona_vitima self = self.fifo_queue.getD self.fifo_head 0) := by
  refine ⟨?_, fun h => by simp [quadros_seleciona_vitima, h], fun h => ?_⟩
  · unfold quadros_seleciona_vitima_lru
    by_cases hc : self.fifo_count = 0
    · simp [hc, quadros_seleciona_vitima]
    · simp only [hc, if_false]
      rcases quadros_lru_laco self cb 0xffffffff self.n_quadros with
        ⟨h1, _⟩ | ⟨i, _, h2, h3, _⟩
      · simp only [h1, if_true]
      · exfalso
        have h5 := quadros_idade_some self cb i _ h3
        rw [hfalha i ⟨h2, h5.1⟩] at h5
        cases h5.2
  · simp only [quadros_seleciona_vitima, h, if_false]

theorem quadros_lru_cai_para_fifo_witness :
    quadros_seleciona_vitima_lru quadros_ex_volta (fun _ _ => none) =
      quadros_seleciona_vitima quadros_ex_volta ∧
    (quadros_ex_volta.fifo_count = 0 → quadros_seleciona_vitima quadros_ex_volta = -1) ∧
    (quadros_ex_volta.fifo_count ≠ 0 →
      quadros_seleciona_vitima quadros_ex_volta =
        quadros_ex_volta.fifo_queue.getD quadros_ex_volta.fifo_head 0) :=
  quadros_lru_cai_para_fifo quadros_ex_volta (fun _ _ => none) (fun _ _ => rfl)

/-! ## quadros.c: the FIFO queue -/

theorem mod_volta (a n : Nat) (h : a < 2 * n) :
    a % n = if a < n then a else a - n := by
  by_cases ha : a < n
  · rw [if_pos ha, Nat.mod_eq_of_lt ha]
  · rw [if_neg ha, Nat.mod_eq_sub_mod (by omega), Nat.mod_eq_of_lt (by omega)]

theorem lista_getD_set_eq {α : Type} (l : List α) (i : Nat) (x d : α) (h : i < l.length) :
    (l.set i x).getD i d = x := by
  simp [List.getD_eq_getElem?_getD, List.getElem?_set, h]

theorem lista_getD_set_ne {α : Type} (l : List α) (i j : Nat) (x d : α) (h : i ≠ j) :
    (l.set i x).getD j d = l.getD j d := by
  simp [List.getD_eq_getElem?_getD, List.getElem?_set, h]

theorem quadros_pend_curta (n : Nat) (pend : List Int) (f : Nat) (hf : f < n)
    (hnd : pend.Nodup) (hr : ∀ x, x ∈ pend → 0 ≤ x ∧ x < (n : Int))
    (hnot : (f : Int) ∉ pend) : pend.length < n := by
  have hsub : pend.map Int.toNat ⊆ (List.range n).erase f := by
    intro y hy
    obtain ⟨x, hx, rfl⟩ := List.mem_map.mp hy
    have hx2 := hr x hx
    have hne : x.toNat ≠ f := by
      intro he
      apply hnot
      have : x = (f : Int) := by omega
      rw [← this]; exact hx
    exact (List.Nodup.mem_erase_iff (List.nodup_range n)).mpr
      ⟨hne, List.mem_range.mpr (by omega)⟩
  have hnd2 : (pend.map Int.toNat).Nodup := by
    apply List.Nodup.map_on _ hnd
    intro x hx y hy hxy
    have := hr x hx
    have := hr y hy
    omega
  have hlen := (List.subperm_of_subset hnd2 hsub).length_le
  rw [List.length_map, List.length_erase_of_mem (List.mem_range.mpr hf),
    List.length_range] at hlen
  omega

theorem quadros_rep_cria (mem_tam TAM_PAGINA : Nat) (lixo : Nat → Int) :
    quadros_rep (quadros_cria mem_tam TAM_PAGINA lixo) [] := by
  simp [quadros_rep, quadros_cria]

theorem quadros_rep_assign (self : quadros_t) (pend : List Int) (quadro pid pagina : Int)
    (hrep : quadros_rep self pend) (h0 : 0 ≤ quadro) (h1 : quadro < self.n_quadros)
    (hlivre : self.is_free.getD quadro.toNat false = true) :
    quadros_rep (quadros_assign self quadro pid pagina) (pend ++ [quadro]) := by
  obtain ⟨f, rfl⟩ : ∃ f : Nat, quadro = (f : Int) := ⟨quadro.toNat, by omega⟩
  obtain ⟨hl1, hl2, hl3, hl4, hhead, htail, hcount, hfila, hnd, hrange, hocc⟩ := hrep
  have hfn : f < self.n_quadros := by omega
  have hn : 0 < self.n_quadros := by omega
  have hhd := hhead hn
  simp only [Int.toNat_ofNat] at hlivre
  have hlivre2 : self.is_free.getD f true = true := by
    simp only [List.getD_eq_getElem?_getD] at hlivre ⊢
    rw [List.getElem?_eq_getElem (by omega)] at hlivre ⊢
    simpa using hlivre
  have hnot : (f : Int) ∉ pend := by
    intro hmem
    have := (hocc f hfn).mpr hmem
    rw [hlivre2] at this
    cases this
  have hshort := quadros_pend_curta self.n_quadros pend f hfn hnd hrange hnot
  have hcn : self.fifo_count < self.n_quadros := by omega
  have hguard : ¬ ((f : Int) < 0 ∨ (f : Int) ≥ (self.n_quadros : Int)) := by omega
  have htl : self.fifo_tail < self.n_quadros := by
    rw [htail]; exact Nat.mod_lt _ hn
  simp only [quadros_assign, hguard, if_false, hcn, if_true, Int.toNat_ofNat]
  refine ⟨by simp [hl1], by simp [hl2], by simp [hl3], by simp [hl4], fun _ => hhd, ?_,
    by simp [hcount], ?_, ?_, ?_, ?_⟩
  · show (self.fifo_tail + 1) % self.n_quadros =
      (self.fifo_head + (self.fifo_count + 1)) % self.n_quadros
    have e1 := mod_volta (self.fifo_head + self.fifo_count) self.n_quadros (by omega)
    have e2 := mod_volta (self.fifo_tail + 1) self.n_quadros (by omega)
    have e3 := mod_volta (self.fifo_head + (self.fifo_count + 1)) self.n_quadros (by omega)
    rw [e2, e3]
    rw [e1] at htail
    split_ifs at htail ⊢ <;> omega
  · intro i hi
    show (self.fifo_queue.set self.fifo_tail (f : Int)).getD
      ((self.fifo_head + i) % self.n_quadros) 0 = (pend ++ [(f : Int)]).getD i 0
    have hi' : i < self.fifo_count + 1 := hi
    by_cases hic : i < self.fifo_count
    · have hne : self.fifo_tail ≠ (self.fifo_head + i) % self.n_quadros := by
        have e1 := mod_volta (self.fifo_head + self.fifo_count) self.n_quadros (by omega)
        have e2 := mod_volta (self.fifo_head + i) self.n_quadros (by omega)
        rw [htail, e1, e2]
        split_ifs <;> omega
      rw [lista_getD_set_ne _ _ _ _ _ hne, hfila i hic]
      simp only [List.getD_eq_getElem?_getD]
      rw [List.getElem?_append_left (by omega)]
    · have hieq : i = self.fifo_count := by omega
      rw [hieq, ← htail, lista_getD_set_eq _ _ _ _ (by omega)]
      simp only [List.getD_eq_getElem?_getD]
      rw [hcount, List.getElem?_append_right (le_refl _)]
      simp
  · exact List.Nodup.append hnd (List.nodup_singleton _)
      (by simpa [List.disjoint_singleton] using hnot)
  · show ∀ x, x ∈ pend ++ [(f : Int)] → 0 ≤ x ∧ x < (self.n_quadros : Int)
    intro x hx
    rcases List.mem_append.mp hx with hx | hx
    · exact hrange x hx
    · simp only [List.mem_singleton] at hx
      subst hx
      exact ⟨by omega, by omega⟩
  · show ∀ g : Nat, g < self.n_quadros →
      ((self.is_free.set f false).getD g true = false ↔ (g : Int) ∈ pend ++ [(f : Int)])
    intro g hg
    by_cases hgf : f = g
    · subst hgf
      rw [lista_getD_set_eq _ _ _ _ (by omega)]
      simp
    · rw [lista_getD_set_ne _ _ _ _ _ hgf, hocc g hg]
      simp only [List.mem_append, List.mem_singleton]
      constructor
      · exact Or.inl
      · rintro (h | h)
        · exact h
        · exfalso; omega

theorem quadros_rep_cabeca (self : quadros_t) (pend : List Int) (hrep : quadros_rep self pend) :
    quadros_seleciona_vitima self = pend.headD (-1) := by
  obtain ⟨_, _, _, _, hhead, _, hcount, hfila, _, hrange, _⟩ := hrep
  unfold quadros_seleciona_vitima
  cases pend with
  | nil => simp [hcount]
  | cons v resto =>
    have hc : self.fifo_count ≠ 0 := by simp [hcount]
    have hv := hrange v (List.mem_cons_self _ _)
    have hn : 0 < self.n_quadros := by omega
    have := hfila 0 (by omega)
    rw [Nat.add_zero, Nat.mod_eq_of_lt (hhead hn)] at this
    simp only [hc, if_false, this, List.headD_cons]
    rfl

theorem quadros_rep_remove (self : quadros_t) (pend : List Int)
    (hrep : quadros_rep self pend) :
    quadros_rep (quadros_remove_vitima self).2 pend.tail := by
  have hsel := quadros_rep_cabeca self pend hrep
  obtain ⟨hl1, hl2, hl3, hl4, hhead, htail, hcount, hfila, hnd, hrange, hocc⟩ := hrep
  cases pend with
  | nil =>
    have hc : self.fifo_count = 0 := by simpa using hcount
    simp only [quadros_remove_vitima, hc, if_true, List.tail_nil]
    exact ⟨hl1, hl2, hl3, hl4, hhead, htail, hcount, hfila, hnd, hrange, hocc⟩
  | cons v resto =>
    have hc : self.fifo_count ≠ 0 := by simp [hcount]
    have hcl : self.fifo_count = resto.length + 1 := by simpa using hcount
    have hv := hrange v (List.mem_cons_self _ _)
    have hn : 0 < self.n_quadros := by omega
    have hhd := hhead hn
    have hq : self.fifo_queue.getD self.fifo_head 0 = v := by
      simpa [quadros_seleciona_vitima, hc] using hsel
    obtain ⟨f, rfl⟩ : ∃ f : Nat, v = (f : Int) := ⟨v.toNat, by omega⟩
    have hfn : f < self.n_quadros := by omega
    have hnd2 := List.nodup_cons.mp hnd
    simp only [quadros_remove_vitima, hc, if_false, hq, Int.toNat_ofNat, List.tail_cons]
    refine ⟨by simp [hl1], by simp [hl2], hl3, by simp [hl4],
      fun _ => Nat.mod_lt _ hn, ?_, by simp [hcl], ?_, hnd2.2, ?_, ?_⟩
    · show self.fifo_tail =
        ((self.fifo_head + 1) % self.n_quadros + (self.fifo_count - 1)) % self.n_quadros
      rw [htail, Nat.mod_add_mod]
      congr 1; omega
    · show ∀ i, i < self.fifo_count - 1 →
        self.fifo_queue.getD (((self.fifo_head + 1) % self.n_quadros + i) % self.n_quadros) 0
          = resto.getD i 0
      intro i hi
      rw [Nat.mod_add_mod, show self.fifo_head + 1 + i = self.fifo_head + (i + 1) by omega,
        hfila (i + 1) (by omega)]
      simp [List.getD_eq_getElem?_getD]
    · show ∀ x, x ∈ resto → 0 ≤ x ∧ x < (self.n_quadros : Int)
      exact fun x hx => hrange x (List.mem_cons_of_mem _ hx)
    · show ∀ g : Nat, g < self.n_quadros →
        ((self.is_free.set f true).getD g true = false ↔ (g : Int) ∈ resto)
      intro g hg
      by_cases hgf : f = g
      · subst hgf
        rw [lista_getD_set_eq _ _ _ _ (by omega)]
        simp only [Bool.true_eq_false, false_iff]
        exact hnd2.1
      · rw [lista_getD_set_ne _ _ _ _ _ hgf, hocc g hg]
        simp only [List.mem_cons]
        constructor
        · rintro (h | h)
          · exfalso; omega
          · exact h
        · exact Or.inr

theorem quadros_fifo_alc_rep (self : quadros_t) (pend : List Int)
    (h : quadros_fifo_alc self pend) : quadros_rep self pend := by
  induction h with
  | cria mem_tam TAM_PAGINA lixo => exact quadros_rep_cria _ _ _
  | assign self pend quadro pid pagina _ h0 h1 hl ih =>
    exact quadros_rep_assign self pend quadro pid pagina ih h0 h1 hl
  | remove self pend _ ih => exact quadros_rep_remove self pend ih

theorem quadros_rep_fila (self : quadros_t) (pend : List Int) (hrep : quadros_rep self pend) :
    quadros_fila self = pend := by
  obtain ⟨_, _, _, _, _, _, hcount, hfila, _, _, _⟩ := hrep
  apply List.ext_getElem?
  intro i
  unfold quadros_fila
  by_cases hi : i < self.fifo_count
  · have h1 := hfila i hi
    rw [List.getD_eq_getElem?_getD (l := pend), List.getElem?_eq_getElem (by omega)] at h1
    rw [List.getElem?_map, List.getElem?_range hi, List.getElem?_eq_getElem (by omega)]
    simpa using h1
  · rw [List.getElem?_eq_none_iff.mpr (by simp; omega),
      List.getElem?_eq_none_iff.mpr (by omega)]

/-- C7: in every state reached from a fresh manager by `quadros_assign` calls on frames
that are free at the time and `quadros_remove_vitima` calls, where `pend` lists the frames
assigned and not yet removed, oldest first: `quadros_remove_vitima` returns what
`quadros_seleciona_vitima` reports; when `pend` is empty that is -1 and the state is
unchanged; otherwise it is the head of `pend` (the earliest-assigned frame not yet
removed), which afterwards is free with owner pid and owner page -1, and the frames still
waiting are the rest of `pend`. -/
theorem quadros_remove_vitima_fifo (self : quadros_t) (pend : List Int)
    (h : quadros_fifo_alc self pend) :
    (quadros_remove_vitima self).1 = quadros_seleciona_vitima self ∧
    quadros_fila self = pend ∧
    (pend = [] →
      (quadros_remove_vitima self).1 = -1 ∧ (quadros_remove_vitima self).2 = self) ∧
    (∀ v resto, pend = v :: resto →
      (quadros_remove_vitima self).1 = v ∧ 0 ≤ v ∧ v < self.n_quadros ∧
      (quadros_remove_vitima self).2.is_free.getD v.toNat false = true ∧
      (quadros_remove_vitima self).2.owner_pid.getD v.toNat 0 = -1 ∧
      (quadros_remove_vitima self).2.owner_pagina.getD v.toNat 0 = -1 ∧
      quadros_fila (quadros_remove_vitima self).2 = resto) := by
  have hrep := quadros_fifo_alc_rep self pend h
  have hsel := quadros_rep_cabeca self pend hrep
  have hrep2 := quadros_rep_remove self pend hrep
  have hfila2 := quadros_rep_fila _ _ hrep2
  have hfst : (quadros_remove_vitima self).1 = quadros_seleciona_vitima self := by
    unfold quadros_remove_vitima quadros_seleciona_vitima
    by_cases hc : self.fifo_count = 0
    · simp only [hc, if_true]
    · simp only [hc, if_false]
  refine ⟨hfst, quadros_rep_fila self pend hrep, ?_, ?_⟩
  · intro hp
    subst hp
    have hc : self.fifo_count = 0 := by simpa using hrep.2.2.2.2.2.2.1
    simp only [quadros_remove_vitima, hc, if_true, and_self]
  · intro v resto hp
    subst hp
    obtain ⟨hl1, hl2, _, hl4, _, _, hcount, _, _, hrange, _⟩ := hrep
    have hv := hrange v (List.mem_cons_self _ _)
    have hc : self.fifo_count ≠ 0 := by simp [hcount]
    have hval : (quadros_remove_vitima self).1 = v := by
      rw [hfst, hsel]; rfl
    have hq : self.fifo_queue.getD self.fifo_head 0 = v := by
      simpa [quadros_remove_vitima, hc] using hval
    refine ⟨hval, hv.1, hv.2, ?_, ?_, ?_, by simpa using hfila2⟩
    · simp only [quadros_remove_vitima, hc, if_false, hq]
      exact lista_getD_set_eq _ _ _ _ (by omega)
    · simp only [quadros_remove_vitima, hc, if_false, hq]
      exact lista_getD_set_eq _ _ _ _ (by omega)
    · simp only [quadros_remove_vitima, hc, if_false, hq]
      exact lista_getD_set_eq _ _ _ _ (by omega)

theorem quadros_remove_vitima_fifo_witness :
    quadros_fifo_alc quadros_ex_volta [1, 0] ∧
    quadros_ex_volta.fifo_head = 1 ∧
    quadros_fila quadros_ex_volta = [1, 0] ∧
    (quadros_remove_vitima quadros_ex_volta).1 = quadros_seleciona_vitima quadros_ex_volta ∧
    ((quadros_remove_vitima quadros_ex_volta).1 = 1 ∧ (0 : Int) ≤ 1 ∧
      (1 : Int) < quadros_ex_volta.n_quadros ∧
      (quadros_remove_vitima quadros_ex_volta).2.is_free.getD (1 : Int).toNat false = true ∧
      (quadros_remove_vitima quadros_ex_volta).2.owner_pid.getD (1 : Int).toNat 0 = -1 ∧
      (quadros_remove_vitima quadros_ex_volta).2.owner_pagina.getD (1 : Int).toNat 0 = -1 ∧
      quadros_fila (quadros_remove_vitima quadros_ex_volta).2 = [0]) :=
  have h : quadros_fifo_alc quadros_ex_volta ((([] : List Int) ++ [0] ++ [1]).tail ++ [0]) :=
    .assign _ _ 0 3 0
      (.remove _ _ (.assign _ _ 1 2 0 (.assign _ [] 0 1 0 (.cria 2 1 (fun _ => 0))
        (by decide) (by decide) (by decide)) (by decide) (by decide) (by decide)))
      (by decide) (by decide) (by decide)
  ⟨h, by decide, (quadros_remove_vitima_fifo quadros_ex_volta _ h).2.1,
    (quadros_remove_vitima_fifo quadros_ex_volta _ h).1,
    (quadros_remove_vitima_fifo quadros_ex_volta _ h).2.2.2 1 [0] (by decide)⟩

/-- C4: `quadros_free_pid` evaluated on a reachable state whose ring has wrapped
(`fifo_head = 1`, queue: frame 1 then frame 0, both occupied) for a pid that owns no frame.
Both frames stay occupied, but the queue afterwards holds frame 1 twice and frame 0 not at
all: the in-place rebuild overwrote cell 0 before reading it. -/
theorem quadros_free_pid_fila_errada :
    quadros_alcancavel quadros_ex_volta ∧
    quadros_ex_volta.fifo_head = 1 ∧
    quadros_fila quadros_ex_volta = [1, 0] ∧
    quadros_ocupado quadros_ex_volta 0 ∧ quadros_ocupado quadros_ex_volta 1 ∧
    quadros_ocupado (quadros_free_pid quadros_ex_volta 99) 0 ∧
    quadros_ocupado (quadros_free_pid quadros_ex_volta 99) 1 ∧
    quadros_fila (quadros_free_pid quadros_ex_volta 99) = [1, 1] := by
  refine ⟨?_, by decide, by decide, by decide, by decide, by decide, by decide, by decide⟩
  unfold quadros_ex_volta
  exact .assign _ _ _ _ (.remove _ (.assign _ _ _ _ (.assign _ _ _ _ (.cria 2 1 _))))

/-! ## T2/so.c: single runner -/

theorem so_muda_proc_idx (s : so_t) (i : Int) (f : processo_t → processo_t) :
    (so_muda_proc s i f).processo_em_execucao_idx = s.processo_em_execucao_idx := by
  unfold so_muda_proc
  split <;> rfl

theorem so_muda_proc_get (s : so_t) (i : Int) (f : processo_t → processo_t) (j : Nat)
    (p' : processo_t) (h : (so_muda_proc s i f).tabela_processos[j]? = some p') :
    ((i < 0 ∨ j ≠ i.toNat) ∧ s.tabela_processos[j]? = some p') ∨
      (0 ≤ i ∧ j = i.toNat ∧ ∃ p, s.tabela_processos[j]? = some p ∧ p' = f p) := by
  unfold so_muda_proc at h
  by_cases hi : i < 0
  · rw [if_pos hi] at h
    exact Or.inl ⟨Or.inl hi, h⟩
  · rw [if_neg hi] at h
    simp only [List.getElem?_set] at h
    by_cases hj : i.toNat = j
    · rw [if_pos hj] at h
      by_cases hl : i.toNat < s.tabela_processos.length
      · rw [if_pos hl] at h
        right
        refine ⟨by omega, hj.symm, s.tabela_processos[i.toNat], ?_, ?_⟩
        · rw [← hj]; exact List.getElem?_eq_getElem hl
        · have : so_proc s i = s.tabela_processos[i.toNat] := by
            unfold so_proc
            rw [List.getD_eq_getElem?_getD, List.getElem?_eq_getElem hl]
            rfl
          rw [← this]
          exact (Option.some.inj h).symm
      · rw [if_neg hl] at h
        cases h
    · rw [if_neg hj] at h
      exact Or.inl ⟨Or.inr (fun he => hj he.symm), h⟩

theorem so_sem_novo_refl (s : so_t) : so_sem_novo_executando s s :=
  ⟨rfl, fun _ p h1 h2 => ⟨p, h1, h2⟩⟩

theorem so_sem_novo_de_eq {s0 s s' : so_t}
    (h1 : s'.tabela_processos = s.tabela_processos)
    (h2 : s'.processo_em_execucao_idx = s.processo_em_execucao_idx)
    (h : so_sem_novo_executando s0 s) : so_sem_novo_executando s0 s' := by
  refine ⟨by rw [h2]; exact h.1, fun i p hp he => ?_⟩
  rw [h1] at hp
  exact h.2 i p hp he

theorem so_sem_novo_muda {s0 s : so_t} (i : Int) (f : processo_t → processo_t)
    (hf : ∀ p, (f p).estado = EXECUTANDO → p.estado = EXECUTANDO)
    (h : so_sem_novo_executando s0 s) : so_sem_novo_executando s0 (so_muda_proc s i f) := by
  refine ⟨by rw [so_muda_proc_idx]; exact h.1, fun j p' hp he => ?_⟩
  rcases so_muda_proc_get s i f j p' hp with ⟨_, h1⟩ | ⟨_, _, p, h1, rfl⟩
  · exact h.2 j p' h1 he
  · exact h.2 j p h1 (hf p he)

theorem processo_muda_estado_estado (p : processo_t) (t : Int) (novo : estado_processo_t) :
    (processo_muda_estado p t novo).estado = novo := by
  unfold processo_muda_estado
  by_cases h : p.estado = novo
  · simp only [h, if_true]
  · simp only [h, if_false]
    split_ifs <;> rfl

theorem so_sem_novo_es_le {s0 s : so_t} (ender : Int)
    (h : so_sem_novo_executando s0 s) : so_sem_novo_executando s0 (so_es_le s ender).2 :=
  so_sem_novo_de_eq rfl rfl h

theorem so_sem_novo_es_escreve {s0 s : so_t} (ender valor : Int)
    (h : so_sem_novo_executando s0 s) :
    so_sem_novo_executando s0 (so_es_escreve s ender valor).2 :=
  so_sem_novo_de_eq rfl rfl h

theorem so_sem_novo_erro {s0 s : so_t}
    (h : so_sem_novo_executando s0 s) : so_sem_novo_executando s0 (so_erro s) :=
  so_sem_novo_de_eq rfl rfl h

theorem so_sem_novo_novo_pid {s0 s : so_t}
    (h : so_sem_novo_executando s0 s) : so_sem_novo_executando s0 (so_novo_pid s).2 :=
  so_sem_novo_de_eq rfl rfl h

theorem so_sem_novo_tempo {s0 s : so_t} (K : so_const_t)
    (h : so_sem_novo_executando s0 s) : so_sem_novo_executando s0 (so_get_tempo K s).2 :=
  so_sem_novo_de_eq rfl rfl h

theorem so_sem_novo_atualiza {s0 s : so_t} (K : so_const_t) (i : Int)
    (novo : estado_processo_t) (hn : novo ≠ EXECUTANDO)
    (h : so_sem_novo_executando s0 s) :
    so_sem_novo_executando s0 (so_atualiza_estado K s i novo) := by
  unfold so_atualiza_estado
  apply so_sem_novo_muda
  · intro p hp
    rw [processo_muda_estado_estado] at hp
    exact absurd hp hn
  · exact so_sem_novo_tempo K h

theorem so_sem_novo_insere {s0 s : so_t} (K : so_const_t) (i : Int)
    (h : so_sem_novo_executando s0 s) :
    so_sem_novo_executando s0 (so_insere_em_pronto K s i) := by
  unfold so_insere_em_pronto fila_prontos_insere
  split_ifs
  · exact h
  · exact so_sem_novo_de_eq rfl rfl h
  · exact h

theorem so_sem_novo_retorna {s0 s : so_t} (i v : Int)
    (h : so_sem_novo_executando s0 s) : so_sem_novo_executando s0 (so_retorna s i v) :=
  so_sem_novo_muda i _ (fun _ hp => hp) h

theorem so_sem_novo_carrega {s0 s : so_t} (K : so_const_t) (nome : List Int)
    (h : so_sem_novo_executando s0 s) :
    so_sem_novo_executando s0 (so_carrega_programa K s nome).2 := by
  unfold so_carrega_programa
  split
  · exact h
  · dsimp only
    split_ifs
    · exact so_sem_novo_de_eq rfl rfl h
    · exact so_sem_novo_de_eq rfl rfl h

theorem so_sem_novo_inicializa {s0 s : so_t} (K : so_const_t) (i pid e : Int)
    (h : so_sem_novo_executando s0 s) :
    so_sem_novo_executando s0 (so_inicializa_metricas_processo K s i pid e) := by
  unfold so_inicializa_metricas_processo
  refine so_sem_novo_de_eq rfl rfl (so_sem_novo_muda i _ ?_ (so_sem_novo_tempo K h))
  intro p hp
  cases hp

theorem so_sem_novo_relatorio {s0 s : so_t} (K : so_const_t)
    (h : so_sem_novo_executando s0 s) :
    so_sem_novo_executando s0 (so_imprime_relatorio_final K s) := by
  unfold so_imprime_relatorio_final
  dsimp only
  split_ifs
  · exact so_sem_novo_de_eq rfl rfl h
  · exact so_sem_novo_de_eq rfl rfl h

theorem so_atualiza_idx (K : so_const_t) (s : so_t) (i : Int) (novo : estado_processo_t) :
    (so_atualiza_estado K s i novo).processo_em_execucao_idx = s.processo_em_execucao_idx := by
  unfold so_atualiza_estado
  rw [so_muda_proc_idx]
  rfl

theorem so_atualiza_get (K : so_const_t) (s : so_t) (i : Int) (novo : estado_processo_t)
    (j : Nat) (p' : processo_t)
    (h : (so_atualiza_estado K s i novo).tabela_processos[j]? = some p') :
    ((i < 0 ∨ j ≠ i.toNat) ∧ s.tabela_processos[j]? = some p') ∨
      (0 ≤ i ∧ j = i.toNat ∧ p'.estado = novo) := by
  unfold so_atualiza_estado at h
  rcases so_muda_proc_get _ i _ j p' h with ⟨h1, h2⟩ | ⟨h1, h2, p, _, rfl⟩
  · exact Or.inl ⟨h1, h2⟩
  · exact Or.inr ⟨h1, h2, processo_muda_estado_estado _ _ _⟩

theorem so_um_de_sem_novo {s s' : so_t} (h : so_um_executando s)
    (hs : so_sem_novo_executando s s') : so_um_executando s' := by
  intro i p hp he
  obtain ⟨p0, h1, h2⟩ := hs.2 i p hp he
  rw [hs.1]
  exact h i p0 h1 h2

theorem so_um_de_ninguem {s : so_t} (h : so_ninguem_executando s) : so_um_executando s :=
  fun i p hp he => absurd he (h i p hp)

theorem so_fim_ocioso_tab (K : so_const_t) (s : so_t) :
    (so_fim_ocioso K s).tabela_processos = s.tabela_processos := by
  unfold so_fim_ocioso
  split <;> rfl

theorem so_inicio_ocioso_tab (K : so_const_t) (s : so_t) :
    (so_inicio_ocioso K s).tabela_processos = s.tabela_processos := by
  unfold so_inicio_ocioso
  dsimp only
  split <;> rfl

theorem fila_prontos_remove_tab (K : so_const_t) (s : so_t) :
    (fila_prontos_remove K s).2.tabela_processos = s.tabela_processos := by
  unfold fila_prontos_remove
  split <;> rfl

theorem so_ninguem_de_tab {s s' : so_t} (h : so_ninguem_executando s)
    (ht : s'.tabela_processos = s.tabela_processos) : so_ninguem_executando s' := by
  intro i p hp
  rw [ht] at hp
  exact h i p hp

/-- The dispatch common to both schedulers: with no process running, making slot `i`
`EXECUTANDO` and storing `i` as the current process gives a single runner. -/
theorem so_um_despacho (K : so_const_t) (s : so_t) (i qr : Int)
    (h : so_ninguem_executando s) :
    so_um_executando
      { so_atualiza_estado K (so_fim_ocioso K s) i EXECUTANDO with
          processo_em_execucao_idx := i
          quantum_restante := qr } := by
  intro j p hp he
  have hp' : (so_atualiza_estado K (so_fim_ocioso K s) i EXECUTANDO).tabela_processos[j]?
      = some p := hp
  rcases so_atualiza_get K _ i _ j p hp' with ⟨_, h2⟩ | ⟨h1, h2, _⟩
  · rw [so_fim_ocioso_tab] at h2
    exact absurd he (h j p h2)
  · show i = (j : Int)
    omega

theorem so_um_inicio_ocioso (K : so_const_t) (s : so_t) (h : so_ninguem_executando s) :
    so_um_executando (so_inicio_ocioso K s) :=
  so_um_de_ninguem (so_ninguem_de_tab h (so_inicio_ocioso_tab K s))

theorem so_um_rr_proximo (K : so_const_t) (s : so_t) (h : so_ninguem_executando s) :
    so_um_executando (so_escalona_rr_proximo K s) := by
  unfold so_escalona_rr_proximo
  dsimp only
  have h2 := so_ninguem_de_tab h (fila_prontos_remove_tab K s)
  split_ifs
  · exact so_um_despacho K _ _ _ h2
  · exact so_um_inicio_ocioso K _ h2

theorem so_um_prio_proximo (K : so_const_t) (s : so_t) (h : so_ninguem_executando s) :
    so_um_executando (so_escalona_prio_proximo K s) := by
  unfold so_escalona_prio_proximo
  dsimp only
  split_ifs
  · exact so_um_despacho K _ _ _ h
  · exact so_um_inicio_ocioso K _ h

theorem so_proc_de_get (s : so_t) (j : Nat) (p : processo_t)
    (h : s.tabela_processos[j]? = some p) : so_proc s (j : Int) = p := by
  unfold so_proc
  rw [Int.toNat_ofNat, List.getD_eq_getElem?_getD, h]
  rfl

/-- After the current process has been moved to `PRONTO` nobody is running. -/
theorem so_ninguem_apos_preempcao (K : so_const_t) (s0 s : so_t)
    (h : so_um_executando s0) (hs : so_sem_novo_executando s0 s) :
    so_ninguem_executando
      (so_atualiza_estado K s s0.processo_em_execucao_idx PRONTO) := by
  intro j p hp he
  rcases so_atualiza_get K s _ _ j p hp with ⟨h1, h2⟩ | ⟨_, _, h3⟩
  · obtain ⟨p0, h4, h5⟩ := hs.2 j p h2 he
    have := h j p0 h4 h5
    omega
  · rw [h3] at he
    cases he

/-- When the current process is not `EXECUTANDO`, or there is none, nobody is running. -/
theorem so_ninguem_se_atual_nao (s : so_t) (h : so_um_executando s)
    (hn : s.processo_em_execucao_idx = -1 ∨
      (so_proc s s.processo_em_execucao_idx).estado ≠ EXECUTANDO) :
    so_ninguem_executando s := by
  intro j p hp he
  have hj := h j p hp he
  rcases hn with hn | hn
  · omega
  · rw [hj, so_proc_de_get s j p hp] at hn
    exact hn he

section sem_novo

set_option linter.unusedTactic false
set_option linter.unreachableTactic false

attribute [local irreducible] so_muda_proc so_atualiza_estado so_es_le so_es_escreve so_erro
  so_novo_pid so_get_tempo so_insere_em_pronto so_retorna so_carrega_programa
  so_inicializa_metricas_processo so_imprime_relatorio_final so_conta_irq

theorem so_sem_novo_salva {s0 s : so_t} (K : so_const_t)
    (h : so_sem_novo_executando s0 s) :
    so_sem_novo_executando s0 (so_salva_estado_da_cpu K s) := by
  unfold so_salva_estado_da_cpu
  dsimp only
  repeat (first
    | exact h
    | apply so_sem_novo_retorna
    | apply so_sem_novo_insere
    | (refine so_sem_novo_atualiza _ _ _ ?_ ?_; decide)
    | (refine so_sem_novo_muda _ _ ?_ ?_; (intro _ hp; exact hp))
    | apply so_sem_novo_inicializa
    | apply so_sem_novo_relatorio
    | apply so_sem_novo_carrega
    | apply so_sem_novo_erro
    | apply so_sem_novo_es_le
    | apply so_sem_novo_es_escreve
    | apply so_sem_novo_novo_pid
    | apply so_sem_novo_tempo
    | split)

theorem so_sem_novo_le {s0 s : so_t} (K : so_const_t)
    (h : so_sem_novo_executando s0 s) : so_sem_novo_executando s0 (so_chamada_le K s) := by
  unfold so_chamada_le
  dsimp only
  repeat (first
    | exact h
    | apply so_sem_novo_retorna
    | apply so_sem_novo_insere
    | (refine so_sem_novo_atualiza _ _ _ ?_ ?_; decide)
    | (refine so_sem_novo_muda _ _ ?_ ?_; (intro _ hp; exact hp))
    | apply so_sem_novo_inicializa
    | apply so_sem_novo_relatorio
    | apply so_sem_novo_carrega
    | apply so_sem_novo_erro
    | apply so_sem_novo_es_le
    | apply so_sem_novo_es_escreve
    | apply so_sem_novo_novo_pid
    | apply so_sem_novo_tempo
    | split)

theorem so_sem_novo_escr {s0 s : so_t} (K : so_const_t)
    (h : so_sem_novo_executando s0 s) : so_sem_novo_executando s0 (so_chamada_escr K s) := by
  unfold so_chamada_escr
  dsimp only
  repeat (first
    | exact h
    | apply so_sem_novo_retorna
    | apply so_sem_novo_insere
    | (refine so_sem_novo_atualiza _ _ _ ?_ ?_; decide)
    | (refine so_sem_novo_muda _ _ ?_ ?_; (intro _ hp; exact hp))
    | apply so_sem_novo_inicializa
    | apply so_sem_novo_relatorio
    | apply so_sem_novo_carrega
    | apply so_sem_novo_erro
    | apply so_sem_novo_es_le
    | apply so_sem_novo_es_escreve
    | apply so_sem_novo_novo_pid
    | apply so_sem_novo_tempo
    | split)

theorem so_sem_novo_cria_proc {s0 s : so_t} (K : so_const_t)
    (h : so_sem_novo_executando s0 s) :
    so_sem_novo_executando s0 (so_chamada_cria_proc K s) := by
  unfold so_chamada_cria_proc
  dsimp only
  repeat (first
    | exact h
    | apply so_sem_novo_retorna
    | apply so_sem_novo_insere
    | (refine so_sem_novo_atualiza _ _ _ ?_ ?_; decide)
    | (refine so_sem_novo_muda _ _ ?_ ?_; (intro _ hp; exact hp))
    | apply so_sem_novo_inicializa
    | apply so_sem_novo_relatorio
    | apply so_sem_novo_carrega
    | apply so_sem_novo_erro
    | apply so_sem_novo_es_le
    | apply so_sem_novo_es_escreve
    | apply so_sem_novo_novo_pid
    | apply so_sem_novo_tempo
    | split)

theorem so_sem_novo_coleta {s0 s : so_t} (K : so_const_t) (idx_alvo pid_alvo : Int)
    (h : so_sem_novo_executando s0 s) :
    so_sem_novo_executando s0 (so_mata_coleta K s idx_alvo pid_alvo) := by
  unfold so_mata_coleta
  dsimp only
  repeat (first
    | exact h
    | apply so_sem_novo_retorna
    | apply so_sem_novo_insere
    | (refine so_sem_novo_atualiza _ _ _ ?_ ?_; decide)
    | (refine so_sem_novo_muda _ _ ?_ ?_; (intro _ hp; exact hp))
    | apply so_sem_novo_inicializa
    | apply so_sem_novo_relatorio
    | apply so_sem_novo_carrega
    | apply so_sem_novo_erro
    | apply so_sem_novo_es_le
    | apply so_sem_novo_es_escreve
    | apply so_sem_novo_novo_pid
    | apply so_sem_novo_tempo
    | split)

theorem so_sem_novo_mata_proc {s0 s : so_t} (K : so_const_t)
    (h : so_sem_novo_executando s0 s) :
    so_sem_novo_executando s0 (so_chamada_mata_proc K s) := by
  unfold so_chamada_mata_proc
  dsimp only
  repeat (first
    | exact h
    | apply so_sem_novo_retorna
    | apply so_sem_novo_insere
    | (refine so_sem_novo_atualiza _ _ _ ?_ ?_; decide)
    | (refine so_sem_novo_muda _ _ ?_ ?_; (intro _ hp; exact hp))
    | apply so_sem_novo_inicializa
    | apply so_sem_novo_relatorio
    | apply so_sem_novo_carrega
    | apply so_sem_novo_coleta
    | apply so_sem_novo_erro
    | apply so_sem_novo_es_le
    | apply so_sem_novo_es_escreve
    | apply so_sem_novo_novo_pid
    | apply so_sem_novo_tempo
    | split)

theorem so_sem_novo_espera_proc {s0 s : so_t} (K : so_const_t)
    (h : so_sem_novo_executando s0 s) :
    so_sem_novo_executando s0 (so_chamada_espera_proc K s) := by
  unfold so_chamada_espera_proc
  dsimp only
  repeat (first
    | exact h
    | apply so_sem_novo_retorna
    | apply so_sem_novo_insere
    | (refine so_sem_novo_atualiza _ _ _ ?_ ?_; decide)
    | (refine so_sem_novo_muda _ _ ?_ ?_; (intro _ hp; exact hp))
    | apply so_sem_novo_inicializa
    | apply so_sem_novo_relatorio
    | apply so_sem_novo_carrega
    | apply so_sem_novo_coleta
    | apply so_sem_novo_erro
    | apply so_sem_novo_es_le
    | apply so_sem_novo_es_escreve
    | apply so_sem_novo_novo_pid
    | apply so_sem_novo_tempo
    | split)

theorem so_sem_novo_chamada_sistema {s0 s : so_t} (K : so_const_t)
    (h : so_sem_novo_executando s0 s) :
    so_sem_novo_executando s0 (so_trata_irq_chamada_sistema K s) := by
  unfold so_trata_irq_chamada_sistema
  dsimp only
  split_ifs
  · exact so_sem_novo_erro h
  · exact so_sem_novo_le K h
  · exact so_sem_novo_escr K h
  · exact so_sem_novo_cria_proc K h
  · exact so_sem_novo_mata_proc K h
  · exact so_sem_novo_espera_proc K h
  · exact so_sem_novo_atualiza K _ _ (by decide) h

theorem so_sem_novo_reset {s0 s : so_t} (K : so_const_t)
    (h : so_sem_novo_executando s0 s) : so_sem_novo_executando s0 (so_trata_reset K s) := by
  unfold so_trata_reset
  dsimp only
  repeat (first
    | exact h
    | apply so_sem_novo_retorna
    | apply so_sem_novo_insere
    | (refine so_sem_novo_atualiza _ _ _ ?_ ?_; decide)
    | (refine so_sem_novo_muda _ _ ?_ ?_; (intro _ hp; exact hp))
    | apply so_sem_novo_inicializa
    | apply so_sem_novo_relatorio
    | apply so_sem_novo_carrega
    | apply so_sem_novo_coleta
    | apply so_sem_novo_erro
    | apply so_sem_novo_es_le
    | apply so_sem_novo_es_escreve
    | apply so_sem_novo_novo_pid
    | apply so_sem_novo_tempo
    | split)

theorem so_sem_novo_err_cpu {s0 s : so_t} (K : so_const_t)
    (h : so_sem_novo_executando s0 s) :
    so_sem_novo_executando s0 (so_trata_irq_err_cpu K s) := by
  unfold so_trata_irq_err_cpu
  split_ifs
  · exact so_sem_novo_atualiza K _ _ (by decide) h
  · exact so_sem_novo_erro h

theorem so_sem_novo_quantum {s0 s : so_t}
    (h : so_sem_novo_executando s0 s) : so_sem_novo_executando s0 (so_relogio_quantum s) := by
  unfold so_relogio_quantum
  dsimp only
  split_ifs
  · exact so_sem_novo_de_eq rfl rfl h
  · exact so_sem_novo_de_eq rfl rfl h
  · exact h

theorem so_sem_novo_relogio {s0 s : so_t} (K : so_const_t)
    (h : so_sem_novo_executando s0 s) :
    so_sem_novo_executando s0 (so_trata_irq_relogio K s) := by
  unfold so_trata_irq_relogio
  dsimp only
  apply so_sem_novo_quantum
  repeat (first
    | exact h
    | apply so_sem_novo_retorna
    | apply so_sem_novo_insere
    | (refine so_sem_novo_atualiza _ _ _ ?_ ?_; decide)
    | (refine so_sem_novo_muda _ _ ?_ ?_; (intro _ hp; exact hp))
    | apply so_sem_novo_inicializa
    | apply so_sem_novo_relatorio
    | apply so_sem_novo_carrega
    | apply so_sem_novo_erro
    | apply so_sem_novo_es_le
    | apply so_sem_novo_es_escreve
    | apply so_sem_novo_novo_pid
    | apply so_sem_novo_tempo
    | split)

theorem so_sem_novo_trata_irq {s0 s : so_t} (K : so_const_t) (irq : Int)
    (h : so_sem_novo_executando s0 s) :
    so_sem_novo_executando s0 (so_trata_irq K s irq) := by
  unfold so_trata_irq
  dsimp only
  have h' : so_sem_novo_executando s0 (so_conta_irq K s irq) := by
    unfold so_conta_irq
    split_ifs
    · exact so_sem_novo_de_eq rfl rfl h
    · exact h
  split_ifs
  · exact so_sem_novo_reset K h'
  · exact so_sem_novo_chamada_sistema K h'
  · exact so_sem_novo_err_cpu K h'
  · exact so_sem_novo_relogio K h'
  · exact so_sem_novo_erro h'

theorem so_sem_novo_pendencia {s0 s : so_t} (K : so_const_t) (i : Nat)
    (h : so_sem_novo_executando s0 s) :
    so_sem_novo_executando s0 (so_trata_pendencia K s i) := by
  unfold so_trata_pendencia
  dsimp only
  repeat (first
    | exact h
    | apply so_sem_novo_retorna
    | apply so_sem_novo_insere
    | (refine so_sem_novo_atualiza _ _ _ ?_ ?_; decide)
    | (refine so_sem_novo_muda _ _ ?_ ?_; (intro _ hp; exact hp))
    | apply so_sem_novo_inicializa
    | apply so_sem_novo_relatorio
    | apply so_sem_novo_carrega
    | apply so_sem_novo_coleta
    | apply so_sem_novo_erro
    | apply so_sem_novo_es_le
    | apply so_sem_novo_es_escreve
    | apply so_sem_novo_novo_pid
    | apply so_sem_novo_tempo
    | split)

theorem so_sem_novo_pendencias {s0 s : so_t} (K : so_const_t)
    (h : so_sem_novo_executando s0 s) :
    so_sem_novo_executando s0 (so_trata_pendencias K s) := by
  unfold so_trata_pendencias
  generalize List.range K.MAX_PROCESSOS = l
  induction l generalizing s with
  | nil => exact h
  | cons i l ih => exact ih (so_sem_novo_pendencia K i h)

theorem so_sem_novo_despacha {s0 s : so_t} (K : so_const_t)
    (h : so_sem_novo_executando s0 s) :
    so_sem_novo_executando s0 (so_despacha K s).2 := by
  unfold so_despacha
  dsimp only
  split_ifs
  · exact h
  · exact so_sem_novo_de_eq rfl rfl h
  · exact so_sem_novo_de_eq rfl rfl h

end sem_novo

theorem so_sem_novo_registra {s0 s : so_t} (i : Int)
    (h : so_sem_novo_executando s0 s) :
    so_sem_novo_executando s0 (so_registra_preempcao s i) := by
  unfold so_registra_preempcao
  exact so_sem_novo_de_eq rfl rfl (so_sem_novo_muda i _ (fun _ hp => hp) h)

theorem so_sem_novo_calcula {s0 s : so_t} (i : Int)
    (h : so_sem_novo_executando s0 s) :
    so_sem_novo_executando s0 (so_calcula_prioridade s i) := by
  unfold so_calcula_prioridade
  exact so_sem_novo_muda i _ (fun _ hp => hp) h

theorem so_insere_tab (K : so_const_t) (s : so_t) (i : Int) :
    (so_insere_em_pronto K s i).tabela_processos = s.tabela_processos := by
  unfold so_insere_em_pronto fila_prontos_insere
  split_ifs <;> rfl

theorem so_um_escalona_rr (K : so_const_t) (s : so_t) (h : so_um_executando s) :
    so_um_executando (so_escalona_rr K s) := by
  unfold so_escalona_rr
  dsimp only
  split_ifs with h1 h2 h3
  · apply so_um_rr_proximo
    have hn := so_ninguem_apos_preempcao K s _ h
      (so_sem_novo_registra s.processo_em_execucao_idx (so_sem_novo_refl s))
    exact so_ninguem_de_tab hn (so_insere_tab K _ _)
  · apply so_um_rr_proximo
    exact so_ninguem_de_tab (so_ninguem_se_atual_nao s h (Or.inr h2.2)) rfl
  · exact so_um_de_sem_novo h (so_sem_novo_de_eq rfl rfl (so_sem_novo_refl s))
  · apply so_um_rr_proximo
    refine so_ninguem_de_tab (so_ninguem_se_atual_nao s h (Or.inl ?_)) rfl
    exact not_not.mp h3

theorem so_um_escalona_prio_atual (K : so_const_t) (s : so_t) (h : so_um_executando s) :
    so_um_executando (so_escalona_prio_atual K s) ∧
    ((so_escalona_prio_atual K s).processo_em_execucao_idx = -1 →
      so_ninguem_executando (so_escalona_prio_atual K s)) := by
  unfold so_escalona_prio_atual
  dsimp only
  split_ifs with h1 h2 h3
  · have hn : so_ninguem_executando (so_calcula_prioridade s s.processo_em_execucao_idx) := by
      intro j p hp he
      obtain ⟨p0, h4, h5⟩ :=
        (so_sem_novo_calcula s.processo_em_execucao_idx (so_sem_novo_refl s)).2 j p hp he
      have hj := h j p0 h4 h5
      rw [hj, so_proc_de_get s j p0 h4, h5] at h2
      rcases h2 with h2 | h2 <;> cases h2
    exact ⟨so_um_de_ninguem (so_ninguem_de_tab hn rfl), fun _ => so_ninguem_de_tab hn rfl⟩
  · have hs := so_sem_novo_registra s.processo_em_execucao_idx
      (so_sem_novo_calcula s.processo_em_execucao_idx (so_sem_novo_refl s))
    have hn := so_ninguem_apos_preempcao K s _ h hs
    exact ⟨so_um_de_ninguem (so_ninguem_de_tab hn rfl), fun _ => so_ninguem_de_tab hn rfl⟩
  · refine ⟨so_um_de_sem_novo h (so_sem_novo_de_eq rfl rfl (so_sem_novo_refl s)), fun hc => ?_⟩
    exact absurd hc h1
  · exact ⟨h, fun hc => so_ninguem_se_atual_nao s h (Or.inl hc)⟩

theorem so_um_escalona_prio (K : so_const_t) (s : so_t) (h : so_um_executando s) :
    so_um_executando (so_escalona_prio K s) := by
  unfold so_escalona_prio
  dsimp only
  have h2 := so_um_escalona_prio_atual K s h
  split_ifs with hc
  · exact so_um_prio_proximo K _ (h2.2 hc)
  · exact h2.1

theorem so_um_escalona (K : so_const_t) (s : so_t) (h : so_um_executando s) :
    so_um_executando (so_escalona K s) := by
  unfold so_escalona
  split_ifs
  · exact so_um_escalona_rr K s h
  · exact so_um_escalona_prio K s h

theorem so_um_cria (K : so_const_t) (modo : tipo_escalonador_t) (mem : mem_t) (es : es_t)
    (lixo_proc : Nat → processo_t) (lixo_fila : Nat → Int) :
    so_um_executando (so_cria_modo K modo mem es lixo_proc lixo_fila) := by
  intro i p hp he
  have hp' : ((List.range K.MAX_PROCESSOS).map
      (fun i => { lixo_proc i with estado := LIVRE }))[i]? = some p := hp
  rw [List.getElem?_map] at hp'
  cases hr : (List.range K.MAX_PROCESSOS)[i]? with
  | none => rw [hr] at hp'; cases hp'
  | some k =>
    rw [hr] at hp'
    simp only [Option.map_some'] at hp'
    rw [← Option.some.inj hp'] at he
    cases he

theorem so_um_trap (K : so_const_t) (s : so_t) (irq : Int) (h : so_um_executando s) :
    so_um_executando (so_trata_interrupcao K s irq).2 := by
  unfold so_trata_interrupcao
  dsimp only
  have h1 := so_um_de_sem_novo h
    (so_sem_novo_pendencias K (so_sem_novo_trata_irq K irq
      (so_sem_novo_salva K (so_sem_novo_refl s))))
  exact so_um_de_sem_novo (so_um_escalona K _ h1) (so_sem_novo_despacha K (so_sem_novo_refl _))

theorem so_um_alcancavel (K : so_const_t) (self : so_t) (h : so_alcancavel K self) :
    so_um_executando self := by
  induction h with
  | cria modo mem es lixo_proc lixo_fila => exact so_um_cria K modo mem es lixo_proc lixo_fila
  | trap s irq mem es _ ih =>
    apply so_um_trap
    exact ih

/-- C8 (single runner): in every kernel state reachable from `so_cria` by any sequence of
traps (any IRQ codes, any memory and device responses), in either scheduler mode, at most
one PCB is in state `EXECUTANDO`, and a PCB in that state sits in the table slot
`processo_em_execucao_idx`. -/
theorem so_single_runner (K : so_const_t) (self : so_t) (h : so_alcancavel K self) :
    (∀ (i j : Nat) (p q : processo_t),
      self.tabela_processos[i]? = some p → self.tabela_processos[j]? = some q →
      p.estado = EXECUTANDO → q.estado = EXECUTANDO → i = j) ∧
    (∀ (i : Nat) (p : processo_t), self.tabela_processos[i]? = some p →
      p.estado = EXECUTANDO → self.processo_em_execucao_idx = (i : Int)) := by
  have hu := so_um_alcancavel K self h
  refine ⟨fun i j p q hp hq hpe hqe => ?_, hu⟩
  have h1 := hu i p hp hpe
  have h2 := hu j q hq hqe
  omega

theorem so_single_runner_witness :
    ((∀ (i j : Nat) (p q : processo_t),
      (so_ex_boot ESCAL_CIRCULAR).tabela_processos[i]? = some p →
      (so_ex_boot ESCAL_CIRCULAR).tabela_processos[j]? = some q →
      p.estado = EXECUTANDO → q.estado = EXECUTANDO → i = j) ∧
    (∀ (i : Nat) (p : processo_t), (so_ex_boot ESCAL_CIRCULAR).tabela_processos[i]? = some p →
      p.estado = EXECUTANDO → (so_ex_boot ESCAL_CIRCULAR).processo_em_execucao_idx = (i : Int))) ∧
    (so_proc (so_ex_boot ESCAL_CIRCULAR) 0).estado = EXECUTANDO :=
  ⟨so_single_runner so_const_ex (so_ex_boot ESCAL_CIRCULAR)
    (so_alcancavel.trap _ _ _ _ (so_alcancavel.cria _ _ _ _ _)), by decide⟩

/-! ## T2/so.c: the ready queue and the current process, evaluated -/

set_option maxRecDepth 100000 in
/-- C9: round-robin, `init` spawns a process (pid 2, slot 1, `PRONTO`, queued) and kills
it with KILL(2).  After that trap slot 1 is `TERMINADO` and its index is still in the ready
queue; when `init` then dies of a CPU error the scheduler takes index 1 from the queue and
makes the killed process `EXECUTANDO`. -/
theorem so_fila_guarda_processo_morto :
    so_alcancavel so_const_ex so_ex_mata_pronto ∧
    so_ex_mata_pronto.escalonador_atual = ESCAL_CIRCULAR ∧
    (so_proc so_ex_cria_filho 1).estado = PRONTO ∧
    (so_proc so_ex_cria_filho 1).pid = 2 ∧
    so_fila so_const_ex so_ex_cria_filho = [1] ∧
    (so_proc so_ex_mata_pronto 1).estado = TERMINADO ∧
    so_fila so_const_ex so_ex_mata_pronto = [1] ∧
    (so_proc (so_trap_ex so_ex_mata_pronto 1 0 0) 1).estado = EXECUTANDO ∧
    (so_trap_ex so_ex_mata_pronto 1 0 0).processo_em_execucao_idx = 1 := by
  refine ⟨?_, by decide, by decide, by decide, by decide, by decide, by decide, by decide,
    by decide⟩
  exact .trap _ _ _ _ (.trap _ _ _ _ (.trap _ _ _ _ (.cria _ _ _ _ _)))

/-- C10: priority mode, `init` is running and the CPU reports an error.  The handler frees
the PCB (`LIVRE`), and after the scheduler has run the freed PCB is still the selected
process and the trap returns 0 (resume); in round-robin mode the same trap leaves no
process selected. -/
theorem so_prio_mantem_processo_livre :
    so_alcancavel so_const_ex so_ex_erro_cpu ∧
    so_ex_erro_cpu.escalonador_atual = ESCAL_PRIORIDADE ∧
    (so_ex_boot ESCAL_PRIORIDADE).processo_em_execucao_idx = 0 ∧
    (so_proc (so_ex_boot ESCAL_PRIORIDADE) 0).estado = EXECUTANDO ∧
    so_ex_erro_cpu.processo_em_execucao_idx = 0 ∧
    (so_proc so_ex_erro_cpu 0).estado = LIVRE ∧
    (so_trata_interrupcao so_const_ex
      { so_ex_boot ESCAL_PRIORIDADE with mem := mem_ex 0 0, es := es_ex } 1).1 = 0 ∧
    (so_trap_ex (so_ex_boot ESCAL_CIRCULAR) 1 0 0).processo_em_execucao_idx = -1 := by
  refine ⟨?_, by decide!, by decide!, by decide!, by decide!, by decide!, by decide!,
    by decide!⟩
  exact .trap _ _ _ _ (.trap _ _ _ _ (.cria _ _ _ _ _))

/-! ## T2/so.c: reading the table after a write -/

theorem so_proc_get (s : so_t) (j : Nat) (h : j < s.tabela_processos.length) :
    s.tabela_processos[j]? = some (so_proc s (j : Int)) := by
  unfold so_proc
  rw [Int.toNat_ofNat, List.getD_eq_getElem?_getD, List.getElem?_eq_getElem h]
  rfl

theorem so_proc_fora (s : so_t) (j : Nat) (h : s.tabela_processos.length ≤ j) :
    so_proc s (j : Int) = default := by
  unfold so_proc
  rw [Int.toNat_ofNat, List.getD_eq_getElem?_getD, List.getElem?_eq_none_iff.mpr h]
  rfl

theorem so_muda_proc_length (s : so_t) (i : Int) (f : processo_t → processo_t) :
    (so_muda_proc s i f).tabela_processos.length = s.tabela_processos.length := by
  unfold so_muda_proc
  split
  · rfl
  · exact List.length_set _ _ _

theorem so_proc_muda (s : so_t) (i : Int) (f : processo_t → processo_t) (j : Nat) :
    so_proc (so_muda_proc s i f) (j : Int) =
      if 0 ≤ i ∧ i.toNat = j ∧ j < s.tabela_processos.length then f (so_proc s (j : Int))
      else so_proc s (j : Int) := by
  by_cases hj : j < s.tabela_processos.length
  · have hj' : j < (so_muda_proc s i f).tabela_processos.length := by
      rw [so_muda_proc_length]; exact hj
    have hget := so_proc_get _ j hj'
    rcases so_muda_proc_get s i f j _ hget with ⟨h1, h2⟩ | ⟨h1, h2, p, h3, h4⟩
    · rw [if_neg (by omega)]
      rw [so_proc_get s j hj] at h2
      exact (Option.some.inj h2).symm
    · rw [if_pos ⟨h1, h2.symm, hj⟩, h4]
      rw [so_proc_get s j hj] at h3
      rw [Option.some.inj h3]
  · rw [if_neg (by omega), so_proc_fora s j (by omega),
      so_proc_fora _ j (by rw [so_muda_proc_length]; omega)]

theorem so_proc_muda_mesmo (s : so_t) (f : processo_t → processo_t) (j : Nat)
    (h : j < s.tabela_processos.length) :
    so_proc (so_muda_proc s (j : Int) f) (j : Int) = f (so_proc s (j : Int)) := by
  rw [so_proc_muda, if_pos ⟨by omega, by omega, h⟩]

theorem so_proc_muda_outro (s : so_t) (i : Int) (f : processo_t → processo_t) (j : Nat)
    (h : i ≠ (j : Int)) :
    so_proc (so_muda_proc s i f) (j : Int) = so_proc s (j : Int) := by
  rw [so_proc_muda, if_neg (by omega)]

theorem so_proc_tempo (K : so_const_t) (s : so_t) (j : Int) :
    so_proc (so_get_tempo K s).2 j = so_proc s j := rfl

theorem so_atualiza_length (K : so_const_t) (s : so_t) (i : Int) (novo : estado_processo_t) :
    (so_atualiza_estado K s i novo).tabela_processos.length = s.tabela_processos.length := by
  unfold so_atualiza_estado
  rw [so_muda_proc_length]
  rfl

theorem so_proc_atualiza (K : so_const_t) (s : so_t) (i : Int) (novo : estado_processo_t)
    (j : Nat) :
    so_proc (so_atualiza_estado K s i novo) (j : Int) =
      if 0 ≤ i ∧ i.toNat = j ∧ j < s.tabela_processos.length then
        processo_muda_estado (so_proc s (j : Int)) (so_get_tempo K s).1 novo
      else so_proc s (j : Int) := by
  unfold so_atualiza_estado
  rw [so_proc_muda]
  rfl

theorem so_proc_atualiza_mesmo (K : so_const_t) (s : so_t) (novo : estado_processo_t)
    (j : Nat) (h : j < s.tabela_processos.length) :
    so_proc (so_atualiza_estado K s (j : Int) novo) (j : Int) =
      processo_muda_estado (so_proc s (j : Int)) (so_get_tempo K s).1 novo := by
  rw [so_proc_atualiza, if_pos ⟨by omega, by omega, h⟩]

theorem so_proc_atualiza_outro (K : so_const_t) (s : so_t) (i : Int)
    (novo : estado_processo_t) (j : Nat) (h : i ≠ (j : Int)) :
    so_proc (so_atualiza_estado K s i novo) (j : Int) = so_proc s (j : Int) := by
  rw [so_proc_atualiza, if_neg (by omega)]

theorem so_proc_retorna (s : so_t) (i v : Int) (j : Nat) :
    so_proc (so_retorna s i v) (j : Int) =
      if 0 ≤ i ∧ i.toNat = j ∧ j < s.tabela_processos.length then
        { so_proc s (j : Int) with
            estado_cpu := { (so_proc s (j : Int)).estado_cpu with regA := v } }
      else so_proc s (j : Int) := by
  unfold so_retorna
  rw [so_proc_muda]

theorem so_proc_insere (K : so_const_t) (s : so_t) (i j : Int) :
    so_proc (so_insere_em_pronto K s i) j = so_proc s j := by
  unfold so_proc
  rw [so_insere_tab]

theorem so_proc_relatorio (K : so_const_t) (s : so_t) (j : Int) :
    so_proc (so_imprime_relatorio_final K s) j = so_proc s j := by
  unfold so_imprime_relatorio_final
  dsimp only
  split <;> rfl

/-- The part of a PCB that `processo_muda_estado` leaves alone. -/
theorem processo_muda_estado_resto (p : processo_t) (t : Int) (novo : estado_processo_t) :
    (processo_muda_estado p t novo).pid = p.pid ∧
    (processo_muda_estado p t novo).estado_cpu = p.estado_cpu ∧
    (processo_muda_estado p t novo).motivo_bloqueio = p.motivo_bloqueio ∧
    (processo_muda_estado p t novo).pid_esperado = p.pid_esperado ∧
    (processo_muda_estado p t novo).dispositivo_esperado = p.dispositivo_esperado ∧
    (processo_muda_estado p t novo).terminal = p.terminal ∧
    (processo_muda_estado p t novo).prioridade = p.prioridade ∧
    (processo_muda_estado p t novo).tempo_criacao = p.tempo_criacao ∧
    (processo_muda_estado p t novo).num_preempcoes = p.num_preempcoes := by
  unfold processo_muda_estado
  dsimp only
  split_ifs <;> simp

/-! ## T2/so.c: refused system calls -/

theorem so_retorna_tab (s : so_t) (c : Nat) (v : Int) :
    (so_retorna s (c : Int) v).tabela_processos =
      s.tabela_processos.set c
        { so_proc s (c : Int) with
            estado_cpu := { (so_proc s (c : Int)).estado_cpu with regA := v } } := by
  unfold so_retorna so_muda_proc
  rw [if_neg (by omega)]
  rfl

theorem so_retorna_resto (s : so_t) (i v : Int) :
    (so_retorna s i v).fila_prontos = s.fila_prontos ∧
    (so_retorna s i v).fila_prontos_inicio = s.fila_prontos_inicio ∧
    (so_retorna s i v).fila_prontos_fim = s.fila_prontos_fim ∧
    (so_retorna s i v).fila_prontos_tamanho = s.fila_prontos_tamanho ∧
    (so_retorna s i v).metricas = s.metricas ∧
    (so_retorna s i v).processo_em_execucao_idx = s.processo_em_execucao_idx ∧
    (so_retorna s i v).proximo_pid = s.proximo_pid ∧
    (so_retorna s i v).erro_interno = s.erro_interno := by
  unfold so_retorna so_muda_proc
  split <;> exact ⟨rfl, rfl, rfl, rfl, rfl, rfl, rfl, rfl⟩

theorem vivo_iff (p : processo_t) :
    processo_vivo p ↔ (p.estado ≠ LIVRE ∧ p.estado ≠ TERMINADO) := by
  unfold processo_vivo
  cases p.estado <;> simp

/-- C16 (KILL refusal): the current process (slot `c`) issues KILL for the pid `p` (its
register X, or its own pid when X is 0) and no PCB that is ready, running or blocked has
pid `p`.  Then `so_chamada_mata_proc` only stores -1 in the register A of the caller: no
other field of any PCB changes (state, block reason and the per-process metrics included),
and the ready queue and the global metrics are untouched. -/
theorem so_mata_proc_recusa (K : so_const_t) (s : so_t) (c : Nat)
    (hidx : s.processo_em_execucao_idx = (c : Int)) (hc : c < s.tabela_processos.length)
    (hnone : ∀ i : Nat, i < K.MAX_PROCESSOS → processo_vivo (so_proc s (i : Int)) →
      (so_proc s (i : Int)).pid ≠ so_mata_pid_alvo s) :
    (so_proc (so_chamada_mata_proc K s) (c : Int)).estado_cpu.regA = -1 ∧
    (so_chamada_mata_proc K s).tabela_processos =
      s.tabela_processos.set c
        { so_proc s (c : Int) with
            estado_cpu := { (so_proc s (c : Int)).estado_cpu with regA := -1 } } ∧
    (∀ j : Nat, (so_proc (so_chamada_mata_proc K s) (j : Int)).estado =
        (so_proc s (j : Int)).estado ∧
      (so_proc (so_chamada_mata_proc K s) (j : Int)).motivo_bloqueio =
        (so_proc s (j : Int)).motivo_bloqueio) ∧
    (so_chamada_mata_proc K s).fila_prontos = s.fila_prontos ∧
    (so_chamada_mata_proc K s).fila_prontos_inicio = s.fila_prontos_inicio ∧
    (so_chamada_mata_proc K s).fila_prontos_fim = s.fila_prontos_fim ∧
    (so_chamada_mata_proc K s).fila_prontos_tamanho = s.fila_prontos_tamanho ∧
    (so_chamada_mata_proc K s).metricas = s.metricas := by
  have hfind : (List.range K.MAX_PROCESSOS).find? (fun (i : Nat) =>
      (so_proc s (i : Int)).estado ≠ LIVRE ∧ (so_proc s (i : Int)).estado ≠ TERMINADO ∧
      (so_proc s (i : Int)).pid = so_mata_pid_alvo s) = none := by
    rw [List.find?_eq_none]
    intro i hi
    have hi' := List.mem_range.mp hi
    simp only [decide_eq_true_eq, not_and]
    intro h1 h2 h3
    exact hnone i hi' ((vivo_iff _).mpr ⟨h1, h2⟩) h3
  have heq : so_chamada_mata_proc K s = so_retorna s (c : Int) (-1) := by
    unfold so_chamada_mata_proc
    unfold so_mata_pid_alvo at hfind
    dsimp only
    rw [if_neg (by omega), hfind, hidx]
  rw [heq]
  have hr := so_retorna_resto s (c : Int) (-1)
  refine ⟨?_, so_retorna_tab s c (-1), fun j => ?_, hr.1, hr.2.1, hr.2.2.1, hr.2.2.2.1,
    hr.2.2.2.2.1⟩
  · rw [so_proc_retorna, if_pos ⟨by omega, by omega, hc⟩]
  · rw [so_proc_retorna]
    split <;> exact ⟨rfl, rfl⟩

theorem so_mata_proc_recusa_witness :
    so_ex_mata_ausente.processo_em_execucao_idx = ((0 : Nat) : Int) ∧
    so_mata_pid_alvo so_ex_mata_ausente = 5 ∧
    (so_proc (so_chamada_mata_proc so_const_ex so_ex_mata_ausente)
      ((0 : Nat) : Int)).estado_cpu.regA = -1 ∧
    (so_chamada_mata_proc so_const_ex so_ex_mata_ausente).metricas =
      so_ex_mata_ausente.metricas :=
  ⟨by decide, by decide,
    (so_mata_proc_recusa so_const_ex so_ex_mata_ausente 0 (by decide) (by decide)
      (by decide)).1,
    (so_mata_proc_recusa so_const_ex so_ex_mata_ausente 0 (by decide) (by decide)
      (by decide)).2.2.2.2.2.2.2⟩

/-- C20 (WAIT refusal): the current process (slot `c`) issues WAIT with X equal to its own
pid, or X ≤ 0, or X the pid of no PCB that is not `LIVRE`.  Then `so_chamada_espera_proc`
only stores -1 in the register A of the caller: the caller keeps its state (it stays
`EXECUTANDO` when it was) and its block reason, no other PCB changes, and the ready queue
is untouched. -/
theorem so_espera_proc_recusa (K : so_const_t) (s : so_t) (c : Nat)
    (hidx : s.processo_em_execucao_idx = (c : Int)) (hc : c < s.tabela_processos.length)
    (hrec : (so_proc s (c : Int)).estado_cpu.regX = (so_proc s (c : Int)).pid ∨
      (so_proc s (c : Int)).estado_cpu.regX ≤ 0 ∨
      ∀ i : Nat, i < K.MAX_PROCESSOS → (so_proc s (i : Int)).estado ≠ LIVRE →
        (so_proc s (i : Int)).pid ≠ (so_proc s (c : Int)).estado_cpu.regX) :
    (so_proc (so_chamada_espera_proc K s) (c : Int)).estado_cpu.regA = -1 ∧
    (so_proc (so_chamada_espera_proc K s) (c : Int)).estado = (so_proc s (c : Int)).estado ∧
    (so_proc (so_chamada_espera_proc K s) (c : Int)).motivo_bloqueio =
      (so_proc s (c : Int)).motivo_bloqueio ∧
    (so_chamada_espera_proc K s).tabela_processos =
      s.tabela_processos.set c
        { so_proc s (c : Int) with
            estado_cpu := { (so_proc s (c : Int)).estado_cpu with regA := -1 } } ∧
    (∀ j : Nat, j ≠ c →
      so_proc (so_chamada_espera_proc K s) (j : Int) = so_proc s (j : Int)) ∧
    (so_chamada_espera_proc K s).fila_prontos = s.fila_prontos ∧
    (so_chamada_espera_proc K s).fila_prontos_inicio = s.fila_prontos_inicio ∧
    (so_chamada_espera_proc K s).fila_prontos_fim = s.fila_prontos_fim ∧
    (so_chamada_espera_proc K s).fila_prontos_tamanho = s.fila_prontos_tamanho := by
  have heq : so_chamada_espera_proc K s = so_retorna s (c : Int) (-1) := by
    unfold so_chamada_espera_proc
    dsimp only
    rw [if_neg (by omega), hidx]
    by_cases h1 : (so_proc s (c : Int)).estado_cpu.regX = (so_proc s (c : Int)).pid
    · rw [if_pos h1]
    · rw [if_neg h1]
      by_cases h2 : (so_proc s (c : Int)).estado_cpu.regX ≤ 0
      · rw [if_pos h2]
      · rw [if_neg h2]
        have h3 : ∀ i : Nat, i < K.MAX_PROCESSOS → (so_proc s (i : Int)).estado ≠ LIVRE →
            (so_proc s (i : Int)).pid ≠ (so_proc s (c : Int)).estado_cpu.regX := by
          rcases hrec with h | h | h
          · exact absurd h h1
          · exact absurd h h2
          · exact h
        have hfind : (List.range K.MAX_PROCESSOS).find? (fun (i : Nat) =>
            (so_proc s (i : Int)).estado ≠ LIVRE ∧
            (so_proc s (i : Int)).pid = (so_proc s (c : Int)).estado_cpu.regX) = none := by
          rw [List.find?_eq_none]
          intro i hi
          simp only [decide_eq_true_eq, not_and]
          exact h3 i (List.mem_range.mp hi)
        rw [hfind]
  rw [heq]
  have hr := so_retorna_resto s (c : Int) (-1)
  refine ⟨?_, ?_, ?_, so_retorna_tab s c (-1), fun j hj => ?_, hr.1, hr.2.1, hr.2.2.1,
    hr.2.2.2.1⟩
  · rw [so_proc_retorna, if_pos ⟨by omega, by omega, hc⟩]
  · rw [so_proc_retorna, if_pos ⟨by omega, by omega, hc⟩]
  · rw [so_proc_retorna, if_pos ⟨by omega, by omega, hc⟩]
  · rw [so_proc_retorna, if_neg (by omega)]

theorem so_espera_proc_recusa_witness :
    so_ex_espera_ausente.processo_em_execucao_idx = ((0 : Nat) : Int) ∧
    (so_proc so_ex_espera_ausente ((0 : Nat) : Int)).estado_cpu.regX = 5 ∧
    (so_proc (so_chamada_espera_proc so_const_ex so_ex_espera_ausente)
      ((0 : Nat) : Int)).estado_cpu.regA = -1 ∧
    (so_proc (so_chamada_espera_proc so_const_ex so_ex_espera_ausente)
      ((0 : Nat) : Int)).estado = EXECUTANDO :=
  ⟨by decide, by decide,
    (so_espera_proc_recusa so_const_ex so_ex_espera_ausente 0 (by decide) (by decide)
      (Or.inr (Or.inr (by decide)))).1,
    (so_espera_proc_recusa so_const_ex so_ex_espera_ausente 0 (by decide) (by decide)
      (Or.inr (Or.inr (by decide)))).2.1.trans (by decide)⟩

/-! ## T2/so.c: termination without reaping, and the KILL of init -/

theorem so_muda_proc_erro (s : so_t) (i : Int) (f : processo_t → processo_t) :
    (so_muda_proc s i f).erro_interno = s.erro_interno := by
  unfold so_muda_proc
  split <;> rfl

theorem so_atualiza_erro (K : so_const_t) (s : so_t) (i : Int) (novo : estado_processo_t) :
    (so_atualiza_estado K s i novo).erro_interno = s.erro_interno := by
  unfold so_atualiza_estado
  rw [so_muda_proc_erro]
  rfl

theorem so_insere_erro (K : so_const_t) (s : so_t) (i : Int) :
    (so_insere_em_pronto K s i).erro_interno = s.erro_interno := by
  unfold so_insere_em_pronto fila_prontos_insere
  split_ifs <;> rfl

theorem so_coleta_erro (K : so_const_t) (s : so_t) (idx_alvo pid_alvo : Int) :
    (so_mata_coleta K s idx_alvo pid_alvo).erro_interno = s.erro_interno := by
  unfold so_mata_coleta
  split
  · rfl
  · dsimp only
    rw [so_atualiza_erro, so_insere_erro, so_muda_proc_erro, so_atualiza_erro]

theorem so_relatorio_erro (K : so_const_t) (s : so_t) :
    (so_imprime_relatorio_final K s).erro_interno = s.erro_interno := by
  unfold so_imprime_relatorio_final
  dsimp only
  split <;> rfl

set_option maxRecDepth 100000 in
/-- C19 as stated fails: round-robin, `init` (pid 1) has spawned pid 2 and kills pid 1.
The KILL succeeds (`init` is `TERMINADO`), `erro_interno` is still false, and the trap
dispatches pid 2 and returns 0 (resume). -/
theorem so_mata_init_contraexemplo :
    so_alcancavel so_const_ex so_ex_mata_init ∧
    (so_proc so_ex_cria_filho 0).pid = 1 ∧
    (so_proc so_ex_cria_filho 0).estado = EXECUTANDO ∧
    (so_proc so_ex_mata_init 0).estado = TERMINADO ∧
    (so_proc so_ex_mata_init 0).estado_cpu.regA = 0 ∧
    so_ex_mata_init.erro_interno = false ∧
    so_ex_mata_init.processo_em_execucao_idx = 1 ∧
    (so_proc so_ex_mata_init 1).estado = EXECUTANDO ∧
    (so_trata_interrupcao so_const_ex
      { so_ex_cria_filho with mem := mem_ex 8 1, es := es_ex } 2).1 = 0 := by
  refine ⟨?_, by decide, by decide, by decide, by decide, by decide, by decide, by decide,
    by decide⟩
  exact .trap _ _ _ _ (.trap _ _ _ _ (.trap _ _ _ _ (.cria _ _ _ _ _)))

/-- C19 (amended): a KILL never changes `erro_interno`, whatever its target; when the pid
it aims at is 1 and a live PCB has that pid, the handler ends with
`so_imprime_relatorio_final` (the final report), run on a state whose `erro_interno` is the
one the handler started with, so no shutdown is requested. -/
theorem so_mata_proc_nao_para (K : so_const_t) (s : so_t) :
    (so_chamada_mata_proc K s).erro_interno = s.erro_interno ∧
    (s.processo_em_execucao_idx ≠ -1 → so_mata_pid_alvo s = 1 →
      (∃ i : Nat, i < K.MAX_PROCESSOS ∧ processo_vivo (so_proc s (i : Int)) ∧
        (so_proc s (i : Int)).pid = 1) →
      ∃ m, so_chamada_mata_proc K s = so_imprime_relatorio_final K m ∧
        m.erro_interno = s.erro_interno) := by
  constructor
  · unfold so_chamada_mata_proc so_retorna
    dsimp only
    split_ifs
    · rfl
    · split
      · rw [so_muda_proc_erro]
      · rw [so_relatorio_erro, so_muda_proc_erro, so_coleta_erro, so_atualiza_erro]
    · split
      · rw [so_muda_proc_erro]
      · rw [so_muda_proc_erro, so_coleta_erro, so_atualiza_erro]
    · split
      · rw [so_muda_proc_erro]
      · rw [so_relatorio_erro, so_muda_proc_erro, so_coleta_erro, so_atualiza_erro]
    · split
      · rw [so_muda_proc_erro]
      · rw [so_muda_proc_erro, so_coleta_erro, so_atualiza_erro]
  · intro hidx hp ⟨i, hi, hv, hpid⟩
    have hfind : (List.range K.MAX_PROCESSOS).find? (fun (i : Nat) =>
        (so_proc s (i : Int)).estado ≠ LIVRE ∧ (so_proc s (i : Int)).estado ≠ TERMINADO ∧
        (so_proc s (i : Int)).pid = so_mata_pid_alvo s) ≠ none := by
      rw [Ne, List.find?_eq_none]
      intro hall
      have := hall i (List.mem_range.mpr hi)
      simp only [decide_eq_true_eq, not_and] at this
      exact this ((vivo_iff _).mp hv).1 ((vivo_iff _).mp hv).2 (by rw [hpid, hp])
    unfold so_chamada_mata_proc
    unfold so_mata_pid_alvo at hfind hp
    dsimp only
    rw [if_neg hidx]
    split
    · rename_i heq
      exact absurd heq hfind
    · rw [if_pos hp]
      refine ⟨_, rfl, ?_⟩
      unfold so_retorna
      rw [so_muda_proc_erro, so_coleta_erro, so_atualiza_erro]

theorem so_mata_proc_nao_para_witness :
    (so_chamada_mata_proc so_const_ex (so_ex_entrada so_ex_cria_filho 8 1)).erro_interno =
      (so_ex_entrada so_ex_cria_filho 8 1).erro_interno ∧
    ∃ m, so_chamada_mata_proc so_const_ex (so_ex_entrada so_ex_cria_filho 8 1) =
        so_imprime_relatorio_final so_const_ex m ∧
      m.erro_interno = (so_ex_entrada so_ex_cria_filho 8 1).erro_interno :=
  ⟨(so_mata_proc_nao_para so_const_ex (so_ex_entrada so_ex_cria_filho 8 1)).1,
    (so_mata_proc_nao_para so_const_ex (so_ex_entrada so_ex_cria_filho 8 1)).2
      (by decide) (by decide) ⟨0, by decide, by decide, by decide⟩⟩

set_option maxRecDepth 100000 in
/-- C18 as stated fails: round-robin, `init` (slot 0) is blocked in WAIT(2) and pid 2
(slot 1) is running.  When pid 2 dies of a CPU error it ends `LIVRE`, when it dies of an
unknown system call (A = 99) it ends `TERMINADO`, and in both traps `init` stays
`BLOQUEADO` waiting for pid 2; killed by KILL instead, pid 2 is reaped and `init` woken. -/
theorem so_termina_sem_acordar_contraexemplo :
    so_alcancavel so_const_ex so_ex_espera_filho ∧
    processo_espera (so_proc so_ex_espera_filho 0) 2 ∧
    so_ex_espera_filho.processo_em_execucao_idx = 1 ∧
    (so_proc so_ex_espera_filho 1).pid = 2 ∧
    (so_proc so_ex_espera_filho 1).estado = EXECUTANDO ∧
    (so_proc (so_trap_ex so_ex_espera_filho 1 0 0) 1).estado = LIVRE ∧
    processo_espera (so_proc (so_trap_ex so_ex_espera_filho 1 0 0) 0) 2 ∧
    so_chamada_desconhecida so_const_ex (so_ex_entrada so_ex_espera_filho 99 0) ∧
    (so_proc (so_trap_ex so_ex_espera_filho 2 99 0) 1).estado = TERMINADO ∧
    processo_espera (so_proc (so_trap_ex so_ex_espera_filho 2 99 0) 0) 2 ∧
    (so_proc (so_trap_ex so_ex_espera_filho 2 8 0) 1).estado = LIVRE ∧
    (so_proc (so_trap_ex so_ex_espera_filho 2 8 0) 0).estado = EXECUTANDO := by
  refine ⟨?_, by decide, by decide, by decide, by decide, by decide, by decide, by decide,
    by decide, by decide, by decide, by decide⟩
  exact .trap _ _ _ _ (.trap _ _ _ _ (.trap _ _ _ _ (.cria _ _ _ _ _)))

/-- C18 (amended): when the current process (slot `c`) is terminated by a CPU error it ends
`LIVRE`, and when it is terminated by an unknown system-call number it ends `TERMINADO`;
in both cases the handler changes no other PCB, so no process blocked in a WAIT on its pid
is woken. -/
theorem so_termina_sem_coleta (K : so_const_t) (s : so_t) (c : Nat)
    (hidx : s.processo_em_execucao_idx = (c : Int)) (hc : c < s.tabela_processos.length) :
    ((so_proc (so_trata_irq_err_cpu K s) (c : Int)).estado = LIVRE ∧
      ∀ j : Nat, j ≠ c → so_proc (so_trata_irq_err_cpu K s) (j : Int) = so_proc s (j : Int)) ∧
    (so_chamada_desconhecida K s →
      (so_proc (so_trata_irq_chamada_sistema K s) (c : Int)).estado = TERMINADO ∧
      ∀ j : Nat, j ≠ c →
        so_proc (so_trata_irq_chamada_sistema K s) (j : Int) = so_proc s (j : Int)) := by
  constructor
  · unfold so_trata_irq_err_cpu
    rw [if_pos (by omega), hidx]
    refine ⟨?_, fun j hj => ?_⟩
    · rw [so_proc_atualiza_mesmo K s _ c hc, processo_muda_estado_estado]
    · rw [so_proc_atualiza_outro K s _ _ j (by omega)]
  · intro hd
    unfold so_chamada_desconhecida at hd
    obtain ⟨h1, h2, h3, h4, h5⟩ := hd
    unfold so_trata_irq_chamada_sistema
    dsimp only
    rw [if_neg (by omega), if_neg h1, if_neg h2, if_neg h3, if_neg h4, if_neg h5, hidx]
    refine ⟨?_, fun j hj => ?_⟩
    · rw [so_proc_atualiza_mesmo K s _ c hc, processo_muda_estado_estado]
    · rw [so_proc_atualiza_outro K s _ _ j (by omega)]

set_option maxRecDepth 100000 in
theorem so_termina_sem_coleta_witness :
    (so_ex_entrada so_ex_espera_filho 99 0).processo_em_execucao_idx = ((1 : Nat) : Int) ∧
    ((so_proc (so_trata_irq_err_cpu so_const_ex (so_ex_entrada so_ex_espera_filho 99 0))
        ((1 : Nat) : Int)).estado = LIVRE ∧
      ∀ j : Nat, j ≠ 1 →
        so_proc (so_trata_irq_err_cpu so_const_ex (so_ex_entrada so_ex_espera_filho 99 0))
          (j : Int) = so_proc (so_ex_entrada so_ex_espera_filho 99 0) (j : Int)) ∧
    ((so_proc (so_trata_irq_chamada_sistema so_const_ex
        (so_ex_entrada so_ex_espera_filho 99 0)) ((1 : Nat) : Int)).estado = TERMINADO ∧
      ∀ j : Nat, j ≠ 1 →
        so_proc (so_trata_irq_chamada_sistema so_const_ex
          (so_ex_entrada so_ex_espera_filho 99 0)) (j : Int) =
        so_proc (so_ex_entrada so_ex_espera_filho 99 0) (j : Int)) :=
  ⟨by decide,
    (so_termina_sem_coleta so_const_ex (so_ex_entrada so_ex_espera_filho 99 0) 1
      (by decide) (by decide)).1,
    (so_termina_sem_coleta so_const_ex (so_ex_entrada so_ex_espera_filho 99 0) 1
      (by decide) (by decide)).2 (by decide)⟩

/-! ## T2/so.c: KILL and the reap of the target -/

theorem range_find_primeiro (P : Nat → Bool) (n t : Nat) (ht : t < n) (hP : P t = true)
    (hmin : ∀ i, i < t → P i = false) : (List.range n).find? P = some t := by
  induction n with
  | zero => omega
  | succ n ih =>
    rw [List.range_succ, List.find?_append]
    by_cases htn : t < n
    · rw [ih htn]; rfl
    · have hEq : t = n := by omega
      subst hEq
      have hnone : (List.range t).find? P = none := by
        rw [List.find?_eq_none]
        intro i hi
        rw [hmin i (List.mem_range.mp hi)]
        decide
      rw [hnone]
      simp [hP]

theorem so_proc_retorna_campos (s : so_t) (i v : Int) (j : Nat) :
    (so_proc (so_retorna s i v) (j : Int)).estado = (so_proc s (j : Int)).estado ∧
    (so_proc (so_retorna s i v) (j : Int)).motivo_bloqueio =
      (so_proc s (j : Int)).motivo_bloqueio ∧
    (so_proc (so_retorna s i v) (j : Int)).pid_esperado = (so_proc s (j : Int)).pid_esperado ∧
    (so_proc (so_retorna s i v) (j : Int)).pid = (so_proc s (j : Int)).pid ∧
    ((so_proc (so_retorna s i v) (j : Int)).estado_cpu.regA = v ∨
      (so_proc (so_retorna s i v) (j : Int)).estado_cpu.regA =
        (so_proc s (j : Int)).estado_cpu.regA) := by
  rw [so_proc_retorna]
  split
  · exact ⟨rfl, rfl, rfl, rfl, Or.inl rfl⟩
  · exact ⟨rfl, rfl, rfl, rfl, Or.inr rfl⟩

theorem so_coleta_length (K : so_const_t) (m : so_t) (t p : Int) :
    (so_mata_coleta K m t p).tabela_processos.length = m.tabela_processos.length := by
  unfold so_mata_coleta
  split
  · rfl
  · dsimp only
    rw [so_atualiza_length, so_insere_tab, so_muda_proc_length, so_atualiza_length]

/-- The reap when nobody waits: `so_mata_coleta` does nothing. -/
theorem so_coleta_sem (K : so_const_t) (m : so_t) (t p : Int)
    (h : ∀ i : Nat, i < K.MAX_PROCESSOS → ¬ processo_espera (so_proc m (i : Int)) p) :
    so_mata_coleta K m t p = m := by
  unfold so_mata_coleta
  have hfind : (List.range K.MAX_PROCESSOS).find? (fun (i : Nat) =>
      (so_proc m (i : Int)).estado = BLOQUEADO ∧
      (so_proc m (i : Int)).motivo_bloqueio = BLOQUEIO_PID ∧
      (so_proc m (i : Int)).pid_esperado = p) = none := by
    rw [List.find?_eq_none]
    intro i hi
    simp only [decide_eq_true_eq]
    exact h i (List.mem_range.mp hi)
  rw [hfind]

/-- The reap when `w` is the first waiter: `w` becomes ready with A = 0 and no block
reason, the target `t` becomes `LIVRE`, the other PCBs are untouched. -/
theorem so_coleta_com (K : so_const_t) (m : so_t) (t w : Nat) (p : Int)
    (hlen : m.tabela_processos.length = K.MAX_PROCESSOS)
    (hw : w < K.MAX_PROCESSOS) (hwt : w ≠ t) (ht : t < K.MAX_PROCESSOS)
    (hesp : processo_espera (so_proc m (w : Int)) p)
    (hmin : ∀ i : Nat, i < w → ¬ processo_espera (so_proc m (i : Int)) p) :
    (so_proc (so_mata_coleta K m (t : Int) p) (w : Int)).estado = PRONTO ∧
    (so_proc (so_mata_coleta K m (t : Int) p) (w : Int)).motivo_bloqueio = BLOQUEIO_NENHUM ∧
    (so_proc (so_mata_coleta K m (t : Int) p) (w : Int)).estado_cpu.regA = 0 ∧
    (so_proc (so_mata_coleta K m (t : Int) p) (t : Int)).estado = LIVRE ∧
    (∀ j : Nat, j ≠ w → j ≠ t →
      so_proc (so_mata_coleta K m (t : Int) p) (j : Int) = so_proc m (j : Int)) := by
  have hfind : (List.range K.MAX_PROCESSOS).find? (fun (i : Nat) =>
      (so_proc m (i : Int)).estado = BLOQUEADO ∧
      (so_proc m (i : Int)).motivo_bloqueio = BLOQUEIO_PID ∧
      (so_proc m (i : Int)).pid_esperado = p) = some w := by
    apply range_find_primeiro _ _ _ hw
    · simp only [decide_eq_true_eq]; exact hesp
    · intro i hi
      simp only [decide_eq_false_iff_not]
      exact hmin i hi
  unfold so_mata_coleta
  rw [hfind]
  dsimp only
  have hl1 : w < m.tabela_processos.length := by omega
  have hl2 : w < (so_atualiza_estado K m (w : Int) PRONTO).tabela_processos.length := by
    rw [so_atualiza_length]; exact hl1
  have hl3 : t < (so_insere_em_pronto K (so_muda_proc (so_atualiza_estado K m (w : Int) PRONTO)
      (w : Int) (fun proc =>
        { proc with
            motivo_bloqueio := BLOQUEIO_NENHUM
            estado_cpu := { proc.estado_cpu with regA := 0 } })) (w : Int)).tabela_processos.length := by
    rw [so_insere_tab, so_muda_proc_length, so_atualiza_length]; omega
  refine ⟨?_, ?_, ?_, ?_, fun j hj1 hj2 => ?_⟩
  · rw [so_proc_atualiza_outro _ _ _ _ w (by omega), so_proc_insere,
      so_proc_muda_mesmo _ _ w hl2, so_proc_atualiza_mesmo K m _ w hl1]
    exact processo_muda_estado_estado _ _ _
  · rw [so_proc_atualiza_outro _ _ _ _ w (by omega), so_proc_insere,
      so_proc_muda_mesmo _ _ w hl2]
  · rw [so_proc_atualiza_outro _ _ _ _ w (by omega), so_proc_insere,
      so_proc_muda_mesmo _ _ w hl2]
  · rw [so_proc_atualiza_mesmo _ _ _ t hl3]
    exact processo_muda_estado_estado _ _ _
  · rw [so_proc_atualiza_outro _ _ _ _ j (by omega), so_proc_insere,
      so_proc_muda_outro _ _ _ j (by omega), so_proc_atualiza_outro _ _ _ _ j (by omega)]

theorem so_mata_proc_forma (K : so_const_t) (s : so_t) (c t : Nat)
    (hidx : s.processo_em_execucao_idx = (c : Int)) (ht : t < K.MAX_PROCESSOS)
    (hvivo : processo_vivo (so_proc s (t : Int)))
    (hpid : (so_proc s (t : Int)).pid = so_mata_pid_alvo s)
    (hprim : ∀ i : Nat, i < t → processo_vivo (so_proc s (i : Int)) →
      (so_proc s (i : Int)).pid ≠ so_mata_pid_alvo s) (j : Int) :
    so_proc (so_chamada_mata_proc K s) j =
      so_proc (so_retorna (so_mata_coleta K (so_atualiza_estado K s (t : Int) TERMINADO)
        (t : Int) (so_mata_pid_alvo s)) (c : Int) 0) j := by
  have hfind : (List.range K.MAX_PROCESSOS).find? (fun (i : Nat) =>
      (so_proc s (i : Int)).estado ≠ LIVRE ∧ (so_proc s (i : Int)).estado ≠ TERMINADO ∧
      (so_proc s (i : Int)).pid = so_mata_pid_alvo s) = some t := by
    apply range_find_primeiro _ _ _ ht
    · simp only [decide_eq_true_eq]
      exact ⟨((vivo_iff _).mp hvivo).1, ((vivo_iff _).mp hvivo).2, hpid⟩
    · intro i hi
      simp only [decide_eq_false_iff_not, not_and]
      intro h1 h2
      exact hprim i hi ((vivo_iff _).mpr ⟨h1, h2⟩)
  have hfold : (if (so_proc s s.processo_em_execucao_idx).estado_cpu.regX = 0 then
      (so_proc s s.processo_em_execucao_idx).pid
    else (so_proc s s.processo_em_execucao_idx).estado_cpu.regX) = so_mata_pid_alvo s := rfl
  unfold so_chamada_mata_proc
  dsimp only
  rw [if_neg (by omega), hfold, hfind]
  dsimp only
  split
  · rw [so_proc_relatorio, hidx]
  · rw [hidx]

/-- C17 (reap on KILL): the current process (slot `c`) issues KILL for the pid `p` and the
PCB in slot `t` is the live target (the first ready, running or blocked PCB with pid `p`).
If some other PCB is blocked in a WAIT for `p`, the one with the lowest index, `w`, becomes
`PRONTO` with A = 0 and no block reason, the target ends `LIVRE`, and every PCB other than
these two keeps its state (the other waiters stay blocked on `p`).  If no other PCB waits
for `p`, the target ends `TERMINADO` and every other PCB keeps its state. -/
theorem so_mata_proc_coleta (K : so_const_t) (s : so_t) (c t : Nat)
    (hidx : s.processo_em_execucao_idx = (c : Int))
    (hlen : s.tabela_processos.length = K.MAX_PROCESSOS) (ht : t < K.MAX_PROCESSOS)
    (hvivo : processo_vivo (so_proc s (t : Int)))
    (hpid : (so_proc s (t : Int)).pid = so_mata_pid_alvo s)
    (hprim : ∀ i : Nat, i < t → processo_vivo (so_proc s (i : Int)) →
      (so_proc s (i : Int)).pid ≠ so_mata_pid_alvo s) :
    (∀ w : Nat, w < K.MAX_PROCESSOS → w ≠ t →
      processo_espera (so_proc s (w : Int)) (so_mata_pid_alvo s) →
      (∀ i : Nat, i < w → i ≠ t →
        ¬ processo_espera (so_proc s (i : Int)) (so_mata_pid_alvo s)) →
      (so_proc (so_chamada_mata_proc K s) (w : Int)).estado = PRONTO ∧
      (so_proc (so_chamada_mata_proc K s) (w : Int)).estado_cpu.regA = 0 ∧
      (so_proc (so_chamada_mata_proc K s) (w : Int)).motivo_bloqueio = BLOQUEIO_NENHUM ∧
      (so_proc (so_chamada_mata_proc K s) (t : Int)).estado = LIVRE ∧
      ∀ j : Nat, j ≠ w → j ≠ t →
        (so_proc (so_chamada_mata_proc K s) (j : Int)).estado = (so_proc s (j : Int)).estado ∧
        (processo_espera (so_proc s (j : Int)) (so_mata_pid_alvo s) →
          processo_espera (so_proc (so_chamada_mata_proc K s) (j : Int))
            (so_mata_pid_alvo s))) ∧
    ((∀ i : Nat, i < K.MAX_PROCESSOS → i ≠ t →
        ¬ processo_espera (so_proc s (i : Int)) (so_mata_pid_alvo s)) →
      (so_proc (so_chamada_mata_proc K s) (t : Int)).estado = TERMINADO ∧
      ∀ j : Nat, j ≠ t →
        (so_proc (so_chamada_mata_proc K s) (j : Int)).estado =
          (so_proc s (j : Int)).estado) := by
  have hforma := so_mata_proc_forma K s c t hidx ht hvivo hpid hprim
  have htl : t < s.tabela_processos.length := by omega
  have hmt : (so_proc (so_atualiza_estado K s (t : Int) TERMINADO) (t : Int)).estado
      = TERMINADO := by
    rw [so_proc_atualiza_mesmo K s _ t htl]
    exact processo_muda_estado_estado _ _ _
  have hmo : ∀ j : Nat, j ≠ t →
      so_proc (so_atualiza_estado K s (t : Int) TERMINADO) (j : Int) = so_proc s (j : Int) :=
    fun j hj => so_proc_atualiza_outro K s _ _ j (by omega)
  have hmlen : (so_atualiza_estado K s (t : Int) TERMINADO).tabela_processos.length
      = K.MAX_PROCESSOS := by
    rw [so_atualiza_length]; exact hlen
  have hnesp : ∀ q : Int, ¬ processo_espera
      (so_proc (so_atualiza_estado K s (t : Int) TERMINADO) (t : Int)) q := by
    intro q h
    have := h.1
    rw [hmt] at this
    cases this
  constructor
  · intro w hw hwt hesp hmin
    have hcom := so_coleta_com K (so_atualiza_estado K s (t : Int) TERMINADO) t w
      (so_mata_pid_alvo s) hmlen hw hwt ht (by rw [hmo w hwt]; exact hesp)
      (by
        intro i hi
        by_cases hit : i = t
        · rw [hit]; exact hnesp _
        · rw [hmo i hit]; exact hmin i hi hit)
    obtain ⟨h1, h2, h3, h4, h5⟩ := hcom
    refine ⟨?_, ?_, ?_, ?_, fun j hj1 hj2 => ?_⟩
    · rw [hforma, (so_proc_retorna_campos _ _ _ w).1]; exact h1
    · rw [hforma]
      rcases (so_proc_retorna_campos (so_mata_coleta K
        (so_atualiza_estado K s (t : Int) TERMINADO) (t : Int) (so_mata_pid_alvo s))
        (c : Int) 0 w).2.2.2.2 with h | h
      · exact h
      · rw [h]; exact h3
    · rw [hforma, (so_proc_retorna_campos _ _ _ w).2.1]; exact h2
    · rw [hforma, (so_proc_retorna_campos _ _ _ t).1]; exact h4
    · have hc := so_proc_retorna_campos (so_mata_coleta K
        (so_atualiza_estado K s (t : Int) TERMINADO) (t : Int) (so_mata_pid_alvo s))
        (c : Int) 0 j
      rw [h5 j hj1 hj2, hmo j hj2] at hc
      rw [hforma]
      refine ⟨hc.1, fun he => ⟨?_, ?_, ?_⟩⟩
      · rw [hc.1]; exact he.1
      · rw [hc.2.1]; exact he.2.1
      · rw [hc.2.2.1]; exact he.2.2
  · intro hnone
    have hsem := so_coleta_sem K (so_atualiza_estado K s (t : Int) TERMINADO) (t : Int)
      (so_mata_pid_alvo s)
      (by
        intro i hi
        by_cases hit : i = t
        · rw [hit]; exact hnesp _
        · rw [hmo i hit]; exact hnone i hi hit)
    refine ⟨?_, fun j hj => ?_⟩
    · rw [hforma, hsem, (so_proc_retorna_campos _ _ _ t).1]; exact hmt
    · rw [hforma, hsem, (so_proc_retorna_campos _ _ _ j).1, hmo j hj]

set_option maxRecDepth 1000000 in
theorem so_mata_proc_coleta_witness :
    so_mata_pid_alvo so_ex_dois_esperam = 3 ∧
    so_ex_dois_esperam.processo_em_execucao_idx = 2 ∧
    processo_espera (so_proc so_ex_dois_esperam ((0 : Nat) : Int)) 3 ∧
    processo_espera (so_proc so_ex_dois_esperam ((1 : Nat) : Int)) 3 ∧
    ((so_proc (so_chamada_mata_proc so_const_ex so_ex_dois_esperam) ((0 : Nat) : Int)).estado
        = PRONTO ∧
      (so_proc (so_chamada_mata_proc so_const_ex so_ex_dois_esperam)
        ((0 : Nat) : Int)).estado_cpu.regA = 0 ∧
      (so_proc (so_chamada_mata_proc so_const_ex so_ex_dois_esperam)
        ((0 : Nat) : Int)).motivo_bloqueio = BLOQUEIO_NENHUM ∧
      (so_proc (so_chamada_mata_proc so_const_ex so_ex_dois_esperam) ((2 : Nat) : Int)).estado
        = LIVRE ∧
      ∀ j : Nat, j ≠ 0 → j ≠ 2 →
        (so_proc (so_chamada_mata_proc so_const_ex so_ex_dois_esperam) (j : Int)).estado =
          (so_proc so_ex_dois_esperam (j : Int)).estado ∧
        (processo_espera (so_proc so_ex_dois_esperam (j : Int))
            (so_mata_pid_alvo so_ex_dois_esperam) →
          processo_espera (so_proc (so_chamada_mata_proc so_const_ex so_ex_dois_esperam)
            (j : Int)) (so_mata_pid_alvo so_ex_dois_esperam))) ∧
    (so_proc (so_chamada_mata_proc so_const_ex so_ex_dois_esperam) ((1 : Nat) : Int)).estado
      = BLOQUEADO ∧
    processo_espera
      (so_proc (so_chamada_mata_proc so_const_ex so_ex_dois_esperam) ((1 : Nat) : Int)) 3 :=
  ⟨by decide, by decide, by decide, by decide,
    (so_mata_proc_coleta so_const_ex so_ex_dois_esperam 2 2 (by decide) (by decide)
      (by decide) (by decide) (by decide) (by decide)).1 0 (by decide) (by decide)
      (by decide) (by decide),
    by decide, by decide⟩

/-! ## T2/so.c: the priority scheduler picks the best ready process -/

theorem so_escalona_prio_laco (s : so_t) (B : ℚ) :
    ∀ m : Nat,
      (((List.range m).foldl (so_escalona_prio_passo s) (-1, B)).1 = -1 ∧
        ((List.range m).foldl (so_escalona_prio_passo s) (-1, B)).2 = B ∧
        ∀ j, j < m → (so_proc s (j : Int)).estado = PRONTO →
          ¬ (so_proc s (j : Int)).prioridade < B) ∨
      (∃ i : Nat, ((List.range m).foldl (so_escalona_prio_passo s) (-1, B)).1 = (i : Int) ∧
        i < m ∧ (so_proc s (i : Int)).estado = PRONTO ∧
        ((List.range m).foldl (so_escalona_prio_passo s) (-1, B)).2 =
          (so_proc s (i : Int)).prioridade ∧
        (so_proc s (i : Int)).prioridade < B ∧
        ∀ j, j < m → (so_proc s (j : Int)).estado = PRONTO →
          (so_proc s (i : Int)).prioridade ≤ (so_proc s (j : Int)).prioridade ∧
          ((so_proc s (j : Int)).prioridade = (so_proc s (i : Int)).prioridade → i ≤ j)) := by
  intro m
  induction m with
  | zero =>
    left
    exact ⟨rfl, rfl, fun j hj => absurd hj (Nat.not_lt_zero j)⟩
  | succ m ih =>
    rw [List.range_succ, List.foldl_append]
    simp only [List.foldl_cons, List.foldl_nil]
    generalize (List.range m).foldl (so_escalona_prio_passo s) (-1, B) = r at ih ⊢
    unfold so_escalona_prio_passo
    dsimp only
    by_cases hsel : (so_proc s (m : Int)).estado = PRONTO ∧ (so_proc s (m : Int)).prioridade < r.2
    · rw [if_pos hsel]
      right
      rcases ih with ⟨_, h2, h3⟩ | ⟨i, _, h2, h3, h4, h5, h6⟩
      · rw [h2] at hsel
        refine ⟨m, rfl, by omega, hsel.1, rfl, hsel.2, fun j hj hp => ?_⟩
        by_cases hjm : j = m
        · rw [hjm]; exact ⟨le_refl _, fun _ => le_refl _⟩
        · have hB := not_lt.mp (h3 j (by omega) hp)
          exact ⟨by linarith [hsel.2], fun he => by linarith [hsel.2]⟩
      · rw [h4] at hsel
        refine ⟨m, rfl, by omega, hsel.1, rfl, by linarith [hsel.2], fun j hj hp => ?_⟩
        by_cases hjm : j = m
        · rw [hjm]; exact ⟨le_refl _, fun _ => le_refl _⟩
        · have h7 := (h6 j (by omega) hp).1
          exact ⟨by linarith [hsel.2], fun he => by linarith [hsel.2]⟩
    · rw [if_neg hsel]
      rcases ih with ⟨h1, h2, h3⟩ | ⟨i, h1, h2, h3, h4, h5, h6⟩
      · left
        refine ⟨h1, h2, fun j hj hp => ?_⟩
        by_cases hjm : j = m
        · rw [hjm] at hp ⊢
          intro hlt
          exact hsel ⟨hp, by rw [h2]; exact hlt⟩
        · exact h3 j (by omega) hp
      · right
        refine ⟨i, h1, by omega, h3, h4, h5, fun j hj hp => ?_⟩
        by_cases hjm : j = m
        · rw [hjm] at hp ⊢
          have hge : (so_proc s (i : Int)).prioridade ≤ (so_proc s (m : Int)).prioridade := by
            by_contra hc
            exact hsel ⟨hp, by rw [h4]; exact not_le.mp hc⟩
          exact ⟨hge, fun _ => by omega⟩
        · exact h6 j (by omega) hp

theorem so_fim_ocioso_length (K : so_const_t) (s : so_t) :
    (so_fim_ocioso K s).tabela_processos.length = s.tabela_processos.length := by
  rw [so_fim_ocioso_tab]

theorem so_proc_fim_ocioso (K : so_const_t) (s : so_t) (j : Int) :
    so_proc (so_fim_ocioso K s) j = so_proc s j := by
  unfold so_proc
  rw [so_fim_ocioso_tab]

theorem so_inicio_ocioso_idx (K : so_const_t) (s : so_t) :
    (so_inicio_ocioso K s).processo_em_execucao_idx = -1 := by
  unfold so_inicio_ocioso
  dsimp only
  split <;> rfl

/-- The selection half of `so_escalona_prio`, on any state: when some PCB is `PRONTO` with a
priority below the initial bound 10^9, the one of least priority and, among equals, least
index is dispatched; otherwise nobody is. -/
theorem so_escalona_prio_proximo_spec (K : so_const_t) (m : so_t)
    (hlen : m.tabela_processos.length = K.MAX_PROCESSOS)
    (hprio : ∀ j : Nat, j < K.MAX_PROCESSOS → (so_proc m (j : Int)).estado = PRONTO →
      (so_proc m (j : Int)).prioridade < 1000000000) :
    ((∃ j : Nat, j < K.MAX_PROCESSOS ∧ (so_proc m (j : Int)).estado = PRONTO) →
      ∃ i : Nat, i < K.MAX_PROCESSOS ∧
        (so_escalona_prio_proximo K m).processo_em_execucao_idx = (i : Int) ∧
        (so_proc m (i : Int)).estado = PRONTO ∧
        (∀ j : Nat, j < K.MAX_PROCESSOS → (so_proc m (j : Int)).estado = PRONTO →
          (so_proc m (i : Int)).prioridade ≤ (so_proc m (j : Int)).prioridade ∧
          ((so_proc m (j : Int)).prioridade = (so_proc m (i : Int)).prioridade → i ≤ j)) ∧
        (so_proc (so_escalona_prio_proximo K m) (i : Int)).estado = EXECUTANDO ∧
        (so_escalona_prio_proximo K m).quantum_restante =
          (so_escalona_prio_proximo K m).quantum_total) ∧
    ((so_escalona_prio_proximo K m).processo_em_execucao_idx = -1 ↔
      ∀ j : Nat, j < K.MAX_PROCESSOS → (so_proc m (j : Int)).estado ≠ PRONTO) := by
  have hl := so_escalona_prio_laco m 1000000000 K.MAX_PROCESSOS
  unfold so_escalona_prio_proximo
  dsimp only
  rcases hl with ⟨h1, _, h3⟩ | ⟨i, h1, h2, h3, h4, h5, h6⟩
  · have hn : ∀ j : Nat, j < K.MAX_PROCESSOS → (so_proc m (j : Int)).estado ≠ PRONTO :=
      fun j hj hp => h3 j hj hp (hprio j hj hp)
    rw [if_neg (by rw [h1]; simp)]
    refine ⟨fun ⟨j, hj, hp⟩ => absurd hp (hn j hj), ?_⟩
    exact ⟨fun _ => hn, fun _ => so_inicio_ocioso_idx K m⟩
  · rw [if_pos (by rw [h1]; omega), h1]
    constructor
    · intro _
      refine ⟨i, h2, rfl, h3, h6, ?_, rfl⟩
      show (so_proc (so_atualiza_estado K (so_fim_ocioso K m) (i : Int) EXECUTANDO)
        (i : Int)).estado = EXECUTANDO
      rw [so_proc_atualiza_mesmo _ _ _ i (by rw [so_fim_ocioso_length]; omega)]
      exact processo_muda_estado_estado _ _ _
    · constructor
      · intro hc
        have hc' : (i : Int) = -1 := hc
        omega
      · intro hn
        exact absurd h3 (hn i h2)

theorem so_registra_length (s : so_t) (i : Int) :
    (so_registra_preempcao s i).tabela_processos.length = s.tabela_processos.length := by
  unfold so_registra_preempcao
  exact so_muda_proc_length s i _

theorem so_calcula_length (s : so_t) (i : Int) :
    (so_calcula_prioridade s i).tabela_processos.length = s.tabela_processos.length := by
  unfold so_calcula_prioridade
  exact so_muda_proc_length s i _

theorem so_escalona_prio_atual_length (K : so_const_t) (s : so_t) :
    (so_escalona_prio_atual K s).tabela_processos.length = s.tabela_processos.length := by
  unfold so_escalona_prio_atual
  dsimp only
  split_ifs
  · exact so_calcula_length s _
  · show (so_atualiza_estado K _ _ PRONTO).tabela_processos.length = _
    rw [so_atualiza_length, so_registra_length, so_calcula_length]
  · rfl
  · rfl

/-- C12: priority mode, the scheduler has no current process to keep (after its first half
`processo_em_execucao_idx` is -1) and the priorities of the ready PCBs lie in [0, 1].  If
some PCB is `PRONTO`, the scheduler selects a `PRONTO` PCB whose priority is minimal over
all `PRONTO` PCBs and whose index is the lowest among those of that priority, makes it
`EXECUTANDO` and sets `quantum_restante = quantum_total`; it selects no process
(`processo_em_execucao_idx = -1`) exactly when no PCB is `PRONTO`. -/
theorem so_escalona_prio_seleciona (K : so_const_t) (s : so_t)
    (hlen : s.tabela_processos.length = K.MAX_PROCESSOS)
    (hsem : (so_escalona_prio_atual K s).processo_em_execucao_idx = -1)
    (hprio : ∀ j : Nat, j < K.MAX_PROCESSOS →
      (so_proc (so_escalona_prio_atual K s) (j : Int)).estado = PRONTO →
      0 ≤ (so_proc (so_escalona_prio_atual K s) (j : Int)).prioridade ∧
      (so_proc (so_escalona_prio_atual K s) (j : Int)).prioridade ≤ 1) :
    ((∃ j : Nat, j < K.MAX_PROCESSOS ∧
        (so_proc (so_escalona_prio_atual K s) (j : Int)).estado = PRONTO) →
      ∃ i : Nat, i < K.MAX_PROCESSOS ∧
        (so_escalona_prio K s).processo_em_execucao_idx = (i : Int) ∧
        (so_proc (so_escalona_prio_atual K s) (i : Int)).estado = PRONTO ∧
        (∀ j : Nat, j < K.MAX_PROCESSOS →
          (so_proc (so_escalona_prio_atual K s) (j : Int)).estado = PRONTO →
          (so_proc (so_escalona_prio_atual K s) (i : Int)).prioridade ≤
            (so_proc (so_escalona_prio_atual K s) (j : Int)).prioridade ∧
          ((so_proc (so_escalona_prio_atual K s) (j : Int)).prioridade =
            (so_proc (so_escalona_prio_atual K s) (i : Int)).prioridade → i ≤ j)) ∧
        (so_proc (so_escalona_prio K s) (i : Int)).estado = EXECUTANDO ∧
        (so_escalona_prio K s).quantum_restante = (so_escalona_prio K s).quantum_total) ∧
    ((so_escalona_prio K s).processo_em_execucao_idx = -1 ↔
      ∀ j : Nat, j < K.MAX_PROCESSOS →
        (so_proc (so_escalona_prio_atual K s) (j : Int)).estado ≠ PRONTO) := by
  have heq : so_escalona_prio K s = so_escalona_prio_proximo K (so_escalona_prio_atual K s) := by
    unfold so_escalona_prio
    dsimp only
    rw [if_pos hsem]
  rw [heq]
  exact so_escalona_prio_proximo_spec K _
    (by rw [so_escalona_prio_atual_length]; exact hlen)
    (fun j hj hp => lt_of_le_of_lt (hprio j hj hp).2 (by norm_num))

theorem so_escalona_prio_seleciona_witness :
    (so_escalona_prio_atual so_const_ex so_ex_prio_dois_prontos).processo_em_execucao_idx = -1 ∧
    ((so_proc (so_escalona_prio_atual so_const_ex so_ex_prio_dois_prontos)
        ((0 : Nat) : Int)).estado = PRONTO ∧
      (so_proc (so_escalona_prio_atual so_const_ex so_ex_prio_dois_prontos)
        ((0 : Nat) : Int)).prioridade = 3 / 4) ∧
    ((so_proc (so_escalona_prio_atual so_const_ex so_ex_prio_dois_prontos)
        ((1 : Nat) : Int)).estado = PRONTO ∧
      (so_proc (so_escalona_prio_atual so_const_ex so_ex_prio_dois_prontos)
        ((1 : Nat) : Int)).prioridade = 1 / 2) ∧
    (so_escalona_prio so_const_ex so_ex_prio_dois_prontos).processo_em_execucao_idx = 1 ∧
    (so_proc (so_escalona_prio so_const_ex so_ex_prio_dois_prontos) ((1 : Nat) : Int)).estado
      = EXECUTANDO ∧
    (∃ i : Nat, i < so_const_ex.MAX_PROCESSOS ∧
      (so_escalona_prio so_const_ex so_ex_prio_dois_prontos).processo_em_execucao_idx
        = (i : Int) ∧
      (so_proc (so_escalona_prio_atual so_const_ex so_ex_prio_dois_prontos) (i : Int)).estado
        = PRONTO ∧
      (∀ j : Nat, j < so_const_ex.MAX_PROCESSOS →
        (so_proc (so_escalona_prio_atual so_const_ex so_ex_prio_dois_prontos) (j : Int)).estado
          = PRONTO →
        (so_proc (so_escalona_prio_atual so_const_ex so_ex_prio_dois_prontos)
          (i : Int)).prioridade ≤
          (so_proc (so_escalona_prio_atual so_const_ex so_ex_prio_dois_prontos)
            (j : Int)).prioridade ∧
        ((so_proc (so_escalona_prio_atual so_const_ex so_ex_prio_dois_prontos)
            (j : Int)).prioridade =
          (so_proc (so_escalona_prio_atual so_const_ex so_ex_prio_dois_prontos)
            (i : Int)).prioridade → i ≤ j)) ∧
      (so_proc (so_escalona_prio so_const_ex so_ex_prio_dois_prontos) (i : Int)).estado
        = EXECUTANDO ∧
      (so_escalona_prio so_const_ex so_ex_prio_dois_prontos).quantum_restante =
        (so_escalona_prio so_const_ex so_ex_prio_dois_prontos).quantum_total) ∧
    ((so_escalona_prio so_const_ex so_ex_prio_dois_prontos).processo_em_execucao_idx = -1 ↔
      ∀ j : Nat, j < so_const_ex.MAX_PROCESSOS →
        (so_proc (so_escalona_prio_atual so_const_ex so_ex_prio_dois_prontos) (j : Int)).estado
          ≠ PRONTO) :=
  ⟨by decide!, ⟨by decide!, by decide!⟩, ⟨by decide!, by decide!⟩, by decide!, by decide!,
    (so_escalona_prio_seleciona so_const_ex so_ex_prio_dois_prontos (by decide!) (by decide!)
      (by decide!)).1 ⟨1, by decide, by decide!⟩,
    (so_escalona_prio_seleciona so_const_ex so_ex_prio_dois_prontos (by decide!) (by decide!)
      (by decide!)).2⟩

/-! ## T2/so.c: the ready queue as a list -/

theorem so_mesmo_controle_refl (s : so_t) : so_mesmo_controle s s :=
  ⟨rfl, rfl, rfl, rfl, rfl, rfl, rfl, rfl, rfl, rfl⟩

theorem so_mesmo_controle_trans {s t u : so_t} (h1 : so_mesmo_controle s t)
    (h2 : so_mesmo_controle t u) : so_mesmo_controle s u := by
  obtain ⟨a1, a2, a3, a4, a5, a6, a7, a8, a9, a10⟩ := h1
  obtain ⟨b1, b2, b3, b4, b5, b6, b7, b8, b9, b10⟩ := h2
  exact ⟨b1.trans a1, b2.trans a2, b3.trans a3, b4.trans a4, b5.trans a5, b6.trans a6,
    b7.trans a7, b8.trans a8, b9.trans a9, b10.trans a10⟩

theorem so_controle_muda (s : so_t) (i : Int) (f : processo_t → processo_t) :
    so_mesmo_controle s (so_muda_proc s i f) := by
  unfold so_muda_proc
  split <;> exact so_mesmo_controle_refl s

theorem so_controle_tempo (K : so_const_t) (s : so_t) :
    so_mesmo_controle s (so_get_tempo K s).2 := so_mesmo_controle_refl s

theorem so_controle_atualiza (K : so_const_t) (s : so_t) (i : Int)
    (novo : estado_processo_t) : so_mesmo_controle s (so_atualiza_estado K s i novo) := by
  unfold so_atualiza_estado
  exact so_mesmo_controle_trans (so_controle_tempo K s) (so_controle_muda _ i _)

theorem so_controle_registra (s : so_t) (i : Int) :
    so_mesmo_controle s (so_registra_preempcao s i) := by
  unfold so_registra_preempcao
  exact so_mesmo_controle_trans (so_controle_muda s i _) (so_mesmo_controle_refl _)

theorem so_controle_calcula (s : so_t) (i : Int) :
    so_mesmo_controle s (so_calcula_prioridade s i) := by
  unfold so_calcula_prioridade
  exact so_controle_muda s i _

theorem so_controle_retorna (s : so_t) (i v : Int) :
    so_mesmo_controle s (so_retorna s i v) := by
  unfold so_retorna
  exact so_controle_muda s i _

theorem so_fila_de_eq (K : so_const_t) {s s' : so_t}
    (h1 : s'.fila_prontos = s.fila_prontos)
    (h2 : s'.fila_prontos_inicio = s.fila_prontos_inicio)
    (h3 : s'.fila_prontos_tamanho = s.fila_prontos_tamanho) :
    so_fila K s' = so_fila K s := by
  unfold so_fila
  rw [h1, h2, h3]

theorem so_fila_controle (K : so_const_t) {s s' : so_t} (h : so_mesmo_controle s s') :
    so_fila K s' = so_fila K s :=
  so_fila_de_eq K h.2.2.1 h.2.2.2.1 h.2.2.2.2.2.1

theorem so_fila_ok_controle (K : so_const_t) {s s' : so_t} (h : so_mesmo_controle s s')
    (hok : so_fila_ok K s) : so_fila_ok K s' := by
  obtain ⟨_, _, a3, a4, a5, a6, _, _, _, _⟩ := h
  unfold so_fila_ok at hok ⊢
  rw [a3, a4, a5, a6]
  exact hok

theorem so_fila_length (K : so_const_t) (s : so_t) :
    (so_fila K s).length = s.fila_prontos_tamanho := by
  unfold so_fila
  simp

/-- Appending to a queue that is not full. -/
theorem fila_prontos_insere_fila (K : so_const_t) (s : so_t) (x : Int)
    (hok : so_fila_ok K s) (hnf : s.fila_prontos_tamanho < K.MAX_PROCESSOS) :
    so_fila K (fila_prontos_insere K s x) = so_fila K s ++ [x] ∧
    so_fila_ok K (fila_prontos_insere K s x) := by
  obtain ⟨hl, hini, _, hfim⟩ := hok
  have hfl : s.fila_prontos_fim < K.MAX_PROCESSOS := by
    rw [hfim]; exact Nat.mod_lt _ (by omega)
  unfold fila_prontos_insere
  rw [if_neg (by omega)]
  constructor
  · unfold so_fila
    show (List.range (s.fila_prontos_tamanho + 1)).map
      (fun i => (s.fila_prontos.set s.fila_prontos_fim x).getD
        ((s.fila_prontos_inicio + i) % K.MAX_PROCESSOS) 0) = _
    rw [List.range_succ, List.map_append]
    congr 1
    · apply List.map_congr_left
      intro i hi
      have hi' := List.mem_range.mp hi
      have hne : s.fila_prontos_fim ≠ (s.fila_prontos_inicio + i) % K.MAX_PROCESSOS := by
        have e1 := mod_volta (s.fila_prontos_inicio + s.fila_prontos_tamanho)
          K.MAX_PROCESSOS (by omega)
        have e2 := mod_volta (s.fila_prontos_inicio + i) K.MAX_PROCESSOS (by omega)
        rw [hfim, e1, e2]
        split_ifs <;> omega
      exact lista_getD_set_ne _ _ _ _ _ hne
    · simp only [List.map_cons, List.map_nil]
      rw [← hfim, lista_getD_set_eq _ _ _ _ (by omega)]
  · refine ⟨by simp [hl], hini, by show s.fila_prontos_tamanho + 1 ≤ _; omega, ?_⟩
    show (s.fila_prontos_fim + 1) % K.MAX_PROCESSOS =
      (s.fila_prontos_inicio + (s.fila_prontos_tamanho + 1)) % K.MAX_PROCESSOS
    rw [hfim, Nat.mod_add_mod]
    congr 1

/-- Taking the head of a queue that is not empty. -/
theorem fila_prontos_remove_fila (K : so_const_t) (s : so_t) (hok : so_fila_ok K s)
    (hne : s.fila_prontos_tamanho ≠ 0) :
    so_fila K s = (fila_prontos_remove K s).1 :: so_fila K (fila_prontos_remove K s).2 ∧
    so_fila_ok K (fila_prontos_remove K s).2 := by
  obtain ⟨hl, hini, htam, hfim⟩ := hok
  obtain ⟨t, ht⟩ : ∃ t, s.fila_prontos_tamanho = t + 1 :=
    ⟨s.fila_prontos_tamanho - 1, by omega⟩
  unfold fila_prontos_remove
  rw [if_neg hne]
  constructor
  · unfold so_fila
    show _ = s.fila_prontos.getD s.fila_prontos_inicio 0 ::
      (List.range (s.fila_prontos_tamanho - 1)).map
        (fun i => s.fila_prontos.getD
          (((s.fila_prontos_inicio + 1) % K.MAX_PROCESSOS + i) % K.MAX_PROCESSOS) 0)
    rw [ht, List.range_succ_eq_map, List.map_cons, List.map_map, Nat.add_zero,
      Nat.mod_eq_of_lt (by omega), Nat.add_sub_cancel]
    congr 1
    apply List.map_congr_left
    intro i _
    simp only [Function.comp]
    rw [Nat.mod_add_mod]
    congr 2
    omega
  · have hm := Nat.mod_lt (s.fila_prontos_inicio + 1) (show K.MAX_PROCESSOS > 0 by omega)
    refine ⟨hl, by show (s.fila_prontos_inicio + 1) % K.MAX_PROCESSOS ≤ _; omega,
      by show s.fila_prontos_tamanho - 1 ≤ _; omega, ?_⟩
    show s.fila_prontos_fim =
      ((s.fila_prontos_inicio + 1) % K.MAX_PROCESSOS + (s.fila_prontos_tamanho - 1))
        % K.MAX_PROCESSOS
    rw [hfim, Nat.mod_add_mod]
    congr 1
    omega

theorem fila_prontos_remove_vazia (K : so_const_t) (s : so_t)
    (h : s.fila_prontos_tamanho = 0) : fila_prontos_remove K s = (-1, s) := by
  unfold fila_prontos_remove
  rw [if_pos h]

/-! ## T2/so.c: preemption in round-robin mode -/

theorem so_controle_fim_ocioso (K : so_const_t) (s : so_t) :
    so_mesmo_controle s (so_fim_ocioso K s) := by
  unfold so_fim_ocioso
  split <;> exact so_mesmo_controle_refl s

theorem so_atualiza_metricas (K : so_const_t) (s : so_t) (i : Int)
    (novo : estado_processo_t) : (so_atualiza_estado K s i novo).metricas = s.metricas := by
  unfold so_atualiza_estado so_muda_proc
  dsimp only
  split <;> rfl

theorem so_insere_metricas (K : so_const_t) (s : so_t) (i : Int) :
    (so_insere_em_pronto K s i).metricas = s.metricas := by
  unfold so_insere_em_pronto fila_prontos_insere
  split_ifs <;> rfl

theorem so_registra_metricas (s : so_t) (i : Int) :
    (so_registra_preempcao s i).metricas.num_preempcoes_total =
      s.metricas.num_preempcoes_total + 1 := by
  unfold so_registra_preempcao so_muda_proc
  dsimp only
  split <;> rfl

theorem so_fim_ocioso_preempcoes (K : so_const_t) (s : so_t) :
    (so_fim_ocioso K s).metricas.num_preempcoes_total = s.metricas.num_preempcoes_total := by
  unfold so_fim_ocioso
  split <;> rfl

theorem so_proc_atualiza_preempcoes (K : so_const_t) (s : so_t) (i : Int)
    (novo : estado_processo_t) (j : Nat) :
    (so_proc (so_atualiza_estado K s i novo) (j : Int)).num_preempcoes =
      (so_proc s (j : Int)).num_preempcoes := by
  rw [so_proc_atualiza]
  split
  · exact (processo_muda_estado_resto _ _ _).2.2.2.2.2.2.2.2
  · rfl

theorem so_proc_registra (s : so_t) (i j : Int) :
    so_proc (so_registra_preempcao s i) j =
      so_proc (so_muda_proc s i
        (fun proc => { proc with num_preempcoes := proc.num_preempcoes + 1 })) j := rfl

theorem so_escalona_rr_deve (K : so_const_t) (s : so_t) :
    (so_escalona_rr K s).deve_preemptar = false := by
  have hprox : ∀ m : so_t, m.deve_preemptar = false →
      (so_escalona_rr_proximo K m).deve_preemptar = false := by
    intro m hm
    unfold so_escalona_rr_proximo
    dsimp only
    have hr : (fila_prontos_remove K m).2.deve_preemptar = false := by
      unfold fila_prontos_remove
      split <;> exact hm
    split
    · show (so_atualiza_estado K (so_fim_ocioso K (fila_prontos_remove K m).2) _
        EXECUTANDO).deve_preemptar = false
      rw [(so_controle_atualiza K _ _ _).2.2.2.2.2.2.2.2.1,
        (so_controle_fim_ocioso K _).2.2.2.2.2.2.2.2.1, hr]
    · unfold so_inicio_ocioso
      dsimp only
      split <;> exact hr
  unfold so_escalona_rr
  dsimp only
  split
  · exact hprox _ rfl
  · split
    · exact hprox _ rfl
    · split
      · rfl
      · exact hprox _ rfl

/-- C11 (amended): in round-robin mode, when `deve_preemptar` is set, the process of slot
`c` is current on entry of `so_escalona_rr`, and the ready queue is a well-formed ring of
table indices that is not full, the scheduler first reaches a state `m` in which the
preemption count of that process and the global preemption count have grown by exactly one,
the process is `PRONTO`, its index has been appended behind every index already queued and
no other PCB has changed; it then dispatches the head `h` of that queue (`EXECUTANDO`, full
quantum, the rest of the queue stays queued), and both counts are still one higher at the
end.  After every call of `so_escalona_rr`, on any state, `deve_preemptar` is false. -/
theorem so_escalona_rr_preempta (K : so_const_t) (s : so_t) (c : Nat)
    (hidx : s.processo_em_execucao_idx = (c : Int)) (hc : c < s.tabela_processos.length)
    (hmodo : s.escalonador_atual = ESCAL_CIRCULAR) (hpre : s.deve_preemptar = true)
    (hok : so_fila_ok K s) (hnf : s.fila_prontos_tamanho < K.MAX_PROCESSOS)
    (hval : ∀ x ∈ so_fila K s, 0 ≤ x ∧ x.toNat < s.tabela_processos.length) :
    (∃ m : so_t, so_escalona_rr K s = so_escalona_rr_proximo K m ∧
      (so_proc m (c : Int)).num_preempcoes = (so_proc s (c : Int)).num_preempcoes + 1 ∧
      m.metricas.num_preempcoes_total = s.metricas.num_preempcoes_total + 1 ∧
      (so_proc m (c : Int)).estado = PRONTO ∧
      so_fila K m = so_fila K s ++ [(c : Int)] ∧
      (∀ j : Nat, j ≠ c → so_proc m (j : Int) = so_proc s (j : Int))) ∧
    (∀ (h : Int) (resto : List Int), so_fila K s ++ [(c : Int)] = h :: resto →
      (so_escalona_rr K s).processo_em_execucao_idx = h ∧
      (so_proc (so_escalona_rr K s) h).estado = EXECUTANDO ∧
      so_fila K (so_escalona_rr K s) = resto ∧
      (so_escalona_rr K s).quantum_restante = (so_escalona_rr K s).quantum_total) ∧
    (so_proc (so_escalona_rr K s) (c : Int)).num_preempcoes =
      (so_proc s (c : Int)).num_preempcoes + 1 ∧
    (so_escalona_rr K s).metricas.num_preempcoes_total =
      s.metricas.num_preempcoes_total + 1 ∧
    (∀ s0 : so_t, (so_escalona_rr K s0).deve_preemptar = false) := by
  -- the state after the preemption
  have hca : so_mesmo_controle s
      (so_atualiza_estado K (so_registra_preempcao s (c : Int)) (c : Int) PRONTO) :=
    so_mesmo_controle_trans (so_controle_registra s _) (so_controle_atualiza K _ _ _)
  have hins := fila_prontos_insere_fila K
    (so_atualiza_estado K (so_registra_preempcao s (c : Int)) (c : Int) PRONTO) (c : Int)
    (so_fila_ok_controle K hca hok) (by rw [hca.2.2.2.2.2.1]; exact hnf)
  rw [so_fila_controle K hca] at hins
  have hie : so_insere_em_pronto K
      (so_atualiza_estado K (so_registra_preempcao s (c : Int)) (c : Int) PRONTO) (c : Int) =
      fila_prontos_insere K
      (so_atualiza_estado K (so_registra_preempcao s (c : Int)) (c : Int) PRONTO) (c : Int) := by
    unfold so_insere_em_pronto
    rw [if_pos (by rw [hca.2.2.2.2.2.2.2.2.2]; exact hmodo)]
  have hrr : so_escalona_rr K s = so_escalona_rr_proximo K
      { so_insere_em_pronto K
          (so_atualiza_estado K (so_registra_preempcao s (c : Int)) (c : Int) PRONTO) (c : Int)
        with processo_em_execucao_idx := -1, deve_preemptar := false } := by
    unfold so_escalona_rr
    dsimp only
    rw [if_pos ⟨hpre, by rw [hidx]; omega⟩, hidx]
  generalize hm : ({ so_insere_em_pronto K
          (so_atualiza_estado K (so_registra_preempcao s (c : Int)) (c : Int) PRONTO) (c : Int)
        with processo_em_execucao_idx := -1, deve_preemptar := false } : so_t) = m at hrr
  have hmproc : ∀ j : Int, so_proc m j =
      so_proc (so_atualiza_estado K (so_registra_preempcao s (c : Int)) (c : Int) PRONTO) j := by
    intro j
    rw [← hm]
    exact so_proc_insere K _ _ j
  have hlr : c < (so_registra_preempcao s (c : Int)).tabela_processos.length := by
    rw [so_registra_length]; exact hc
  have hregc : (so_proc (so_registra_preempcao s (c : Int)) (c : Int)).num_preempcoes =
      (so_proc s (c : Int)).num_preempcoes + 1 := by
    rw [so_proc_registra, so_proc_muda_mesmo s _ c hc]
  have hmc1 : (so_proc m (c : Int)).num_preempcoes = (so_proc s (c : Int)).num_preempcoes + 1 := by
    rw [hmproc, so_proc_atualiza_preempcoes, hregc]
  have hmmet : m.metricas.num_preempcoes_total = s.metricas.num_preempcoes_total + 1 := by
    rw [← hm]
    show (so_insere_em_pronto K _ _).metricas.num_preempcoes_total = _
    rw [so_insere_metricas, so_atualiza_metricas, so_registra_metricas]
  have hmest : (so_proc m (c : Int)).estado = PRONTO := by
    rw [hmproc, so_proc_atualiza_mesmo K _ PRONTO c hlr, processo_muda_estado_estado]
  have hmfila : so_fila K m = so_fila K s ++ [(c : Int)] := by
    rw [← hins.1, ← hie, ← hm]
    exact so_fila_de_eq K rfl rfl rfl
  have hmok : so_fila_ok K m := by
    have h := hins.2
    rw [← hie] at h
    rw [← hm]
    exact h
  have hmout : ∀ j : Nat, j ≠ c → so_proc m (j : Int) = so_proc s (j : Int) := by
    intro j hj
    rw [hmproc, so_proc_atualiza_outro K _ _ _ j (by omega)]
    rw [so_proc_registra, so_proc_muda_outro s _ _ j (by omega)]
  have hmlen : m.tabela_processos.length = s.tabela_processos.length := by
    rw [← hm]
    show (so_insere_em_pronto K _ _).tabela_processos.length = _
    rw [so_insere_tab, so_atualiza_length, so_registra_length]
  -- the dispatch of the head
  have hmt : m.fila_prontos_tamanho ≠ 0 := by
    have := so_fila_length K m
    rw [hmfila] at this
    simp at this
    omega
  have hrem := fila_prontos_remove_fila K m hmok hmt
  have hcab : 0 ≤ (fila_prontos_remove K m).1 ∧
      (fila_prontos_remove K m).1.toNat < s.tabela_processos.length := by
    have hmem : (fila_prontos_remove K m).1 ∈ so_fila K s ++ [(c : Int)] := by
      rw [← hmfila, hrem.1]
      exact List.mem_cons_self _ _
    rcases List.mem_append.mp hmem with h1 | h1
    · exact hval _ h1
    · rw [List.mem_singleton.mp h1]
      exact ⟨by omega, by rw [Int.toNat_ofNat]; exact hc⟩
  have hprox : so_escalona_rr_proximo K m =
      { so_atualiza_estado K (so_fim_ocioso K (fila_prontos_remove K m).2)
          (fila_prontos_remove K m).1 EXECUTANDO with
        processo_em_execucao_idx := (fila_prontos_remove K m).1
        quantum_restante := (so_atualiza_estado K (so_fim_ocioso K (fila_prontos_remove K m).2)
          (fila_prontos_remove K m).1 EXECUTANDO).quantum_total } := by
    unfold so_escalona_rr_proximo
    dsimp only
    rw [if_pos (by omega)]
  have hfproc : ∀ j : Int, so_proc (so_escalona_rr_proximo K m) j =
      so_proc (so_atualiza_estado K (so_fim_ocioso K (fila_prontos_remove K m).2)
          (fila_prontos_remove K m).1 EXECUTANDO) j := by
    intro j
    rw [hprox]
    rfl
  have hrtab : (fila_prontos_remove K m).2.tabela_processos = m.tabela_processos :=
    fila_prontos_remove_tab K m
  have hrproc : ∀ j : Int, so_proc (so_fim_ocioso K (fila_prontos_remove K m).2) j =
      so_proc m j := by
    intro j
    rw [so_proc_fim_ocioso]
    unfold so_proc
    rw [hrtab]
  refine ⟨⟨m, hrr, hmc1, hmmet, hmest, hmfila, hmout⟩, ?_, ?_, ?_, so_escalona_rr_deve K⟩
  · intro h resto hh
    rw [← hmfila, hrem.1] at hh
    injection hh with h1 h2
    rw [hrr]
    refine ⟨by rw [hprox, ← h1], ?_, ?_, by rw [hprox]⟩
    · rw [hfproc, ← h1]
      obtain ⟨n, hn⟩ : ∃ n : Nat, (fila_prontos_remove K m).1 = (n : Int) :=
        ⟨(fila_prontos_remove K m).1.toNat, by omega⟩
      rw [hn] at hcab ⊢
      rw [so_proc_atualiza_mesmo K _ EXECUTANDO n
        (by rw [so_fim_ocioso_length, hrtab, hmlen]; simpa using hcab.2),
        processo_muda_estado_estado]
    · rw [← h2, hprox]
      have e1 : so_fila K ({ so_atualiza_estado K (so_fim_ocioso K (fila_prontos_remove K m).2)
          (fila_prontos_remove K m).1 EXECUTANDO with
          processo_em_execucao_idx := (fila_prontos_remove K m).1
          quantum_restante := (so_atualiza_estado K
            (so_fim_ocioso K (fila_prontos_remove K m).2)
            (fila_prontos_remove K m).1 EXECUTANDO).quantum_total } : so_t) =
          so_fila K (so_atualiza_estado K (so_fim_ocioso K (fila_prontos_remove K m).2)
            (fila_prontos_remove K m).1 EXECUTANDO) := so_fila_de_eq K rfl rfl rfl
      rw [e1, so_fila_controle K (so_controle_atualiza K _ _ _),
        so_fila_controle K (so_controle_fim_ocioso K _)]
  · rw [hrr]
    rw [hfproc, so_proc_atualiza_preempcoes, hrproc, hmc1]
  · rw [hrr, hprox]
    show (so_atualiza_estado K (so_fim_ocioso K (fila_prontos_remove K m).2)
      (fila_prontos_remove K m).1 EXECUTANDO).metricas.num_preempcoes_total = _
    rw [so_atualiza_metricas, so_fim_ocioso_preempcoes]
    have : (fila_prontos_remove K m).2.metricas = m.metricas := by
      unfold fila_prontos_remove
      split <;> rfl
    rw [this, hmmet]

set_option maxRecDepth 1000000 in
theorem so_escalona_rr_preempta_witness :
    so_ex_entrada_rr_filho.deve_preemptar = true ∧
    so_ex_entrada_rr_filho.processo_em_execucao_idx = 0 ∧
    so_fila so_const_ex so_ex_entrada_rr_filho = [1] ∧
    (so_escalona_rr so_const_ex so_ex_entrada_rr_filho).processo_em_execucao_idx = 1 ∧
    (so_proc (so_escalona_rr so_const_ex so_ex_entrada_rr_filho) 1).estado = EXECUTANDO ∧
    so_fila so_const_ex (so_escalona_rr so_const_ex so_ex_entrada_rr_filho) = [0] ∧
    (so_escalona_rr so_const_ex so_ex_entrada_rr_filho).quantum_restante =
      (so_escalona_rr so_const_ex so_ex_entrada_rr_filho).quantum_total :=
  ⟨by decide, by decide, by decide,
    (so_escalona_rr_preempta so_const_ex so_ex_entrada_rr_filho 0 (by decide) (by decide)
      (by decide) (by decide) (by decide) (by decide) (by decide)).2.1 1 [0] (by decide)⟩

set_option maxRecDepth 1000000 in
/-- C11: round-robin, four process slots.  `init` three times spawns a process, kills it
and reaps it, and spawns a fourth: the index 1 is queued four times and the ready queue is
full.  When the quantum of `init` then ends, the scheduler is entered with `deve_preemptar`
set and `init` (slot 0) current; it counts the preemption and makes `init` `PRONTO`, but
`fila_prontos_insere` finds the queue full and returns: the index 0 is not appended, the
queue only loses its head, and `init` is `PRONTO` outside the ready queue after the
trap. -/
theorem so_rr_fila_cheia_contraexemplo :
    so_alcancavel so_const_ex so_ex_fila_cheia ∧
    so_ex_entrada_rr.escalonador_atual = ESCAL_CIRCULAR ∧
    so_ex_entrada_rr.deve_preemptar = true ∧
    so_ex_entrada_rr.processo_em_execucao_idx = 0 ∧
    so_fila so_const_ex so_ex_entrada_rr = [1, 1, 1, 1] ∧
    (so_proc (so_escalona_rr so_const_ex so_ex_entrada_rr) 0).num_preempcoes =
      (so_proc so_ex_entrada_rr 0).num_preempcoes + 1 ∧
    (so_proc (so_escalona_rr so_const_ex so_ex_entrada_rr) 0).estado = PRONTO ∧
    so_fila so_const_ex (so_escalona_rr so_const_ex so_ex_entrada_rr) = [1, 1, 1] ∧
    (so_proc (so_trap_ex so_ex_fila_cheia 3 0 0) 0).estado = PRONTO ∧
    so_fila so_const_ex (so_trap_ex so_ex_fila_cheia 3 0 0) = [1, 1, 1] := by
  refine ⟨?_, by decide, by decide, by decide, by decide, by decide, by decide, by decide,
    by decide, by decide⟩
  exact .trap _ _ _ _ (.trap _ _ _ _ (.trap _ _ _ _
    (.trap _ _ _ _ (.trap _ _ _ _ (.trap _ _ _ _
    (.trap _ _ _ _ (.trap _ _ _ _ (.trap _ _ _ _
    (.trap _ _ _ _ (.trap _ _ _ _ (.trap _ _ _ _
    (.trap _ _ _ _ (.cria _ _ _ _ _)))))))))))))

/-! ## T2/so.c: the handlers as sequences of writes -/

theorem so_passos_trans (K : so_const_t) {s t u : so_t} (h1 : so_passos K s t)
    (h2 : so_passos K t u) : so_passos K s u := by
  induction h2 with
  | nada => exact h1
  | mais t' u' _ hp ih => exact so_passos.mais _ _ _ ih hp

theorem so_passos_es_le (K : so_const_t) {s0 s : so_t} (ender : Int)
    (h : so_passos K s0 s) : so_passos K s0 (so_es_le s ender).2 :=
  .mais _ _ _ h (.inerte _ _ (so_mesmo_controle_refl s) rfl rfl rfl rfl (Nat.le_succ _))

theorem so_passos_es_escreve (K : so_const_t) {s0 s : so_t} (ender valor : Int)
    (h : so_passos K s0 s) : so_passos K s0 (so_es_escreve s ender valor).2 :=
  .mais _ _ _ h (.inerte _ _ (so_mesmo_controle_refl s) rfl rfl rfl rfl (Nat.le_succ _))

theorem so_passos_erro (K : so_const_t) {s0 s : so_t}
    (h : so_passos K s0 s) : so_passos K s0 (so_erro s) :=
  .mais _ _ _ h (.inerte _ _ (so_mesmo_controle_refl s) rfl rfl rfl rfl (Nat.le_refl _))

theorem so_passos_carrega (K : so_const_t) {s0 s : so_t} (nome : List Int)
    (h : so_passos K s0 s) : so_passos K s0 (so_carrega_programa K s nome).2 := by
  unfold so_carrega_programa
  split
  · exact h
  · dsimp only
    split <;>
      exact .mais _ _ _ h
        (.inerte _ _ (so_mesmo_controle_refl s) rfl rfl rfl rfl (Nat.le_refl _))

theorem so_passos_retorna (K : so_const_t) {s0 s : so_t} (i v : Int)
    (h : so_passos K s0 s) : so_passos K s0 (so_retorna s i v) :=
  .mais _ _ _ h (.regs _ _ _ (fun _ => rfl))

theorem so_passos_regs (K : so_const_t) {s0 s : so_t} (i : Int) (f : processo_t → processo_t)
    (hf : ∀ p, f p = { p with estado_cpu := (f p).estado_cpu })
    (h : so_passos K s0 s) : so_passos K s0 (so_muda_proc s i f) :=
  .mais _ _ _ h (.regs _ _ _ hf)

theorem so_passos_libera (K : so_const_t) {s0 s : so_t} (i : Int)
    (h : so_passos K s0 s) : so_passos K s0 (so_atualiza_estado K s i LIVRE) :=
  .mais _ _ _ h (.libera _ _)

theorem so_passos_salva (K : so_const_t) (s : so_t) :
    so_passos K s (so_salva_estado_da_cpu K s) := by
  unfold so_salva_estado_da_cpu
  dsimp only
  split
  · exact .nada s
  · split
    · exact so_passos_erro K (.nada s)
    · have h1 := so_passos_regs K s.processo_em_execucao_idx
        (fun proc => { proc with estado_cpu := { proc.estado_cpu with regA := ‹Int› } })
        (fun _ => rfl) (.nada s)
      split
      · exact so_passos_erro K h1
      · have h2 := so_passos_regs K s.processo_em_execucao_idx
          (fun proc => { proc with estado_cpu := { proc.estado_cpu with regPC := ‹Int› } })
          (fun _ => rfl) h1
        split
        · exact so_passos_erro K h2
        · have h3 := so_passos_regs K s.processo_em_execucao_idx
            (fun proc => { proc with estado_cpu := { proc.estado_cpu with regERRO := ‹Int› } })
            (fun _ => rfl) h2
          split
          · exact so_passos_erro K h3
          · exact so_passos_regs K s.processo_em_execucao_idx _ (fun _ => rfl) h3

theorem so_proc_dentro (s : so_t) (j : Nat) (h : (so_proc s (j : Int)).estado ≠ LIVRE) :
    j < s.tabela_processos.length := by
  by_contra hj
  rw [so_proc_fora s j (by omega)] at h
  exact h rfl

theorem so_proc_atualiza_estado (K : so_const_t) (s : so_t) (novo : estado_processo_t)
    (j : Nat) (h : j < s.tabela_processos.length) :
    (so_proc (so_atualiza_estado K s (j : Int) novo) (j : Int)).estado = novo := by
  rw [so_proc_atualiza_mesmo K s novo j h, processo_muda_estado_estado]

theorem so_passos_bloqueia (K : so_const_t) {s0 s : so_t} (i : Int)
    (f : processo_t → processo_t) (m : motivo_bloqueio_t)
    (hi : i = s.processo_em_execucao_idx) (hn : i ≠ -1) (hm : m ≠ BLOQUEIO_NENHUM)
    (hf : ∀ p, f p = { p with motivo_bloqueio := m
                              pid_esperado := (f p).pid_esperado
                              dispositivo_esperado := (f p).dispositivo_esperado })
    (h : so_passos K s0 s) :
    so_passos K s0 (so_muda_proc (so_atualiza_estado K s i BLOQUEADO) i f) :=
  .mais _ _ _ h (.bloqueia _ _ _ m hi hn hm hf)

theorem so_passos_le (K : so_const_t) (s : so_t) : so_passos K s (so_chamada_le K s) := by
  unfold so_chamada_le
  dsimp only
  split
  · exact .nada s
  · rename_i hidx
    split
    · exact so_passos_libera K _ (so_passos_erro K (so_passos_es_le K _ (.nada s)))
    · split
      · split
        · exact so_passos_libera K _ (so_passos_erro K
            (so_passos_es_le K _ (so_passos_es_le K _ (.nada s))))
        · exact so_passos_retorna K _ _ (so_passos_es_le K _ (so_passos_es_le K _ (.nada s)))
      · exact so_passos_bloqueia K _ _ BLOQUEIO_IO_LE rfl hidx (by decide) (fun _ => rfl)
          (so_passos_es_le K _ (.nada s))

theorem so_passos_escr (K : so_const_t) (s : so_t) : so_passos K s (so_chamada_escr K s) := by
  unfold so_chamada_escr
  dsimp only
  split
  · exact .nada s
  · rename_i hidx
    split
    · exact so_passos_libera K _ (so_passos_erro K (so_passos_es_le K _ (.nada s)))
    · split
      · split
        · exact so_passos_retorna K _ _
            (so_passos_es_escreve K _ _ (so_passos_es_le K _ (.nada s)))
        · exact so_passos_libera K _ (so_passos_erro K
            (so_passos_es_escreve K _ _ (so_passos_es_le K _ (.nada s))))
      · exact so_passos_bloqueia K _ _ BLOQUEIO_IO_ESCR rfl hidx (by decide) (fun _ => rfl)
          (so_passos_es_le K _ (.nada s))

theorem so_passos_cria (K : so_const_t) {s0 s : so_t} (i ender terminal : Int)
    (h : so_passos K s0 s) :
    so_passos K s0 (so_insere_em_pronto K (so_muda_proc
      (so_inicializa_metricas_processo K (so_novo_pid s).2 i (so_novo_pid s).1 ender) i
      (fun proc => { proc with terminal := terminal })) i) :=
  .mais _ _ _ h (.cria _ _ _ _)

theorem so_passos_cria_proc (K : so_const_t) (s : so_t) :
    so_passos K s (so_chamada_cria_proc K s) := by
  unfold so_chamada_cria_proc
  dsimp only
  split
  · exact .nada s
  · split
    · exact so_passos_retorna K _ _ (.nada s)
    · split
      · exact so_passos_retorna K _ _ (.nada s)
      · split
        · exact so_passos_retorna K _ _ (so_passos_carrega K _ (.nada s))
        · exact so_passos_retorna K _ _
            (so_passos_cria K _ _ _ (so_passos_carrega K _ (.nada s)))

theorem so_passos_coleta (K : so_const_t) {s0 s : so_t} (idx_alvo pid_alvo : Int)
    (h : so_passos K s0 s) : so_passos K s0 (so_mata_coleta K s idx_alvo pid_alvo) := by
  unfold so_mata_coleta
  split
  · exact h
  · rename_i i hfind
    have hp := List.find?_some hfind
    simp only [decide_eq_true_eq] at hp
    have hlen : i < s.tabela_processos.length :=
      so_proc_dentro s i (by rw [hp.1]; decide)
    have h1 : so_passos K s0 (so_atualiza_estado K s (i : Int) PRONTO) :=
      .mais _ _ _ h (.pronto _ _ hp.1)
    have e1 : (so_proc (so_atualiza_estado K s (i : Int) PRONTO) (i : Int)).estado = PRONTO :=
      so_proc_atualiza_estado K s PRONTO i hlen
    have h2 := so_passos.mais _ _ _ h1 (.desbloqueia _ (i : Int)
      (fun proc => { proc with
          motivo_bloqueio := BLOQUEIO_NENHUM
          estado_cpu := { proc.estado_cpu with regA := 0 } }) e1 (fun _ => rfl))
    have e2 : (so_proc (so_muda_proc (so_atualiza_estado K s (i : Int) PRONTO) (i : Int)
        (fun proc => { proc with
          motivo_bloqueio := BLOQUEIO_NENHUM
          estado_cpu := { proc.estado_cpu with regA := 0 } })) (i : Int)).estado = PRONTO := by
      rw [so_proc_muda_mesmo _ _ i (by rw [so_atualiza_length]; exact hlen)]
      exact e1
    exact so_passos_libera K _ (.mais _ _ _ h2 (.insere _ _ e2))

theorem so_passos_relatorio (K : so_const_t) {s0 s : so_t}
    (h : so_passos K s0 s) : so_passos K s0 (so_imprime_relatorio_final K s) :=
  .mais _ _ _ h (.relatorio _)

theorem so_passos_mata_proc (K : so_const_t) (s : so_t) :
    so_passos K s (so_chamada_mata_proc K s) := by
  unfold so_chamada_mata_proc
  dsimp only
  split
  · exact .nada s
  · split
    · exact so_passos_retorna K _ _ (.nada s)
    · rename_i i hfind
      have hp := List.find?_some hfind
      simp only [decide_eq_true_eq] at hp
      have h1 : so_passos K s (so_atualiza_estado K s (i : Int) TERMINADO) :=
        .mais _ _ _ (.nada s) (.termina _ _ (Or.inl hp.1))
      split_ifs <;>
        first
        | exact so_passos_relatorio K (so_passos_retorna K _ _ (so_passos_coleta K _ _ h1))
        | exact so_passos_retorna K _ _ (so_passos_coleta K _ _ h1)

theorem so_passos_espera_proc (K : so_const_t) (s : so_t) :
    so_passos K s (so_chamada_espera_proc K s) := by
  unfold so_chamada_espera_proc
  dsimp only
  split
  · exact .nada s
  · rename_i hidx
    split
    · exact so_passos_retorna K _ _ (.nada s)
    · split
      · exact so_passos_retorna K _ _ (.nada s)
      · split
        · exact so_passos_retorna K _ _ (.nada s)
        · split
          · exact so_passos_retorna K _ _ (so_passos_libera K _ (.nada s))
          · exact so_passos_bloqueia K _ _ BLOQUEIO_PID rfl hidx (by decide) (fun _ => rfl)
              (.nada s)

theorem so_passos_chamada_sistema (K : so_const_t) (s : so_t) :
    so_passos K s (so_trata_irq_chamada_sistema K s) := by
  unfold so_trata_irq_chamada_sistema
  dsimp only
  split
  · exact so_passos_erro K (.nada s)
  · split
    · exact so_passos_le K s
    · split
      · exact so_passos_escr K s
      · split
        · exact so_passos_cria_proc K s
        · split
          · exact so_passos_mata_proc K s
          · split
            · exact so_passos_espera_proc K s
            · exact .mais _ _ _ (.nada s) (.termina _ _ (Or.inr rfl))

theorem so_passos_reset (K : so_const_t) (s : so_t) :
    so_passos K s (so_trata_reset K s) := by
  unfold so_trata_reset
  dsimp only
  have h1 : so_passos K s
      (if (so_carrega_programa K s (c_str "trata_int.maq")).1 ≠ K.CPU_END_TRATADOR then
        so_erro (so_carrega_programa K s (c_str "trata_int.maq")).2
      else (so_carrega_programa K s (c_str "trata_int.maq")).2) := by
    split
    · exact so_passos_erro K (so_passos_carrega K _ (.nada s))
    · exact so_passos_carrega K _ (.nada s)
  generalize (if (so_carrega_programa K s (c_str "trata_int.maq")).1 ≠ K.CPU_END_TRATADOR then
        so_erro (so_carrega_programa K s (c_str "trata_int.maq")).2
      else (so_carrega_programa K s (c_str "trata_int.maq")).2) = s1 at h1 ⊢
  have h2 : so_passos K s
      (if (so_es_escreve s1 K.D_RELOGIO_TIMER 50).1 then
        (so_es_escreve s1 K.D_RELOGIO_TIMER 50).2
      else so_erro (so_es_escreve s1 K.D_RELOGIO_TIMER 50).2) := by
    split
    · exact so_passos_es_escreve K _ _ h1
    · exact so_passos_erro K (so_passos_es_escreve K _ _ h1)
  generalize (if (so_es_escreve s1 K.D_RELOGIO_TIMER 50).1 then
        (so_es_escreve s1 K.D_RELOGIO_TIMER 50).2
      else so_erro (so_es_escreve s1 K.D_RELOGIO_TIMER 50).2) = s2 at h2 ⊢
  split
  · exact so_passos_erro K (so_passos_carrega K _ h2)
  · exact so_passos_cria K _ _ _ (so_passos_carrega K _ h2)

theorem so_passos_err_cpu (K : so_const_t) (s : so_t) :
    so_passos K s (so_trata_irq_err_cpu K s) := by
  unfold so_trata_irq_err_cpu
  split
  · exact so_passos_libera K _ (.nada s)
  · exact so_passos_erro K (.nada s)

/-- `so_trata_irq` is a sequence of such writes, followed in the clock interrupt by the
quantum logic. -/
theorem so_passos_trata_irq (K : so_const_t) (s : so_t) (irq : Int) :
    ∃ m, so_passos K s m ∧
      (so_trata_irq K s irq = m ∨ so_trata_irq K s irq = so_relogio_quantum m) := by
  have h0 : so_passos K s (so_conta_irq K s irq) := .mais _ _ _ (.nada s) (.conta _ _)
  unfold so_trata_irq
  dsimp only
  split
  · exact ⟨_, so_passos_trans K h0 (so_passos_reset K _), Or.inl rfl⟩
  · split
    · exact ⟨_, so_passos_trans K h0 (so_passos_chamada_sistema K _), Or.inl rfl⟩
    · split
      · exact ⟨_, so_passos_trans K h0 (so_passos_err_cpu K _), Or.inl rfl⟩
      · split
        · refine ⟨_, ?_, Or.inr rfl⟩
          split
          · exact so_passos_erro K (so_passos_es_escreve K _ _ (so_passos_es_escreve K _ _ h0))
          · exact so_passos_es_escreve K _ _ (so_passos_es_escreve K _ _ h0)
        · exact ⟨_, so_passos_erro K h0, Or.inl rfl⟩

theorem so_passos_pendencia (K : so_const_t) {s0 s : so_t} (i : Nat)
    (h : so_passos K s0 s) : so_passos K s0 (so_trata_pendencia K s i) := by
  have hpronto : ∀ (t : so_t) (v : Int), so_passos K s0 t →
      (so_proc t (i : Int)).estado = BLOQUEADO →
      so_passos K s0 (so_insere_em_pronto K (so_muda_proc
        (so_atualiza_estado K (so_retorna t (i : Int) v) (i : Int) PRONTO) (i : Int)
        (fun proc => { proc with motivo_bloqueio := BLOQUEIO_NENHUM })) (i : Int)) := by
    intro t v ht hb
    have hlen : i < t.tabela_processos.length := so_proc_dentro t i (by rw [hb]; decide)
    have hlen1 : i < (so_retorna t (i : Int) v).tabela_processos.length := by
      rw [so_retorna_tab]
      simpa using hlen
    have e0 : (so_proc (so_retorna t (i : Int) v) (i : Int)).estado = BLOQUEADO := by
      rw [(so_proc_retorna_campos t _ v i).1, hb]
    have h1 := so_passos.mais _ _ _ (so_passos_retorna K (i : Int) v ht) (.pronto _ _ e0)
    have e1 := so_proc_atualiza_estado K (so_retorna t (i : Int) v) PRONTO i hlen1
    have h2 := so_passos.mais _ _ _ h1 (.desbloqueia _ (i : Int)
      (fun proc => { proc with motivo_bloqueio := BLOQUEIO_NENHUM }) e1 (fun _ => rfl))
    refine .mais _ _ _ h2 (.insere _ _ ?_)
    rw [so_proc_muda_mesmo _ _ i (by rw [so_atualiza_length]; exact hlen1)]
    exact e1
  unfold so_trata_pendencia
  dsimp only
  split
  · exact h
  · rename_i hb
    have hb : (so_proc s (i : Int)).estado = BLOQUEADO := not_not.mp hb
    split
    · split
      · exact so_passos_libera K _ (so_passos_es_le K _ h)
      · split
        · split
          · exact so_passos_libera K _ (so_passos_es_le K _ (so_passos_es_le K _ h))
          · exact hpronto _ _ (so_passos_es_le K _ (so_passos_es_le K _ h)) hb
        · exact so_passos_es_le K _ h
    · split
      · split
        · exact so_passos_libera K _ (so_passos_es_le K _ h)
        · split
          · split
            · exact hpronto _ _ (so_passos_es_escreve K _ _ (so_passos_es_le K _ h)) hb
            · exact so_passos_libera K _ (so_passos_es_escreve K _ _ (so_passos_es_le K _ h))
          · exact so_passos_es_le K _ h
      · exact h

theorem so_passos_pendencias (K : so_const_t) (s : so_t) :
    so_passos K s (so_trata_pendencias K s) := by
  unfold so_trata_pendencias
  have : ∀ (l : List Nat) (t : so_t), so_passos K s t →
      so_passos K s (l.foldl (so_trata_pendencia K) t) := by
    intro l
    induction l with
    | nil => intro t ht; exact ht
    | cons i l ih => intro t ht; exact ih _ (so_passos_pendencia K i ht)
  exact this _ s (.nada s)

/-- The kernel at the call of the scheduler is reached by such writes, with at most one
run of the quantum logic in between. -/
theorem so_passos_entrada (K : so_const_t) (s : so_t) (irq : Int) :
    ∃ m m', so_passos K s m ∧ (m' = m ∨ m' = so_relogio_quantum m) ∧
      so_passos K m' (so_entrada K s irq) := by
  obtain ⟨m, hm, hq⟩ := so_passos_trata_irq K (so_salva_estado_da_cpu K s) irq
  refine ⟨m, so_trata_irq K (so_salva_estado_da_cpu K s) irq,
    so_passos_trans K (so_passos_salva K s) hm, hq, ?_⟩
  exact so_passos_pendencias K _

/-! ## T2/so.c: pids -/

theorem so_proc_de_tab {s s' : so_t} (h : s'.tabela_processos = s.tabela_processos)
    (j : Int) : so_proc s' j = so_proc s j := by
  unfold so_proc
  rw [h]

theorem so_proc_inicializa (K : so_const_t) (s : so_t) (i pid e : Int) (j : Nat) :
    so_proc (so_inicializa_metricas_processo K s i pid e) (j : Int) =
      if 0 ≤ i ∧ i.toNat = j ∧ j < s.tabela_processos.length then
        processo_inicial (so_proc s (j : Int)) pid (so_get_tempo K s).1 e
      else so_proc s (j : Int) := by
  have h : so_proc (so_inicializa_metricas_processo K s i pid e) (j : Int) =
      so_proc (so_muda_proc (so_get_tempo K s).2 i
        (fun proc => processo_inicial proc pid (so_get_tempo K s).1 e)) (j : Int) := rfl
  rw [h, so_proc_muda]
  rfl

theorem so_inicializa_length (K : so_const_t) (s : so_t) (i pid e : Int) :
    (so_inicializa_metricas_processo K s i pid e).tabela_processos.length =
      s.tabela_processos.length := by
  have h : (so_inicializa_metricas_processo K s i pid e).tabela_processos =
      (so_muda_proc (so_get_tempo K s).2 i
        (fun proc => processo_inicial proc pid (so_get_tempo K s).1 e)).tabela_processos := rfl
  rw [h, so_muda_proc_length]
  rfl

/-- The PCBs after a creation. -/
theorem so_proc_cria (K : so_const_t) (s : so_t) (i e t : Int) (j : Nat) :
    so_proc (so_insere_em_pronto K (so_muda_proc
        (so_inicializa_metricas_processo K (so_novo_pid s).2 i (so_novo_pid s).1 e) i
        (fun proc => { proc with terminal := t })) i) (j : Int) =
      if 0 ≤ i ∧ i.toNat = j ∧ j < s.tabela_processos.length then
        { processo_inicial (so_proc s (j : Int)) s.proximo_pid (so_get_tempo K s).1 e with
            terminal := t }
      else so_proc s (j : Int) := by
  rw [so_proc_insere, so_proc_muda, so_inicializa_length, so_proc_inicializa]
  by_cases h : 0 ≤ i ∧ i.toNat = j ∧ j < s.tabela_processos.length
  · have h' : 0 ≤ i ∧ i.toNat = j ∧ j < (so_novo_pid s).2.tabela_processos.length := h
    rw [if_pos h', if_pos h', if_pos h]
    rfl
  · have h' : ¬ (0 ≤ i ∧ i.toNat = j ∧ j < (so_novo_pid s).2.tabela_processos.length) := h
    rw [if_neg h', if_neg h', if_neg h]
    rfl

theorem so_controle_insere_pid (K : so_const_t) (s : so_t) (i : Int) :
    (so_insere_em_pronto K s i).proximo_pid = s.proximo_pid := by
  unfold so_insere_em_pronto fila_prontos_insere
  split_ifs <;> rfl

theorem so_controle_inicializa (K : so_const_t) (s : so_t) (i pid e : Int) :
    so_mesmo_controle s (so_inicializa_metricas_processo K s i pid e) := by
  unfold so_inicializa_metricas_processo
  exact so_mesmo_controle_trans (so_controle_tempo K s)
    (so_mesmo_controle_trans (so_controle_muda _ i _) (so_mesmo_controle_refl _))

theorem so_controle_relatorio (K : so_const_t) (s : so_t) :
    so_mesmo_controle s (so_imprime_relatorio_final K s) := by
  unfold so_imprime_relatorio_final
  dsimp only
  split <;> exact so_mesmo_controle_refl s

theorem so_controle_conta (K : so_const_t) (s : so_t) (irq : Int) :
    so_mesmo_controle s (so_conta_irq K s irq) := by
  unfold so_conta_irq
  split <;> exact so_mesmo_controle_refl s

theorem so_proc_conta (K : so_const_t) (s : so_t) (irq : Int) (j : Int) :
    so_proc (so_conta_irq K s irq) j = so_proc s j := by
  unfold so_conta_irq
  split <;> rfl

theorem so_pids_refl (s : so_t) : so_pids_novos s s :=
  ⟨le_refl _, fun _ => Or.inl rfl⟩

theorem so_pids_trans {s t u : so_t} (h1 : so_pids_novos s t) (h2 : so_pids_novos t u) :
    so_pids_novos s u := by
  refine ⟨le_trans h1.1 h2.1, fun j => ?_⟩
  rcases h2.2 j with e2 | ⟨a2, b2⟩
  · rcases h1.2 j with e1 | ⟨a1, b1⟩
    · exact Or.inl (e2.trans e1)
    · exact Or.inr ⟨by rw [e2]; exact a1, by rw [e2]; exact lt_of_lt_of_le b1 h2.1⟩
  · exact Or.inr ⟨le_trans h1.1 a2, b2⟩

theorem so_pids_de_eq {s s' : so_t} (hpp : s'.proximo_pid = s.proximo_pid)
    (hpid : ∀ j : Nat, (so_proc s' (j : Int)).pid = (so_proc s (j : Int)).pid) :
    so_pids_novos s s' :=
  ⟨by rw [hpp], fun j => Or.inl (hpid j)⟩

theorem so_pids_muda (s : so_t) (i : Int) (f : processo_t → processo_t)
    (hf : ∀ p, (f p).pid = p.pid) : so_pids_novos s (so_muda_proc s i f) := by
  refine so_pids_de_eq (so_controle_muda s i f).2.1 (fun j => ?_)
  rw [so_proc_muda]
  split
  · exact hf _
  · rfl

theorem so_pids_atualiza (K : so_const_t) (s : so_t) (i : Int) (novo : estado_processo_t) :
    so_pids_novos s (so_atualiza_estado K s i novo) := by
  refine so_pids_de_eq (so_controle_atualiza K s i novo).2.1 (fun j => ?_)
  rw [so_proc_atualiza]
  split
  · exact (processo_muda_estado_resto _ _ _).1
  · rfl

theorem so_pids_passo (K : so_const_t) {s t : so_t} (h : so_passo K s t) :
    so_pids_novos s t := by
  cases h with
  | inerte _ hc htab _ _ _ _ =>
    exact so_pids_de_eq hc.2.1 (fun j => by rw [so_proc_de_tab htab])
  | conta irq =>
    exact so_pids_de_eq (so_controle_conta K s irq).2.1 (fun j => by rw [so_proc_conta])
  | relatorio =>
    exact so_pids_de_eq (so_controle_relatorio K s).2.1 (fun j => by rw [so_proc_relatorio])
  | regs i f hf => exact so_pids_muda s i f (fun p => by have h := congrArg processo_t.pid (hf p); exact h)
  | libera i => exact so_pids_atualiza K s i _
  | termina i _ => exact so_pids_atualiza K s i _
  | bloqueia i f m _ _ _ hf =>
    exact so_pids_trans (so_pids_atualiza K s i _)
      (so_pids_muda _ i f (fun p => by have h := congrArg processo_t.pid (hf p); exact h))
  | pronto i _ => exact so_pids_atualiza K s i _
  | desbloqueia i f _ hf =>
    exact so_pids_muda s i f (fun p => by have h := congrArg processo_t.pid (hf p); exact h)
  | insere i _ =>
    exact so_pids_de_eq (so_controle_insere_pid K s i) (fun j => by rw [so_proc_insere])
  | cria i e t =>
    have hpp : (so_insere_em_pronto K (so_muda_proc
        (so_inicializa_metricas_processo K (so_novo_pid s).2 i (so_novo_pid s).1 e) i
        (fun proc => { proc with terminal := t })) i).proximo_pid = s.proximo_pid + 1 := by
      rw [so_controle_insere_pid, (so_controle_muda _ _ _).2.1,
        (so_controle_inicializa K _ _ _ _).2.1]
      rfl
    refine ⟨by rw [hpp]; omega, fun j => ?_⟩
    rw [so_proc_cria, hpp]
    split
    · exact Or.inr ⟨le_refl _, by show s.proximo_pid < s.proximo_pid + 1; omega⟩
    · exact Or.inl rfl

theorem so_pids_passos (K : so_const_t) {s t : so_t} (h : so_passos K s t) :
    so_pids_novos s t := by
  induction h with
  | nada => exact so_pids_refl s
  | mais t u _ hp ih => exact so_pids_trans ih (so_pids_passo K hp)

theorem so_pids_registra (s : so_t) (i : Int) :
    so_pids_novos s (so_registra_preempcao s i) :=
  so_pids_de_eq (so_controle_registra s i).2.1
    (fun j => by rw [so_proc_registra, so_proc_muda]; split <;> rfl)

theorem so_pids_calcula (s : so_t) (i : Int) :
    so_pids_novos s (so_calcula_prioridade s i) :=
  so_pids_muda s i _ (fun _ => rfl)

theorem so_pids_insere (K : so_const_t) (s : so_t) (i : Int) :
    so_pids_novos s (so_insere_em_pronto K s i) :=
  so_pids_de_eq (so_controle_insere_pid K s i) (fun j => by rw [so_proc_insere])

theorem so_pids_fim_ocioso (K : so_const_t) (s : so_t) :
    so_pids_novos s (so_fim_ocioso K s) :=
  so_pids_de_eq (so_controle_fim_ocioso K s).2.1 (fun j => by rw [so_proc_fim_ocioso])

theorem so_pids_inicio_ocioso (K : so_const_t) (s : so_t) :
    so_pids_novos s (so_inicio_ocioso K s) := by
  unfold so_inicio_ocioso
  dsimp only
  split <;> exact so_pids_de_eq rfl (fun _ => rfl)

theorem so_pids_remove (K : so_const_t) (s : so_t) :
    so_pids_novos s (fila_prontos_remove K s).2 := by
  unfold fila_prontos_remove
  split <;> exact so_pids_de_eq rfl (fun _ => rfl)

theorem so_pids_rr_proximo (K : so_const_t) (s : so_t) :
    so_pids_novos s (so_escalona_rr_proximo K s) := by
  unfold so_escalona_rr_proximo
  dsimp only
  split
  · exact so_pids_trans (so_pids_remove K s)
      (so_pids_trans (so_pids_fim_ocioso K _)
        (so_pids_trans (so_pids_atualiza K _ _ _) (so_pids_de_eq rfl (fun _ => rfl))))
  · exact so_pids_trans (so_pids_remove K s) (so_pids_inicio_ocioso K _)

theorem so_pids_rr (K : so_const_t) (s : so_t) : so_pids_novos s (so_escalona_rr K s) := by
  unfold so_escalona_rr
  dsimp only
  split
  · refine so_pids_trans ?_ (so_pids_rr_proximo K _)
    exact so_pids_trans (so_pids_registra s _)
      (so_pids_trans (so_pids_atualiza K _ _ _)
        (so_pids_trans (so_pids_insere K _ _) (so_pids_de_eq rfl (fun _ => rfl))))
  · split
    · exact so_pids_trans (so_pids_de_eq rfl (fun _ => rfl)) (so_pids_rr_proximo K _)
    · split
      · exact so_pids_de_eq rfl (fun _ => rfl)
      · exact so_pids_trans (so_pids_de_eq rfl (fun _ => rfl)) (so_pids_rr_proximo K _)

theorem so_pids_prio_proximo (K : so_const_t) (s : so_t) :
    so_pids_novos s (so_escalona_prio_proximo K s) := by
  unfold so_escalona_prio_proximo
  dsimp only
  split
  · exact so_pids_trans (so_pids_fim_ocioso K _)
      (so_pids_trans (so_pids_atualiza K _ _ _) (so_pids_de_eq rfl (fun _ => rfl)))
  · exact so_pids_inicio_ocioso K _

theorem so_pids_prio_atual (K : so_const_t) (s : so_t) :
    so_pids_novos s (so_escalona_prio_atual K s) := by
  unfold so_escalona_prio_atual
  dsimp only
  split
  · refine so_pids_trans ?_ (so_pids_de_eq rfl (fun _ => rfl))
    split
    · exact so_pids_trans (so_pids_calcula s _) (so_pids_de_eq rfl (fun _ => rfl))
    · split
      · exact so_pids_trans (so_pids_calcula s _)
          (so_pids_trans (so_pids_registra _ _)
            (so_pids_trans (so_pids_atualiza K _ _ _) (so_pids_de_eq rfl (fun _ => rfl))))
      · exact so_pids_refl s
  · exact so_pids_refl s

theorem so_pids_escalona (K : so_const_t) (s : so_t) :
    so_pids_novos s (so_escalona K s) := by
  unfold so_escalona
  split
  · exact so_pids_rr K s
  · unfold so_escalona_prio
    dsimp only
    split
    · exact so_pids_trans (so_pids_prio_atual K s) (so_pids_prio_proximo K _)
    · exact so_pids_prio_atual K s

theorem so_pids_despacha (K : so_const_t) (s : so_t) :
    so_pids_novos s (so_despacha K s).2 := by
  unfold so_despacha
  dsimp only
  split
  · exact so_pids_refl s
  · split <;> exact so_pids_de_eq rfl (fun _ => rfl)

theorem so_pids_quantum (s : so_t) : so_pids_novos s (so_relogio_quantum s) := by
  unfold so_relogio_quantum
  dsimp only
  split
  · split <;> exact so_pids_de_eq rfl (fun _ => rfl)
  · exact so_pids_refl s

theorem so_trap_entrada (K : so_const_t) (s : so_t) (irq : Int) :
    (so_trata_interrupcao K s irq).2 = (so_despacha K (so_escalona K (so_entrada K s irq))).2 :=
  rfl

/-- Over a trap, on any kernel state. -/
theorem so_pids_trap (K : so_const_t) (s : so_t) (irq : Int) :
    so_pids_novos s (so_trata_interrupcao K s irq).2 := by
  rw [so_trap_entrada]
  obtain ⟨m, m', h1, h2, h3⟩ := so_passos_entrada K s irq
  have hm' : so_pids_novos s m' := by
    rcases h2 with rfl | rfl
    · exact so_pids_passos K h1
    · exact so_pids_trans (so_pids_passos K h1) (so_pids_quantum m)
  exact so_pids_trans hm'
    (so_pids_trans (so_pids_passos K h3)
      (so_pids_trans (so_pids_escalona K _) (so_pids_despacha K _)))

theorem so_pids_entre_mem (a b p : Int) : p ∈ so_pids_entre a b ↔ a ≤ p ∧ p < b := by
  unfold so_pids_entre
  simp only [List.mem_reverse, List.mem_map, List.mem_range]
  constructor
  · rintro ⟨k, hk, rfl⟩
    omega
  · intro h
    exact ⟨(p - a).toNat, by omega, by omega⟩

theorem so_pids_entre_ordem (a b : Int) :
    (so_pids_entre a b).Pairwise (fun novo antigo => antigo < novo) := by
  unfold so_pids_entre
  rw [List.pairwise_reverse, List.pairwise_map]
  refine List.Pairwise.imp ?_ (List.pairwise_lt_range _)
  intro x y hxy
  omega

/-- C14: in every run from `so_cria`, the pids given out so far (the newest first) are
strictly decreasing down the list, that is, every pid given out is strictly greater than
every pid given out earlier and no pid is given out twice; all are at least 1 and below
`proximo_pid`.  In any further trap the counter does not go back and every PCB of the table
keeps its pid or receives one of the values the counter went through in that trap, which
are all greater than the pids given out before: a slot that is reaped and reused gets a
fresh pid. -/
theorem so_pid_monotono (K : so_const_t) (self : so_t) (pids : List Int)
    (h : so_execucao K self pids) :
    pids.Pairwise (fun novo antigo => antigo < novo) ∧
    (∀ p ∈ pids, 1 ≤ p ∧ p < self.proximo_pid) ∧
    (∀ (irq : Int) (mem : mem_t) (es : es_t),
      self.proximo_pid ≤
        (so_trata_interrupcao K { self with mem := mem, es := es } irq).2.proximo_pid ∧
      (∀ j : Nat,
        (so_proc (so_trata_interrupcao K { self with mem := mem, es := es } irq).2 (j : Int)).pid
            = (so_proc self (j : Int)).pid ∨
        ((so_proc (so_trata_interrupcao K { self with mem := mem, es := es } irq).2
            (j : Int)).pid ∈
          so_pids_entre self.proximo_pid
            (so_trata_interrupcao K { self with mem := mem, es := es } irq).2.proximo_pid ∧
         ∀ p ∈ pids,
          p < (so_proc (so_trata_interrupcao K { self with mem := mem, es := es } irq).2
            (j : Int)).pid))) := by
  have hinv : pids.Pairwise (fun novo antigo => antigo < novo) ∧
      (∀ p ∈ pids, 1 ≤ p ∧ p < self.proximo_pid) ∧ 1 ≤ self.proximo_pid := by
    induction h with
    | cria modo mem es lp lf =>
      exact ⟨List.Pairwise.nil, ⟨fun p hp => absurd hp (List.not_mem_nil p), le_refl _⟩⟩
    | trap s pids irq mem es _ ih =>
      have hR := so_pids_trap K { s with mem := mem, es := es } irq
      have hle : s.proximo_pid ≤
          (so_trata_interrupcao K { s with mem := mem, es := es } irq).2.proximo_pid := hR.1
      have h0 : (1 : Int) ≤ s.proximo_pid := ih.2.2
      refine ⟨?_, ?_, by omega⟩
      · rw [List.pairwise_append]
        refine ⟨so_pids_entre_ordem _ _, ih.1, fun a ha b hb => ?_⟩
        have h1 := (so_pids_entre_mem _ _ _).mp ha
        have h2 := ih.2.1 b hb
        omega
      · intro p hp
        rcases List.mem_append.mp hp with h1 | h1
        · have h1 := (so_pids_entre_mem _ _ _).mp h1
          omega
        · have h2 := ih.2.1 p h1
          omega
  refine ⟨hinv.1, hinv.2.1, fun irq mem es => ?_⟩
  have hR := so_pids_trap K { self with mem := mem, es := es } irq
  refine ⟨hR.1, fun j => ?_⟩
  rcases hR.2 j with e | ⟨a, b⟩
  · exact Or.inl e
  · refine Or.inr ⟨(so_pids_entre_mem _ _ _).mpr ⟨a, b⟩, fun p hp => ?_⟩
    have h2 := hinv.2.1 p hp
    have a' : self.proximo_pid ≤ (so_proc (so_trata_interrupcao K
      { self with mem := mem, es := es } irq).2 (j : Int)).pid := a
    omega

set_option maxRecDepth 1000000 in
theorem so_ex_reuso_execucao : so_execucao so_const_ex so_ex_reuso [3, 2, 1] := by
  have h : so_execucao so_const_ex so_ex_reuso _ :=
    .trap _ _ 2 (mem_ex 7 300) es_ex (.trap _ _ 2 (mem_ex 9 2) es_ex
      (.trap _ _ 2 (mem_ex 8 2) es_ex (.trap _ _ 2 (mem_ex 7 300) es_ex
        (.trap _ _ 0 (mem_ex 0 0) es_ex
          (.cria ESCAL_CIRCULAR (mem_ex 0 0) es_ex (fun _ => default) (fun _ => 0))))))
  have e : so_pids_entre
      (so_ex_ciclo (so_ex_boot ESCAL_CIRCULAR) 2).proximo_pid so_ex_reuso.proximo_pid ++
      (so_pids_entre (so_trap_ex so_ex_cria_filho 2 8 2).proximo_pid
        (so_ex_ciclo (so_ex_boot ESCAL_CIRCULAR) 2).proximo_pid ++
      (so_pids_entre so_ex_cria_filho.proximo_pid
        (so_trap_ex so_ex_cria_filho 2 8 2).proximo_pid ++
      (so_pids_entre (so_ex_boot ESCAL_CIRCULAR).proximo_pid so_ex_cria_filho.proximo_pid ++
      (so_pids_entre (so_cria_modo so_const_ex ESCAL_CIRCULAR (mem_ex 0 0) es_ex
          (fun _ => default) (fun _ => 0)).proximo_pid
        (so_ex_boot ESCAL_CIRCULAR).proximo_pid ++ [])))) = [3, 2, 1] := by decide
  rw [← e]
  exact h

set_option maxRecDepth 1000000 in
theorem so_pid_monotono_witness :
    so_execucao so_const_ex so_ex_reuso [3, 2, 1] ∧
    (so_proc so_ex_cria_filho 1).pid = 2 ∧
    (so_proc so_ex_reuso 1).pid = 3 ∧
    ([3, 2, 1] : List Int).Pairwise (fun novo antigo => antigo < novo) ∧
    (∀ p ∈ ([3, 2, 1] : List Int), 1 ≤ p ∧ p < so_ex_reuso.proximo_pid) :=
  ⟨so_ex_reuso_execucao, by decide, by decide,
    (so_pid_monotono so_const_ex so_ex_reuso [3, 2, 1] so_ex_reuso_execucao).1,
    (so_pid_monotono so_const_ex so_ex_reuso [3, 2, 1] so_ex_reuso_execucao).2.1⟩

/-! ## T2/so.c: priorities stay in [0, 1] -/

theorem so_quantum_refl (s : so_t) : so_mesmo_quantum s s := ⟨rfl, rfl, rfl, rfl, rfl⟩

theorem so_quantum_trans {s t u : so_t} (h1 : so_mesmo_quantum s t)
    (h2 : so_mesmo_quantum t u) : so_mesmo_quantum s u := by
  obtain ⟨a1, a2, a3, a4, a5⟩ := h1
  obtain ⟨b1, b2, b3, b4, b5⟩ := h2
  exact ⟨b1.trans a1, b2.trans a2, b3.trans a3, b4.trans a4, b5.trans a5⟩

theorem so_quantum_de_controle {s t : so_t} (h : so_mesmo_controle s t) :
    so_mesmo_quantum s t :=
  ⟨h.1, h.2.2.2.2.2.2.1, h.2.2.2.2.2.2.2.1, h.2.2.2.2.2.2.2.2.1, h.2.2.2.2.2.2.2.2.2⟩

theorem so_quantum_insere (K : so_const_t) (s : so_t) (i : Int) :
    so_mesmo_quantum s (so_insere_em_pronto K s i) := by
  unfold so_insere_em_pronto fila_prontos_insere
  split_ifs <;> exact so_quantum_refl s

theorem so_quantum_atualiza (K : so_const_t) (s : so_t) (i : Int)
    (novo : estado_processo_t) : so_mesmo_quantum s (so_atualiza_estado K s i novo) :=
  so_quantum_de_controle (so_controle_atualiza K s i novo)

theorem so_quantum_muda (s : so_t) (i : Int) (f : processo_t → processo_t) :
    so_mesmo_quantum s (so_muda_proc s i f) :=
  so_quantum_de_controle (so_controle_muda s i f)

theorem so_quantum_passo (K : so_const_t) {s t : so_t} (h : so_passo K s t) :
    so_mesmo_quantum s t := by
  cases h with
  | inerte _ hc _ _ _ _ _ => exact so_quantum_de_controle hc
  | conta irq => exact so_quantum_de_controle (so_controle_conta K s irq)
  | relatorio => exact so_quantum_de_controle (so_controle_relatorio K s)
  | regs i f _ => exact so_quantum_muda s i f
  | libera i => exact so_quantum_atualiza K s i _
  | termina i _ => exact so_quantum_atualiza K s i _
  | bloqueia i f m _ _ _ _ =>
    exact so_quantum_trans (so_quantum_atualiza K s i _) (so_quantum_muda _ i f)
  | pronto i _ => exact so_quantum_atualiza K s i _
  | desbloqueia i f _ _ => exact so_quantum_muda s i f
  | insere i _ => exact so_quantum_insere K s i
  | cria i e t =>
    refine so_quantum_trans ?_ (so_quantum_insere K _ i)
    refine so_quantum_trans ?_ (so_quantum_muda _ i _)
    refine so_quantum_trans ?_ (so_quantum_de_controle (so_controle_inicializa K _ _ _ _))
    exact ⟨rfl, rfl, rfl, rfl, rfl⟩

theorem so_quantum_passos (K : so_const_t) {s t : so_t} (h : so_passos K s t) :
    so_mesmo_quantum s t := by
  induction h with
  | nada => exact so_quantum_refl s
  | mais t u _ hp ih => exact so_quantum_trans ih (so_quantum_passo K hp)

theorem so_limites_de_eq {s s' : so_t} (htab : s'.tabela_processos = s.tabela_processos)
    (hidx : s'.processo_em_execucao_idx = s.processo_em_execucao_idx)
    (h : so_prio_limites s) : so_prio_limites s' := by
  intro j hj
  rw [so_proc_de_tab htab, hidx] at hj
  rw [so_proc_de_tab htab]
  exact h j hj

theorem so_limites_muda {s : so_t} (i : Int) (f : processo_t → processo_t)
    (hf : ∀ p, (f p).estado = p.estado ∧ (f p).prioridade = p.prioridade)
    (h : so_prio_limites s) : so_prio_limites (so_muda_proc s i f) := by
  intro j hj
  rw [so_muda_proc_idx] at hj
  rw [so_proc_muda] at hj ⊢
  by_cases hit : 0 ≤ i ∧ i.toNat = j ∧ j < s.tabela_processos.length
  · rw [if_pos hit] at hj ⊢
    rw [(hf _).1] at hj
    rw [(hf _).2]
    exact h j hj
  · rw [if_neg hit] at hj ⊢
    exact h j hj

theorem so_limites_atualiza (K : so_const_t) {s : so_t} (i : Int) (novo : estado_processo_t)
    (hs : (so_proc s i).estado ≠ LIVRE ∨ i = s.processo_em_execucao_idx ∨ novo = LIVRE)
    (h : so_prio_limites s) : so_prio_limites (so_atualiza_estado K s i novo) := by
  intro j hj
  rw [so_atualiza_idx] at hj
  rw [so_proc_atualiza] at hj ⊢
  by_cases hit : 0 ≤ i ∧ i.toNat = j ∧ j < s.tabela_processos.length
  · rw [if_pos hit] at hj ⊢
    have hij : i = (j : Int) := by omega
    rw [(processo_muda_estado_resto _ _ _).2.2.2.2.2.2.1]
    rw [processo_muda_estado_estado] at hj
    apply h j
    rcases hs with h1 | h1 | h1
    · left; rw [← hij]; exact h1
    · right; rw [← h1, hij]
    · rcases hj with h2 | h2
      · exact absurd h1 h2
      · exact Or.inr h2
  · rw [if_neg hit] at hj ⊢
    exact h j hj

theorem so_limites_passo (K : so_const_t) {s t : so_t} (hp : so_passo K s t)
    (h : so_prio_limites s) : so_prio_limites t := by
  cases hp with
  | inerte _ hc htab _ _ _ _ => exact so_limites_de_eq htab hc.1 h
  | conta irq =>
    refine so_limites_de_eq ?_ (so_controle_conta K s irq).1 h
    unfold so_conta_irq
    split <;> rfl
  | relatorio =>
    refine so_limites_de_eq ?_ (so_controle_relatorio K s).1 h
    unfold so_imprime_relatorio_final
    dsimp only
    split <;> rfl
  | regs i f hf =>
    exact so_limites_muda i f (fun p =>
      ⟨by have e := congrArg processo_t.estado (hf p); exact e,
       by have e := congrArg processo_t.prioridade (hf p); exact e⟩) h
  | libera i => exact so_limites_atualiza K i _ (Or.inr (Or.inr rfl)) h
  | termina i hs =>
    exact so_limites_atualiza K i _ (hs.elim Or.inl (fun e => Or.inr (Or.inl e))) h
  | bloqueia i f m hi _ _ hf =>
    exact so_limites_muda i f (fun p =>
      ⟨by have e := congrArg processo_t.estado (hf p); exact e,
       by have e := congrArg processo_t.prioridade (hf p); exact e⟩)
      (so_limites_atualiza K i _ (Or.inr (Or.inl hi)) h)
  | pronto i hb =>
    exact so_limites_atualiza K i _ (Or.inl (by rw [hb]; decide)) h
  | desbloqueia i f _ hf =>
    exact so_limites_muda i f (fun p =>
      ⟨by have e := congrArg processo_t.estado (hf p); exact e,
       by have e := congrArg processo_t.prioridade (hf p); exact e⟩) h
  | insere i _ => exact so_limites_de_eq (so_insere_tab K s i) (so_quantum_insere K s i).1 h
  | cria i e t =>
    intro j hj
    have hidx : (so_insere_em_pronto K (so_muda_proc
        (so_inicializa_metricas_processo K (so_novo_pid s).2 i (so_novo_pid s).1 e) i
        (fun proc => { proc with terminal := t })) i).processo_em_execucao_idx =
        s.processo_em_execucao_idx :=
      (so_quantum_passo K (so_passo.cria s i e t)).1
    rw [hidx] at hj
    rw [so_proc_cria] at hj ⊢
    by_cases hit : 0 ≤ i ∧ i.toNat = j ∧ j < s.tabela_processos.length
    · rw [if_pos hit]
      show (0 : ℚ) ≤ 1 / 2 ∧ (1 / 2 : ℚ) ≤ 1
      norm_num
    · rw [if_neg hit] at hj ⊢
      exact h j hj

theorem so_limites_passos (K : so_const_t) {s t : so_t} (hp : so_passos K s t)
    (h : so_prio_limites s) : so_prio_limites t := by
  induction hp with
  | nada => exact h
  | mais t u _ hp ih => exact so_limites_passo K hp ih

theorem so_fixos_refl (s : so_t) : so_mesmos_fixos s s := ⟨rfl, rfl⟩

theorem so_fixos_trans {s t u : so_t} (h1 : so_mesmos_fixos s t) (h2 : so_mesmos_fixos t u) :
    so_mesmos_fixos s u := ⟨h2.1.trans h1.1, h2.2.trans h1.2⟩

theorem so_fixos_de_quantum {s t : so_t} (h : so_mesmo_quantum s t) : so_mesmos_fixos s t :=
  ⟨h.2.1, h.2.2.2.2⟩

theorem so_fixos_de_controle {s t : so_t} (h : so_mesmo_controle s t) :
    so_mesmos_fixos s t := so_fixos_de_quantum (so_quantum_de_controle h)

theorem so_fixos_remove (K : so_const_t) (s : so_t) :
    so_mesmos_fixos s (fila_prontos_remove K s).2 := by
  unfold fila_prontos_remove
  split <;> exact so_fixos_refl s

theorem so_fixos_inicio_ocioso (K : so_const_t) (s : so_t) :
    so_mesmos_fixos s (so_inicio_ocioso K s) := by
  unfold so_inicio_ocioso
  dsimp only
  split <;> exact so_fixos_refl s

theorem so_fixos_rr_proximo (K : so_const_t) (s : so_t) :
    so_mesmos_fixos s (so_escalona_rr_proximo K s) := by
  unfold so_escalona_rr_proximo
  dsimp only
  split
  · exact so_fixos_trans (so_fixos_remove K s)
      (so_fixos_trans (so_fixos_de_controle (so_controle_fim_ocioso K _))
        (so_fixos_trans (so_fixos_de_controle (so_controle_atualiza K _ _ _)) ⟨rfl, rfl⟩))
  · exact so_fixos_trans (so_fixos_remove K s) (so_fixos_inicio_ocioso K _)

theorem so_fixos_rr (K : so_const_t) (s : so_t) : so_mesmos_fixos s (so_escalona_rr K s) := by
  unfold so_escalona_rr
  dsimp only
  split
  · refine so_fixos_trans ?_ (so_fixos_rr_proximo K _)
    exact so_fixos_trans (so_fixos_de_controle (so_controle_registra s _))
      (so_fixos_trans (so_fixos_de_controle (so_controle_atualiza K _ _ _))
        (so_fixos_trans (so_fixos_de_quantum (so_quantum_insere K _ _)) ⟨rfl, rfl⟩))
  · split
    · refine so_fixos_trans ?_ (so_fixos_rr_proximo K _)
      exact ⟨rfl, rfl⟩
    · split
      · exact ⟨rfl, rfl⟩
      · refine so_fixos_trans ?_ (so_fixos_rr_proximo K _)
        exact ⟨rfl, rfl⟩

theorem so_fixos_prio_proximo (K : so_const_t) (s : so_t) :
    so_mesmos_fixos s (so_escalona_prio_proximo K s) := by
  unfold so_escalona_prio_proximo
  dsimp only
  split
  · exact so_fixos_trans (so_fixos_de_controle (so_controle_fim_ocioso K _))
      (so_fixos_trans (so_fixos_de_controle (so_controle_atualiza K _ _ _)) ⟨rfl, rfl⟩)
  · exact so_fixos_inicio_ocioso K _

theorem so_fixos_prio_atual (K : so_const_t) (s : so_t) :
    so_mesmos_fixos s (so_escalona_prio_atual K s) := by
  unfold so_escalona_prio_atual
  dsimp only
  split
  · split
    · exact so_fixos_trans (so_fixos_de_controle (so_controle_calcula s _)) ⟨rfl, rfl⟩
    · split
      · exact so_fixos_trans (so_fixos_de_controle (so_controle_calcula s _))
          (so_fixos_trans (so_fixos_de_controle (so_controle_registra _ _))
            (so_fixos_trans (so_fixos_de_controle (so_controle_atualiza K _ _ _)) ⟨rfl, rfl⟩))
      · exact ⟨rfl, rfl⟩
  · exact so_fixos_refl s

theorem so_fixos_escalona (K : so_const_t) (s : so_t) :
    so_mesmos_fixos s (so_escalona K s) := by
  unfold so_escalona
  split
  · exact so_fixos_rr K s
  · unfold so_escalona_prio
    dsimp only
    split
    · exact so_fixos_trans (so_fixos_prio_atual K s) (so_fixos_prio_proximo K _)
    · exact so_fixos_prio_atual K s

theorem so_fixos_despacha (K : so_const_t) (s : so_t) :
    so_mesmos_fixos s (so_despacha K s).2 := by
  unfold so_despacha
  dsimp only
  split
  · exact so_fixos_refl s
  · split <;> exact ⟨rfl, rfl⟩

theorem so_fixos_quantum (s : so_t) : so_mesmos_fixos s (so_relogio_quantum s) := by
  unfold so_relogio_quantum
  dsimp only
  split
  · split <;> exact ⟨rfl, rfl⟩
  · exact so_fixos_refl s

/-- A trap changes neither the length of the quantum nor the scheduler. -/
theorem so_fixos_trap (K : so_const_t) (s : so_t) (irq : Int) :
    so_mesmos_fixos s (so_trata_interrupcao K s irq).2 := by
  rw [so_trap_entrada]
  obtain ⟨m, m', h1, h2, h3⟩ := so_passos_entrada K s irq
  have hm' : so_mesmos_fixos s m' := by
    rcases h2 with rfl | rfl
    · exact so_fixos_de_quantum (so_quantum_passos K h1)
    · exact so_fixos_trans (so_fixos_de_quantum (so_quantum_passos K h1)) (so_fixos_quantum m)
  exact so_fixos_trans hm'
    (so_fixos_trans (so_fixos_de_quantum (so_quantum_passos K h3))
      (so_fixos_trans (so_fixos_escalona K _) (so_fixos_despacha K _)))

theorem so_proc_calcula (s : so_t) (i : Int) (j : Nat) :
    so_proc (so_calcula_prioridade s i) (j : Int) =
      if 0 ≤ i ∧ i.toNat = j ∧ j < s.tabela_processos.length then
        { so_proc s (j : Int) with
            prioridade := ((so_proc s (j : Int)).prioridade +
              (((if s.quantum_total - s.quantum_restante < 0 then 0
                else s.quantum_total - s.quantum_restante : Int) : ℚ) /
                (s.quantum_total : ℚ))) / 2 }
      else so_proc s (j : Int) := by
  unfold so_calcula_prioridade
  dsimp only
  rw [so_proc_muda]

theorem so_prio_inv_passos (K : so_const_t) {s t : so_t} (hp : so_passos K s t)
    (h : so_prio_inv s) : so_prio_inv t := by
  obtain ⟨a1, a2, a3, a4, a5⟩ := so_quantum_passos K hp
  obtain ⟨h1, h2, h3, h4, h5⟩ := h
  exact ⟨by rw [a5]; exact h1, by rw [a2]; exact h2, by rw [a3]; exact h3,
    by rw [a1, a3]; exact h4, so_limites_passos K hp h5⟩

theorem so_prio_inv_entrada_passos (K : so_const_t) {s t : so_t} (hp : so_passos K s t)
    (h : so_prio_inv_entrada s) : so_prio_inv_entrada t := by
  obtain ⟨a1, a2, a3, a4, a5⟩ := so_quantum_passos K hp
  obtain ⟨h1, h2, h3, h4, h5⟩ := h
  exact ⟨by rw [a5]; exact h1, by rw [a2]; exact h2, by rw [a3]; exact h3,
    by rw [a1, a3, a4]; exact h4, so_limites_passos K hp h5⟩

theorem so_prio_inv_fraco {s : so_t} (h : so_prio_inv s) : so_prio_inv_entrada s :=
  ⟨h.1, h.2.1, h.2.2.1, fun hi => Or.inl (h.2.2.2.1 hi), h.2.2.2.2⟩

theorem so_prio_inv_quantum {s : so_t} (h : so_prio_inv s) :
    so_prio_inv_entrada (so_relogio_quantum s) := by
  obtain ⟨h1, h2, h3, h4, h5⟩ := h
  unfold so_relogio_quantum
  dsimp only
  split
  · rename_i hidx
    have hq := h4 hidx
    split
    · rename_i hz
      refine ⟨h1, h2, ?_, fun _ => Or.inr rfl, so_limites_de_eq rfl rfl h5⟩
      show 0 ≤ s.quantum_restante - 1
      omega
    · rename_i hz
      have hz' : ¬ s.quantum_restante - 1 = 0 := hz
      refine ⟨h1, h2, ?_, fun _ => Or.inl ?_, so_limites_de_eq rfl rfl h5⟩
      · show 0 ≤ s.quantum_restante - 1
        omega
      · show 1 ≤ s.quantum_restante - 1
        omega
  · exact so_prio_inv_fraco ⟨h1, h2, h3, h4, h5⟩

/-- Priority mode: the invariant at the call of the scheduler. -/
theorem so_prio_inv_na_entrada (K : so_const_t) (s : so_t) (irq : Int) (h : so_prio_inv s) :
    so_prio_inv_entrada (so_entrada K s irq) := by
  obtain ⟨m, m', h1, h2, h3⟩ := so_passos_entrada K s irq
  have hm := so_prio_inv_passos K h1 h
  apply so_prio_inv_entrada_passos K h3
  rcases h2 with rfl | rfl
  · exact so_prio_inv_fraco hm
  · exact so_prio_inv_quantum hm

theorem so_limites_calcula {s : so_t} (i : Int) (hq : s.quantum_total = 3)
    (hr : 0 ≤ s.quantum_restante) (h : so_prio_limites s) :
    so_prio_limites (so_calcula_prioridade s i) := by
  intro j hj
  have hidx : (so_calcula_prioridade s i).processo_em_execucao_idx =
      s.processo_em_execucao_idx := (so_controle_calcula s i).1
  rw [hidx] at hj
  rw [so_proc_calcula] at hj ⊢
  by_cases hit : 0 ≤ i ∧ i.toNat = j ∧ j < s.tabela_processos.length
  · rw [if_pos hit] at hj ⊢
    have hb := h j hj
    show 0 ≤ ((so_proc s (j : Int)).prioridade +
        (((if s.quantum_total - s.quantum_restante < 0 then 0
          else s.quantum_total - s.quantum_restante : Int) : ℚ) /
          (s.quantum_total : ℚ))) / 2 ∧
      ((so_proc s (j : Int)).prioridade +
        (((if s.quantum_total - s.quantum_restante < 0 then 0
          else s.quantum_total - s.quantum_restante : Int) : ℚ) /
          (s.quantum_total : ℚ))) / 2 ≤ 1
    rw [hq]
    have ht0 : (0 : Int) ≤ (if (3 : Int) - s.quantum_restante < 0 then 0
        else 3 - s.quantum_restante) := by
      split <;> omega
    have ht3 : (if (3 : Int) - s.quantum_restante < 0 then 0
        else 3 - s.quantum_restante) ≤ (3 : Int) := by
      split <;> omega
    generalize (if (3 : Int) - s.quantum_restante < 0 then 0
        else 3 - s.quantum_restante) = t at ht0 ht3
    have c0 : (0 : ℚ) ≤ (t : ℚ) := by exact_mod_cast ht0
    have c3 : (t : ℚ) ≤ 3 := by exact_mod_cast ht3
    have e3 : ((3 : Int) : ℚ) = 3 := by norm_num
    rw [e3]
    constructor
    · have : (0 : ℚ) ≤ (t : ℚ) / 3 := by positivity
      linarith [hb.1]
    · have : (t : ℚ) / 3 ≤ 1 := by
        rw [div_le_one (by norm_num)]
        exact c3
      linarith [hb.2]
  · rw [if_neg hit] at hj ⊢
    exact h j hj

theorem so_limites_sem_atual {s s' : so_t} (h : so_prio_limites s)
    (htab : s'.tabela_processos = s.tabela_processos)
    (hidx : s'.processo_em_execucao_idx = -1) : so_prio_limites s' := by
  intro j hj
  rw [so_proc_de_tab htab, hidx] at hj
  rw [so_proc_de_tab htab]
  rcases hj with h1 | h1
  · exact h j (Or.inl h1)
  · omega

theorem so_limites_novo_atual {s s' : so_t} (i : Nat) (h : so_prio_limites s)
    (htab : s'.tabela_processos = s.tabela_processos)
    (hidx : s'.processo_em_execucao_idx = (i : Int))
    (hi : (so_proc s (i : Int)).estado ≠ LIVRE) : so_prio_limites s' := by
  intro j hj
  rw [so_proc_de_tab htab, hidx] at hj
  rw [so_proc_de_tab htab]
  rcases hj with h1 | h1
  · exact h j (Or.inl h1)
  · have : i = j := by omega
    rw [← this]
    exact h i (Or.inl hi)

theorem so_limites_registra {s : so_t} (i : Int) (h : so_prio_limites s) :
    so_prio_limites (so_registra_preempcao s i) := by
  have h1 := so_limites_muda i
    (fun proc => { proc with num_preempcoes := proc.num_preempcoes + 1 })
    (fun _ => ⟨rfl, rfl⟩) h
  exact so_limites_de_eq rfl rfl h1

/-- Priority mode: the first half of `so_escalona_prio`. -/
theorem so_prio_inv_atual (K : so_const_t) (s : so_t) (h : so_prio_inv_entrada s) :
    so_prio_inv (so_escalona_prio_atual K s) := by
  obtain ⟨h1, h2, h3, h4, h5⟩ := h
  have hc := so_limites_calcula s.processo_em_execucao_idx h2 h3 h5
  unfold so_escalona_prio_atual
  dsimp only
  split
  · rename_i hidx
    split
    · refine ⟨?_, ?_, ?_, fun hn => absurd rfl hn, so_limites_sem_atual hc rfl rfl⟩
      · exact (so_controle_calcula s _).2.2.2.2.2.2.2.2.2.trans h1
      · exact (so_controle_calcula s _).2.2.2.2.2.2.1.trans h2
      · show 0 ≤ (so_calcula_prioridade s _).quantum_restante
        rw [(so_controle_calcula s _).2.2.2.2.2.2.2.1]
        exact h3
    · split
      · have hctl := so_mesmo_controle_trans (so_controle_calcula s s.processo_em_execucao_idx)
          (so_mesmo_controle_trans
            (so_controle_registra _ s.processo_em_execucao_idx)
            (so_controle_atualiza K _ s.processo_em_execucao_idx PRONTO))
        have hl := so_limites_atualiza K s.processo_em_execucao_idx PRONTO
          (Or.inr (Or.inl
            ((so_controle_registra _ _).1.trans (so_controle_calcula s _).1).symm))
          (so_limites_registra s.processo_em_execucao_idx hc)
        refine ⟨?_, ?_, ?_, fun hn => absurd rfl hn, so_limites_sem_atual hl rfl rfl⟩
        · exact hctl.2.2.2.2.2.2.2.2.2.trans h1
        · exact hctl.2.2.2.2.2.2.1.trans h2
        · show 0 ≤ (so_atualiza_estado K _ _ _).quantum_restante
          rw [hctl.2.2.2.2.2.2.2.1]
          exact h3
      · rename_i hd
        refine ⟨h1, h2, h3, fun hn => ?_, so_limites_de_eq rfl rfl h5⟩
        rcases h4 hidx with h6 | h6
        · exact h6
        · exact absurd h6 hd
  · rename_i hidx
    exact ⟨h1, h2, h3, fun hn => absurd hn hidx, h5⟩

/-- Priority mode: the second half of `so_escalona_prio`. -/
theorem so_prio_inv_proximo (K : so_const_t) (s : so_t) (h : so_prio_inv s) :
    so_prio_inv (so_escalona_prio_proximo K s) := by
  obtain ⟨h1, h2, h3, h4, h5⟩ := h
  have hl := so_escalona_prio_laco s 1000000000 K.MAX_PROCESSOS
  unfold so_escalona_prio_proximo
  dsimp only
  rcases hl with ⟨e1, _, _⟩ | ⟨i, e1, _, e3, _, _, _⟩
  · rw [if_neg (by rw [e1]; simp)]
    have hq : so_mesmos_fixos s (so_inicio_ocioso K s) := so_fixos_inicio_ocioso K s
    have hidx := so_inicio_ocioso_idx K s
    refine ⟨hq.2.trans h1, hq.1.trans h2, ?_, fun hn => absurd hidx hn,
      so_limites_sem_atual h5 (so_inicio_ocioso_tab K s) hidx⟩
    unfold so_inicio_ocioso
    dsimp only
    split <;> exact h3
  · rw [if_pos (by rw [e1]; omega), e1]
    have hctl := so_mesmo_controle_trans (so_controle_fim_ocioso K s)
      (so_controle_atualiza K _ (i : Int) EXECUTANDO)
    have hqt : (so_atualiza_estado K (so_fim_ocioso K s) (i : Int) EXECUTANDO).quantum_total
        = 3 := hctl.2.2.2.2.2.2.1.trans h2
    have hlen : i < s.tabela_processos.length := so_proc_dentro s i (by rw [e3]; decide)
    have hl := so_limites_atualiza K (i : Int) EXECUTANDO
      (Or.inl (by rw [so_proc_fim_ocioso, e3]; decide))
      (so_limites_de_eq (so_fim_ocioso_tab K s) (so_controle_fim_ocioso K s).1 h5)
    refine ⟨hctl.2.2.2.2.2.2.2.2.2.trans h1, hqt, ?_, fun _ => ?_, ?_⟩
    · show 0 ≤ (so_atualiza_estado K (so_fim_ocioso K s) (i : Int) EXECUTANDO).quantum_total
      rw [hqt]
      decide
    · show 1 ≤ (so_atualiza_estado K (so_fim_ocioso K s) (i : Int) EXECUTANDO).quantum_total
      rw [hqt]
      decide
    · refine so_limites_novo_atual i hl rfl rfl ?_
      rw [so_proc_atualiza_estado K _ EXECUTANDO i (by rw [so_fim_ocioso_length]; exact hlen)]
      decide

theorem so_prio_inv_escalona (K : so_const_t) (s : so_t) (h : so_prio_inv_entrada s) :
    so_prio_inv (so_escalona K s) := by
  have hm := h.1
  unfold so_escalona
  rw [if_neg (by rw [hm]; decide)]
  unfold so_escalona_prio
  dsimp only
  split
  · exact so_prio_inv_proximo K _ (so_prio_inv_atual K s h)
  · exact so_prio_inv_atual K s h

theorem so_prio_inv_despacha (K : so_const_t) (s : so_t) (h : so_prio_inv s) :
    so_prio_inv (so_despacha K s).2 := by
  obtain ⟨h1, h2, h3, h4, h5⟩ := h
  unfold so_despacha
  dsimp only
  split
  · exact ⟨h1, h2, h3, h4, h5⟩
  · split <;> exact ⟨h1, h2, h3, h4, so_limites_de_eq rfl rfl h5⟩

theorem so_prio_inv_trap (K : so_const_t) (s : so_t) (irq : Int) (h : so_prio_inv s) :
    so_prio_inv (so_trata_interrupcao K s irq).2 := by
  rw [so_trap_entrada]
  exact so_prio_inv_despacha K _ (so_prio_inv_escalona K _ (so_prio_inv_na_entrada K s irq h))

theorem so_prio_inv_alcancavel (K : so_const_t) (s : so_t) (h : so_alcancavel K s)
    (hm : s.escalonador_atual = ESCAL_PRIORIDADE) : so_prio_inv s := by
  induction h with
  | cria modo mem es lp lf =>
    refine ⟨hm, rfl, le_refl _, fun hn => absurd rfl hn, ?_⟩
    intro j hj
    exfalso
    rcases hj with h1 | h1
    · apply h1
      by_cases hlen : j < (so_cria_modo K modo mem es lp lf).tabela_processos.length
      · have hget := so_proc_get _ j hlen
        have hlen' : j < K.MAX_PROCESSOS := by
          have : (so_cria_modo K modo mem es lp lf).tabela_processos.length =
              K.MAX_PROCESSOS := by
            show ((List.range K.MAX_PROCESSOS).map _).length = _
            simp
          omega
        have hget2 : (so_cria_modo K modo mem es lp lf).tabela_processos[j]? =
            some { lp j with estado := LIVRE } := by
          show ((List.range K.MAX_PROCESSOS).map _)[j]? = _
          simp [hlen']
        rw [hget2] at hget
        rw [← Option.some.inj hget]
      · rw [so_proc_fora _ j (by omega)]
        rfl
    · have : (-1 : Int) = (j : Int) := h1
      omega
  | trap s irq mem es _ ih =>
    have hf := so_fixos_trap K { s with mem := mem, es := es } irq
    have hm0 : s.escalonador_atual = ESCAL_PRIORIDADE := hf.2.symm.trans hm
    have h0 : so_prio_inv { s with mem := mem, es := es } := by
      obtain ⟨h1, h2, h3, h4, h5⟩ := ih hm0
      exact ⟨h1, h2, h3, h4, so_limites_de_eq rfl rfl h5⟩
    exact so_prio_inv_trap K _ irq h0

/-- C13: in every kernel state reachable from `so_cria` in priority mode, the priority of
every PCB that is not `LIVRE` lies in [0, 1].  At the call of the scheduler in any further
trap, where `so_escalona_prio` applies `so_calcula_prioridade` to the current process (slot
`c`), the update computes, over the rationals,
`(prioridade + t / quantum_total) / 2` with `t = quantum_total - quantum_restante` clamped
at 0, and the priority after it lies in [0, 1]. -/
theorem so_prioridade_limites (K : so_const_t) (self : so_t) (h : so_alcancavel K self)
    (hmodo : self.escalonador_atual = ESCAL_PRIORIDADE) :
    (∀ (j : Nat) (p : processo_t), self.tabela_processos[j]? = some p → p.estado ≠ LIVRE →
      0 ≤ p.prioridade ∧ p.prioridade ≤ 1) ∧
    (∀ (irq : Int) (mem : mem_t) (es : es_t) (c : Nat),
      (so_entrada K { self with mem := mem, es := es } irq).processo_em_execucao_idx
        = (c : Int) →
      c < (so_entrada K { self with mem := mem, es := es } irq).tabela_processos.length →
      (so_proc (so_calcula_prioridade (so_entrada K { self with mem := mem, es := es } irq)
          (c : Int)) (c : Int)).prioridade =
        ((so_proc (so_entrada K { self with mem := mem, es := es } irq) (c : Int)).prioridade +
          ((max 0 ((so_entrada K { self with mem := mem, es := es } irq).quantum_total -
              (so_entrada K { self with mem := mem, es := es } irq).quantum_restante) : Int)
            : ℚ) /
          ((so_entrada K { self with mem := mem, es := es } irq).quantum_total : ℚ)) / 2 ∧
      0 ≤ (so_proc (so_calcula_prioridade (so_entrada K { self with mem := mem, es := es } irq)
          (c : Int)) (c : Int)).prioridade ∧
      (so_proc (so_calcula_prioridade (so_entrada K { self with mem := mem, es := es } irq)
          (c : Int)) (c : Int)).prioridade ≤ 1) := by
  have hinv := so_prio_inv_alcancavel K self h hmodo
  constructor
  · intro j p hp hl
    have hj : j < self.tabela_processos.length := by
      by_contra hc
      rw [List.getElem?_eq_none_iff.mpr (by omega)] at hp
      cases hp
    have e := so_proc_get self j hj
    rw [hp] at e
    have e' := Option.some.inj e
    have hb := hinv.2.2.2.2 j (Or.inl (by rw [← e']; exact hl))
    rw [← e'] at hb
    exact hb
  · intro irq mem es c hc hlen
    have h0 : so_prio_inv { self with mem := mem, es := es } := by
      obtain ⟨h1, h2, h3, h4, h5⟩ := hinv
      exact ⟨h1, h2, h3, h4, so_limites_de_eq rfl rfl h5⟩
    have he := so_prio_inv_na_entrada K _ irq h0
    generalize so_entrada K { self with mem := mem, es := es } irq = e at hc hlen he
    have hl := so_limites_calcula (c : Int) he.2.1 he.2.2.1 he.2.2.2.2
    have hb := hl c (Or.inr (by rw [(so_controle_calcula e _).1]; exact hc))
    refine ⟨?_, hb⟩
    rw [so_proc_calcula, if_pos ⟨by omega, by omega, hlen⟩]
    show ((so_proc e (c : Int)).prioridade +
        (((if e.quantum_total - e.quantum_restante < 0 then 0
          else e.quantum_total - e.quantum_restante : Int) : ℚ) /
          (e.quantum_total : ℚ))) / 2 = _
    have hmax : (if e.quantum_total - e.quantum_restante < 0 then 0
          else e.quantum_total - e.quantum_restante : Int) =
        max 0 (e.quantum_total - e.quantum_restante) := by
      split <;> omega
    rw [hmax]

theorem so_ex_prio_quantum_alcancavel : so_alcancavel so_const_ex so_ex_prio_quantum :=
  .trap _ _ _ _ (.trap _ _ _ _ (.trap _ _ _ _ (.trap _ _ _ _ (.trap _ _ _ _
    (.cria _ _ _ _ _)))))

theorem so_prioridade_limites_witness :
    so_alcancavel so_const_ex so_ex_prio_quantum ∧
    so_ex_prio_quantum.escalonador_atual = ESCAL_PRIORIDADE ∧
    (so_proc so_ex_prio_quantum 0).estado = PRONTO ∧
    (so_proc so_ex_prio_quantum 0).prioridade = 3 / 4 ∧
    (∀ (j : Nat) (p : processo_t), so_ex_prio_quantum.tabela_processos[j]? = some p →
      p.estado ≠ LIVRE → 0 ≤ p.prioridade ∧ p.prioridade ≤ 1) :=
  ⟨so_ex_prio_quantum_alcancavel, by decide!, by decide!, by decide!,
    (so_prioridade_limites so_const_ex so_ex_prio_quantum so_ex_prio_quantum_alcancavel
      (by decide!)).1⟩

/-! ## T2/so.c: balance of the per-state times -/

theorem soma_em_length (v : List Int) (i : Nat) (d : Int) :
    (soma_em v i d).length = v.length := by
  unfold soma_em
  exact List.length_set _ _ _

theorem soma_em_sum (v : List Int) (i : Nat) (d : Int) (hv : v.length = 5) (hi : i < 5) :
    (soma_em v i d).sum = v.sum + d := by
  match v, hv with
  | [a, b, c, e, f], _ =>
    unfold soma_em
    match i, hi with
    | 0, _ => simp; ring
    | 1, _ => simp; ring
    | 2, _ => simp; ring
    | 3, _ => simp; ring
    | 4, _ => simp; ring

theorem estado_idx_lt (e : estado_processo_t) : e.idx < 5 := by
  cases e <;> decide

/-- What `so_atualiza_estado` does to a PCB in balance whose last change of state was not
after the time read: the PCB stays in balance, and it is unchanged or its last change of
state is the time read. -/
theorem processo_muda_estado_balanco (p : processo_t) (t : Int) (novo : estado_processo_t)
    (hb : processo_balanco p) (ht : p.ultimo_tempo_mudanca_estado ≤ t) :
    processo_balanco (processo_muda_estado p t novo) ∧
    (processo_muda_estado p t novo = p ∨
      (processo_muda_estado p t novo).ultimo_tempo_mudanca_estado = t) := by
  obtain ⟨hl, hs⟩ := hb
  unfold processo_muda_estado
  dsimp only
  by_cases he : p.estado = novo
  · rw [if_pos he]
    exact ⟨⟨hl, hs⟩, Or.inl rfl⟩
  · rw [if_neg he]
    refine ⟨?_, Or.inr ?_⟩
    · unfold processo_balanco
      by_cases hd : t - p.ultimo_tempo_mudanca_estado > 0
      · simp only [hd, if_true]
        split_ifs <;>
          (dsimp only
           refine ⟨by rw [soma_em_length]; exact hl, ?_⟩
           rw [soma_em_sum _ _ _ hl (estado_idx_lt _), hs]
           ring)
      · simp only [hd, if_false]
        have : t = p.ultimo_tempo_mudanca_estado := by omega
        split_ifs <;>
          (dsimp only
           refine ⟨hl, ?_⟩
           rw [hs, this])
    · split_ifs <;> rfl

theorem so_es_refl (s : so_t) : so_es_avanca s s := ⟨rfl, le_refl _⟩

theorem so_es_trans {s t u : so_t} (h1 : so_es_avanca s t) (h2 : so_es_avanca t u) :
    so_es_avanca s u := ⟨h2.1.trans h1.1, le_trans h1.2 h2.2⟩

theorem so_es_muda (s : so_t) (i : Int) (f : processo_t → processo_t) :
    so_es_avanca s (so_muda_proc s i f) := by
  unfold so_muda_proc
  split <;> exact so_es_refl s

theorem so_es_tempo (K : so_const_t) (s : so_t) : so_es_avanca s (so_get_tempo K s).2 :=
  ⟨rfl, Nat.le_succ _⟩

theorem so_tempo_k (K : so_const_t) (s : so_t) : (so_get_tempo K s).2.es.k = s.es.k + 1 := rfl

theorem so_tempo_le (K : so_const_t) (s : so_t) : (so_get_tempo K s).2.es.le = s.es.le := rfl

theorem so_tempo_valor (K : so_const_t) (s : so_t) :
    (so_get_tempo K s).1 = (s.es.le s.es.k K.D_RELOGIO_INSTRUCOES).getD 0 := rfl

theorem so_es_atualiza (K : so_const_t) (s : so_t) (i : Int) (novo : estado_processo_t) :
    so_es_avanca s (so_atualiza_estado K s i novo) := by
  unfold so_atualiza_estado
  exact so_es_trans (so_es_tempo K s) (so_es_muda _ _ _)

theorem so_atualiza_k (K : so_const_t) (s : so_t) (i : Int) (novo : estado_processo_t) :
    (so_atualiza_estado K s i novo).es.k = s.es.k + 1 := by
  unfold so_atualiza_estado so_muda_proc
  dsimp only
  split <;> rfl

theorem so_es_insere (K : so_const_t) (s : so_t) (i : Int) :
    so_es_avanca s (so_insere_em_pronto K s i) := by
  unfold so_insere_em_pronto fila_prontos_insere
  split_ifs <;> exact so_es_refl s

theorem so_es_inicializa (K : so_const_t) (s : so_t) (i pid e : Int) :
    so_es_avanca s (so_inicializa_metricas_processo K s i pid e) := by
  unfold so_inicializa_metricas_processo
  dsimp only
  have h := so_es_trans (so_es_tempo K s) (so_es_muda (so_get_tempo K s).2 i
    (fun proc => processo_inicial proc pid (so_get_tempo K s).1 e))
  exact h

theorem so_inicializa_k (K : so_const_t) (s : so_t) (i pid e : Int) :
    (so_inicializa_metricas_processo K s i pid e).es.k = s.es.k + 1 := by
  unfold so_inicializa_metricas_processo so_muda_proc
  dsimp only
  split <;> rfl

theorem so_es_relatorio (K : so_const_t) (s : so_t) :
    so_es_avanca s (so_imprime_relatorio_final K s) := by
  unfold so_imprime_relatorio_final
  dsimp only
  split <;> exact so_es_tempo K s

theorem so_es_conta (K : so_const_t) (s : so_t) (irq : Int) :
    so_es_avanca s (so_conta_irq K s irq) := by
  unfold so_conta_irq
  split <;> exact so_es_refl s

theorem so_es_fim_ocioso (K : so_const_t) (s : so_t) : so_es_avanca s (so_fim_ocioso K s) := by
  unfold so_fim_ocioso
  split
  · exact so_es_tempo K s
  · exact so_es_refl s

theorem so_es_inicio_ocioso (K : so_const_t) (s : so_t) :
    so_es_avanca s (so_inicio_ocioso K s) := by
  unfold so_inicio_ocioso
  dsimp only
  split
  · exact so_es_tempo K _
  · exact so_es_refl s

theorem relogio_visto_mono (K : so_const_t) (le : Nat → Int → Option Int) (k0 : Nat)
    (T : Int) {k1 k2 : Nat} (u : Int) (hk : k1 ≤ k2) (h : relogio_visto K le k0 T k1 u) :
    relogio_visto K le k0 T k2 u := by
  rcases h with h | ⟨k, a, b, c⟩
  · exact Or.inl h
  · exact Or.inr ⟨k, a, by omega, c⟩

/-- Under the assumption on the clock, a time seen on the clock is not after the clock at
a later access. -/
theorem relogio_visto_le (K : so_const_t) (le : Nat → Int → Option Int) (k0 : Nat) (T : Int)
    (hrel : relogio_ok K le k0 T) (kfim : Nat) (hk : k0 ≤ kfim) (u : Int)
    (h : relogio_visto K le k0 T kfim u) :
    ∃ t, le kfim K.D_RELOGIO_INSTRUCOES = some t ∧ u ≤ t := by
  obtain ⟨t, e1, e2, _⟩ := hrel kfim hk
  refine ⟨t, e1, ?_⟩
  rcases h with h | ⟨k, a, b, c⟩
  · omega
  · obtain ⟨t', f1, _, f3⟩ := hrel k a
    rw [c] at f1
    have : u = t' := Option.some.inj f1
    rw [this]
    exact f3 kfim t (by omega) e1

theorem so_bal_mono {K : so_const_t} {le : Nat → Int → Option Int} {k0 : Nat} {T x x' : Int}
    {s s' : so_t} (h : so_bal K le k0 T x s)
    (htab : s'.tabela_processos = s.tabela_processos) (hes : so_es_avanca s s')
    (hok : so_fila_ok K s')
    (hac : ∀ j, j < s.tabela_processos.length → so_acompanhado K s' x' j →
      so_acompanhado K s x j) : so_bal K le k0 T x' s' := by
  obtain ⟨h1, h2, _, h4⟩ := h
  refine ⟨hes.1.trans h1, le_trans h2 hes.2, hok, fun j hj hac' => ?_⟩
  rw [htab] at hj
  rw [so_proc_de_tab htab]
  have hb := h4 j hj (hac j hj hac')
  exact ⟨hb.1, relogio_visto_mono K le k0 T _ hes.2 hb.2⟩

theorem so_acompanhado_de_eq {K : so_const_t} {s s' : so_t} {x : Int} {j : Nat}
    (htab : s'.tabela_processos = s.tabela_processos)
    (hidx : s'.processo_em_execucao_idx = s.processo_em_execucao_idx)
    (hfila : so_fila K s' = so_fila K s)
    (h : so_acompanhado K s' x j) : so_acompanhado K s x j := by
  unfold so_acompanhado at h ⊢
  rw [so_proc_de_tab htab, hidx, hfila] at h
  exact h

/-- A step that changes neither the table, nor the current process, nor the ready queue. -/
theorem so_bal_inerte {K : so_const_t} {le : Nat → Int → Option Int} {k0 : Nat} {T x : Int}
    {s s' : so_t} (h : so_bal K le k0 T x s)
    (htab : s'.tabela_processos = s.tabela_processos) (hes : so_es_avanca s s')
    (hc : so_mesmo_controle s s') : so_bal K le k0 T x s' :=
  so_bal_mono h htab hes (so_fila_ok_controle K hc h.2.2.1)
    (fun _ _ hac => so_acompanhado_de_eq htab hc.1 (so_fila_controle K hc) hac)

theorem so_muda_proc_tab_neg (s : so_t) (i : Int) (f : processo_t → processo_t)
    (h : i < 0) : so_muda_proc s i f = s := by
  unfold so_muda_proc
  rw [if_pos h]

theorem so_bal_muda {K : so_const_t} {le : Nat → Int → Option Int} {k0 : Nat} {T x : Int}
    {s : so_t} (i : Int) (f : processo_t → processo_t)
    (hf : ∀ p, (f p).estado = p.estado ∧ (f p).tempo_total_estado = p.tempo_total_estado ∧
      (f p).ultimo_tempo_mudanca_estado = p.ultimo_tempo_mudanca_estado ∧
      (f p).tempo_criacao = p.tempo_criacao)
    (h : so_bal K le k0 T x s) : so_bal K le k0 T x (so_muda_proc s i f) := by
  obtain ⟨h1, h2, h3, h4⟩ := h
  have hc := so_controle_muda s i f
  have hes := so_es_muda s i f
  refine ⟨hes.1.trans h1, le_trans h2 hes.2, so_fila_ok_controle K hc h3, fun j hj hac => ?_⟩
  rw [so_muda_proc_length] at hj
  have hk : (so_muda_proc s i f).es.k = s.es.k := by
    unfold so_muda_proc
    split <;> rfl
  unfold so_acompanhado at hac
  rw [hc.1, so_fila_controle K hc, so_proc_muda] at hac
  rw [so_proc_muda, hk]
  by_cases hit : 0 ≤ i ∧ i.toNat = j ∧ j < s.tabela_processos.length
  · rw [if_pos hit] at hac ⊢
    rw [(hf _).1] at hac
    have hb := h4 j hj hac
    unfold processo_balanco at hb ⊢
    rw [(hf _).2.1, (hf _).2.2.1, (hf _).2.2.2]
    exact hb
  · rw [if_neg hit] at hac ⊢
    exact h4 j hj hac

/-- `so_atualiza_estado` on a followed PCB, or to the state the PCB is in. -/
theorem so_bal_atualiza {K : so_const_t} {le : Nat → Int → Option Int} {k0 : Nat}
    {T x : Int} {s : so_t} (hrel : relogio_ok K le k0 T) (i : Int)
    (novo : estado_processo_t)
    (hs : ∀ j : Nat, i = (j : Int) → j < s.tabela_processos.length →
      so_acompanhado K s x j ∨ (so_proc s (j : Int)).estado = novo)
    (h : so_bal K le k0 T x s) : so_bal K le k0 T x (so_atualiza_estado K s i novo) := by
  obtain ⟨h1, h2, h3, h4⟩ := h
  have hc := so_controle_atualiza K s i novo
  have hes := so_es_atualiza K s i novo
  refine ⟨hes.1.trans h1, le_trans h2 hes.2, so_fila_ok_controle K hc h3, fun j hj hac => ?_⟩
  rw [so_atualiza_length] at hj
  unfold so_acompanhado at hac
  rw [hc.1, so_fila_controle K hc, so_proc_atualiza] at hac
  rw [so_proc_atualiza, so_atualiza_k]
  by_cases hit : 0 ≤ i ∧ i.toNat = j ∧ j < s.tabela_processos.length
  · rw [if_pos hit] at hac ⊢
    have hij : i = (j : Int) := by omega
    by_cases hnovo : (so_proc s (j : Int)).estado = novo
    · have hsame : processo_muda_estado (so_proc s (j : Int)) (so_get_tempo K s).1 novo =
          so_proc s (j : Int) := by
        unfold processo_muda_estado
        dsimp only
        rw [if_pos hnovo]
      rw [hsame] at hac ⊢
      have hb := h4 j hj hac
      exact ⟨hb.1, relogio_visto_mono K le k0 T _ (Nat.le_succ _) hb.2⟩
    · have hacj : so_acompanhado K s x j := by
        rcases hs j hij hj with h5 | h5
        · exact h5
        · exact absurd h5 hnovo
      have hb := h4 j hj hacj
      obtain ⟨t, e1, e2⟩ := relogio_visto_le K le k0 T hrel s.es.k h2 _ hb.2
      have htempo : (so_get_tempo K s).1 = t := by
        rw [so_tempo_valor, h1, e1]
        rfl
      rw [htempo]
      have hm := processo_muda_estado_balanco (so_proc s (j : Int)) t novo hb.1 e2
      refine ⟨hm.1, ?_⟩
      rcases hm.2 with h6 | h6
      · rw [h6]
        exact relogio_visto_mono K le k0 T _ (Nat.le_succ _) hb.2
      · rw [h6]
        exact Or.inr ⟨s.es.k, h2, Nat.lt_succ_self _, e1⟩
  · rw [if_neg hit] at hac ⊢
    have hb := h4 j hj hac
    exact ⟨hb.1, relogio_visto_mono K le k0 T _ (Nat.le_succ _) hb.2⟩

theorem so_fila_ok_de_eq (K : so_const_t) {s s' : so_t}
    (h1 : s'.fila_prontos = s.fila_prontos)
    (h2 : s'.fila_prontos_inicio = s.fila_prontos_inicio)
    (h3 : s'.fila_prontos_fim = s.fila_prontos_fim)
    (h4 : s'.fila_prontos_tamanho = s.fila_prontos_tamanho)
    (hok : so_fila_ok K s) : so_fila_ok K s' := by
  unfold so_fila_ok at hok ⊢
  rw [h1, h2, h3, h4]
  exact hok

/-- A step that changes neither the table, nor the current process, nor the fields of the
ready queue. -/
theorem so_bal_campos {K : so_const_t} {le : Nat → Int → Option Int} {k0 : Nat} {T x : Int}
    {s s' : so_t} (h : so_bal K le k0 T x s)
    (htab : s'.tabela_processos = s.tabela_processos) (hes : so_es_avanca s s')
    (hidx : s'.processo_em_execucao_idx = s.processo_em_execucao_idx)
    (h1 : s'.fila_prontos = s.fila_prontos)
    (h2 : s'.fila_prontos_inicio = s.fila_prontos_inicio)
    (h3 : s'.fila_prontos_fim = s.fila_prontos_fim)
    (h4 : s'.fila_prontos_tamanho = s.fila_prontos_tamanho) : so_bal K le k0 T x s' :=
  so_bal_mono h htab hes (so_fila_ok_de_eq K h1 h2 h3 h4 h.2.2.1)
    (fun _ _ hac => so_acompanhado_de_eq htab hidx (so_fila_de_eq K h1 h2 h4) hac)

/-- The ready queue after `so_insere_em_pronto`. -/
theorem so_insere_fila_mem (K : so_const_t) (s : so_t) (i : Int) (hok : so_fila_ok K s) :
    so_fila_ok K (so_insere_em_pronto K s i) ∧
    ∀ y ∈ so_fila K (so_insere_em_pronto K s i), y ∈ so_fila K s ∨ y = i := by
  unfold so_insere_em_pronto
  split
  · by_cases hf : s.fila_prontos_tamanho = K.MAX_PROCESSOS
    · have e : fila_prontos_insere K s i = s := by
        unfold fila_prontos_insere
        rw [if_pos hf]
      rw [e]
      exact ⟨hok, fun y hy => Or.inl hy⟩
    · have hnf : s.fila_prontos_tamanho < K.MAX_PROCESSOS := by
        have := hok.2.2.1
        omega
      have hi := fila_prontos_insere_fila K s i hok hnf
      refine ⟨hi.2, fun y hy => ?_⟩
      rw [hi.1] at hy
      rcases List.mem_append.mp hy with h1 | h1
      · exact Or.inl h1
      · exact Or.inr (List.mem_singleton.mp h1)
  · exact ⟨hok, fun y hy => Or.inl hy⟩

theorem so_bal_insere {K : so_const_t} {le : Nat → Int → Option Int} {k0 : Nat} {T x : Int}
    {s : so_t} (i : Int)
    (hs : ∀ j : Nat, (j : Int) = i → j < s.tabela_processos.length →
      (so_proc s (j : Int)).estado ≠ LIVRE)
    (h : so_bal K le k0 T x s) : so_bal K le k0 T x (so_insere_em_pronto K s i) := by
  have hm := so_insere_fila_mem K s i h.2.2.1
  refine so_bal_mono h (so_insere_tab K s i) (so_es_insere K s i) hm.1 (fun j hj hac => ?_)
  unfold so_acompanhado at hac ⊢
  rw [so_proc_insere, (so_quantum_insere K s i).1] at hac
  rcases hac with h1 | h1 | h1 | h1
  · exact Or.inl h1
  · exact Or.inr (Or.inl h1)
  · rcases hm.2 _ h1 with h2 | h2
    · exact Or.inr (Or.inr (Or.inl h2))
    · exact Or.inl (hs j h2 hj)
  · exact Or.inr (Or.inr (Or.inr h1))

theorem so_bal_inicializa {K : so_const_t} {le : Nat → Int → Option Int} {k0 : Nat}
    {T x : Int} {s : so_t} (hrel : relogio_ok K le k0 T) (i pid e : Int)
    (h : so_bal K le k0 T x s) :
    so_bal K le k0 T x (so_inicializa_metricas_processo K s i pid e) := by
  obtain ⟨h1, h2, h3, h4⟩ := h
  have hc := so_controle_inicializa K s i pid e
  have hes := so_es_inicializa K s i pid e
  refine ⟨hes.1.trans h1, le_trans h2 hes.2, so_fila_ok_controle K hc h3, fun j hj hac => ?_⟩
  rw [so_inicializa_length] at hj
  unfold so_acompanhado at hac
  rw [hc.1, so_fila_controle K hc, so_proc_inicializa] at hac
  rw [so_proc_inicializa, so_inicializa_k]
  by_cases hit : 0 ≤ i ∧ i.toNat = j ∧ j < s.tabela_processos.length
  · rw [if_pos hit]
    obtain ⟨t, e1, _, _⟩ := hrel s.es.k h2
    have htempo : (so_get_tempo K s).1 = t := by
      rw [so_tempo_valor, h1, e1]
      rfl
    rw [htempo]
    refine ⟨⟨rfl, ?_⟩, Or.inr ⟨s.es.k, h2, Nat.lt_succ_self _, e1⟩⟩
    show ([0, 0, 0, 0, 0] : List Int).sum = t - t
    simp
  · rw [if_neg hit] at hac ⊢
    have hb := h4 j hj hac
    exact ⟨hb.1, relogio_visto_mono K le k0 T _ (Nat.le_succ _) hb.2⟩

theorem so_bal_cria {K : so_const_t} {le : Nat → Int → Option Int} {k0 : Nat}
    {T x : Int} {s : so_t} (hrel : relogio_ok K le k0 T) (i e t : Int)
    (h : so_bal K le k0 T x s) :
    so_bal K le k0 T x (so_insere_em_pronto K (so_muda_proc
      (so_inicializa_metricas_processo K (so_novo_pid s).2 i (so_novo_pid s).1 e) i
      (fun proc => { proc with terminal := t })) i) := by
  have h0 : so_bal K le k0 T x (so_novo_pid s).2 :=
    so_bal_campos h rfl (so_es_refl _) rfl rfl rfl rfl rfl
  have h1 := so_bal_inicializa hrel i (so_novo_pid s).1 e h0
  have h2 := so_bal_muda i (fun proc => { proc with terminal := t })
    (fun _ => ⟨rfl, rfl, rfl, rfl⟩) h1
  refine so_bal_insere i (fun j hij hj => ?_) h2
  rw [so_muda_proc_length, so_inicializa_length] at hj
  have hj' : j < s.tabela_processos.length := hj
  rw [so_proc_muda, so_inicializa_length, so_proc_inicializa,
    if_pos ⟨by omega, by omega, hj⟩, if_pos ⟨by omega, by omega, hj⟩]
  show PRONTO ≠ LIVRE
  decide

theorem so_bal_passo {K : so_const_t} {le : Nat → Int → Option Int} {k0 : Nat} {T x : Int}
    {s t : so_t} (hrel : relogio_ok K le k0 T) (hp : so_passo K s t)
    (h : so_bal K le k0 T x s) : so_bal K le k0 T x t := by
  cases hp with
  | inerte _ hc htab _ hle _ hk => exact so_bal_inerte h htab ⟨hle, hk⟩ hc
  | conta irq =>
    refine so_bal_inerte h ?_ (so_es_conta K s irq) (so_controle_conta K s irq)
    unfold so_conta_irq
    split <;> rfl
  | relatorio =>
    refine so_bal_inerte h ?_ (so_es_relatorio K s) (so_controle_relatorio K s)
    unfold so_imprime_relatorio_final
    dsimp only
    split <;> rfl
  | regs i f hf =>
    exact so_bal_muda i f (fun p =>
      ⟨by have e := congrArg processo_t.estado (hf p); exact e,
       by have e := congrArg processo_t.tempo_total_estado (hf p); exact e,
       by have e := congrArg processo_t.ultimo_tempo_mudanca_estado (hf p); exact e,
       by have e := congrArg processo_t.tempo_criacao (hf p); exact e⟩) h
  | libera i =>
    refine so_bal_atualiza hrel i LIVRE (fun j _ _ => ?_) h
    by_cases hl : (so_proc s (j : Int)).estado = LIVRE
    · exact Or.inr hl
    · exact Or.inl (Or.inl hl)
  | termina i hs =>
    refine so_bal_atualiza hrel i TERMINADO (fun j hij _ => Or.inl ?_) h
    rw [hij] at hs
    rcases hs with h1 | h1
    · exact Or.inl h1
    · exact Or.inr (Or.inl h1.symm)
  | bloqueia i f m hi _ _ hf =>
    refine so_bal_muda i f (fun p =>
      ⟨by have e := congrArg processo_t.estado (hf p); exact e,
       by have e := congrArg processo_t.tempo_total_estado (hf p); exact e,
       by have e := congrArg processo_t.ultimo_tempo_mudanca_estado (hf p); exact e,
       by have e := congrArg processo_t.tempo_criacao (hf p); exact e⟩) ?_
    refine so_bal_atualiza hrel i BLOQUEADO (fun j hij _ => Or.inl (Or.inr (Or.inl ?_))) h
    rw [← hi, hij]
  | pronto i hb =>
    refine so_bal_atualiza hrel i PRONTO (fun j hij _ => Or.inl (Or.inl ?_)) h
    rw [← hij, hb]
    decide
  | desbloqueia i f _ hf =>
    exact so_bal_muda i f (fun p =>
      ⟨by have e := congrArg processo_t.estado (hf p); exact e,
       by have e := congrArg processo_t.tempo_total_estado (hf p); exact e,
       by have e := congrArg processo_t.ultimo_tempo_mudanca_estado (hf p); exact e,
       by have e := congrArg processo_t.tempo_criacao (hf p); exact e⟩) h
  | insere i hp =>
    refine so_bal_insere i (fun j hij _ => ?_) h
    rw [hij, hp]
    decide
  | cria i e t => exact so_bal_cria hrel i e t h

theorem so_bal_passos {K : so_const_t} {le : Nat → Int → Option Int} {k0 : Nat} {T x : Int}
    {s t : so_t} (hrel : relogio_ok K le k0 T) (hp : so_passos K s t)
    (h : so_bal K le k0 T x s) : so_bal K le k0 T x t := by
  induction hp with
  | nada => exact h
  | mais t u _ hp ih => exact so_bal_passo hrel hp ih

theorem so_bal_quantum {K : so_const_t} {le : Nat → Int → Option Int} {k0 : Nat} {T x : Int}
    {s : so_t} (h : so_bal K le k0 T x s) : so_bal K le k0 T x (so_relogio_quantum s) := by
  unfold so_relogio_quantum
  dsimp only
  split
  · split <;> exact so_bal_campos h rfl (so_es_refl _) rfl rfl rfl rfl rfl
  · exact h

theorem so_bal_registra {K : so_const_t} {le : Nat → Int → Option Int} {k0 : Nat}
    {T x : Int} {s : so_t} (i : Int) (h : so_bal K le k0 T x s) :
    so_bal K le k0 T x (so_registra_preempcao s i) := by
  have h1 := so_bal_muda i
    (fun proc => { proc with num_preempcoes := proc.num_preempcoes + 1 })
    (fun _ => ⟨rfl, rfl, rfl, rfl⟩) h
  exact so_bal_campos h1 rfl (so_es_refl _) rfl rfl rfl rfl rfl

theorem so_bal_calcula {K : so_const_t} {le : Nat → Int → Option Int} {k0 : Nat}
    {T x : Int} {s : so_t} (i : Int) (h : so_bal K le k0 T x s) :
    so_bal K le k0 T x (so_calcula_prioridade s i) := by
  unfold so_calcula_prioridade
  dsimp only
  exact so_bal_muda i _ (fun _ => ⟨rfl, rfl, rfl, rfl⟩) h

/-- Leaving the current process: no PCB starts being followed. -/
theorem so_bal_larga {K : so_const_t} {le : Nat → Int → Option Int} {k0 : Nat} {T x : Int}
    {s s' : so_t} (h : so_bal K le k0 T x s)
    (htab : s'.tabela_processos = s.tabela_processos) (hes : so_es_avanca s s')
    (hidx : s'.processo_em_execucao_idx = -1)
    (h1 : s'.fila_prontos = s.fila_prontos)
    (h2 : s'.fila_prontos_inicio = s.fila_prontos_inicio)
    (h3 : s'.fila_prontos_fim = s.fila_prontos_fim)
    (h4 : s'.fila_prontos_tamanho = s.fila_prontos_tamanho) : so_bal K le k0 T (-1) s' := by
  refine so_bal_mono h htab hes (so_fila_ok_de_eq K h1 h2 h3 h4 h.2.2.1) (fun j _ hac => ?_)
  unfold so_acompanhado at hac ⊢
  rw [so_proc_de_tab htab, hidx, so_fila_de_eq K h1 h2 h4] at hac
  rcases hac with a | a | a | a
  · exact Or.inl a
  · omega
  · exact Or.inr (Or.inr (Or.inl a))
  · omega

theorem so_inicio_ocioso_fila (K : so_const_t) (s : so_t) :
    (so_inicio_ocioso K s).fila_prontos = s.fila_prontos ∧
    (so_inicio_ocioso K s).fila_prontos_inicio = s.fila_prontos_inicio ∧
    (so_inicio_ocioso K s).fila_prontos_fim = s.fila_prontos_fim ∧
    (so_inicio_ocioso K s).fila_prontos_tamanho = s.fila_prontos_tamanho := by
  unfold so_inicio_ocioso
  dsimp only
  split <;> exact ⟨rfl, rfl, rfl, rfl⟩

theorem so_bal_inicio_ocioso {K : so_const_t} {le : Nat → Int → Option Int} {k0 : Nat}
    {T x : Int} {s : so_t} (h : so_bal K le k0 T x s) :
    so_bal K le k0 T (-1) (so_inicio_ocioso K s) :=
  so_bal_larga h (so_inicio_ocioso_tab K s) (so_es_inicio_ocioso K s)
    (so_inicio_ocioso_idx K s) (so_inicio_ocioso_fila K s).1 (so_inicio_ocioso_fila K s).2.1
    (so_inicio_ocioso_fila K s).2.2.1 (so_inicio_ocioso_fila K s).2.2.2

theorem so_bal_fim_ocioso {K : so_const_t} {le : Nat → Int → Option Int} {k0 : Nat}
    {T x : Int} {s : so_t} (h : so_bal K le k0 T x s) :
    so_bal K le k0 T x (so_fim_ocioso K s) :=
  so_bal_inerte h (so_fim_ocioso_tab K s) (so_es_fim_ocioso K s) (so_controle_fim_ocioso K s)

/-- The dispatch of both schedulers: the PCB of slot `i`, followed as the slot `x = i`,
becomes the current process. -/
theorem so_bal_despacho {K : so_const_t} {le : Nat → Int → Option Int} {k0 : Nat}
    {T : Int} {s : so_t} (hrel : relogio_ok K le k0 T) (i qr : Int)
    (h : so_bal K le k0 T i s) :
    so_bal K le k0 T (-1)
      { so_atualiza_estado K (so_fim_ocioso K s) i EXECUTANDO with
          processo_em_execucao_idx := i
          quantum_restante := qr } := by
  have h1 := so_bal_fim_ocioso h
  have h2 := so_bal_atualiza hrel i EXECUTANDO
    (fun j hij _ => Or.inl (Or.inr (Or.inr (Or.inr hij.symm)))) h1
  refine so_bal_mono h2 rfl (so_es_refl _) h2.2.2.1 (fun j _ hac => ?_)
  unfold so_acompanhado at hac ⊢
  rcases hac with a | a | a | a
  · exact Or.inl a
  · exact Or.inr (Or.inr (Or.inr (Eq.symm a)))
  · exact Or.inr (Or.inr (Or.inl a))
  · omega

theorem so_bal_rr_proximo {K : so_const_t} {le : Nat → Int → Option Int} {k0 : Nat}
    {T : Int} {s : so_t} (hrel : relogio_ok K le k0 T) (h : so_bal K le k0 T (-1) s) :
    so_bal K le k0 T (-1) (so_escalona_rr_proximo K s) := by
  by_cases ht : s.fila_prontos_tamanho = 0
  · unfold so_escalona_rr_proximo
    dsimp only
    rw [fila_prontos_remove_vazia K s ht, if_neg (by simp)]
    exact so_bal_inicio_ocioso h
  · have hrem := fila_prontos_remove_fila K s h.2.2.1 ht
    have hr : so_bal K le k0 T (fila_prontos_remove K s).1 (fila_prontos_remove K s).2 := by
      refine so_bal_mono h (fila_prontos_remove_tab K s) ?_ hrem.2 (fun j _ hac => ?_)
      · unfold fila_prontos_remove
        split <;> exact so_es_refl s
      · have hidx : (fila_prontos_remove K s).2.processo_em_execucao_idx =
            s.processo_em_execucao_idx := by
          unfold fila_prontos_remove
          split <;> rfl
        unfold so_acompanhado at hac ⊢
        rw [so_proc_de_tab (fila_prontos_remove_tab K s), hidx] at hac
        rcases hac with a | a | a | a
        · exact Or.inl a
        · exact Or.inr (Or.inl a)
        · exact Or.inr (Or.inr (Or.inl (by rw [hrem.1]; exact List.mem_cons_of_mem _ a)))
        · exact Or.inr (Or.inr (Or.inl (by rw [hrem.1, a]; exact List.mem_cons_self _ _)))
    unfold so_escalona_rr_proximo
    dsimp only
    split
    · exact so_bal_despacho hrel _ _ hr
    · exact so_bal_inicio_ocioso hr

theorem so_bal_rr {K : so_const_t} {le : Nat → Int → Option Int} {k0 : Nat}
    {T : Int} {s : so_t} (hrel : relogio_ok K le k0 T) (h : so_bal K le k0 T (-1) s) :
    so_bal K le k0 T (-1) (so_escalona_rr K s) := by
  unfold so_escalona_rr
  dsimp only
  split
  · apply so_bal_rr_proximo hrel
    have h1 := so_bal_registra s.processo_em_execucao_idx h
    have hidx1 : (so_registra_preempcao s s.processo_em_execucao_idx).processo_em_execucao_idx
        = s.processo_em_execucao_idx := (so_controle_registra s _).1
    have h2 := so_bal_atualiza hrel s.processo_em_execucao_idx PRONTO
      (fun j hij _ => Or.inl (Or.inr (Or.inl (by rw [hidx1, hij])))) h1
    have h3 := so_bal_insere s.processo_em_execucao_idx (fun j hij hj => by
      rw [so_atualiza_length] at hj
      rw [← hij] at hj ⊢
      rw [so_proc_atualiza_estado K _ PRONTO j hj]
      decide) h2
    exact so_bal_larga h3 rfl (so_es_refl _) rfl rfl rfl rfl rfl
  · split
    · apply so_bal_rr_proximo hrel
      exact so_bal_larga h rfl (so_es_refl _) rfl rfl rfl rfl rfl
    · split
      · exact so_bal_campos h rfl (so_es_refl _) rfl rfl rfl rfl rfl
      · apply so_bal_rr_proximo hrel
        exact so_bal_campos h rfl (so_es_refl _) rfl rfl rfl rfl rfl

theorem so_bal_prio_atual {K : so_const_t} {le : Nat → Int → Option Int} {k0 : Nat}
    {T : Int} {s : so_t} (hrel : relogio_ok K le k0 T) (h : so_bal K le k0 T (-1) s) :
    so_bal K le k0 T (-1) (so_escalona_prio_atual K s) := by
  unfold so_escalona_prio_atual
  dsimp only
  split
  · split
    · have h1 := so_bal_calcula s.processo_em_execucao_idx h
      exact so_bal_larga h1 rfl (so_es_refl _) rfl rfl rfl rfl rfl
    · split
      · have h1 := so_bal_registra s.processo_em_execucao_idx
          (so_bal_calcula s.processo_em_execucao_idx h)
        have hidx1 : (so_registra_preempcao (so_calcula_prioridade s
            s.processo_em_execucao_idx) s.processo_em_execucao_idx).processo_em_execucao_idx
            = s.processo_em_execucao_idx :=
          (so_controle_registra _ _).1.trans (so_controle_calcula s _).1
        have h2 := so_bal_atualiza hrel s.processo_em_execucao_idx PRONTO
          (fun j hij _ => Or.inl (Or.inr (Or.inl (by rw [hidx1, hij])))) h1
        exact so_bal_larga h2 rfl (so_es_refl _) rfl rfl rfl rfl rfl
      · exact so_bal_campos h rfl (so_es_refl _) rfl rfl rfl rfl rfl
  · exact h

theorem so_bal_prio_proximo {K : so_const_t} {le : Nat → Int → Option Int} {k0 : Nat}
    {T : Int} {s : so_t} (hrel : relogio_ok K le k0 T) (h : so_bal K le k0 T (-1) s) :
    so_bal K le k0 T (-1) (so_escalona_prio_proximo K s) := by
  have hl := so_escalona_prio_laco s 1000000000 K.MAX_PROCESSOS
  unfold so_escalona_prio_proximo
  dsimp only
  rcases hl with ⟨e1, _, _⟩ | ⟨i, e1, _, e3, _, _, _⟩
  · rw [if_neg (by rw [e1]; simp)]
    exact so_bal_inicio_ocioso h
  · rw [if_pos (by rw [e1]; omega), e1]
    apply so_bal_despacho hrel
    refine so_bal_mono h rfl (so_es_refl _) h.2.2.1 (fun j _ hac => ?_)
    unfold so_acompanhado at hac ⊢
    rcases hac with a | a | a | a
    · exact Or.inl a
    · exact Or.inr (Or.inl a)
    · exact Or.inr (Or.inr (Or.inl a))
    · left
      have : j = i := by omega
      rw [this, e3]
      decide

theorem so_bal_escalona {K : so_const_t} {le : Nat → Int → Option Int} {k0 : Nat}
    {T : Int} {s : so_t} (hrel : relogio_ok K le k0 T) (h : so_bal K le k0 T (-1) s) :
    so_bal K le k0 T (-1) (so_escalona K s) := by
  unfold so_escalona
  split
  · exact so_bal_rr hrel h
  · unfold so_escalona_prio
    dsimp only
    split
    · exact so_bal_prio_proximo hrel (so_bal_prio_atual hrel h)
    · exact so_bal_prio_atual hrel h

theorem so_bal_despacha {K : so_const_t} {le : Nat → Int → Option Int} {k0 : Nat}
    {T x : Int} {s : so_t} (h : so_bal K le k0 T x s) :
    so_bal K le k0 T x (so_despacha K s).2 := by
  unfold so_despacha
  dsimp only
  split
  · exact h
  · split <;> exact so_bal_campos h rfl (so_es_refl _) rfl rfl rfl rfl rfl

/-- The invariant of the balance over a trap. -/
theorem so_bal_trap {K : so_const_t} {le : Nat → Int → Option Int} {k0 : Nat}
    {T : Int} {s : so_t} (hrel : relogio_ok K le k0 T) (irq : Int)
    (h : so_bal K le k0 T (-1) s) :
    so_bal K le k0 T (-1) (so_trata_interrupcao K s irq).2 := by
  rw [so_trap_entrada]
  obtain ⟨m, m', h1, h2, h3⟩ := so_passos_entrada K s irq
  have hm := so_bal_passos hrel h1 h
  have hm' : so_bal K le k0 T (-1) m' := by
    rcases h2 with rfl | rfl
    · exact hm
    · exact so_bal_quantum hm
  exact so_bal_despacha (so_bal_escalona hrel (so_bal_passos hrel h3 hm'))

theorem so_cria_proc (K : so_const_t) (modo : tipo_escalonador_t) (mem : mem_t) (es : es_t)
    (lp : Nat → processo_t) (lf : Nat → Int) (j : Nat) :
    (so_proc (so_cria_modo K modo mem es lp lf) (j : Int)).estado = LIVRE := by
  by_cases hlen : j < (so_cria_modo K modo mem es lp lf).tabela_processos.length
  · have hget := so_proc_get _ j hlen
    have hlen' : j < K.MAX_PROCESSOS := by
      have : (so_cria_modo K modo mem es lp lf).tabela_processos.length =
          K.MAX_PROCESSOS := by
        show ((List.range K.MAX_PROCESSOS).map _).length = _
        simp
      omega
    have hget2 : (so_cria_modo K modo mem es lp lf).tabela_processos[j]? =
        some { lp j with estado := LIVRE } := by
      show ((List.range K.MAX_PROCESSOS).map _)[j]? = _
      simp [hlen']
    rw [hget2] at hget
    rw [← Option.some.inj hget]
  · rw [so_proc_fora _ j (by omega)]
    rfl

theorem so_balanco_inv_cria (K : so_const_t) (modo : tipo_escalonador_t) (mem : mem_t)
    (es : es_t) (lp : Nat → processo_t) (lf : Nat → Int) (T : Int) :
    so_balanco_inv K (so_cria_modo K modo mem es lp lf) T := by
  constructor
  · refine ⟨?_, ?_, ?_, ?_⟩
    · show ((List.range K.MAX_PROCESSOS).map lf).length = _
      simp
    · show 0 ≤ K.MAX_PROCESSOS - 1
      omega
    · show 0 ≤ K.MAX_PROCESSOS
      omega
    · show 0 = (0 + 0) % K.MAX_PROCESSOS
      simp
  · intro j _ hac
    exfalso
    rcases hac with a | a | a | a
    · exact a (so_cria_proc K modo mem es lp lf j)
    · have : (-1 : Int) = (j : Int) := a
      omega
    · have : so_fila K (so_cria_modo K modo mem es lp lf) = [] := rfl
      rw [this] at a
      cases a
    · omega

theorem so_balanco_inv_alcancavel (K : so_const_t) (s : so_t) (T : Int)
    (h : so_alcancavel_relogio K s T) : so_balanco_inv K s T := by
  induction h with
  | cria modo mem es lp lf T => exact so_balanco_inv_cria K modo mem es lp lf T
  | trap s T irq mem es T' _ hrel hT hlim ih =>
    have h0 : so_bal K es.le es.k T (-1) { s with mem := mem, es := es } := by
      refine ⟨rfl, le_refl _, ih.1, fun j hj hac => ?_⟩
      have hb := ih.2 j hj hac
      exact ⟨hb.1, Or.inl hb.2⟩
    have h1 := so_bal_trap hrel irq h0
    refine ⟨h1.2.2.1, fun j hj hac => ?_⟩
    have hb := h1.2.2.2 j hj hac
    refine ⟨hb.1, ?_⟩
    rcases hb.2 with a | ⟨k, a1, a2, a3⟩
    · omega
    · exact hlim k _ a1 a2 a3

/-- C15: assuming the instruction clock never decreases and is always readable, in every
reachable state every PCB that is not `LIVRE` has five per-state accumulators whose sum is
`ultimo_tempo_mudanca_estado - tempo_criacao`, its last change of state is not after the
current time `T`, and so for every time `agora` the sum plus
`agora - ultimo_tempo_mudanca_estado` equals `agora - tempo_criacao`.  Equivalently, on any
state, a call of `so_atualiza_estado` for a PCB in balance, with the clock reading a time
not before the last change of state of the PCB, leaves the PCB in balance. -/
theorem so_metricas_balanco (K : so_const_t) (self : so_t) (T : Int)
    (h : so_alcancavel_relogio K self T) :
    (∀ (j : Nat) (p : processo_t), self.tabela_processos[j]? = some p → p.estado ≠ LIVRE →
      p.tempo_total_estado.length = 5 ∧
      p.tempo_total_estado.sum = p.ultimo_tempo_mudanca_estado - p.tempo_criacao ∧
      p.ultimo_tempo_mudanca_estado ≤ T ∧
      ∀ agora : Int,
        p.tempo_total_estado.sum + (agora - p.ultimo_tempo_mudanca_estado) =
          agora - p.tempo_criacao) ∧
    (∀ (s : so_t) (i : Nat) (novo : estado_processo_t) (t : Int),
      i < s.tabela_processos.length →
      processo_balanco (so_proc s (i : Int)) →
      s.es.le s.es.k K.D_RELOGIO_INSTRUCOES = some t →
      (so_proc s (i : Int)).ultimo_tempo_mudanca_estado ≤ t →
      processo_balanco (so_proc (so_atualiza_estado K s (i : Int) novo) (i : Int))) := by
  have hinv := so_balanco_inv_alcancavel K self T h
  constructor
  · intro j p hp hl
    have hj : j < self.tabela_processos.length := by
      by_contra hc
      rw [List.getElem?_eq_none_iff.mpr (by omega)] at hp
      cases hp
    have e := so_proc_get self j hj
    rw [hp] at e
    have e' := Option.some.inj e
    have hb := hinv.2 j hj (Or.inl (by rw [← e']; exact hl))
    rw [← e'] at hb
    refine ⟨hb.1.1, hb.1.2, hb.2, fun agora => ?_⟩
    rw [hb.1.2]
    ring
  · intro s i novo t hi hb he ht
    rw [so_proc_atualiza_mesmo K s novo i hi]
    have htempo : (so_get_tempo K s).1 = t := by
      rw [so_tempo_valor, he]
      rfl
    rw [htempo]
    exact (processo_muda_estado_balanco _ t novo hb ht).1

theorem es_ex_relogio_ok (K : so_const_t) (k0 : Nat) (T : Int) (h : T ≤ (k0 : Int)) :
    relogio_ok K (es_ex_relogio k0).le (es_ex_relogio k0).k T := by
  intro k hk
  have hk' : k0 ≤ k := hk
  refine ⟨(k : Int), rfl, by omega, fun k2 t2 hk2 e => ?_⟩
  have e' : some (k2 : Int) = some t2 := e
  have := Option.some.inj e'
  omega

theorem es_ex_relogio_limite (K : so_const_t) (k0 kf : Nat) (T' : Int)
    (h : (kf : Int) ≤ T') (k : Nat) (t : Int) (_ : (es_ex_relogio k0).k ≤ k) (hk : k < kf)
    (e : (es_ex_relogio k0).le k K.D_RELOGIO_INSTRUCOES = some t) : t ≤ T' := by
  have e' : some (k : Int) = some t := e
  have := Option.some.inj e'
  omega

set_option maxRecDepth 1000000 in
theorem so_ex_relogio_alcancavel : so_alcancavel_relogio so_const_ex so_ex_relogio 500 := by
  have h0 := so_alcancavel_relogio.cria (K := so_const_ex) ESCAL_CIRCULAR (mem_ex 0 0) es_ex
    (fun _ => default) (fun _ => 0) 0
  have h1 := so_alcancavel_relogio.trap _ 0 0 (mem_ex 0 0) (es_ex_relogio 10) 100 h0
    (es_ex_relogio_ok _ 10 0 (by decide)) (by decide)
    (es_ex_relogio_limite _ 10 _ 100 (by decide))
  have h2 := so_alcancavel_relogio.trap _ 100 2 (mem_ex 7 300) (es_ex_relogio 100) 200 h1
    (es_ex_relogio_ok _ 100 100 (by decide)) (by decide)
    (es_ex_relogio_limite _ 100 _ 200 (by decide))
  have h3 := so_alcancavel_relogio.trap _ 200 3 (mem_ex 0 0) (es_ex_relogio 200) 300 h2
    (es_ex_relogio_ok _ 200 200 (by decide)) (by decide)
    (es_ex_relogio_limite _ 200 _ 300 (by decide))
  have h4 := so_alcancavel_relogio.trap _ 300 3 (mem_ex 0 0) (es_ex_relogio 300) 400 h3
    (es_ex_relogio_ok _ 300 300 (by decide)) (by decide)
    (es_ex_relogio_limite _ 300 _ 400 (by decide))
  exact so_alcancavel_relogio.trap _ 400 3 (mem_ex 0 0) (es_ex_relogio 400) 500 h4
    (es_ex_relogio_ok _ 400 400 (by decide)) (by decide)
    (es_ex_relogio_limite _ 400 _ 500 (by decide))

set_option maxRecDepth 1000000 in
theorem so_metricas_balanco_witness :
    so_alcancavel_relogio so_const_ex so_ex_relogio 500 ∧
    (so_proc so_ex_relogio 0).estado = PRONTO ∧
    (so_proc so_ex_relogio 0).tempo_total_estado = [0, 1, 390, 0, 0] ∧
    (so_proc so_ex_relogio 0).tempo_criacao = 11 ∧
    (so_proc so_ex_relogio 0).ultimo_tempo_mudanca_estado = 402 ∧
    (so_proc so_ex_relogio 1).estado = EXECUTANDO ∧
    (so_proc so_ex_relogio 1).tempo_total_estado = [0, 303, 0, 0, 0] ∧
    (∀ (j : Nat) (p : processo_t), so_ex_relogio.tabela_processos[j]? = some p →
      p.estado ≠ LIVRE →
      p.tempo_total_estado.length = 5 ∧
      p.tempo_total_estado.sum = p.ultimo_tempo_mudanca_estado - p.tempo_criacao ∧
      p.ultimo_tempo_mudanca_estado ≤ 500 ∧
      ∀ agora : Int,
        p.tempo_total_estado.sum + (agora - p.ultimo_tempo_mudanca_estado) =
          agora - p.tempo_criacao) :=
  ⟨so_ex_relogio_alcancavel, by decide, by decide, by decide, by decide, by decide, by decide,
    (so_metricas_balanco so_const_ex so_ex_relogio 500 so_ex_relogio_alcancavel).1⟩

/-! ## T2/so.c: WAIT on a valid target -/

/-- C21 (WAIT on a valid target): the current process (slot `c`) issues WAIT with X
positive and different from its own pid, and slot `t` holds the target, the first PCB that
is not `LIVRE` and has pid X.  If the target is `TERMINADO` it becomes `LIVRE`, the A of the
caller is 0 and the caller keeps its state (it stays `EXECUTANDO`); if the target is
`PRONTO`, `EXECUTANDO` or `BLOQUEADO` the caller becomes `BLOQUEADO` with reason
`BLOQUEIO_PID` and awaited pid the pid of the target, and the target is unchanged.  In both
cases no PCB other than the caller and the target changes. -/
theorem so_espera_proc_alvo (K : so_const_t) (s : so_t) (c t : Nat)
    (hidx : s.processo_em_execucao_idx = (c : Int)) (hc : c < s.tabela_processos.length)
    (hx : (so_proc s (c : Int)).estado_cpu.regX ≠ (so_proc s (c : Int)).pid)
    (hpos : 0 < (so_proc s (c : Int)).estado_cpu.regX)
    (ht : t < K.MAX_PROCESSOS)
    (hnl : (so_proc s (t : Int)).estado ≠ LIVRE)
    (hpid : (so_proc s (t : Int)).pid = (so_proc s (c : Int)).estado_cpu.regX)
    (hprim : ∀ i : Nat, i < t → (so_proc s (i : Int)).estado ≠ LIVRE →
      (so_proc s (i : Int)).pid ≠ (so_proc s (c : Int)).estado_cpu.regX) :
    ((so_proc s (t : Int)).estado = TERMINADO →
      (so_proc (so_chamada_espera_proc K s) (t : Int)).estado = LIVRE ∧
      (so_proc (so_chamada_espera_proc K s) (c : Int)).estado_cpu.regA = 0 ∧
      (so_proc (so_chamada_espera_proc K s) (c : Int)).estado = (so_proc s (c : Int)).estado ∧
      (so_proc (so_chamada_espera_proc K s) (c : Int)).motivo_bloqueio =
        (so_proc s (c : Int)).motivo_bloqueio) ∧
    (processo_vivo (so_proc s (t : Int)) →
      (so_proc (so_chamada_espera_proc K s) (c : Int)).estado = BLOQUEADO ∧
      (so_proc (so_chamada_espera_proc K s) (c : Int)).motivo_bloqueio = BLOQUEIO_PID ∧
      (so_proc (so_chamada_espera_proc K s) (c : Int)).pid_esperado =
        (so_proc s (t : Int)).pid ∧
      so_proc (so_chamada_espera_proc K s) (t : Int) = so_proc s (t : Int)) ∧
    (∀ j : Nat, j ≠ c → j ≠ t →
      so_proc (so_chamada_espera_proc K s) (j : Int) = so_proc s (j : Int)) := by
  have htc : t ≠ c := by
    intro h
    rw [h] at hpid
    exact hx hpid.symm
  have htl : t < s.tabela_processos.length := so_proc_dentro s t hnl
  have hfind : (List.range K.MAX_PROCESSOS).find? (fun (i : Nat) =>
      (so_proc s (i : Int)).estado ≠ LIVRE ∧
      (so_proc s (i : Int)).pid = (so_proc s (c : Int)).estado_cpu.regX) = some t := by
    apply range_find_primeiro _ _ _ ht
    · simp only [decide_eq_true_eq]
      exact ⟨hnl, hpid⟩
    · intro i hi
      simp only [decide_eq_false_iff_not, not_and]
      exact hprim i hi
  have hforma : so_chamada_espera_proc K s =
      if (so_proc s (t : Int)).estado = TERMINADO then
        so_retorna (so_atualiza_estado K s (t : Int) LIVRE) (c : Int) 0
      else
        so_muda_proc (so_atualiza_estado K s (c : Int) BLOQUEADO) (c : Int)
          (fun proc => { proc with
                           motivo_bloqueio := BLOQUEIO_PID
                           pid_esperado := (so_proc s (c : Int)).estado_cpu.regX }) := by
    unfold so_chamada_espera_proc
    dsimp only
    rw [if_neg (by omega), hidx, if_neg hx, if_neg (by omega), hfind]
  rw [hforma]
  refine ⟨fun hterm => ?_, fun hvivo => ?_, fun j hjc hjt => ?_⟩
  · rw [if_pos hterm]
    have hcl : c < (so_atualiza_estado K s (t : Int) LIVRE).tabela_processos.length := by
      rw [so_atualiza_length]; exact hc
    refine ⟨?_, ?_, ?_, ?_⟩
    · rw [so_proc_retorna, if_neg (by omega), so_proc_atualiza_estado K s LIVRE t htl]
    · rw [so_proc_retorna, if_pos ⟨by omega, by omega, hcl⟩]
    · rw [so_proc_retorna, if_pos ⟨by omega, by omega, hcl⟩,
        so_proc_atualiza_outro K s _ _ c (by omega)]
    · rw [so_proc_retorna, if_pos ⟨by omega, by omega, hcl⟩,
        so_proc_atualiza_outro K s _ _ c (by omega)]
  · have hnt : (so_proc s (t : Int)).estado ≠ TERMINADO := ((vivo_iff _).mp hvivo).2
    rw [if_neg hnt]
    have hcl : c < (so_atualiza_estado K s (c : Int) BLOQUEADO).tabela_processos.length := by
      rw [so_atualiza_length]; exact hc
    refine ⟨?_, ?_, ?_, ?_⟩
    · rw [so_proc_muda_mesmo _ _ c hcl]
      exact so_proc_atualiza_estado K s BLOQUEADO c hc
    · rw [so_proc_muda_mesmo _ _ c hcl]
    · rw [so_proc_muda_mesmo _ _ c hcl, hpid]
    · rw [so_proc_muda_outro _ _ _ t (by omega), so_proc_atualiza_outro K s _ _ t (by omega)]
  · split
    · rw [so_proc_retorna, if_neg (by omega), so_proc_atualiza_outro K s _ _ j (by omega)]
    · rw [so_proc_muda_outro _ _ _ j (by omega), so_proc_atualiza_outro K s _ _ j (by omega)]

set_option maxRecDepth 100000 in
theorem so_espera_proc_alvo_witness :
    (so_proc so_ex_espera_vivo ((1 : Nat) : Int)).estado = PRONTO ∧
    ((so_proc (so_chamada_espera_proc so_const_ex so_ex_espera_vivo) ((0 : Nat) : Int)).estado
        = BLOQUEADO ∧
      (so_proc (so_chamada_espera_proc so_const_ex so_ex_espera_vivo)
        ((0 : Nat) : Int)).motivo_bloqueio = BLOQUEIO_PID ∧
      (so_proc (so_chamada_espera_proc so_const_ex so_ex_espera_vivo)
        ((0 : Nat) : Int)).pid_esperado = (so_proc so_ex_espera_vivo ((1 : Nat) : Int)).pid ∧
      so_proc (so_chamada_espera_proc so_const_ex so_ex_espera_vivo) ((1 : Nat) : Int) =
        so_proc so_ex_espera_vivo ((1 : Nat) : Int)) ∧
    (so_proc so_ex_espera_morto ((1 : Nat) : Int)).estado = TERMINADO ∧
    ((so_proc (so_chamada_espera_proc so_const_ex so_ex_espera_morto) ((1 : Nat) : Int)).estado
        = LIVRE ∧
      (so_proc (so_chamada_espera_proc so_const_ex so_ex_espera_morto)
        ((0 : Nat) : Int)).estado_cpu.regA = 0 ∧
      (so_proc (so_chamada_espera_proc so_const_ex so_ex_espera_morto) ((0 : Nat) : Int)).estado
        = (so_proc so_ex_espera_morto ((0 : Nat) : Int)).estado ∧
      (so_proc (so_chamada_espera_proc so_const_ex so_ex_espera_morto)
        ((0 : Nat) : Int)).motivo_bloqueio =
        (so_proc so_ex_espera_morto ((0 : Nat) : Int)).motivo_bloqueio) :=
  ⟨by decide,
    (so_espera_proc_alvo so_const_ex so_ex_espera_vivo 0 1 (by decide) (by decide)
      (by decide) (by decide) (by decide) (by decide) (by decide) (by decide)).2.1 (by decide),
    by decide,
    (so_espera_proc_alvo so_const_ex so_ex_espera_morto 0 1 (by decide) (by decide)
      (by decide) (by decide) (by decide) (by decide) (by decide) (by decide)).1 (by decide)⟩

/-! ## T2/so.c: WRITE with the screen ready -/

/-- C22: the current process (slot `c`) issues WRITE, the screen-ready register of its
terminal reads a value `e ≠ 0` and the write to the screen register succeeds.  Then the
only change in the table is A = 0 for the caller: its state is the one it had (it stays
`EXECUTANDO`, it is not made `BLOQUEADO`), its counts of entries and its accumulated times
per state are unchanged, those of `BLOQUEADO` in particular, and the value of its X has
been written to the screen register of its terminal. -/
theorem so_chamada_escr_pronta (K : so_const_t) (s : so_t) (c : Nat) (e : Int)
    (hidx : s.processo_em_execucao_idx = (c : Int)) (hc : c < s.tabela_processos.length)
    (hok : s.es.le s.es.k ((so_proc s (c : Int)).terminal + K.TERM_TELA_OK) = some e)
    (he : e ≠ 0)
    (hesc : s.es.esc (s.es.k + 1) ((so_proc s (c : Int)).terminal + K.TERM_TELA)
      (so_proc s (c : Int)).estado_cpu.regX = true) :
    (so_chamada_escr K s).tabela_processos =
      s.tabela_processos.set c
        { so_proc s (c : Int) with
            estado_cpu := { (so_proc s (c : Int)).estado_cpu with regA := 0 } } ∧
    (so_proc (so_chamada_escr K s) (c : Int)).estado = (so_proc s (c : Int)).estado ∧
    (so_proc (so_chamada_escr K s) (c : Int)).contagem_estado.getD BLOQUEADO.idx 0 =
      (so_proc s (c : Int)).contagem_estado.getD BLOQUEADO.idx 0 ∧
    (so_proc (so_chamada_escr K s) (c : Int)).tempo_total_estado.getD BLOQUEADO.idx 0 =
      (so_proc s (c : Int)).tempo_total_estado.getD BLOQUEADO.idx 0 ∧
    (so_proc (so_chamada_escr K s) (c : Int)).contagem_estado =
      (so_proc s (c : Int)).contagem_estado ∧
    (so_proc (so_chamada_escr K s) (c : Int)).tempo_total_estado =
      (so_proc s (c : Int)).tempo_total_estado ∧
    (so_chamada_escr K s).es.escritas =
      s.es.escritas ++ [((so_proc s (c : Int)).terminal + K.TERM_TELA,
        (so_proc s (c : Int)).estado_cpu.regX)] ∧
    (so_proc (so_chamada_escr K s) (c : Int)).estado_cpu.regA = 0 ∧
    (so_chamada_escr K s).erro_interno = s.erro_interno := by
  have h1 : (so_es_le s ((so_proc s (c : Int)).terminal + K.TERM_TELA_OK)).1 = some e := hok
  have h2 : (so_es_escreve (so_es_le s ((so_proc s (c : Int)).terminal + K.TERM_TELA_OK)).2
      ((so_proc s (c : Int)).terminal + K.TERM_TELA)
      (so_proc s (c : Int)).estado_cpu.regX).1 = true := hesc
  have hforma : so_chamada_escr K s =
      so_retorna (so_es_escreve (so_es_le s ((so_proc s (c : Int)).terminal + K.TERM_TELA_OK)).2
        ((so_proc s (c : Int)).terminal + K.TERM_TELA)
        (so_proc s (c : Int)).estado_cpu.regX).2 (c : Int) 0 := by
    unfold so_chamada_escr
    dsimp only
    rw [if_neg (by omega), hidx, h1]
    dsimp only
    rw [if_pos he]
    have h3 : so_proc (so_es_le s ((so_proc s (c : Int)).terminal + K.TERM_TELA_OK)).2 (c : Int)
        = so_proc s (c : Int) := rfl
    rw [h3, h2]
    rfl
  rw [hforma]
  generalize hw : (so_es_escreve (so_es_le s ((so_proc s (c : Int)).terminal + K.TERM_TELA_OK)).2
        ((so_proc s (c : Int)).terminal + K.TERM_TELA)
        (so_proc s (c : Int)).estado_cpu.regX).2 = w
  have hwt : w.tabela_processos = s.tabela_processos := by rw [← hw]; rfl
  have hwp : so_proc w (c : Int) = so_proc s (c : Int) := so_proc_de_tab hwt _
  have hwl : c < w.tabela_processos.length := by rw [hwt]; exact hc
  have hpc : so_proc (so_retorna w (c : Int) 0) (c : Int) =
      { so_proc s (c : Int) with
          estado_cpu := { (so_proc s (c : Int)).estado_cpu with regA := 0 } } := by
    rw [so_proc_retorna, if_pos ⟨by omega, by omega, hwl⟩, hwp]
  refine ⟨?_, ?_, ?_, ?_, ?_, ?_, ?_, ?_, ?_⟩
  · rw [so_retorna_tab w c 0, hwt, hwp]
  · rw [hpc]
  · rw [hpc]
  · rw [hpc]
  · rw [hpc]
  · rw [hpc]
  · have e1 : (so_retorna w (c : Int) 0).es = w.es := by
      unfold so_retorna so_muda_proc
      split <;> rfl
    rw [e1, ← hw]
    show (if s.es.esc (s.es.k + 1) ((so_proc s (c : Int)).terminal + K.TERM_TELA)
        (so_proc s (c : Int)).estado_cpu.regX = true then _ else _) = _
    rw [if_pos hesc]
    rfl
  · rw [hpc]
  · unfold so_retorna
    rw [so_muda_proc_erro, ← hw]
    rfl

set_option maxRecDepth 100000 in
theorem so_chamada_escr_pronta_witness :
    (so_proc so_ex_escr_pronta ((0 : Nat) : Int)).estado = EXECUTANDO ∧
    (so_proc so_ex_escr_pronta ((0 : Nat) : Int)).estado_cpu.regX = 65 ∧
    (so_proc (so_chamada_escr so_const_ex so_ex_escr_pronta) ((0 : Nat) : Int)).estado =
      (so_proc so_ex_escr_pronta ((0 : Nat) : Int)).estado ∧
    (so_chamada_escr so_const_ex so_ex_escr_pronta).es.escritas =
      so_ex_escr_pronta.es.escritas ++
        [((so_proc so_ex_escr_pronta ((0 : Nat) : Int)).terminal + so_const_ex.TERM_TELA,
          (so_proc so_ex_escr_pronta ((0 : Nat) : Int)).estado_cpu.regX)] ∧
    (so_proc (so_chamada_escr so_const_ex so_ex_escr_pronta)
      ((0 : Nat) : Int)).estado_cpu.regA = 0 :=
  ⟨by decide, by decide,
    (so_chamada_escr_pronta so_const_ex so_ex_escr_pronta 0 1 (by decide) (by decide)
      (by decide) (by decide) (by decide)).2.1,
    (so_chamada_escr_pronta so_const_ex so_ex_escr_pronta 0 1 (by decide) (by decide)
      (by decide) (by decide) (by decide)).2.2.2.2.2.2.1,
    (so_chamada_escr_pronta so_const_ex so_ex_escr_pronta 0 1 (by decide) (by decide)
      (by decide) (by decide) (by decide)).2.2.2.2.2.2.2.1⟩

/-! ## T2/so.c: the internal error flag -/

set_option maxRecDepth 100000 in
/-- C23: round-robin, `init` is running.  A trap with the IRQ code 5, which is none of
RESET, SISTEMA, ERR_CPU and RELOGIO, sets `erro_interno` and returns 0 (resume) with `init`
still `EXECUTANDO`; so does a clock trap in which the saved registers cannot be read from
the memory.  `so_despacha`, which decides the value returned, gives the same value whatever
`erro_interno` is: the flag that the comments of `so.c` say stops the simulation is never
read. -/
theorem so_erro_interno_nao_para :
    so_alcancavel so_const_ex (so_ex_boot ESCAL_CIRCULAR) ∧
    (so_proc (so_ex_boot ESCAL_CIRCULAR) 0).estado = EXECUTANDO ∧
    (so_ex_boot ESCAL_CIRCULAR).erro_interno = false ∧
    (5 ≠ so_const_ex.IRQ_RESET ∧ 5 ≠ so_const_ex.IRQ_SISTEMA ∧
      5 ≠ so_const_ex.IRQ_ERR_CPU ∧ 5 ≠ so_const_ex.IRQ_RELOGIO) ∧
    (so_trata_interrupcao so_const_ex
      { so_ex_boot ESCAL_CIRCULAR with mem := mem_ex 0 0, es := es_ex } 5).2.erro_interno
      = true ∧
    (so_trata_interrupcao so_const_ex
      { so_ex_boot ESCAL_CIRCULAR with mem := mem_ex 0 0, es := es_ex } 5).1 = 0 ∧
    (so_proc (so_trata_interrupcao so_const_ex
      { so_ex_boot ESCAL_CIRCULAR with mem := mem_ex 0 0, es := es_ex } 5).2 0).estado
      = EXECUTANDO ∧
    (so_trata_interrupcao so_const_ex
      { so_ex_boot ESCAL_CIRCULAR with mem := mem_ex_falha, es := es_ex } 3).2.erro_interno
      = true ∧
    (so_trata_interrupcao so_const_ex
      { so_ex_boot ESCAL_CIRCULAR with mem := mem_ex_falha, es := es_ex } 3).1 = 0 ∧
    (∀ (K : so_const_t) (s : so_t) (b : Bool),
      (so_despacha K { s with erro_interno := b }).1 = (so_despacha K s).1) := by
  refine ⟨?_, by decide, by decide, by decide, by decide, by decide, by decide, by decide,
    by decide, ?_⟩
  · exact .trap _ _ _ _ (.cria _ _ _ _ _)
  · intro K s b
    unfold so_despacha
    dsimp only
    split
    · rfl
    · have e : so_proc { s with erro_interno := b } s.processo_em_execucao_idx =
          so_proc s s.processo_em_execucao_idx := rfl
      rw [e]
      split <;> rfl

/-! ## T2/so.c: SPAWN -/

set_option maxRecDepth 100000 in
/-- C24 as stated fails: round-robin, `init` issues SPAWN with X = 300, where the memory
holds 999, a word outside 0..255: the name cannot be read.  After the trap `init` is still
`EXECUTANDO`, with A = -1, and the trap returns 0 (resume). -/
theorem so_cria_nome_ilegivel_contraexemplo :
    so_alcancavel so_const_ex so_ex_cria_nome_ruim ∧
    (so_proc (so_ex_boot ESCAL_CIRCULAR) 0).estado = EXECUTANDO ∧
    (copia_str_da_mem 100 (mem_ex_nome_ruim 7 300) 300).1 = false ∧
    (so_proc so_ex_cria_nome_ruim 0).estado = EXECUTANDO ∧
    (so_proc so_ex_cria_nome_ruim 0).estado_cpu.regA = -1 ∧
    so_ex_cria_nome_ruim.processo_em_execucao_idx = 0 ∧
    (so_trata_interrupcao so_const_ex
      { so_ex_boot ESCAL_CIRCULAR with mem := mem_ex_nome_ruim 7 300, es := es_ex } 2).1
      = 0 := by
  refine ⟨?_, by decide, by decide, by decide, by decide, by decide, by decide⟩
  exact .trap _ _ _ _ (.trap _ _ _ _ (.cria _ _ _ _ _))

/-- C24 (amended): when the current process (slot `c`) issues SPAWN and the name of the
program cannot be read from the memory (`copia_str_da_mem` fails), `so_chamada_cria_proc`
only stores -1 in the A of the caller: the caller keeps its state (it stays `EXECUTANDO`),
no other PCB changes, and no pid is taken. -/
theorem so_cria_proc_nome_ilegivel (K : so_const_t) (s : so_t) (c : Nat)
    (hidx : s.processo_em_execucao_idx = (c : Int)) (hc : c < s.tabela_processos.length)
    (hnome : (copia_str_da_mem 100 s.mem (so_proc s (c : Int)).estado_cpu.regX).1 = false) :
    so_chamada_cria_proc K s = so_retorna s (c : Int) (-1) ∧
    (so_proc (so_chamada_cria_proc K s) (c : Int)).estado_cpu.regA = -1 ∧
    (so_proc (so_chamada_cria_proc K s) (c : Int)).estado = (so_proc s (c : Int)).estado ∧
    (so_chamada_cria_proc K s).tabela_processos =
      s.tabela_processos.set c
        { so_proc s (c : Int) with
            estado_cpu := { (so_proc s (c : Int)).estado_cpu with regA := -1 } } ∧
    (∀ j : Nat, j ≠ c → so_proc (so_chamada_cria_proc K s) (j : Int) = so_proc s (j : Int)) ∧
    (so_chamada_cria_proc K s).proximo_pid = s.proximo_pid := by
  have heq : so_chamada_cria_proc K s = so_retorna s (c : Int) (-1) := by
    unfold so_chamada_cria_proc
    dsimp only
    rw [if_neg (by omega), hidx]
    split
    · rfl
    · rw [if_pos hnome]
  refine ⟨heq, ?_, ?_, ?_, fun j hj => ?_, ?_⟩
  · rw [heq, so_proc_retorna, if_pos ⟨by omega, by omega, hc⟩]
  · rw [heq, so_proc_retorna, if_pos ⟨by omega, by omega, hc⟩]
  · rw [heq, so_retorna_tab]
  · rw [heq, so_proc_retorna, if_neg (by omega)]
  · rw [heq]
    exact (so_controle_retorna s _ _).2.1

set_option maxRecDepth 100000 in
theorem so_cria_proc_nome_ilegivel_witness :
    (so_proc (so_chamada_cria_proc so_const_ex
      (so_salva_estado_da_cpu so_const_ex
        { so_ex_boot ESCAL_CIRCULAR with mem := mem_ex_nome_ruim 7 300, es := es_ex }))
      ((0 : Nat) : Int)).estado_cpu.regA = -1 ∧
    (so_proc (so_chamada_cria_proc so_const_ex
      (so_salva_estado_da_cpu so_const_ex
        { so_ex_boot ESCAL_CIRCULAR with mem := mem_ex_nome_ruim 7 300, es := es_ex }))
      ((0 : Nat) : Int)).estado =
      (so_proc (so_salva_estado_da_cpu so_const_ex
        { so_ex_boot ESCAL_CIRCULAR with mem := mem_ex_nome_ruim 7 300, es := es_ex })
        ((0 : Nat) : Int)).estado :=
  ⟨(so_cria_proc_nome_ilegivel so_const_ex _ 0 (by decide) (by decide) (by decide)).2.1,
    (so_cria_proc_nome_ilegivel so_const_ex _ 0 (by decide) (by decide) (by decide)).2.2.1⟩

/-! ## T2/so.c: the priority of a process that blocks at once -/

/-- With the whole quantum left, `so_calcula_prioridade` halves the priority. -/
theorem so_calcula_metade (s : so_t) (c : Nat) (hc : c < s.tabela_processos.length)
    (hq : s.quantum_restante = s.quantum_total) :
    (so_proc (so_calcula_prioridade s (c : Int)) (c : Int)).prioridade =
      (so_proc s (c : Int)).prioridade / 2 := by
  rw [so_proc_calcula, if_pos ⟨by omega, by omega, hc⟩]
  show ((so_proc s (c : Int)).prioridade +
      (((if s.quantum_total - s.quantum_restante < 0 then 0
        else s.quantum_total - s.quantum_restante : Int) : ℚ) /
        (s.quantum_total : ℚ))) / 2 = _
  have h0 : (if s.quantum_total - s.quantum_restante < 0 then 0
      else s.quantum_total - s.quantum_restante : Int) = 0 := by
    split <;> omega
  rw [h0]
  simp

/-- C29: whenever `so_calcula_prioridade` is applied to a process (slot `c`) with
`quantum_restante = quantum_total`, the priority is exactly halved.  So for a process
created with priority 0.5 that is updated three times in such states, its priority being
untouched in between, the three updates give 0.25, 0.125 and 0.0625, which is below 0.1. -/
theorem so_prioridade_tres_rodadas (s1 s2 s3 : so_t) (c : Nat)
    (hc1 : c < s1.tabela_processos.length) (hc2 : c < s2.tabela_processos.length)
    (hc3 : c < s3.tabela_processos.length)
    (hq1 : s1.quantum_restante = s1.quantum_total)
    (hq2 : s2.quantum_restante = s2.quantum_total)
    (hq3 : s3.quantum_restante = s3.quantum_total)
    (h1 : (so_proc s1 (c : Int)).prioridade = 1 / 2)
    (h2 : (so_proc s2 (c : Int)).prioridade =
      (so_proc (so_calcula_prioridade s1 (c : Int)) (c : Int)).prioridade)
    (h3 : (so_proc s3 (c : Int)).prioridade =
      (so_proc (so_calcula_prioridade s2 (c : Int)) (c : Int)).prioridade) :
    (so_proc (so_calcula_prioridade s1 (c : Int)) (c : Int)).prioridade = 1 / 4 ∧
    (so_proc (so_calcula_prioridade s2 (c : Int)) (c : Int)).prioridade = 1 / 8 ∧
    (so_proc (so_calcula_prioridade s3 (c : Int)) (c : Int)).prioridade = 1 / 16 ∧
    (so_proc (so_calcula_prioridade s3 (c : Int)) (c : Int)).prioridade < 1 / 10 ∧
    (∀ (s : so_t) (i : Nat), i < s.tabela_processos.length →
      s.quantum_restante = s.quantum_total →
      (so_proc (so_calcula_prioridade s (i : Int)) (i : Int)).prioridade =
        (so_proc s (i : Int)).prioridade / 2) := by
  have e1 := so_calcula_metade s1 c hc1 hq1
  have e2 := so_calcula_metade s2 c hc2 hq2
  have e3 := so_calcula_metade s3 c hc3 hq3
  rw [h1] at e1
  rw [h2, e1] at e2
  rw [h3, e2] at e3
  refine ⟨?_, ?_, ?_, ?_, fun s i hi hq => so_calcula_metade s i hi hq⟩
  · rw [e1]; norm_num
  · rw [e2]; norm_num
  · rw [e3]; norm_num
  · rw [e3]; norm_num

theorem so_prioridade_tres_rodadas_witness :
    (so_proc so_ex_prio_rodada1 ((0 : Nat) : Int)).estado = BLOQUEADO ∧
    (so_proc so_ex_prio_rodada2 ((0 : Nat) : Int)).estado = BLOQUEADO ∧
    (so_proc so_ex_prio_rodada3 ((0 : Nat) : Int)).estado = BLOQUEADO ∧
    (so_proc (so_escalona so_const_ex so_ex_prio_rodada3) ((0 : Nat) : Int)).prioridade
      = 1 / 16 ∧
    (so_proc (so_calcula_prioridade so_ex_prio_rodada1 ((0 : Nat) : Int))
      ((0 : Nat) : Int)).prioridade = 1 / 4 ∧
    (so_proc (so_calcula_prioridade so_ex_prio_rodada2 ((0 : Nat) : Int))
      ((0 : Nat) : Int)).prioridade = 1 / 8 ∧
    (so_proc (so_calcula_prioridade so_ex_prio_rodada3 ((0 : Nat) : Int))
      ((0 : Nat) : Int)).prioridade = 1 / 16 ∧
    (so_proc (so_calcula_prioridade so_ex_prio_rodada3 ((0 : Nat) : Int))
      ((0 : Nat) : Int)).prioridade < 1 / 10 :=
  ⟨by decide!, by decide!, by decide!, by decide!,
    (so_prioridade_tres_rodadas so_ex_prio_rodada1 so_ex_prio_rodada2 so_ex_prio_rodada3 0
      (by decide!) (by decide!) (by decide!) (by decide!) (by decide!) (by decide!)
      (by decide!) (by decide!) (by decide!)).1,
    (so_prioridade_tres_rodadas so_ex_prio_rodada1 so_ex_prio_rodada2 so_ex_prio_rodada3 0
      (by decide!) (by decide!) (by decide!) (by decide!) (by decide!) (by decide!)
      (by decide!) (by decide!) (by decide!)).2.1,
    (so_prioridade_tres_rodadas so_ex_prio_rodada1 so_ex_prio_rodada2 so_ex_prio_rodada3 0
      (by decide!) (by decide!) (by decide!) (by decide!) (by decide!) (by decide!)
      (by decide!) (by decide!) (by decide!)).2.2.1,
    (so_prioridade_tres_rodadas so_ex_prio_rodada1 so_ex_prio_rodada2 so_ex_prio_rodada3 0
      (by decide!) (by decide!) (by decide!) (by decide!) (by decide!) (by decide!)
      (by decide!) (by decide!) (by decide!)).2.2.2.1⟩

/-! ## T2/so.c: the effect of SPAWN -/

theorem so_muda_proc_metricas (s : so_t) (i : Int) (f : processo_t → processo_t) :
    (so_muda_proc s i f).metricas = s.metricas := by
  unfold so_muda_proc
  split <;> rfl

theorem so_carrega_resto (K : so_const_t) (s : so_t) (nome : List Int) :
    so_mesmo_controle s (so_carrega_programa K s nome).2 ∧
    (so_carrega_programa K s nome).2.tabela_processos = s.tabela_processos ∧
    (so_carrega_programa K s nome).2.metricas = s.metricas ∧
    (so_carrega_programa K s nome).2.es = s.es := by
  unfold so_carrega_programa
  split
  · exact ⟨so_mesmo_controle_refl s, rfl, rfl, rfl⟩
  · dsimp only
    split <;> exact ⟨so_mesmo_controle_refl s, rfl, rfl, rfl⟩

theorem so_inicializa_metricas (K : so_const_t) (s : so_t) (i pid e : Int) :
    (so_inicializa_metricas_processo K s i pid e).metricas.num_processos_criados =
      s.metricas.num_processos_criados + 1 := by
  unfold so_inicializa_metricas_processo
  dsimp only
  rw [so_muda_proc_metricas]
  rfl

set_option maxRecDepth 1000000 in
/-- C30 as stated fails: round-robin, the ready queue is full (the index 1 four times) and
`init` issues SPAWN.  The SPAWN succeeds (pid 6, slot 2, `PRONTO`, A of `init` = 6), but
`fila_prontos_insere` finds the queue full: the index 2 is not appended, neither in the
handler nor in the rest of the trap.  And when no slot is `LIVRE` the table does change, in
the A of the caller, which held 7 and receives -1. -/
theorem so_cria_proc_fila_cheia_contraexemplo :
    so_alcancavel so_const_ex so_ex_fila_cheia_inicio ∧
    so_ex_fila_cheia_inicio.escalonador_atual = ESCAL_CIRCULAR ∧
    so_fila so_const_ex so_ex_fila_cheia_inicio = [1, 1, 1, 1] ∧
    (so_proc so_ex_fila_cheia_inicio 2).estado = LIVRE ∧
    (so_proc (so_chamada_cria_proc so_const_ex (so_ex_entrada so_ex_fila_cheia_inicio 7 300))
      2).estado = PRONTO ∧
    (so_proc (so_chamada_cria_proc so_const_ex (so_ex_entrada so_ex_fila_cheia_inicio 7 300))
      2).pid = 6 ∧
    (so_proc (so_chamada_cria_proc so_const_ex (so_ex_entrada so_ex_fila_cheia_inicio 7 300))
      0).estado_cpu.regA = 6 ∧
    so_fila so_const_ex
      (so_chamada_cria_proc so_const_ex (so_ex_entrada so_ex_fila_cheia_inicio 7 300))
      = [1, 1, 1, 1] ∧
    (so_proc (so_trap_ex so_ex_fila_cheia_inicio 2 7 300) 2).estado = PRONTO ∧
    so_fila so_const_ex (so_trap_ex so_ex_fila_cheia_inicio 2 7 300) = [1, 1, 1, 1] ∧
    (∀ i : Nat, i < 4 → (so_proc (so_ex_entrada so_ex_tabela_cheia 7 300) (i : Int)).estado
      ≠ LIVRE) ∧
    (so_proc (so_ex_entrada so_ex_tabela_cheia 7 300) 0).estado_cpu.regA = 7 ∧
    (so_proc (so_chamada_cria_proc so_const_ex (so_ex_entrada so_ex_tabela_cheia 7 300))
      0).estado_cpu.regA = -1 := by
  refine ⟨?_, by decide, by decide, by decide, by decide, by decide, by decide, by decide,
    by decide, by decide, by decide, by decide, by decide⟩
  exact .trap _ _ _ _ (.trap _ _ _ _ (.trap _ _ _ _ (.trap _ _ _ _
    (.trap _ _ _ _ (.trap _ _ _ _ (.trap _ _ _ _ (.trap _ _ _ _
    (.trap _ _ _ _ (.trap _ _ _ _ (.trap _ _ _ _ (.cria _ _ _ _ _)))))))))))

/-- C30 (amended): the current process (slot `c`) issues SPAWN.  If no slot of the table is
`LIVRE`, only -1 is stored in the A of the caller: the rest of the table, `proximo_pid`,
`num_processos_criados` and the ready queue are unchanged.  If slot `n` is the first
`LIVRE` slot, the name can be read and the program is loaded at an address not below 0,
then afterwards slot `n` holds the child: `PRONTO`, priority 1/2, PC the load address,
no block reason, pid the old `proximo_pid`, which is also the A of the caller;
`proximo_pid` and `num_processos_criados` have grown by one; and in round-robin mode, when
the ready queue is a well-formed ring that is not full, `n` has been appended at its
tail. -/
theorem so_cria_proc_efeito (K : so_const_t) (s : so_t) (c : Nat)
    (hidx : s.processo_em_execucao_idx = (c : Int)) (hc : c < s.tabela_processos.length)
    (hlen : s.tabela_processos.length = K.MAX_PROCESSOS) :
    ((∀ i : Nat, i < K.MAX_PROCESSOS → (so_proc s (i : Int)).estado ≠ LIVRE) →
      (so_proc (so_chamada_cria_proc K s) (c : Int)).estado_cpu.regA = -1 ∧
      (so_chamada_cria_proc K s).tabela_processos =
        s.tabela_processos.set c
          { so_proc s (c : Int) with
              estado_cpu := { (so_proc s (c : Int)).estado_cpu with regA := -1 } } ∧
      (so_chamada_cria_proc K s).proximo_pid = s.proximo_pid ∧
      (so_chamada_cria_proc K s).metricas.num_processos_criados =
        s.metricas.num_processos_criados ∧
      (so_chamada_cria_proc K s).fila_prontos = s.fila_prontos ∧
      (so_chamada_cria_proc K s).fila_prontos_inicio = s.fila_prontos_inicio ∧
      (so_chamada_cria_proc K s).fila_prontos_fim = s.fila_prontos_fim ∧
      (so_chamada_cria_proc K s).fila_prontos_tamanho = s.fila_prontos_tamanho) ∧
    (∀ n : Nat, n < K.MAX_PROCESSOS → (so_proc s (n : Int)).estado = LIVRE →
      (∀ i : Nat, i < n → (so_proc s (i : Int)).estado ≠ LIVRE) →
      (copia_str_da_mem 100 s.mem (so_proc s (c : Int)).estado_cpu.regX).1 = true →
      0 ≤ (so_carrega_programa K s
        (copia_str_da_mem 100 s.mem (so_proc s (c : Int)).estado_cpu.regX).2.dropLast).1 →
      (so_proc (so_chamada_cria_proc K s) (n : Int)).estado = PRONTO ∧
      (so_proc (so_chamada_cria_proc K s) (n : Int)).prioridade = 1 / 2 ∧
      (so_proc (so_chamada_cria_proc K s) (n : Int)).estado_cpu.regPC =
        (so_carrega_programa K s
          (copia_str_da_mem 100 s.mem (so_proc s (c : Int)).estado_cpu.regX).2.dropLast).1 ∧
      (so_proc (so_chamada_cria_proc K s) (n : Int)).motivo_bloqueio = BLOQUEIO_NENHUM ∧
      (so_proc (so_chamada_cria_proc K s) (n : Int)).pid = s.proximo_pid ∧
      (so_proc (so_chamada_cria_proc K s) (c : Int)).estado_cpu.regA = s.proximo_pid ∧
      (so_chamada_cria_proc K s).proximo_pid = s.proximo_pid + 1 ∧
      (so_chamada_cria_proc K s).metricas.num_processos_criados =
        s.metricas.num_processos_criados + 1 ∧
      (s.escalonador_atual = ESCAL_CIRCULAR → so_fila_ok K s →
        s.fila_prontos_tamanho < K.MAX_PROCESSOS →
        so_fila K (so_chamada_cria_proc K s) = so_fila K s ++ [(n : Int)])) := by
  constructor
  · intro hcheio
    have hfind : (List.range K.MAX_PROCESSOS).find? (fun (i : Nat) =>
        (so_proc s (i : Int)).estado = LIVRE) = none := by
      rw [List.find?_eq_none]
      intro i hi
      simp only [decide_eq_true_eq]
      exact hcheio i (List.mem_range.mp hi)
    have heq : so_chamada_cria_proc K s = so_retorna s (c : Int) (-1) := by
      unfold so_chamada_cria_proc
      dsimp only
      rw [if_neg (by omega), hidx, hfind]
    have hr := so_retorna_resto s (c : Int) (-1)
    have hctl := so_controle_retorna s (c : Int) (-1)
    rw [heq]
    refine ⟨?_, so_retorna_tab s c (-1), hctl.2.1, ?_, hr.1, hr.2.1, hr.2.2.1, hr.2.2.2.1⟩
    · rw [so_proc_retorna, if_pos ⟨by omega, by omega, hc⟩]
    · unfold so_retorna
      rw [so_muda_proc_metricas]
  · intro n hn hlivre hprim hnome hcarga
    have hfind : (List.range K.MAX_PROCESSOS).find? (fun (i : Nat) =>
        (so_proc s (i : Int)).estado = LIVRE) = some n := by
      apply range_find_primeiro _ _ _ hn
      · simp only [decide_eq_true_eq]
        exact hlivre
      · intro i hi
        simp only [decide_eq_false_iff_not]
        exact hprim i hi
    generalize hnm : (copia_str_da_mem 100 s.mem
      (so_proc s (c : Int)).estado_cpu.regX).2.dropLast = nome at hcarga ⊢
    obtain ⟨hcc, hct, hcm, _⟩ := so_carrega_resto K s nome
    generalize hc2 : (so_carrega_programa K s nome).2 = c2 at hcc hct hcm
    generalize hen : (so_carrega_programa K s nome).1 = ender at hcarga ⊢
    have heq : so_chamada_cria_proc K s =
        so_retorna (so_insere_em_pronto K (so_muda_proc
          (so_inicializa_metricas_processo K (so_novo_pid c2).2 (n : Int)
            (so_novo_pid c2).1 ender) (n : Int)
          (fun proc => { proc with terminal := K.D_TERM_A + ((n : Int) % 4) * 4 })) (n : Int))
          (c : Int)
          (so_proc (so_insere_em_pronto K (so_muda_proc
            (so_inicializa_metricas_processo K (so_novo_pid c2).2 (n : Int)
              (so_novo_pid c2).1 ender) (n : Int)
            (fun proc => { proc with terminal := K.D_TERM_A + ((n : Int) % 4) * 4 }))
            (n : Int)) (n : Int)).pid := by
      unfold so_chamada_cria_proc
      dsimp only
      rw [if_neg (by omega), hidx, hfind]
      dsimp only
      rw [if_neg (by rw [hnome]; decide), hnm, hen, hc2, if_neg (by omega)]
    have hnl : n < c2.tabela_processos.length := by rw [hct, hlen]; exact hn
    have hcl : c < c2.tabela_processos.length := by rw [hct]; exact hc
    have hpp : c2.proximo_pid = s.proximo_pid := hcc.2.1
    generalize hY : so_muda_proc
        (so_inicializa_metricas_processo K (so_novo_pid c2).2 (n : Int)
          (so_novo_pid c2).1 ender) (n : Int)
        (fun proc => { proc with terminal := K.D_TERM_A + ((n : Int) % 4) * 4 }) = Y at heq
    have hXn : so_proc (so_insere_em_pronto K Y (n : Int)) (n : Int) =
        { processo_inicial (so_proc c2 (n : Int)) c2.proximo_pid (so_get_tempo K c2).1 ender
          with terminal := K.D_TERM_A + ((n : Int) % 4) * 4 } := by
      rw [← hY, so_proc_cria, if_pos ⟨by omega, by omega, hnl⟩]
    have hXlen : (so_insere_em_pronto K Y (n : Int)).tabela_processos.length =
        c2.tabela_processos.length := by
      rw [so_insere_tab, ← hY, so_muda_proc_length, so_inicializa_length]
      rfl
    have hYc : so_mesmo_controle (so_novo_pid c2).2 Y := by
      rw [← hY]
      exact so_mesmo_controle_trans (so_controle_inicializa K _ _ _ _) (so_controle_muda _ _ _)
    have hYmet : Y.metricas.num_processos_criados = s.metricas.num_processos_criados + 1 := by
      rw [← hY, so_muda_proc_metricas, so_inicializa_metricas]
      show c2.metricas.num_processos_criados + 1 = _
      rw [hcm]
    rw [heq]
    have hpid : (so_proc (so_insere_em_pronto K Y (n : Int)) (n : Int)).pid = s.proximo_pid := by
      rw [hXn]
      exact hpp
    rw [hpid]
    have hsel : ∀ j : Nat, so_proc (so_retorna (so_insere_em_pronto K Y (n : Int)) (c : Int)
        s.proximo_pid) (j : Int) =
        if 0 ≤ (c : Int) ∧ (c : Int).toNat = j ∧
            j < (so_insere_em_pronto K Y (n : Int)).tabela_processos.length then
          { so_proc (so_insere_em_pronto K Y (n : Int)) (j : Int) with
              estado_cpu := { (so_proc (so_insere_em_pronto K Y (n : Int)) (j : Int)).estado_cpu
                with regA := s.proximo_pid } }
        else so_proc (so_insere_em_pronto K Y (n : Int)) (j : Int) :=
      fun j => so_proc_retorna _ _ _ j
    have hctlr := so_controle_retorna (so_insere_em_pronto K Y (n : Int)) (c : Int)
      s.proximo_pid
    refine ⟨?_, ?_, ?_, ?_, ?_, ?_, ?_, ?_, ?_⟩
    · rw [hsel n]
      split <;> (rw [hXn]; rfl)
    · rw [hsel n]
      split <;> (rw [hXn]; rfl)
    · rw [hsel n]
      split <;> (rw [hXn]; rfl)
    · rw [hsel n]
      split <;> (rw [hXn]; rfl)
    · rw [hsel n]
      split <;> (rw [hXn]; exact hpp)
    · rw [hsel c, if_pos ⟨by omega, by omega, by rw [hXlen]; exact hcl⟩]
    · rw [hctlr.2.1, so_controle_insere_pid, hYc.2.1]
      show c2.proximo_pid + 1 = _
      rw [hpp]
    · unfold so_retorna
      rw [so_muda_proc_metricas, so_insere_metricas, hYmet]
    · intro hmodo hok hnf
      have hYf : Y.fila_prontos = s.fila_prontos ∧
          Y.fila_prontos_inicio = s.fila_prontos_inicio ∧
          Y.fila_prontos_fim = s.fila_prontos_fim ∧
          Y.fila_prontos_tamanho = s.fila_prontos_tamanho ∧
          Y.escalonador_atual = s.escalonador_atual := by
        obtain ⟨_, _, a3, a4, a5, a6, _, _, _, a10⟩ := hYc
        obtain ⟨_, _, b3, b4, b5, b6, _, _, _, b10⟩ := hcc
        exact ⟨a3.trans b3, a4.trans b4, a5.trans b5, a6.trans b6, a10.trans b10⟩
      have hYok : so_fila_ok K Y := so_fila_ok_de_eq K hYf.1 hYf.2.1 hYf.2.2.1 hYf.2.2.2.1 hok
      have hie : so_insere_em_pronto K Y (n : Int) = fila_prontos_insere K Y (n : Int) := by
        unfold so_insere_em_pronto
        rw [if_pos (by rw [hYf.2.2.2.2]; exact hmodo)]
      have hins := fila_prontos_insere_fila K Y (n : Int) hYok
        (by rw [hYf.2.2.2.1]; exact hnf)
      rw [so_fila_controle K hctlr, hie, hins.1,
        so_fila_de_eq K hYf.1 hYf.2.1 hYf.2.2.2.1]

set_option maxRecDepth 1000000 in
theorem so_cria_proc_efeito_witness :
    (so_proc (so_ex_entrada (so_ex_boot ESCAL_CIRCULAR) 7 300) ((1 : Nat) : Int)).estado
      = LIVRE ∧
    (so_ex_entrada (so_ex_boot ESCAL_CIRCULAR) 7 300).proximo_pid = 2 ∧
    ((so_proc (so_chamada_cria_proc so_const_ex
        (so_ex_entrada (so_ex_boot ESCAL_CIRCULAR) 7 300)) ((1 : Nat) : Int)).estado = PRONTO ∧
      (so_proc (so_chamada_cria_proc so_const_ex
        (so_ex_entrada (so_ex_boot ESCAL_CIRCULAR) 7 300)) ((1 : Nat) : Int)).prioridade
        = 1 / 2 ∧
      (so_proc (so_chamada_cria_proc so_const_ex
        (so_ex_entrada (so_ex_boot ESCAL_CIRCULAR) 7 300)) ((1 : Nat) : Int)).estado_cpu.regPC =
        (so_carrega_programa so_const_ex (so_ex_entrada (so_ex_boot ESCAL_CIRCULAR) 7 300)
          (copia_str_da_mem 100 (so_ex_entrada (so_ex_boot ESCAL_CIRCULAR) 7 300).mem
            (so_proc (so_ex_entrada (so_ex_boot ESCAL_CIRCULAR) 7 300)
              ((0 : Nat) : Int)).estado_cpu.regX).2.dropLast).1 ∧
      (so_proc (so_chamada_cria_proc so_const_ex
        (so_ex_entrada (so_ex_boot ESCAL_CIRCULAR) 7 300)) ((1 : Nat) : Int)).motivo_bloqueio
        = BLOQUEIO_NENHUM ∧
      (so_proc (so_chamada_cria_proc so_const_ex
        (so_ex_entrada (so_ex_boot ESCAL_CIRCULAR) 7 300)) ((1 : Nat) : Int)).pid =
        (so_ex_entrada (so_ex_boot ESCAL_CIRCULAR) 7 300).proximo_pid ∧
      (so_proc (so_chamada_cria_proc so_const_ex
        (so_ex_entrada (so_ex_boot ESCAL_CIRCULAR) 7 300)) ((0 : Nat) : Int)).estado_cpu.regA =
        (so_ex_entrada (so_ex_boot ESCAL_CIRCULAR) 7 300).proximo_pid) :=
  ⟨by decide, by decide,
    ((so_cria_proc_efeito so_const_ex (so_ex_entrada (so_ex_boot ESCAL_CIRCULAR) 7 300) 0
      (by decide) (by decide) (by decide)).2 1 (by decide) (by decide) (by decide)
      (by decide) (by decide)).1,
    ((so_cria_proc_efeito so_const_ex (so_ex_entrada (so_ex_boot ESCAL_CIRCULAR) 7 300) 0
      (by decide) (by decide) (by decide)).2 1 (by decide) (by decide) (by decide)
      (by decide) (by decide)).2.1,
    ((so_cria_proc_efeito so_const_ex (so_ex_entrada (so_ex_boot ESCAL_CIRCULAR) 7 300) 0
      (by decide) (by decide) (by decide)).2 1 (by decide) (by decide) (by decide)
      (by decide) (by decide)).2.2.1,
    ((so_cria_proc_efeito so_const_ex (so_ex_entrada (so_ex_boot ESCAL_CIRCULAR) 7 300) 0
      (by decide) (by decide) (by decide)).2 1 (by decide) (by decide) (by decide)
      (by decide) (by decide)).2.2.2.1,
    ((so_cria_proc_efeito so_const_ex (so_ex_entrada (so_ex_boot ESCAL_CIRCULAR) 7 300) 0
      (by decide) (by decide) (by decide)).2 1 (by decide) (by decide) (by decide)
      (by decide) (by decide)).2.2.2.2.1,
    ((so_cria_proc_efeito so_const_ex (so_ex_entrada (so_ex_boot ESCAL_CIRCULAR) 7 300) 0
      (by decide) (by decide) (by decide)).2 1 (by decide) (by decide) (by decide)
      (by decide) (by decide)).2.2.2.2.2.1⟩

/-! ## T2/so.c: a blocked process has a block reason -/

theorem so_bloq_refl (s : so_t) : so_bloqueio_mantido s s :=
  fun _ h => Or.inr ⟨h, rfl⟩

theorem so_bloq_trans {s t u : so_t} (h1 : so_bloqueio_mantido s t)
    (h2 : so_bloqueio_mantido t u) : so_bloqueio_mantido s u := by
  intro j hj
  rcases h2 j hj with h | ⟨ht, hm⟩
  · exact Or.inl h
  · rcases h1 j ht with h | ⟨hs, hm'⟩
    · exact Or.inl (by rw [hm]; exact h)
    · exact Or.inr ⟨hs, hm.trans hm'⟩

theorem so_bloq_de_tab {s s' : so_t} (h : s'.tabela_processos = s.tabela_processos) :
    so_bloqueio_mantido s s' := by
  intro j hj
  rw [so_proc_de_tab h] at hj ⊢
  exact Or.inr ⟨hj, rfl⟩

theorem so_bloq_muda (s : so_t) (i : Int) (f : processo_t → processo_t)
    (hf : ∀ p, (f p).estado = p.estado ∧ (f p).motivo_bloqueio = p.motivo_bloqueio) :
    so_bloqueio_mantido s (so_muda_proc s i f) := by
  intro j hj
  rw [so_proc_muda] at hj ⊢
  by_cases hit : 0 ≤ i ∧ i.toNat = j ∧ j < s.tabela_processos.length
  · rw [if_pos hit] at hj ⊢
    exact Or.inr ⟨by rw [← (hf _).1]; exact hj, (hf _).2⟩
  · rw [if_neg hit] at hj ⊢
    exact Or.inr ⟨hj, rfl⟩

theorem so_bloq_atualiza (K : so_const_t) (s : so_t) (i : Int) (novo : estado_processo_t)
    (hn : novo ≠ BLOQUEADO) : so_bloqueio_mantido s (so_atualiza_estado K s i novo) := by
  intro j hj
  rw [so_proc_atualiza] at hj ⊢
  by_cases hit : 0 ≤ i ∧ i.toNat = j ∧ j < s.tabela_processos.length
  · rw [if_pos hit] at hj
    rw [processo_muda_estado_estado] at hj
    exact absurd hj hn
  · rw [if_neg hit] at hj ⊢
    exact Or.inr ⟨hj, rfl⟩

theorem so_bloq_passo (K : so_const_t) {s t : so_t} (h : so_passo K s t) :
    so_bloqueio_mantido s t := by
  cases h with
  | inerte _ _ htab _ _ _ _ => exact so_bloq_de_tab htab
  | conta irq =>
    intro j hj
    rw [so_proc_conta] at hj ⊢
    exact Or.inr ⟨hj, rfl⟩
  | relatorio =>
    intro j hj
    rw [so_proc_relatorio] at hj ⊢
    exact Or.inr ⟨hj, rfl⟩
  | regs i f hf =>
    exact so_bloq_muda s i f (fun p =>
      ⟨by have e := congrArg processo_t.estado (hf p); exact e,
        by have e := congrArg processo_t.motivo_bloqueio (hf p); exact e⟩)
  | libera i => exact so_bloq_atualiza K s i _ (by intro h; cases h)
  | termina i _ => exact so_bloq_atualiza K s i _ (by intro h; cases h)
  | bloqueia i f m _ _ hm hf =>
    intro j hj
    rw [so_proc_muda, so_atualiza_length] at hj ⊢
    by_cases hit : 0 ≤ i ∧ i.toNat = j ∧ j < s.tabela_processos.length
    · rw [if_pos hit]
      refine Or.inl ?_
      have e := congrArg processo_t.motivo_bloqueio
        (hf (so_proc (so_atualiza_estado K s i BLOQUEADO) (j : Int)))
      rw [e]
      exact hm
    · rw [if_neg hit] at hj ⊢
      rw [so_proc_atualiza, if_neg hit] at hj ⊢
      exact Or.inr ⟨hj, rfl⟩
  | pronto i _ => exact so_bloq_atualiza K s i _ (by intro h; cases h)
  | desbloqueia i f hp hf =>
    intro j hj
    rw [so_proc_muda] at hj ⊢
    by_cases hit : 0 ≤ i ∧ i.toNat = j ∧ j < s.tabela_processos.length
    · rw [if_pos hit] at hj
      have e := congrArg processo_t.estado (hf (so_proc s (j : Int)))
      have hij : i = (j : Int) := by omega
      rw [hij] at hp
      rw [e, hp] at hj
      cases hj
    · rw [if_neg hit] at hj ⊢
      exact Or.inr ⟨hj, rfl⟩
  | insere i _ =>
    intro j hj
    rw [so_proc_insere] at hj ⊢
    exact Or.inr ⟨hj, rfl⟩
  | cria i e t =>
    intro j hj
    rw [so_proc_cria] at hj ⊢
    by_cases hit : 0 ≤ i ∧ i.toNat = j ∧ j < s.tabela_processos.length
    · rw [if_pos hit] at hj
      cases hj
    · rw [if_neg hit] at hj ⊢
      exact Or.inr ⟨hj, rfl⟩

theorem so_bloq_passos (K : so_const_t) {s t : so_t} (h : so_passos K s t) :
    so_bloqueio_mantido s t := by
  induction h with
  | nada => exact so_bloq_refl s
  | mais t u _ hp ih => exact so_bloq_trans ih (so_bloq_passo K hp)

theorem so_bloq_registra (s : so_t) (i : Int) :
    so_bloqueio_mantido s (so_registra_preempcao s i) := by
  intro j hj
  rw [so_proc_registra] at hj ⊢
  exact so_bloq_muda s i (fun proc => { proc with num_preempcoes := proc.num_preempcoes + 1 })
    (fun _ => ⟨rfl, rfl⟩) j hj

theorem so_bloq_calcula (s : so_t) (i : Int) :
    so_bloqueio_mantido s (so_calcula_prioridade s i) := by
  intro j hj
  rw [so_proc_calcula] at hj ⊢
  by_cases hit : 0 ≤ i ∧ i.toNat = j ∧ j < s.tabela_processos.length
  · rw [if_pos hit] at hj ⊢
    exact Or.inr ⟨hj, rfl⟩
  · rw [if_neg hit] at hj ⊢
    exact Or.inr ⟨hj, rfl⟩

theorem so_bloq_insere (K : so_const_t) (s : so_t) (i : Int) :
    so_bloqueio_mantido s (so_insere_em_pronto K s i) :=
  so_bloq_de_tab (so_insere_tab K s i)

theorem so_bloq_fim_ocioso (K : so_const_t) (s : so_t) :
    so_bloqueio_mantido s (so_fim_ocioso K s) :=
  so_bloq_de_tab (so_fim_ocioso_tab K s)

theorem so_bloq_inicio_ocioso (K : so_const_t) (s : so_t) :
    so_bloqueio_mantido s (so_inicio_ocioso K s) :=
  so_bloq_de_tab (so_inicio_ocioso_tab K s)

theorem so_bloq_remove (K : so_const_t) (s : so_t) :
    so_bloqueio_mantido s (fila_prontos_remove K s).2 :=
  so_bloq_de_tab (fila_prontos_remove_tab K s)

theorem so_bloq_rr_proximo (K : so_const_t) (s : so_t) :
    so_bloqueio_mantido s (so_escalona_rr_proximo K s) := by
  unfold so_escalona_rr_proximo
  dsimp only
  split
  · exact so_bloq_trans (so_bloq_remove K s)
      (so_bloq_trans (so_bloq_fim_ocioso K _)
        (so_bloq_trans (so_bloq_atualiza K _ _ _ (by intro h; cases h)) (so_bloq_de_tab rfl)))
  · exact so_bloq_trans (so_bloq_remove K s) (so_bloq_inicio_ocioso K _)

theorem so_bloq_rr (K : so_const_t) (s : so_t) :
    so_bloqueio_mantido s (so_escalona_rr K s) := by
  unfold so_escalona_rr
  dsimp only
  split
  · refine so_bloq_trans ?_ (so_bloq_rr_proximo K _)
    exact so_bloq_trans (so_bloq_registra s _)
      (so_bloq_trans (so_bloq_atualiza K _ _ _ (by intro h; cases h))
        (so_bloq_trans (so_bloq_insere K _ _) (so_bloq_de_tab rfl)))
  · split
    · exact so_bloq_trans (so_bloq_de_tab rfl) (so_bloq_rr_proximo K _)
    · split
      · exact so_bloq_de_tab rfl
      · exact so_bloq_trans (so_bloq_de_tab rfl) (so_bloq_rr_proximo K _)

theorem so_bloq_prio_proximo (K : so_const_t) (s : so_t) :
    so_bloqueio_mantido s (so_escalona_prio_proximo K s) := by
  unfold so_escalona_prio_proximo
  dsimp only
  split
  · exact so_bloq_trans (so_bloq_fim_ocioso K _)
      (so_bloq_trans (so_bloq_atualiza K _ _ _ (by intro h; cases h)) (so_bloq_de_tab rfl))
  · exact so_bloq_inicio_ocioso K _

theorem so_bloq_prio_atual (K : so_const_t) (s : so_t) :
    so_bloqueio_mantido s (so_escalona_prio_atual K s) := by
  unfold so_escalona_prio_atual
  dsimp only
  split
  · refine so_bloq_trans ?_ (so_bloq_de_tab rfl)
    split
    · exact so_bloq_trans (so_bloq_calcula s _) (so_bloq_de_tab rfl)
    · split
      · exact so_bloq_trans (so_bloq_calcula s _)
          (so_bloq_trans (so_bloq_registra _ _)
            (so_bloq_trans (so_bloq_atualiza K _ _ _ (by intro h; cases h))
              (so_bloq_de_tab rfl)))
      · exact so_bloq_refl s
  · exact so_bloq_refl s

theorem so_bloq_escalona (K : so_const_t) (s : so_t) :
    so_bloqueio_mantido s (so_escalona K s) := by
  unfold so_escalona
  split
  · exact so_bloq_rr K s
  · unfold so_escalona_prio
    dsimp only
    split
    · exact so_bloq_trans (so_bloq_prio_atual K s) (so_bloq_prio_proximo K _)
    · exact so_bloq_prio_atual K s

theorem so_bloq_despacha (K : so_const_t) (s : so_t) :
    so_bloqueio_mantido s (so_despacha K s).2 := by
  unfold so_despacha
  dsimp only
  split
  · exact so_bloq_refl s
  · split <;> exact so_bloq_de_tab rfl

theorem so_bloq_quantum (s : so_t) : so_bloqueio_mantido s (so_relogio_quantum s) := by
  unfold so_relogio_quantum
  dsimp only
  split
  · split <;> exact so_bloq_de_tab rfl
  · exact so_bloq_refl s

/-- Over a trap, on any kernel state. -/
theorem so_bloq_trap (K : so_const_t) (s : so_t) (irq : Int) :
    so_bloqueio_mantido s (so_trata_interrupcao K s irq).2 := by
  rw [so_trap_entrada]
  obtain ⟨m, m', h1, h2, h3⟩ := so_passos_entrada K s irq
  have hm' : so_bloqueio_mantido s m' := by
    rcases h2 with rfl | rfl
    · exact so_bloq_passos K h1
    · exact so_bloq_trans (so_bloq_passos K h1) (so_bloq_quantum m)
  exact so_bloq_trans hm'
    (so_bloq_trans (so_bloq_passos K h3)
      (so_bloq_trans (so_bloq_escalona K _) (so_bloq_despacha K _)))

/-- C26: in every kernel state reachable from `so_cria` by complete traps (any IRQ, any
memory and any devices at each trap), every PCB of the table that is `BLOQUEADO` has a
block reason other than `BLOQUEIO_NENHUM`; slots that were reaped and reused by SPAWN are
PCBs of the table like the others. -/
theorem so_bloqueado_tem_motivo (K : so_const_t) (s : so_t) (h : so_alcancavel K s) :
    ∀ j : Nat, (so_proc s (j : Int)).estado = BLOQUEADO →
      (so_proc s (j : Int)).motivo_bloqueio ≠ BLOQUEIO_NENHUM := by
  induction h with
  | cria modo mem es lp lf =>
    intro j hj
    rw [so_cria_proc] at hj
    cases hj
  | trap self irq mem es _ ih =>
    intro j hj
    rcases so_bloq_trap K { self with mem := mem, es := es } irq j hj with h | ⟨hb, hm⟩
    · exact h
    · rw [hm]
      exact ih j hb

set_option maxRecDepth 1000000 in
theorem so_bloqueado_tem_motivo_witness :
    so_alcancavel so_const_ex so_ex_bloqueio_reuso ∧
    (so_proc so_ex_reuso_prio 1).estado = PRONTO ∧
    (so_proc so_ex_bloqueio_reuso ((1 : Nat) : Int)).estado = BLOQUEADO ∧
    (so_proc so_ex_bloqueio_reuso ((1 : Nat) : Int)).pid = 3 ∧
    (so_proc so_ex_bloqueio_reuso ((1 : Nat) : Int)).motivo_bloqueio ≠ BLOQUEIO_NENHUM :=
  ⟨.trap _ _ _ _ (.trap _ _ _ _ (.trap _ _ _ _ (.trap _ _ _ _ (.trap _ _ _ _
      (.trap _ _ _ _ (.trap _ _ _ _ (.cria _ _ _ _ _))))))),
    by decide!, by decide!, by decide!,
    so_bloqueado_tem_motivo so_const_ex so_ex_bloqueio_reuso
      (.trap _ _ _ _ (.trap _ _ _ _ (.trap _ _ _ _ (.trap _ _ _ _ (.trap _ _ _ _
        (.trap _ _ _ _ (.trap _ _ _ _ (.cria _ _ _ _ _)))))))) 1 (by decide!)⟩

/-! ## quadros.c: the queue and the occupied frames -/

/-- C27 as stated fails: `quadros_assign` on frame 0, which is in range and already
occupied, puts the frame in the queue a second time; after one `quadros_remove_vitima` the
frame is free and still in the queue. -/
theorem quadros_assign_ocupado_contraexemplo :
    quadros_alcancavel quadros_ex_duplo ∧
    quadros_ocupado (quadros_assign (quadros_cria 2 1 (fun _ => 0)) 0 1 0) 0 ∧
    quadros_ocupado quadros_ex_duplo 0 ∧
    quadros_fila quadros_ex_duplo = [0, 0] ∧
    (quadros_fila quadros_ex_duplo).count 0 = 2 ∧
    quadros_alcancavel (quadros_remove_vitima quadros_ex_duplo).2 ∧
    (quadros_remove_vitima quadros_ex_duplo).2.is_free.getD 0 false = true ∧
    quadros_fila (quadros_remove_vitima quadros_ex_duplo).2 = [0] := by
  refine ⟨?_, by decide, by decide, by decide, by decide, ?_, by decide, by decide⟩
  · exact .assign _ _ _ _ (.assign _ _ _ _ (.cria 2 1 _))
  · exact .remove _ (.assign _ _ _ _ (.assign _ _ _ _ (.cria 2 1 _)))

/-- C27 (amended): in every state reached from a fresh manager by `quadros_assign` calls on
in-range frames that are free at the time and `quadros_remove_vitima` calls, the FIFO queue
(the `fifo_count` cells of the ring from `fifo_head`) has no repetition, holds only frame
numbers in range, and a frame is in it exactly when it is not free: every occupied frame
occurs exactly once and no free frame occurs. -/
theorem quadros_fila_ocupados (self : quadros_t) (pend : List Int)
    (h : quadros_fifo_alc self pend) :
    (quadros_fila self).Nodup ∧
    (∀ x, x ∈ quadros_fila self → 0 ≤ x ∧ x < self.n_quadros) ∧
    (∀ f : Nat, f < self.n_quadros → self.is_free.getD f true = false →
      (quadros_fila self).count (f : Int) = 1) ∧
    (∀ f : Nat, f < self.n_quadros → self.is_free.getD f true = true →
      (f : Int) ∉ quadros_fila self) := by
  have hrep := quadros_fifo_alc_rep self pend h
  rw [quadros_rep_fila self pend hrep]
  obtain ⟨_, _, _, _, _, _, _, _, hnd, hrange, hocc⟩ := hrep
  refine ⟨hnd, hrange, fun f hf hfree => ?_, fun f hf hfree hmem => ?_⟩
  · exact List.count_eq_one_of_mem hnd ((hocc f hf).mp hfree)
  · have := (hocc f hf).mpr hmem
    rw [hfree] at this
    cases this

theorem quadros_fila_ocupados_witness :
    quadros_fila quadros_ex_volta = [1, 0] ∧
    ((quadros_fila quadros_ex_volta).Nodup ∧
    (∀ x, x ∈ quadros_fila quadros_ex_volta → 0 ≤ x ∧ x < quadros_ex_volta.n_quadros) ∧
    (∀ f : Nat, f < quadros_ex_volta.n_quadros →
      quadros_ex_volta.is_free.getD f true = false →
      (quadros_fila quadros_ex_volta).count (f : Int) = 1) ∧
    (∀ f : Nat, f < quadros_ex_volta.n_quadros →
      quadros_ex_volta.is_free.getD f true = true →
      (f : Int) ∉ quadros_fila quadros_ex_volta)) :=
  ⟨by decide,
    quadros_fila_ocupados quadros_ex_volta (([] ++ [0] ++ [1]).tail ++ [0])
      (.assign _ _ 0 3 0
        (.remove _ _ (.assign _ _ 1 2 0 (.assign _ [] 0 1 0 (.cria 2 1 (fun _ => 0))
          (by decide) (by decide) (by decide)) (by decide) (by decide) (by decide)))
        (by decide) (by decide) (by decide))⟩

/-! ## T2/so.c: the sweep of the pending operations -/

theorem so_pendencias_ate_succ (K : so_const_t) (s : so_t) (m : Nat) :
    so_pendencias_ate K s (m + 1) = so_trata_pendencia K (so_pendencias_ate K s m) m := by
  unfold so_pendencias_ate
  rw [List.range_succ, List.foldl_append]
  rfl

theorem so_pendencias_ate_passos (K : so_const_t) (s : so_t) (m : Nat) :
    so_passos K s (so_pendencias_ate K s m) := by
  induction m with
  | zero => exact .nada s
  | succ m ih =>
    rw [so_pendencias_ate_succ]
    exact so_passos_pendencia K m ih

theorem so_es_le_controle (s : so_t) (a : Int) : so_mesmo_controle s (so_es_le s a).2 :=
  ⟨rfl, rfl, rfl, rfl, rfl, rfl, rfl, rfl, rfl, rfl⟩

theorem so_es_escreve_controle (s : so_t) (a v : Int) :
    so_mesmo_controle s (so_es_escreve s a v).2 :=
  ⟨rfl, rfl, rfl, rfl, rfl, rfl, rfl, rfl, rfl, rfl⟩

/-- The PCB of slot `i` after the four statements that complete its pending operation. -/
theorem so_proc_completa (K : so_const_t) (u : so_t) (i : Nat) (v : Int)
    (hi : i < u.tabela_processos.length) :
    (so_proc (so_insere_em_pronto K (so_muda_proc
      (so_atualiza_estado K (so_retorna u (i : Int) v) (i : Int) PRONTO) (i : Int)
      (fun proc => { proc with motivo_bloqueio := BLOQUEIO_NENHUM })) (i : Int))
      (i : Int)).estado = PRONTO ∧
    (so_proc (so_insere_em_pronto K (so_muda_proc
      (so_atualiza_estado K (so_retorna u (i : Int) v) (i : Int) PRONTO) (i : Int)
      (fun proc => { proc with motivo_bloqueio := BLOQUEIO_NENHUM })) (i : Int))
      (i : Int)).motivo_bloqueio = BLOQUEIO_NENHUM ∧
    (so_proc (so_insere_em_pronto K (so_muda_proc
      (so_atualiza_estado K (so_retorna u (i : Int) v) (i : Int) PRONTO) (i : Int)
      (fun proc => { proc with motivo_bloqueio := BLOQUEIO_NENHUM })) (i : Int))
      (i : Int)).estado_cpu.regA = v := by
  have hl1 : i < (so_retorna u (i : Int) v).tabela_processos.length := by
    rw [so_retorna_tab]
    simpa using hi
  have hl2 : i < (so_atualiza_estado K (so_retorna u (i : Int) v) (i : Int)
      PRONTO).tabela_processos.length := by
    rw [so_atualiza_length]
    exact hl1
  rw [so_proc_insere, so_proc_muda_mesmo _ _ i hl2, so_proc_atualiza_mesmo K _ _ i hl1]
  refine ⟨processo_muda_estado_estado _ _ _, rfl, ?_⟩
  show (processo_muda_estado _ _ _).estado_cpu.regA = v
  rw [(processo_muda_estado_resto _ _ _).2.1, so_proc_retorna,
    if_pos ⟨by omega, by omega, hi⟩]

/-- The ready queue after the four statements that complete a pending operation. -/
theorem so_fila_completa (K : so_const_t) (u : so_t) (i v : Int)
    (hmodo : u.escalonador_atual = ESCAL_CIRCULAR) (hok : so_fila_ok K u)
    (hnf : u.fila_prontos_tamanho < K.MAX_PROCESSOS) :
    so_fila K (so_insere_em_pronto K (so_muda_proc
      (so_atualiza_estado K (so_retorna u i v) i PRONTO) i
      (fun proc => { proc with motivo_bloqueio := BLOQUEIO_NENHUM })) i) = so_fila K u ++ [i] ∧
    so_fila_ok K (so_insere_em_pronto K (so_muda_proc
      (so_atualiza_estado K (so_retorna u i v) i PRONTO) i
      (fun proc => { proc with motivo_bloqueio := BLOQUEIO_NENHUM })) i) := by
  have hc : so_mesmo_controle u (so_muda_proc
      (so_atualiza_estado K (so_retorna u i v) i PRONTO) i
      (fun proc => { proc with motivo_bloqueio := BLOQUEIO_NENHUM })) :=
    so_mesmo_controle_trans (so_controle_retorna u i v)
      (so_mesmo_controle_trans (so_controle_atualiza K _ i PRONTO) (so_controle_muda _ i _))
  generalize so_muda_proc (so_atualiza_estado K (so_retorna u i v) i PRONTO) i
      (fun proc => { proc with motivo_bloqueio := BLOQUEIO_NENHUM }) = Y at hc ⊢
  have hYok : so_fila_ok K Y := so_fila_ok_controle K hc hok
  have hie : so_insere_em_pronto K Y i = fila_prontos_insere K Y i := by
    unfold so_insere_em_pronto
    rw [if_pos (by rw [hc.2.2.2.2.2.2.2.2.2]; exact hmodo)]
  have hins := fila_prontos_insere_fila K Y i hYok (by rw [hc.2.2.2.2.2.1]; exact hnf)
  rw [hie, hins.1, so_fila_controle K hc]
  exact ⟨rfl, hins.2⟩

/-- One iteration of the sweep leaves the PCBs of the other slots as they were. -/
theorem so_pendencia_outro (K : so_const_t) (s : so_t) (i j : Nat) (h : i ≠ j) :
    so_proc (so_trata_pendencia K s i) (j : Int) = so_proc s (j : Int) := by
  have hij : (i : Int) ≠ (j : Int) := by omega
  have hcompleta : ∀ (u : so_t) (v : Int),
      so_proc (so_insere_em_pronto K (so_muda_proc
        (so_atualiza_estado K (so_retorna u (i : Int) v) (i : Int) PRONTO) (i : Int)
        (fun proc => { proc with motivo_bloqueio := BLOQUEIO_NENHUM })) (i : Int)) (j : Int) =
      so_proc u (j : Int) := by
    intro u v
    rw [so_proc_insere, so_proc_muda_outro _ _ _ j hij, so_proc_atualiza_outro K _ _ _ j hij,
      so_proc_retorna, if_neg (by omega)]
  unfold so_trata_pendencia
  dsimp only
  split
  · rfl
  · split
    · split
      · rw [so_proc_atualiza_outro K _ _ _ j hij]
        rfl
      · split
        · split
          · rw [so_proc_atualiza_outro K _ _ _ j hij]
            rfl
          · rw [hcompleta]
            rfl
        · rfl
    · split
      · split
        · rw [so_proc_atualiza_outro K _ _ _ j hij]
          rfl
        · split
          · split
            · rw [hcompleta]
              rfl
            · rw [so_proc_atualiza_outro K _ _ _ j hij]
              rfl
          · rfl
      · rfl

/-- One iteration of the sweep either leaves the control fields as they were and does not
make the PCB of its slot `PRONTO`, or completes the pending operation of a `BLOQUEADO`
PCB. -/
theorem so_pendencia_casos (K : so_const_t) (s : so_t) (i : Nat) :
    (so_mesmo_controle s (so_trata_pendencia K s i) ∧
      ((so_proc s (i : Int)).estado = BLOQUEADO →
        (so_proc (so_trata_pendencia K s i) (i : Int)).estado ≠ PRONTO)) ∨
    ((so_proc s (i : Int)).estado = BLOQUEADO ∧
      ∃ (u : so_t) (v : Int), so_mesmo_controle s u ∧
        u.tabela_processos = s.tabela_processos ∧
        so_trata_pendencia K s i = so_insere_em_pronto K (so_muda_proc
          (so_atualiza_estado K (so_retorna u (i : Int) v) (i : Int) PRONTO) (i : Int)
          (fun proc => { proc with motivo_bloqueio := BLOQUEIO_NENHUM })) (i : Int)) := by
  have hlivre : ∀ (u : so_t), u.tabela_processos = s.tabela_processos →
      (so_proc s (i : Int)).estado = BLOQUEADO →
      (so_proc (so_atualiza_estado K u (i : Int) LIVRE) (i : Int)).estado ≠ PRONTO := by
    intro u hu hb
    rw [so_proc_atualiza]
    split
    · rw [processo_muda_estado_estado]
      decide
    · rw [so_proc_de_tab hu, hb]
      decide
  have hfica : (so_proc s (i : Int)).estado = BLOQUEADO →
      (so_proc s (i : Int)).estado ≠ PRONTO := by
    intro hb
    rw [hb]
    decide
  unfold so_trata_pendencia
  dsimp only
  split
  · rename_i hnb
    exact Or.inl ⟨so_mesmo_controle_refl s, fun hb => absurd hb hnb⟩
  · rename_i hb
    have hb : (so_proc s (i : Int)).estado = BLOQUEADO := not_not.mp hb
    split
    · split
      · exact Or.inl ⟨so_mesmo_controle_trans (so_es_le_controle s _)
          (so_controle_atualiza K _ _ _), fun hb => hlivre _ rfl hb⟩
      · split
        · split
          · exact Or.inl ⟨so_mesmo_controle_trans (so_es_le_controle s _)
              (so_mesmo_controle_trans (so_es_le_controle _ _)
                (so_controle_atualiza K _ _ _)), fun hb => hlivre _ rfl hb⟩
          · exact Or.inr ⟨hb, _, _, so_mesmo_controle_trans (so_es_le_controle s _)
              (so_es_le_controle _ _), rfl, rfl⟩
        · exact Or.inl ⟨so_es_le_controle s _, hfica⟩
    · split
      · split
        · exact Or.inl ⟨so_mesmo_controle_trans (so_es_le_controle s _)
            (so_controle_atualiza K _ _ _), fun hb => hlivre _ rfl hb⟩
        · split
          · split
            · exact Or.inr ⟨hb, _, _, so_mesmo_controle_trans (so_es_le_controle s _)
                (so_es_escreve_controle _ _ _), rfl, rfl⟩
            · exact Or.inl ⟨so_mesmo_controle_trans (so_es_le_controle s _)
                (so_mesmo_controle_trans (so_es_escreve_controle _ _ _)
                  (so_controle_atualiza K _ _ _)), fun hb => hlivre _ rfl hb⟩
          · exact Or.inl ⟨so_es_le_controle s _, hfica⟩
      · exact Or.inl ⟨so_mesmo_controle_refl s, hfica⟩

/-- The ready queue over one iteration of the sweep, in round-robin mode: the slot is
appended when its PCB goes from `BLOQUEADO` to `PRONTO` and the queue is not full; the queue
is unchanged when the PCB is not woken. -/
theorem so_pendencia_fila (K : so_const_t) (s : so_t) (i : Nat)
    (hmodo : s.escalonador_atual = ESCAL_CIRCULAR) (hok : so_fila_ok K s) :
    (((so_proc s (i : Int)).estado = BLOQUEADO ∧
        (so_proc (so_trata_pendencia K s i) (i : Int)).estado = PRONTO) →
      s.fila_prontos_tamanho < K.MAX_PROCESSOS →
      so_fila K (so_trata_pendencia K s i) = so_fila K s ++ [(i : Int)] ∧
      so_fila_ok K (so_trata_pendencia K s i)) ∧
    (¬((so_proc s (i : Int)).estado = BLOQUEADO ∧
        (so_proc (so_trata_pendencia K s i) (i : Int)).estado = PRONTO) →
      so_fila K (so_trata_pendencia K s i) = so_fila K s ∧
      so_fila_ok K (so_trata_pendencia K s i)) := by
  rcases so_pendencia_casos K s i with ⟨hc, hnp⟩ | ⟨hb, u, v, hcu, htab, hforma⟩
  · refine ⟨fun h _ => absurd h.2 (hnp h.1), fun _ => ?_⟩
    exact ⟨so_fila_controle K hc, so_fila_ok_controle K hc hok⟩
  · have hi : i < u.tabela_processos.length := by
      rw [htab]
      exact so_proc_dentro s i (by rw [hb]; decide)
    have hpronto := (so_proc_completa K u i v hi).1
    rw [← hforma] at hpronto
    refine ⟨fun _ hnf => ?_, fun h => absurd ⟨hb, hpronto⟩ h⟩
    have hf := so_fila_completa K u (i : Int) v
      (by rw [hcu.2.2.2.2.2.2.2.2.2]; exact hmodo) (so_fila_ok_controle K hcu hok)
      (by rw [hcu.2.2.2.2.2.1]; exact hnf)
    rw [hforma, hf.1, so_fila_controle K hcu]
    exact ⟨rfl, hf.2⟩

/-- The iteration of a PCB blocked in READ whose keyboard is ready and gives a datum. -/
theorem so_pendencia_le (K : so_const_t) (s : so_t) (i : Nat) (e d : Int)
    (hb : (so_proc s (i : Int)).estado = BLOQUEADO)
    (hm : (so_proc s (i : Int)).motivo_bloqueio = BLOQUEIO_IO_LE)
    (hok : s.es.le s.es.k ((so_proc s (i : Int)).dispositivo_esperado + K.TERM_TECLADO_OK)
      = some e) (he : e ≠ 0)
    (hd : s.es.le (s.es.k + 1) ((so_proc s (i : Int)).dispositivo_esperado + K.TERM_TECLADO)
      = some d) :
    (so_proc (so_trata_pendencia K s i) (i : Int)).estado = PRONTO ∧
    (so_proc (so_trata_pendencia K s i) (i : Int)).motivo_bloqueio = BLOQUEIO_NENHUM ∧
    (so_proc (so_trata_pendencia K s i) (i : Int)).estado_cpu.regA = d := by
  have h1 : (so_es_le s ((so_proc s (i : Int)).dispositivo_esperado + K.TERM_TECLADO_OK)).1
      = some e := hok
  have h2 : (so_es_le (so_es_le s ((so_proc s (i : Int)).dispositivo_esperado +
      K.TERM_TECLADO_OK)).2 ((so_proc s (i : Int)).dispositivo_esperado + K.TERM_TECLADO)).1
      = some d := hd
  have hforma : so_trata_pendencia K s i = so_insere_em_pronto K (so_muda_proc
      (so_atualiza_estado K (so_retorna (so_es_le (so_es_le s
        ((so_proc s (i : Int)).dispositivo_esperado + K.TERM_TECLADO_OK)).2
        ((so_proc s (i : Int)).dispositivo_esperado + K.TERM_TECLADO)).2 (i : Int) d)
        (i : Int) PRONTO) (i : Int)
      (fun proc => { proc with motivo_bloqueio := BLOQUEIO_NENHUM })) (i : Int) := by
    unfold so_trata_pendencia
    dsimp only
    rw [if_neg (not_not.mpr hb), if_pos hm, h1]
    dsimp only
    rw [if_pos he, h2]
  rw [hforma]
  exact so_proc_completa K _ i d (so_proc_dentro s i (by rw [hb]; decide))

/-- The iteration of a PCB blocked in WRITE whose screen is ready and takes the datum. -/
theorem so_pendencia_escr (K : so_const_t) (s : so_t) (i : Nat) (e : Int)
    (hb : (so_proc s (i : Int)).estado = BLOQUEADO)
    (hm : (so_proc s (i : Int)).motivo_bloqueio = BLOQUEIO_IO_ESCR)
    (hok : s.es.le s.es.k ((so_proc s (i : Int)).dispositivo_esperado + K.TERM_TELA_OK)
      = some e) (he : e ≠ 0)
    (hw : s.es.esc (s.es.k + 1) ((so_proc s (i : Int)).dispositivo_esperado + K.TERM_TELA)
      (so_proc s (i : Int)).estado_cpu.regX = true) :
    (so_proc (so_trata_pendencia K s i) (i : Int)).estado = PRONTO ∧
    (so_proc (so_trata_pendencia K s i) (i : Int)).motivo_bloqueio = BLOQUEIO_NENHUM ∧
    (so_proc (so_trata_pendencia K s i) (i : Int)).estado_cpu.regA = 0 := by
  have h1 : (so_es_le s ((so_proc s (i : Int)).dispositivo_esperado + K.TERM_TELA_OK)).1
      = some e := hok
  have h2 : (so_es_escreve (so_es_le s ((so_proc s (i : Int)).dispositivo_esperado +
      K.TERM_TELA_OK)).2 ((so_proc s (i : Int)).dispositivo_esperado + K.TERM_TELA)
      (so_proc s (i : Int)).estado_cpu.regX).1 = true := hw
  have hne : (so_proc s (i : Int)).motivo_bloqueio ≠ BLOQUEIO_IO_LE := by
    rw [hm]
    decide
  have hforma : so_trata_pendencia K s i = so_insere_em_pronto K (so_muda_proc
      (so_atualiza_estado K (so_retorna (so_es_escreve (so_es_le s
        ((so_proc s (i : Int)).dispositivo_esperado + K.TERM_TELA_OK)).2
        ((so_proc s (i : Int)).dispositivo_esperado + K.TERM_TELA)
        (so_proc s (i : Int)).estado_cpu.regX).2 (i : Int) 0)
        (i : Int) PRONTO) (i : Int)
      (fun proc => { proc with motivo_bloqueio := BLOQUEIO_NENHUM })) (i : Int) := by
    unfold so_trata_pendencia
    dsimp only
    rw [if_neg (not_not.mpr hb), if_neg hne, if_pos hm, h1]
    dsimp only
    rw [if_pos he]
    have h3 : so_proc (so_es_le s ((so_proc s (i : Int)).dispositivo_esperado +
        K.TERM_TELA_OK)).2 (i : Int) = so_proc s (i : Int) := rfl
    rw [h3, h2]
    rfl
  rw [hforma]
  exact so_proc_completa K _ i 0 (so_proc_dentro s i (by rw [hb]; decide))

/-- The iteration of a PCB that waits for a process, or whose device is not ready. -/
theorem so_pendencia_fica (K : so_const_t) (s : so_t) (i : Nat)
    (hb : (so_proc s (i : Int)).estado = BLOQUEADO)
    (h : (so_proc s (i : Int)).motivo_bloqueio = BLOQUEIO_PID ∨
      ((so_proc s (i : Int)).motivo_bloqueio = BLOQUEIO_IO_LE ∧
        s.es.le s.es.k ((so_proc s (i : Int)).dispositivo_esperado + K.TERM_TECLADO_OK)
          = some 0) ∨
      ((so_proc s (i : Int)).motivo_bloqueio = BLOQUEIO_IO_ESCR ∧
        s.es.le s.es.k ((so_proc s (i : Int)).dispositivo_esperado + K.TERM_TELA_OK)
          = some 0)) :
    so_proc (so_trata_pendencia K s i) (i : Int) = so_proc s (i : Int) := by
  rcases h with hm | ⟨hm, hok⟩ | ⟨hm, hok⟩
  · unfold so_trata_pendencia
    dsimp only
    rw [if_neg (not_not.mpr hb), if_neg (by rw [hm]; decide), if_neg (by rw [hm]; decide)]
  · have h1 : (so_es_le s ((so_proc s (i : Int)).dispositivo_esperado + K.TERM_TECLADO_OK)).1
        = some 0 := hok
    unfold so_trata_pendencia
    dsimp only
    rw [if_neg (not_not.mpr hb), if_pos hm, h1]
    dsimp only
    rw [if_neg (not_not.mpr rfl)]
    rfl
  · have h1 : (so_es_le s ((so_proc s (i : Int)).dispositivo_esperado + K.TERM_TELA_OK)).1
        = some 0 := hok
    unfold so_trata_pendencia
    dsimp only
    rw [if_neg (not_not.mpr hb), if_neg (by rw [hm]; decide), if_pos hm, h1]
    dsimp only
    rw [if_neg (not_not.mpr rfl)]
    rfl

theorem so_pendencias_ate_antes (K : so_const_t) (s : so_t) (n m : Nat) (h : m ≤ n) :
    so_proc (so_pendencias_ate K s m) (n : Int) = so_proc s (n : Int) := by
  induction m with
  | zero => rfl
  | succ m ih =>
    rw [so_pendencias_ate_succ, so_pendencia_outro K _ m n (by omega)]
    exact ih (by omega)

theorem so_pendencias_ate_depois (K : so_const_t) (s : so_t) (n m : Nat) (h : n < m) :
    so_proc (so_pendencias_ate K s m) (n : Int) =
      so_proc (so_trata_pendencia K (so_pendencias_ate K s n) n) (n : Int) := by
  induction m with
  | zero => omega
  | succ m ih =>
    rw [so_pendencias_ate_succ]
    by_cases hnm : n = m
    · rw [hnm]
    · rw [so_pendencia_outro K _ m n (by omega)]
      exact ih (by omega)

theorem so_pendencias_final (K : so_const_t) (s : so_t) (n : Nat)
    (hn : n < K.MAX_PROCESSOS) :
    so_proc (so_trata_pendencias K s) (n : Int) =
      so_proc (so_trata_pendencia K (so_pendencias_ate K s n) n) (n : Int) :=
  so_pendencias_ate_depois K s n K.MAX_PROCESSOS hn

theorem so_pendencias_acordados_ate (K : so_const_t) (s : so_t) (m : Nat)
    (hm : m ≤ K.MAX_PROCESSOS) :
    (((List.range m).filter (fun i : Nat =>
      decide ((so_proc s (i : Int)).estado = BLOQUEADO ∧
        (so_proc (so_trata_pendencias K s) (i : Int)).estado = PRONTO))).map
      (fun i : Nat => (i : Int))).length ≤ (so_pendencias_acordados K s).length := by
  unfold so_pendencias_acordados
  exact ((((List.range_sublist).mpr hm).filter _).map _).length_le

/-- The ready queue when the sweep reaches slot `m`. -/
theorem so_pendencias_fila_ate (K : so_const_t) (s : so_t)
    (hmodo : s.escalonador_atual = ESCAL_CIRCULAR) (hok : so_fila_ok K s)
    (hcabe : s.fila_prontos_tamanho + (so_pendencias_acordados K s).length
      ≤ K.MAX_PROCESSOS) (m : Nat) (hm : m ≤ K.MAX_PROCESSOS) :
    so_fila K (so_pendencias_ate K s m) = so_fila K s ++
      ((List.range m).filter (fun i : Nat =>
        decide ((so_proc s (i : Int)).estado = BLOQUEADO ∧
          (so_proc (so_trata_pendencias K s) (i : Int)).estado = PRONTO))).map
        (fun i : Nat => (i : Int)) ∧
    so_fila_ok K (so_pendencias_ate K s m) := by
  induction m with
  | zero =>
    refine ⟨?_, hok⟩
    show so_fila K s = so_fila K s ++ []
    rw [List.append_nil]
  | succ m ih =>
    obtain ⟨hfila, hokm⟩ := ih (by omega)
    have hmodom : (so_pendencias_ate K s m).escalonador_atual = ESCAL_CIRCULAR := by
      rw [(so_quantum_passos K (so_pendencias_ate_passos K s m)).2.2.2.2]
      exact hmodo
    have hL := so_pendencia_fila K (so_pendencias_ate K s m) m hmodom hokm
    have hlim := so_pendencias_acordados_ate K s (m + 1) hm
    rw [so_pendencias_ate_antes K s m m (le_refl _), ← so_pendencias_final K s m (by omega)]
      at hL
    rw [so_pendencias_ate_succ, List.range_succ, List.filter_append, List.map_append]
    rw [List.range_succ, List.filter_append, List.map_append, List.length_append] at hlim
    by_cases hp : (so_proc s (m : Int)).estado = BLOQUEADO ∧
        (so_proc (so_trata_pendencias K s) (m : Int)).estado = PRONTO
    · have hone : (([m].filter (fun i : Nat =>
          decide ((so_proc s (i : Int)).estado = BLOQUEADO ∧
            (so_proc (so_trata_pendencias K s) (i : Int)).estado = PRONTO))).map
          (fun i : Nat => (i : Int))) = [(m : Int)] := by
        rw [List.filter_cons_of_pos (by simpa using hp)]
        rfl
      rw [hone] at hlim ⊢
      have hlen : (so_pendencias_ate K s m).fila_prontos_tamanho < K.MAX_PROCESSOS := by
        rw [← so_fila_length K, hfila, List.length_append, so_fila_length]
        simp only [List.length_singleton] at hlim
        omega
      obtain ⟨h1, h2⟩ := hL.1 hp hlen
      rw [h1, hfila, List.append_assoc]
      exact ⟨rfl, h2⟩
    · have hone : (([m].filter (fun i : Nat =>
          decide ((so_proc s (i : Int)).estado = BLOQUEADO ∧
            (so_proc (so_trata_pendencias K s) (i : Int)).estado = PRONTO))).map
          (fun i : Nat => (i : Int))) = [] := by
        rw [List.filter_cons_of_neg (by simpa using hp)]
        rfl
      rw [hone, List.append_nil]
      obtain ⟨h1, h2⟩ := hL.2 hp
      rw [h1, hfila]
      exact ⟨rfl, h2⟩

set_option maxRecDepth 1000000 in
/-- C25 as stated fails, in two ways.  (1) The ready queue is full (1, 1, 1, 2) and `init`
(slot 0) is blocked in READ with its keyboard ready: the pass makes it `PRONTO` with the
datum 1 in A, but `fila_prontos_insere` finds the queue full and does not append the
index 0.  (2) `init` is blocked in READ, its keyboard reports ready, and the read of the
datum fails: the pass makes it `LIVRE`, not `PRONTO`. -/
theorem so_pendencias_contraexemplo :
    so_alcancavel so_const_ex so_ex_pend_fila_cheia ∧
    so_ex_pend_cheia_inicio.escalonador_atual = ESCAL_CIRCULAR ∧
    (so_proc so_ex_pend_cheia_inicio 0).estado = BLOQUEADO ∧
    (so_proc so_ex_pend_cheia_inicio 0).motivo_bloqueio = BLOQUEIO_IO_LE ∧
    so_ex_pend_cheia_inicio.es.le so_ex_pend_cheia_inicio.es.k
      ((so_proc so_ex_pend_cheia_inicio 0).dispositivo_esperado + so_const_ex.TERM_TECLADO_OK)
      = some 1 ∧
    so_fila so_const_ex so_ex_pend_cheia_inicio = [1, 1, 1, 2] ∧
    (so_proc (so_trata_pendencias so_const_ex so_ex_pend_cheia_inicio) 0).estado = PRONTO ∧
    (so_proc (so_trata_pendencias so_const_ex so_ex_pend_cheia_inicio) 0).estado_cpu.regA = 1 ∧
    so_fila so_const_ex (so_trata_pendencias so_const_ex so_ex_pend_cheia_inicio)
      = [1, 1, 1, 2] ∧
    so_alcancavel so_const_ex so_ex_le_bloqueia ∧
    (so_proc (so_ex_pend_inicio es_ex_dado_falha) 0).estado = BLOQUEADO ∧
    (so_proc (so_ex_pend_inicio es_ex_dado_falha) 0).motivo_bloqueio = BLOQUEIO_IO_LE ∧
    (so_ex_pend_inicio es_ex_dado_falha).es.le (so_ex_pend_inicio es_ex_dado_falha).es.k
      ((so_proc (so_ex_pend_inicio es_ex_dado_falha) 0).dispositivo_esperado +
        so_const_ex.TERM_TECLADO_OK) = some 1 ∧
    (so_proc (so_trata_pendencias so_const_ex (so_ex_pend_inicio es_ex_dado_falha)) 0).estado
      = LIVRE := by
  refine ⟨?_, by decide, by decide, by decide, by decide, by decide, by decide, by decide,
    by decide, ?_, by decide, by decide, by decide, by decide⟩
  · exact .trap _ _ _ _ (.trap _ _ _ _ (.trap _ _ _ _ (.trap _ _ _ _ (.trap _ _ _ _
      (.trap _ _ _ _ (.trap _ _ _ _ (.trap _ _ _ _ (.trap _ _ _ _ (.trap _ _ _ _
      (.trap _ _ _ _ (.trap _ _ _ _ (.trap _ _ _ _ (.cria _ _ _ _ _)))))))))))))
  · exact .trap _ _ _ _ (.trap _ _ _ _ (.cria _ _ _ _ _))

/-- C25 (amended): one pass of `so_trata_pendencias` over the kernel `s`, slot `n` a slot of
the table.  When the loop reaches slot `n` its PCB is as it was in `s`.  If it is
`BLOQUEADO` for READ, its keyboard then reports ready and the datum `d` is read, after the
pass it is `PRONTO` with no block reason and A = `d`; if it is `BLOQUEADO` for WRITE, its
screen then reports ready and the write succeeds, after the pass it is `PRONTO` with no
block reason and A = 0; if it is `BLOQUEADO` waiting for a process, or for a device that
then reports not ready, after the pass it is as it was.  In round-robin mode, when the ready
queue is a well-formed ring with room for the PCBs that the pass makes `PRONTO`, those
slots are appended to it in increasing order of index. -/
theorem so_pendencias_varredura (K : so_const_t) (s : so_t) (n : Nat)
    (hn : n < K.MAX_PROCESSOS) :
    so_proc (so_pendencias_ate K s n) (n : Int) = so_proc s (n : Int) ∧
    ((so_proc s (n : Int)).estado = BLOQUEADO →
      (so_proc s (n : Int)).motivo_bloqueio = BLOQUEIO_IO_LE →
      ∀ e d : Int,
      (so_pendencias_ate K s n).es.le (so_pendencias_ate K s n).es.k
        ((so_proc s (n : Int)).dispositivo_esperado + K.TERM_TECLADO_OK) = some e → e ≠ 0 →
      (so_pendencias_ate K s n).es.le ((so_pendencias_ate K s n).es.k + 1)
        ((so_proc s (n : Int)).dispositivo_esperado + K.TERM_TECLADO) = some d →
      (so_proc (so_trata_pendencias K s) (n : Int)).estado = PRONTO ∧
      (so_proc (so_trata_pendencias K s) (n : Int)).motivo_bloqueio = BLOQUEIO_NENHUM ∧
      (so_proc (so_trata_pendencias K s) (n : Int)).estado_cpu.regA = d) ∧
    ((so_proc s (n : Int)).estado = BLOQUEADO →
      (so_proc s (n : Int)).motivo_bloqueio = BLOQUEIO_IO_ESCR →
      ∀ e : Int,
      (so_pendencias_ate K s n).es.le (so_pendencias_ate K s n).es.k
        ((so_proc s (n : Int)).dispositivo_esperado + K.TERM_TELA_OK) = some e → e ≠ 0 →
      (so_pendencias_ate K s n).es.esc ((so_pendencias_ate K s n).es.k + 1)
        ((so_proc s (n : Int)).dispositivo_esperado + K.TERM_TELA)
        (so_proc s (n : Int)).estado_cpu.regX = true →
      (so_proc (so_trata_pendencias K s) (n : Int)).estado = PRONTO ∧
      (so_proc (so_trata_pendencias K s) (n : Int)).motivo_bloqueio = BLOQUEIO_NENHUM ∧
      (so_proc (so_trata_pendencias K s) (n : Int)).estado_cpu.regA = 0) ∧
    ((so_proc s (n : Int)).estado = BLOQUEADO →
      ((so_proc s (n : Int)).motivo_bloqueio = BLOQUEIO_PID ∨
        ((so_proc s (n : Int)).motivo_bloqueio = BLOQUEIO_IO_LE ∧
          (so_pendencias_ate K s n).es.le (so_pendencias_ate K s n).es.k
            ((so_proc s (n : Int)).dispositivo_esperado + K.TERM_TECLADO_OK) = some 0) ∨
        ((so_proc s (n : Int)).motivo_bloqueio = BLOQUEIO_IO_ESCR ∧
          (so_pendencias_ate K s n).es.le (so_pendencias_ate K s n).es.k
            ((so_proc s (n : Int)).dispositivo_esperado + K.TERM_TELA_OK) = some 0)) →
      so_proc (so_trata_pendencias K s) (n : Int) = so_proc s (n : Int)) ∧
    (s.escalonador_atual = ESCAL_CIRCULAR → so_fila_ok K s →
      s.fila_prontos_tamanho + (so_pendencias_acordados K s).length ≤ K.MAX_PROCESSOS →
      so_fila K (so_trata_pendencias K s) = so_fila K s ++ so_pendencias_acordados K s) := by
  have hantes := so_pendencias_ate_antes K s n n (le_refl _)
  have hfinal := so_pendencias_final K s n hn
  refine ⟨hantes, ?_, ?_, ?_, ?_⟩
  · intro hb hm e d hok he hd
    rw [hfinal]
    rw [← hantes] at hb hm hok hd
    exact so_pendencia_le K _ n e d hb hm hok he hd
  · intro hb hm e hok he hw
    rw [hfinal]
    rw [← hantes] at hb hm hok hw
    exact so_pendencia_escr K _ n e hb hm hok he hw
  · intro hb h
    rw [hfinal]
    rw [← hantes] at hb h ⊢
    exact so_pendencia_fica K _ n hb h
  · intro hmodo hok hcabe
    exact (so_pendencias_fila_ate K s hmodo hok hcabe K.MAX_PROCESSOS (le_refl _)).1

set_option maxRecDepth 1000000 in
theorem so_pendencias_varredura_witness :
    ((so_proc (so_ex_pend_dois es_ex_pronto) ((0 : Nat) : Int)).estado = BLOQUEADO ∧
      (so_proc (so_ex_pend_dois es_ex_pronto) ((1 : Nat) : Int)).estado = BLOQUEADO) ∧
    ((so_proc (so_trata_pendencias so_const_ex (so_ex_pend_dois es_ex_pronto))
        ((0 : Nat) : Int)).estado = PRONTO ∧
      (so_proc (so_trata_pendencias so_const_ex (so_ex_pend_dois es_ex_pronto))
        ((0 : Nat) : Int)).motivo_bloqueio = BLOQUEIO_NENHUM ∧
      (so_proc (so_trata_pendencias so_const_ex (so_ex_pend_dois es_ex_pronto))
        ((0 : Nat) : Int)).estado_cpu.regA = 1) ∧
    ((so_proc (so_trata_pendencias so_const_ex (so_ex_pend_dois es_ex_pronto))
        ((1 : Nat) : Int)).estado = PRONTO ∧
      (so_proc (so_trata_pendencias so_const_ex (so_ex_pend_dois es_ex_pronto))
        ((1 : Nat) : Int)).motivo_bloqueio = BLOQUEIO_NENHUM ∧
      (so_proc (so_trata_pendencias so_const_ex (so_ex_pend_dois es_ex_pronto))
        ((1 : Nat) : Int)).estado_cpu.regA = 1) ∧
    so_fila so_const_ex (so_trata_pendencias so_const_ex (so_ex_pend_dois es_ex_pronto)) =
      so_fila so_const_ex (so_ex_pend_dois es_ex_pronto) ++
        so_pendencias_acordados so_const_ex (so_ex_pend_dois es_ex_pronto) ∧
    so_fila so_const_ex (so_ex_pend_dois es_ex_pronto) = [] ∧
    so_pendencias_acordados so_const_ex (so_ex_pend_dois es_ex_pronto) = [0, 1] ∧
    so_fila so_const_ex (so_trata_pendencias so_const_ex (so_ex_pend_dois es_ex_pronto)) =
      [0, 1] :=
  ⟨⟨by decide, by decide⟩,
    (so_pendencias_varredura so_const_ex (so_ex_pend_dois es_ex_pronto) 0
      (by decide)).2.1 (by decide) (by decide) 1 1 (by decide) (by decide) (by decide),
    (so_pendencias_varredura so_const_ex (so_ex_pend_dois es_ex_pronto) 1
      (by decide)).2.1 (by decide) (by decide) 1 1 (by decide) (by decide) (by decide),
    (so_pendencias_varredura so_const_ex (so_ex_pend_dois es_ex_pronto) 0
      (by decide)).2.2.2.2 (by decide) (by decide) (by decide),
    by decide, by decide, by decide⟩

/-! ## T2/so.c: the accounting of the idle time -/

theorem so_ocioso_refl (s : so_t) : so_mesmo_ocioso s s := ⟨rfl, rfl, rfl⟩

theorem so_ocioso_trans {s t u : so_t} (h1 : so_mesmo_ocioso s t) (h2 : so_mesmo_ocioso t u) :
    so_mesmo_ocioso s u :=
  ⟨h2.1.trans h1.1, h2.2.1.trans h1.2.1, h2.2.2.trans h1.2.2⟩

theorem so_ocioso_de_metricas {s t : so_t}
    (hi : t.processo_em_execucao_idx = s.processo_em_execucao_idx)
    (hm : t.metricas = s.metricas) : so_mesmo_ocioso s t :=
  ⟨hi, by rw [hm], by rw [hm]⟩

theorem so_insere_idx (K : so_const_t) (s : so_t) (i : Int) :
    (so_insere_em_pronto K s i).processo_em_execucao_idx = s.processo_em_execucao_idx := by
  unfold so_insere_em_pronto fila_prontos_insere
  split
  · split <;> rfl
  · rfl

theorem so_ocioso_erro {s t : so_t} (h : so_mesmo_ocioso s t) : so_mesmo_ocioso s (so_erro t) :=
  so_ocioso_trans h ⟨rfl, rfl, rfl⟩

theorem so_ocioso_es_le {s t : so_t} (a : Int) (h : so_mesmo_ocioso s t) :
    so_mesmo_ocioso s (so_es_le t a).2 :=
  so_ocioso_trans h ⟨rfl, rfl, rfl⟩

theorem so_ocioso_es_escreve {s t : so_t} (a v : Int) (h : so_mesmo_ocioso s t) :
    so_mesmo_ocioso s (so_es_escreve t a v).2 :=
  so_ocioso_trans h ⟨rfl, rfl, rfl⟩

theorem so_ocioso_muda {s t : so_t} (i : Int) (f : processo_t → processo_t)
    (h : so_mesmo_ocioso s t) : so_mesmo_ocioso s (so_muda_proc t i f) :=
  so_ocioso_trans h (so_ocioso_de_metricas (so_muda_proc_idx t i f) (so_muda_proc_metricas t i f))

theorem so_ocioso_retorna {s t : so_t} (i v : Int) (h : so_mesmo_ocioso s t) :
    so_mesmo_ocioso s (so_retorna t i v) :=
  so_ocioso_muda i _ h

theorem so_ocioso_atualiza (K : so_const_t) {s t : so_t} (i : Int) (novo : estado_processo_t)
    (h : so_mesmo_ocioso s t) : so_mesmo_ocioso s (so_atualiza_estado K t i novo) :=
  so_ocioso_trans h
    (so_ocioso_de_metricas (so_atualiza_idx K t i novo) (so_atualiza_metricas K t i novo))

theorem so_ocioso_insere (K : so_const_t) {s t : so_t} (i : Int) (h : so_mesmo_ocioso s t) :
    so_mesmo_ocioso s (so_insere_em_pronto K t i) :=
  so_ocioso_trans h (so_ocioso_de_metricas (so_insere_idx K t i) (so_insere_metricas K t i))

theorem so_ocioso_carrega (K : so_const_t) {s t : so_t} (nome : List Int)
    (h : so_mesmo_ocioso s t) : so_mesmo_ocioso s (so_carrega_programa K t nome).2 :=
  so_ocioso_trans h
    (so_ocioso_de_metricas (so_carrega_resto K t nome).1.1 (so_carrega_resto K t nome).2.2.1)

theorem so_ocioso_inicializa (K : so_const_t) {s t : so_t} (i pid e : Int)
    (h : so_mesmo_ocioso s t) :
    so_mesmo_ocioso s (so_inicializa_metricas_processo K t i pid e) := by
  refine so_ocioso_trans h ⟨(so_controle_inicializa K t i pid e).1, ?_, ?_⟩
  · unfold so_inicializa_metricas_processo
    dsimp only
    rw [so_muda_proc_metricas]
    rfl
  · unfold so_inicializa_metricas_processo
    dsimp only
    rw [so_muda_proc_metricas]
    rfl

theorem so_ocioso_conta (K : so_const_t) (s : so_t) (irq : Int) :
    so_mesmo_ocioso s (so_conta_irq K s irq) := by
  unfold so_conta_irq
  split
  · exact ⟨rfl, rfl, rfl⟩
  · exact so_ocioso_refl s

theorem so_ocioso_quantum (s : so_t) : so_mesmo_ocioso s (so_relogio_quantum s) := by
  unfold so_relogio_quantum
  dsimp only
  split
  · split <;> exact ⟨rfl, rfl, rfl⟩
  · exact so_ocioso_refl s

theorem so_ocioso_reset (K : so_const_t) (s : so_t) :
    so_mesmo_ocioso s (so_trata_reset K s) := by
  unfold so_trata_reset
  dsimp only
  have h1 : so_mesmo_ocioso s
      (if (so_carrega_programa K s (c_str "trata_int.maq")).1 ≠ K.CPU_END_TRATADOR then
        so_erro (so_carrega_programa K s (c_str "trata_int.maq")).2
      else (so_carrega_programa K s (c_str "trata_int.maq")).2) := by
    split
    · exact so_ocioso_erro (so_ocioso_carrega K _ (so_ocioso_refl s))
    · exact so_ocioso_carrega K _ (so_ocioso_refl s)
  generalize (if (so_carrega_programa K s (c_str "trata_int.maq")).1 ≠ K.CPU_END_TRATADOR then
        so_erro (so_carrega_programa K s (c_str "trata_int.maq")).2
      else (so_carrega_programa K s (c_str "trata_int.maq")).2) = s1 at h1 ⊢
  have h2 : so_mesmo_ocioso s
      (if (so_es_escreve s1 K.D_RELOGIO_TIMER 50).1 then
        (so_es_escreve s1 K.D_RELOGIO_TIMER 50).2
      else so_erro (so_es_escreve s1 K.D_RELOGIO_TIMER 50).2) := by
    split
    · exact so_ocioso_es_escreve _ _ h1
    · exact so_ocioso_erro (so_ocioso_es_escreve _ _ h1)
  generalize (if (so_es_escreve s1 K.D_RELOGIO_TIMER 50).1 then
        (so_es_escreve s1 K.D_RELOGIO_TIMER 50).2
      else so_erro (so_es_escreve s1 K.D_RELOGIO_TIMER 50).2) = s2 at h2 ⊢
  split
  · exact so_ocioso_erro (so_ocioso_carrega K _ h2)
  · refine so_ocioso_insere K _ (so_ocioso_muda _ _ (so_ocioso_inicializa K _ _ _ ?_))
    exact so_ocioso_trans (so_ocioso_carrega K _ h2) ⟨rfl, rfl, rfl⟩

/-- With no current process, `so_trata_irq` leaves the idle accounting as it was. -/
theorem so_ocioso_trata_irq (K : so_const_t) (s : so_t) (irq : Int)
    (h : s.processo_em_execucao_idx = -1) : so_mesmo_ocioso s (so_trata_irq K s irq) := by
  have h0 := so_ocioso_conta K s irq
  have hidx : (so_conta_irq K s irq).processo_em_execucao_idx = -1 := by rw [h0.1, h]
  unfold so_trata_irq
  dsimp only
  split
  · exact so_ocioso_trans h0 (so_ocioso_reset K _)
  · split
    · unfold so_trata_irq_chamada_sistema
      dsimp only
      rw [if_pos hidx]
      exact so_ocioso_erro h0
    · split
      · unfold so_trata_irq_err_cpu
        rw [if_neg (not_not.mpr hidx)]
        exact so_ocioso_erro h0
      · split
        · unfold so_trata_irq_relogio
          dsimp only
          refine so_ocioso_trans ?_ (so_ocioso_quantum _)
          split
          · exact so_ocioso_erro (so_ocioso_es_escreve _ _ (so_ocioso_es_escreve _ _ h0))
          · exact so_ocioso_es_escreve _ _ (so_ocioso_es_escreve _ _ h0)
        · exact so_ocioso_erro h0

theorem so_ocioso_pendencia (K : so_const_t) {s0 s : so_t} (i : Nat)
    (h : so_mesmo_ocioso s0 s) : so_mesmo_ocioso s0 (so_trata_pendencia K s i) := by
  unfold so_trata_pendencia
  dsimp only
  split
  · exact h
  · split
    · split
      · exact so_ocioso_atualiza K _ _ (so_ocioso_es_le _ h)
      · split
        · split
          · exact so_ocioso_atualiza K _ _ (so_ocioso_es_le _ (so_ocioso_es_le _ h))
          · exact so_ocioso_insere K _ (so_ocioso_muda _ _ (so_ocioso_atualiza K _ _
              (so_ocioso_retorna _ _ (so_ocioso_es_le _ (so_ocioso_es_le _ h)))))
        · exact so_ocioso_es_le _ h
    · split
      · split
        · exact so_ocioso_atualiza K _ _ (so_ocioso_es_le _ h)
        · split
          · split
            · exact so_ocioso_insere K _ (so_ocioso_muda _ _ (so_ocioso_atualiza K _ _
                (so_ocioso_retorna _ _ (so_ocioso_es_escreve _ _ (so_ocioso_es_le _ h)))))
            · exact so_ocioso_atualiza K _ _ (so_ocioso_es_escreve _ _ (so_ocioso_es_le _ h))
          · exact so_ocioso_es_le _ h
      · exact h

theorem so_ocioso_pendencias (K : so_const_t) (s : so_t) :
    so_mesmo_ocioso s (so_trata_pendencias K s) := by
  unfold so_trata_pendencias
  have : ∀ (l : List Nat) (t : so_t), so_mesmo_ocioso s t →
      so_mesmo_ocioso s (l.foldl (so_trata_pendencia K) t) := by
    intro l
    induction l with
    | nil => intro t ht; exact ht
    | cons i l ih => intro t ht; exact ih _ (so_ocioso_pendencia K i ht)
  exact this _ s (so_ocioso_refl s)

/-- With no current process, a trap reaches the call of the scheduler with no current
process and the idle accounting as it was. -/
theorem so_ocioso_entrada (K : so_const_t) (s : so_t) (irq : Int)
    (h : s.processo_em_execucao_idx = -1) : so_mesmo_ocioso s (so_entrada K s irq) := by
  unfold so_entrada
  have hs : so_salva_estado_da_cpu K s = s := by
    unfold so_salva_estado_da_cpu
    dsimp only
    rw [if_pos h]
  rw [hs]
  exact so_ocioso_trans (so_ocioso_trata_irq K s irq h) (so_ocioso_pendencias K _)

theorem so_avanca_refl (s : so_t) : so_ocioso_avanca s s := ⟨rfl, rfl, so_es_refl s⟩

theorem so_avanca_trans {s t u : so_t} (h1 : so_ocioso_avanca s t)
    (h2 : so_ocioso_avanca t u) : so_ocioso_avanca s u :=
  ⟨h2.1.trans h1.1, h2.2.1.trans h1.2.1, so_es_trans h1.2.2 h2.2.2⟩

theorem so_avanca_muda (s : so_t) (i : Int) (f : processo_t → processo_t) :
    so_ocioso_avanca s (so_muda_proc s i f) :=
  ⟨by rw [so_muda_proc_metricas], by rw [so_muda_proc_metricas], so_es_muda s i f⟩

theorem so_avanca_atualiza (K : so_const_t) (s : so_t) (i : Int) (novo : estado_processo_t) :
    so_ocioso_avanca s (so_atualiza_estado K s i novo) :=
  ⟨by rw [so_atualiza_metricas], by rw [so_atualiza_metricas], so_es_atualiza K s i novo⟩

theorem so_avanca_insere (K : so_const_t) (s : so_t) (i : Int) :
    so_ocioso_avanca s (so_insere_em_pronto K s i) :=
  ⟨by rw [so_insere_metricas], by rw [so_insere_metricas], so_es_insere K s i⟩

theorem so_avanca_registra (s : so_t) (i : Int) :
    so_ocioso_avanca s (so_registra_preempcao s i) := by
  have h := so_avanca_muda s i
    (fun proc => { proc with num_preempcoes := proc.num_preempcoes + 1 })
  exact ⟨h.1, h.2.1, h.2.2⟩

theorem so_avanca_calcula (s : so_t) (i : Int) :
    so_ocioso_avanca s (so_calcula_prioridade s i) := by
  unfold so_calcula_prioridade
  exact so_avanca_muda s i _

theorem so_avanca_remove (K : so_const_t) (s : so_t) :
    so_ocioso_avanca s (fila_prontos_remove K s).2 := by
  unfold fila_prontos_remove
  split <;> exact ⟨rfl, rfl, rfl, le_refl _⟩

theorem so_inicio_ocioso_campos (K : so_const_t) (x : so_t) :
    (so_inicio_ocioso K x).metricas.tempo_total_ocioso = x.metricas.tempo_total_ocioso ∧
    (so_inicio_ocioso K x).metricas.inicio_tempo_ocioso =
      if x.metricas.inicio_tempo_ocioso = 0 then
        (x.es.le x.es.k K.D_RELOGIO_INSTRUCOES).getD 0
      else x.metricas.inicio_tempo_ocioso := by
  unfold so_inicio_ocioso
  dsimp only
  by_cases h : x.metricas.inicio_tempo_ocioso = 0
  · rw [if_pos h, if_pos h]
    exact ⟨rfl, rfl⟩
  · rw [if_neg h, if_neg h]
    exact ⟨rfl, rfl⟩

theorem so_fim_ocioso_campos (K : so_const_t) (x : so_t)
    (h : 0 < x.metricas.inicio_tempo_ocioso) :
    (so_fim_ocioso K x).metricas.tempo_total_ocioso = x.metricas.tempo_total_ocioso +
      ((x.es.le x.es.k K.D_RELOGIO_INSTRUCOES).getD 0 - x.metricas.inicio_tempo_ocioso) ∧
    (so_fim_ocioso K x).metricas.inicio_tempo_ocioso = 0 := by
  unfold so_fim_ocioso
  rw [if_pos (by omega)]
  exact ⟨rfl, rfl⟩

theorem so_rr_proximo_sem (K : so_const_t) (y : so_t)
    (h : (so_escalona_rr_proximo K y).processo_em_execucao_idx = -1) :
    so_escalona_rr_proximo K y = so_inicio_ocioso K (fila_prontos_remove K y).2 := by
  unfold so_escalona_rr_proximo at h ⊢
  dsimp only at h ⊢
  by_cases hp : (fila_prontos_remove K y).1 ≠ -1
  · rw [if_pos hp] at h
    exact absurd h hp
  · rw [if_neg hp]

theorem so_prio_proximo_sem (K : so_const_t) (y : so_t)
    (h : (so_escalona_prio_proximo K y).processo_em_execucao_idx = -1) :
    so_escalona_prio_proximo K y = so_inicio_ocioso K y := by
  unfold so_escalona_prio_proximo at h ⊢
  dsimp only at h ⊢
  by_cases hp : ((List.range K.MAX_PROCESSOS).foldl (so_escalona_prio_passo y)
      (-1, 1000000000)).1 ≠ -1
  · rw [if_pos hp] at h
    exact absurd h hp
  · rw [if_neg hp]

theorem so_avanca_prio_atual (K : so_const_t) (s : so_t) :
    so_ocioso_avanca s (so_escalona_prio_atual K s) := by
  unfold so_escalona_prio_atual
  dsimp only
  split
  · refine so_avanca_trans ?_ ⟨rfl, rfl, rfl, le_refl _⟩
    split
    · exact so_avanca_trans (so_avanca_calcula s _) ⟨rfl, rfl, rfl, le_refl _⟩
    · split
      · exact so_avanca_trans (so_avanca_calcula s _)
          (so_avanca_trans (so_avanca_registra _ _)
            (so_avanca_trans (so_avanca_atualiza K _ _ _) ⟨rfl, rfl, rfl, le_refl _⟩))
      · exact so_avanca_refl s
  · exact so_avanca_refl s

/-- A call of the scheduler that ends with no current process ends in `so_inicio_ocioso`,
reached with the idle accounting as it was at the call. -/
theorem so_escalona_sem_processo (K : so_const_t) (e : so_t)
    (h : (so_escalona K e).processo_em_execucao_idx = -1) :
    ∃ x, so_escalona K e = so_inicio_ocioso K x ∧ so_ocioso_avanca e x := by
  unfold so_escalona at h ⊢
  by_cases hmodo : e.escalonador_atual = ESCAL_CIRCULAR
  · rw [if_pos hmodo] at h ⊢
    unfold so_escalona_rr at h ⊢
    dsimp only at h ⊢
    by_cases h1 : e.deve_preemptar = true ∧ e.processo_em_execucao_idx ≠ -1
    · rw [if_pos h1] at h ⊢
      refine ⟨_, so_rr_proximo_sem K _ h, ?_⟩
      refine so_avanca_trans ?_ (so_avanca_remove K _)
      exact so_avanca_trans (so_avanca_registra e _)
        (so_avanca_trans (so_avanca_atualiza K _ _ _)
          (so_avanca_trans (so_avanca_insere K _ _) ⟨rfl, rfl, rfl, le_refl _⟩))
    · rw [if_neg h1] at h ⊢
      by_cases h2 : e.processo_em_execucao_idx ≠ -1 ∧
          (so_proc { e with deve_preemptar := false } e.processo_em_execucao_idx).estado
            ≠ EXECUTANDO
      · rw [if_pos h2] at h ⊢
        refine ⟨_, so_rr_proximo_sem K _ h, ?_⟩
        exact so_avanca_trans ⟨rfl, rfl, rfl, le_refl _⟩ (so_avanca_remove K _)
      · rw [if_neg h2] at h ⊢
        by_cases h3 : e.processo_em_execucao_idx ≠ -1
        · rw [if_pos h3] at h
          exact absurd h h3
        · rw [if_neg h3] at h ⊢
          refine ⟨_, so_rr_proximo_sem K _ h, ?_⟩
          exact so_avanca_trans ⟨rfl, rfl, rfl, le_refl _⟩ (so_avanca_remove K _)
  · rw [if_neg hmodo] at h ⊢
    unfold so_escalona_prio at h ⊢
    dsimp only at h ⊢
    by_cases h1 : (so_escalona_prio_atual K e).processo_em_execucao_idx = -1
    · rw [if_pos h1] at h ⊢
      exact ⟨_, so_prio_proximo_sem K _ h, so_avanca_prio_atual K e⟩
    · rw [if_neg h1] at h
      exact absurd h h1

/-- A call of the scheduler, made with no current process and the idle marker set, that
selects a process closes the idle interval at the time read from the clock. -/
theorem so_escalona_fecha_ocioso (K : so_const_t) (e : so_t)
    (he : e.processo_em_execucao_idx = -1)
    (hsel : (so_escalona K e).processo_em_execucao_idx ≠ -1)
    (hm : 0 < e.metricas.inicio_tempo_ocioso) :
    (so_escalona K e).metricas.tempo_total_ocioso = e.metricas.tempo_total_ocioso +
      ((e.es.le e.es.k K.D_RELOGIO_INSTRUCOES).getD 0 - e.metricas.inicio_tempo_ocioso) ∧
    (so_escalona K e).metricas.inicio_tempo_ocioso = 0 := by
  unfold so_escalona at hsel ⊢
  by_cases hmodo : e.escalonador_atual = ESCAL_CIRCULAR
  · rw [if_pos hmodo] at hsel ⊢
    have hrr : so_escalona_rr K e = so_escalona_rr_proximo K { e with deve_preemptar := false } := by
      unfold so_escalona_rr
      dsimp only
      rw [if_neg (fun h => h.2 he), if_neg (fun h => h.1 he), if_neg (not_not.mpr he)]
    rw [hrr] at hsel ⊢
    unfold so_escalona_rr_proximo at hsel ⊢
    dsimp only at hsel ⊢
    by_cases hp : (fila_prontos_remove K { e with deve_preemptar := false }).1 ≠ -1
    · rw [if_pos hp]
      have hr := so_avanca_remove K { e with deve_preemptar := false }
      have hf := so_fim_ocioso_campos K (fila_prontos_remove K { e with deve_preemptar := false }).2
        (by rw [hr.2.1]; exact hm)
      have hes : (fila_prontos_remove K { e with deve_preemptar := false }).2.es = e.es := by
        unfold fila_prontos_remove
        split <;> rfl
      rw [hr.1, hr.2.1, hes] at hf
      refine ⟨?_, ?_⟩
      · show (so_atualiza_estado K _ _ _).metricas.tempo_total_ocioso = _
        rw [so_atualiza_metricas]
        exact hf.1
      · show (so_atualiza_estado K _ _ _).metricas.inicio_tempo_ocioso = _
        rw [so_atualiza_metricas]
        exact hf.2
    · rw [if_neg hp] at hsel
      exact absurd (so_inicio_ocioso_idx K _) hsel
  · rw [if_neg hmodo] at hsel ⊢
    have hpr : so_escalona_prio K e = so_escalona_prio_proximo K e := by
      have ha : so_escalona_prio_atual K e = e := by
        unfold so_escalona_prio_atual
        dsimp only
        rw [if_neg (not_not.mpr he)]
      unfold so_escalona_prio
      dsimp only
      rw [ha, if_pos he]
    rw [hpr] at hsel ⊢
    unfold so_escalona_prio_proximo at hsel ⊢
    dsimp only at hsel ⊢
    by_cases hp : ((List.range K.MAX_PROCESSOS).foldl (so_escalona_prio_passo e)
        (-1, 1000000000)).1 ≠ -1
    · rw [if_pos hp]
      have hf := so_fim_ocioso_campos K e hm
      refine ⟨?_, ?_⟩
      · show (so_atualiza_estado K _ _ _).metricas.tempo_total_ocioso = _
        rw [so_atualiza_metricas]
        exact hf.1
      · show (so_atualiza_estado K _ _ _).metricas.inicio_tempo_ocioso = _
        rw [so_atualiza_metricas]
        exact hf.2
    · rw [if_neg hp] at hsel
      exact absurd (so_inicio_ocioso_idx K _) hsel

theorem so_despacha_ocioso (K : so_const_t) (s : so_t) :
    so_mesmo_ocioso s (so_despacha K s).2 := by
  unfold so_despacha
  dsimp only
  split
  · exact so_ocioso_refl s
  · split <;> exact ⟨rfl, rfl, rfl⟩

/-- A complete trap taken with no current process and the idle marker set, and that ends
with no current process, leaves the idle accounting as it was. -/
theorem so_ocioso_trap (K : so_const_t) (s : so_t) (irq : Int)
    (h : s.processo_em_execucao_idx = -1) (hm : s.metricas.inicio_tempo_ocioso ≠ 0)
    (hres : (so_trata_interrupcao K s irq).2.processo_em_execucao_idx = -1) :
    so_mesmo_ocioso s (so_trata_interrupcao K s irq).2 := by
  rw [so_trap_entrada] at hres ⊢
  have hent := so_ocioso_entrada K s irq h
  have hd := so_despacha_ocioso K (so_escalona K (so_entrada K s irq))
  have hnone : (so_escalona K (so_entrada K s irq)).processo_em_execucao_idx = -1 := by
    rw [← hd.1]
    exact hres
  obtain ⟨x, hx, hav⟩ := so_escalona_sem_processo K _ hnone
  have hc := so_inicio_ocioso_campos K x
  have hxm : x.metricas.inicio_tempo_ocioso ≠ 0 := by
    rw [hav.2.1, hent.2.2]
    exact hm
  rw [if_neg hxm] at hc
  refine ⟨hres.trans h.symm, ?_, ?_⟩
  · rw [hd.2.1, hx, hc.1, hav.1, hent.2.1]
  · rw [hd.2.2, hx, hc.2, hav.2.1, hent.2.2]

/-- Over an idle interval the idle accounting stays as it was. -/
theorem so_ocioso_intervalo (K : so_const_t) {s u : so_t} (hint : so_intervalo_ocioso K s u)
    (h : s.processo_em_execucao_idx = -1) (hm : s.metricas.inicio_tempo_ocioso ≠ 0) :
    so_mesmo_ocioso s u := by
  induction hint with
  | chamada s irq mem es =>
    exact so_ocioso_trans ⟨rfl, rfl, rfl⟩
      (so_ocioso_entrada K { s with mem := mem, es := es } irq h)
  | trap s u irq mem es hres _ ih =>
    have ht := so_ocioso_trap K { s with mem := mem, es := es } irq h hm hres
    have ht' : so_mesmo_ocioso s
        (so_trata_interrupcao K { s with mem := mem, es := es } irq).2 :=
      so_ocioso_trans ⟨rfl, rfl, rfl⟩ ht
    exact so_ocioso_trans ht' (ih hres (by rw [ht'.2.2]; exact hm))

set_option maxRecDepth 1000000 in
/-- C28 as stated fails for `t0 = 0`.  Round-robin, the clock reads 0: `init` blocks in READ
and the scheduler, called with the idle marker 0 (not idle), finds no process.  The marker
it stores is 0, the value that means "not idle".  In the next trap the clock reads 100, the
keyboard is ready and the scheduler selects `init`: `tempo_total_ocioso` is still 0, not
100 - 0.  With a trap in between at time 70 that finds no process, the total is 90 - 70,
not 90 - 0. -/
theorem so_tempo_ocioso_contraexemplo :
    so_alcancavel so_const_ex (so_ex_boot ESCAL_CIRCULAR) ∧
    (so_ex_ocioso_inicio 0).metricas.inicio_tempo_ocioso = 0 ∧
    (so_ex_ocioso_inicio 0).metricas.tempo_total_ocioso = 0 ∧
    (so_escalona so_const_ex (so_ex_ocioso_inicio 0)).processo_em_execucao_idx = -1 ∧
    (∀ k, (so_ex_ocioso_inicio 0).es.le k so_const_ex.D_RELOGIO_INSTRUCOES = some 0) ∧
    so_intervalo_ocioso so_const_ex (so_escalona so_const_ex (so_ex_ocioso_inicio 0))
      (so_ex_ocioso_fim 0 100) ∧
    (so_ex_ocioso_fim 0 100).es.le (so_ex_ocioso_fim 0 100).es.k
      so_const_ex.D_RELOGIO_INSTRUCOES = some 100 ∧
    (so_escalona so_const_ex (so_ex_ocioso_fim 0 100)).processo_em_execucao_idx = 0 ∧
    (so_escalona so_const_ex (so_ex_ocioso_fim 0 100)).metricas.tempo_total_ocioso = 0 ∧
    so_intervalo_ocioso so_const_ex (so_escalona so_const_ex (so_ex_ocioso_inicio 0))
      (so_ex_ocioso_fim_longo 0 70 90) ∧
    (so_escalona so_const_ex (so_ex_ocioso_fim_longo 0 70 90)).processo_em_execucao_idx = 0 ∧
    (so_escalona so_const_ex (so_ex_ocioso_fim_longo 0 70 90)).metricas.tempo_total_ocioso
      = 20 := by
  refine ⟨.trap _ _ _ _ (.cria _ _ _ _ _), by decide, by decide, by decide, fun _ => rfl,
    .chamada _ _ _ _, by decide, by decide, by decide,
    .trap _ _ 3 (mem_ex 0 0) (es_ex_tempo 70 0) (by decide) (.chamada _ _ _ _),
    by decide, by decide⟩

/-- C28 (amended): the scheduler, in either mode, is called on the kernel `e0` whose idle
marker is 0 (not idle) while the clock reads `t0 > 0`, and finds no process to select; then
come zero or more complete traps that each end with no current process, and a further trap
reaches its call of the scheduler on the kernel `e1`, where the clock reads `t1` and the
scheduler selects a process.  Then the first call stored `t0` in the idle marker and left
`tempo_total_ocioso` as it was, and after the last call `tempo_total_ocioso` has grown by
exactly `t1 - t0` and the idle marker is 0 again. -/
theorem so_tempo_ocioso_intervalo (K : so_const_t) (e0 e1 : so_t) (t0 t1 : Int)
    (hm0 : e0.metricas.inicio_tempo_ocioso = 0)
    (hnone : (so_escalona K e0).processo_em_execucao_idx = -1)
    (hrel0 : ∀ k, e0.es.k ≤ k → e0.es.le k K.D_RELOGIO_INSTRUCOES = some t0)
    (ht0 : 0 < t0)
    (hint : so_intervalo_ocioso K (so_escalona K e0) e1)
    (hsel : (so_escalona K e1).processo_em_execucao_idx ≠ -1)
    (hrel1 : e1.es.le e1.es.k K.D_RELOGIO_INSTRUCOES = some t1) :
    (so_escalona K e0).metricas.inicio_tempo_ocioso = t0 ∧
    (so_escalona K e0).metricas.tempo_total_ocioso = e0.metricas.tempo_total_ocioso ∧
    (so_escalona K e1).metricas.tempo_total_ocioso =
      e0.metricas.tempo_total_ocioso + (t1 - t0) ∧
    (so_escalona K e1).metricas.inicio_tempo_ocioso = 0 := by
  obtain ⟨x, hx, hav⟩ := so_escalona_sem_processo K e0 hnone
  have hc := so_inicio_ocioso_campos K x
  rw [if_pos (by rw [hav.2.1]; exact hm0), hav.2.2.1, hrel0 _ hav.2.2.2, ← hx] at hc
  have hmarca : (so_escalona K e0).metricas.inicio_tempo_ocioso = t0 := hc.2
  have htotal : (so_escalona K e0).metricas.tempo_total_ocioso =
      e0.metricas.tempo_total_ocioso := by
    rw [hc.1, hav.1]
  have hI := so_ocioso_intervalo K hint hnone (by rw [hmarca]; omega)
  have hF := so_escalona_fecha_ocioso K e1 (by rw [hI.1]; exact hnone)
    hsel (by rw [hI.2.2, hmarca]; exact ht0)
  rw [hrel1, hI.2.1, hI.2.2, hmarca, htotal] at hF
  exact ⟨hmarca, htotal, hF.1, hF.2⟩

set_option maxRecDepth 1000000 in
theorem so_tempo_ocioso_intervalo_witness :
    (so_ex_ocioso_inicio 50).metricas.tempo_total_ocioso = 0 ∧
    (so_escalona so_const_ex (so_ex_ocioso_fim_longo 50 70 90)).processo_em_execucao_idx
      = 0 ∧
    ((so_escalona so_const_ex (so_ex_ocioso_inicio 50)).metricas.inicio_tempo_ocioso = 50 ∧
    (so_escalona so_const_ex (so_ex_ocioso_inicio 50)).metricas.tempo_total_ocioso =
      (so_ex_ocioso_inicio 50).metricas.tempo_total_ocioso ∧
    (so_escalona so_const_ex (so_ex_ocioso_fim_longo 50 70 90)).metricas.tempo_total_ocioso =
      (so_ex_ocioso_inicio 50).metricas.tempo_total_ocioso + (90 - 50) ∧
    (so_escalona so_const_ex (so_ex_ocioso_fim_longo 50 70 90)).metricas.inicio_tempo_ocioso
      = 0) :=
  ⟨by decide, by decide,
    so_tempo_ocioso_intervalo so_const_ex (so_ex_ocioso_inicio 50)
      (so_ex_ocioso_fim_longo 50 70 90) 50 90 (by decide) (by decide) (fun _ _ => rfl)
      (by decide)
      (.trap _ _ 3 (mem_ex 0 0) (es_ex_tempo 70 0) (by decide) (.chamada _ _ _ _))
      (by decide) (by decide)⟩

/-! ## T2/so.c: reading a string from the memory -/

/-- A call of `sec_alloc_alloc` either fails and changes nothing, or fills a free run. -/
theorem sec_alloc_alloc_casos (self : sec_alloc_t) (n : Int) :
    ((sec_alloc_alloc self n).1 = -1 ∧ (sec_alloc_alloc self n).2 = self) ∨
    ∃ b m : Nat, n = (m : Int) ∧ 0 < m ∧ (sec_alloc_alloc self n).1 = (b : Int) ∧
      RunLivre self.bitmap b m ∧
      (sec_alloc_alloc self n).2.bitmap = sec_alloc_preenche self.bitmap (b : Int) 1 m := by
  by_cases hguard : n ≤ 0 ∨ n > self.size
  · have hr : sec_alloc_alloc self n = (-1, self) := by
      simp only [sec_alloc_alloc, hguard, if_true]
    rw [hr]
    exact Or.inl ⟨rfl, rfl⟩
  · obtain ⟨m, rfl⟩ : ∃ m : Nat, n = (m : Int) := ⟨n.toNat, by omega⟩
    have hm : 0 < m := by omega
    have hspec := sec_alloc_busca_inicio m hm self.bitmap
    simp only [sec_alloc_alloc, hguard, if_false, Int.toNat_ofNat]
    cases hb : sec_alloc_busca (m : Int) self.bitmap 0 0 with
    | none => exact Or.inl ⟨rfl, rfl⟩
    | some base =>
      rw [hb] at hspec
      obtain ⟨b, rfl, hfree, _⟩ := hspec
      exact Or.inr ⟨b, m, rfl, hm, rfl, hfree, rfl⟩

/-- What a successful `sec_alloc_alloc` has done. -/
theorem sec_alloc_alloc_sucesso (self : sec_alloc_t) (n : Int)
    (h : 0 ≤ (sec_alloc_alloc self n).1) :
    ∃ b m : Nat, n = (m : Int) ∧ 0 < m ∧ (sec_alloc_alloc self n).1 = (b : Int) ∧
      RunLivre self.bitmap b m ∧
      (sec_alloc_alloc self n).2.bitmap = sec_alloc_preenche self.bitmap (b : Int) 1 m := by
  rcases sec_alloc_alloc_casos self n with ⟨h1, _⟩ | h2
  · omega
  · exact h2

/-- Filling a free run with 1 and then with 0 gives the bitmap back. -/
theorem sec_alloc_preenche_volta (bitmap : List Nat) (b m : Nat) (h : RunLivre bitmap b m) :
    sec_alloc_preenche (sec_alloc_preenche bitmap (b : Int) 1 m) (b : Int) 0 m = bitmap := by
  apply List.ext_getElem?
  intro k
  rw [sec_alloc_preenche_get, sec_alloc_preenche_length, sec_alloc_preenche_get]
  by_cases hk : b ≤ k ∧ k < b + m ∧ k < bitmap.length
  · rw [if_pos hk]
    have := h (k - b) (by omega)
    rw [show b + (k - b) = k by omega] at this
    exact this.symm
  · rw [if_neg hk, if_neg hk]

/-- C32: whenever `sec_alloc_alloc(n)` returns a base `b ≥ 0`, a following
`sec_alloc_free(b, n)` stays within the bitmap and gives back exactly the allocator of
before the allocation, and a further `sec_alloc_alloc(n)` on what it gives back returns the
same `b` and leaves the same allocator as the first. -/
theorem sec_alloc_ida_e_volta (self : sec_alloc_t) (n : Int)
    (h : 0 ≤ (sec_alloc_alloc self n).1) :
    sec_alloc_free (sec_alloc_alloc self n).2 (sec_alloc_alloc self n).1 n = some self ∧
    (sec_alloc_free (sec_alloc_alloc self n).2 (sec_alloc_alloc self n).1 n).map
      (fun s => (sec_alloc_alloc s n).1) = some (sec_alloc_alloc self n).1 ∧
    (sec_alloc_free (sec_alloc_alloc self n).2 (sec_alloc_alloc self n).1 n).map
      (fun s => (sec_alloc_alloc s n).2) = some (sec_alloc_alloc self n).2 := by
  have hvolta : sec_alloc_free (sec_alloc_alloc self n).2 (sec_alloc_alloc self n).1 n
      = some self := by
    obtain ⟨b, m, rfl, hm, hb, hlivre, hbit⟩ := sec_alloc_alloc_sucesso self n h
    have hbound := hlivre.bound hm
    have hlen : (sec_alloc_alloc self (m : Int)).2.bitmap.length = self.bitmap.length := by
      rw [hbit, sec_alloc_preenche_length]
    have hsoma := int_soma_le (b : Int) (m : Int) (by omega)
    have hguard : ¬ ((b : Int) < 0 ∨ (m : Int) ≤ 0 ∨
        int_soma (b : Int) (m : Int) > (sec_alloc_alloc self (m : Int)).2.size) := by
      simp only [sec_alloc_t.size, hlen]
      omega
    rw [hb]
    simp only [sec_alloc_free, hguard, if_false, Int.toNat_ofNat]
    rw [sec_alloc_libera_dentro _ b m (by rw [hlen]; exact hbound), hbit,
      sec_alloc_preenche_volta self.bitmap b m hlivre]
    rfl
  rw [hvolta]
  exact ⟨rfl, rfl, rfl⟩

theorem sec_alloc_ida_e_volta_witness :
    (sec_alloc_alloc ⟨[1, 0, 0, 1, 0, 0, 0]⟩ 3).1 = 4 ∧
    (sec_alloc_alloc ⟨[1, 0, 0, 1, 0, 0, 0]⟩ 3).2 = ⟨[1, 0, 0, 1, 1, 1, 1]⟩ ∧
    (sec_alloc_free (sec_alloc_alloc ⟨[1, 0, 0, 1, 0, 0, 0]⟩ 3).2
        (sec_alloc_alloc ⟨[1, 0, 0, 1, 0, 0, 0]⟩ 3).1 3 = some ⟨[1, 0, 0, 1, 0, 0, 0]⟩ ∧
      (sec_alloc_free (sec_alloc_alloc ⟨[1, 0, 0, 1, 0, 0, 0]⟩ 3).2
          (sec_alloc_alloc ⟨[1, 0, 0, 1, 0, 0, 0]⟩ 3).1 3).map
        (fun s => (sec_alloc_alloc s 3).1) =
        some (sec_alloc_alloc ⟨[1, 0, 0, 1, 0, 0, 0]⟩ 3).1 ∧
      (sec_alloc_free (sec_alloc_alloc ⟨[1, 0, 0, 1, 0, 0, 0]⟩ 3).2
          (sec_alloc_alloc ⟨[1, 0, 0, 1, 0, 0, 0]⟩ 3).1 3).map
        (fun s => (sec_alloc_alloc s 3).2) =
        some (sec_alloc_alloc ⟨[1, 0, 0, 1, 0, 0, 0]⟩ 3).2) :=
  ⟨by decide, by decide, sec_alloc_ida_e_volta ⟨[1, 0, 0, 1, 0, 0, 0]⟩ 3 (by decide)⟩

/-! ## sec_alloc.c: no word is handed out twice -/

/-- Filling a free run with 1 adds its length to the number of words in use. -/
theorem sec_alloc_preenche_usadas (bitmap : List Nat) (b m : Nat) (h : RunLivre bitmap b m) :
    (sec_alloc_preenche bitmap (b : Int) 1 m).countP (fun c => decide (c ≠ 0)) =
      bitmap.countP (fun c => decide (c ≠ 0)) + m := by
  induction m with
  | zero => rfl
  | succ j ih =>
    have hj : RunLivre bitmap b j := fun i hi => h i (by omega)
    have hbound := h.bound (by omega)
    have hidx : ((b : Int) + (j : Int)).toNat = b + j := by omega
    have hlen : b + j < (sec_alloc_preenche bitmap (b : Int) 1 j).length := by
      rw [sec_alloc_preenche_length]
      omega
    have hcel : (sec_alloc_preenche bitmap (b : Int) 1 j)[b + j] = 0 := by
      have h1 := sec_alloc_preenche_get bitmap b 1 j (b + j)
      rw [if_neg (by omega), h j (by omega), List.getElem?_eq_getElem hlen] at h1
      exact Option.some.inj h1
    rw [sec_alloc_preenche, hidx, List.countP_set _ _ _ _ hlen, hcel, ih hj]
    simp
    omega

/-- A word in use stays in use over calls of `sec_alloc_alloc`. -/
theorem sec_alloc_so_aloca_usada {s t : sec_alloc_t} (h : sec_alloc_so_aloca s t) (k : Nat)
    (hk : ∃ c, s.bitmap[k]? = some c ∧ c ≠ 0) : ∃ c, t.bitmap[k]? = some c ∧ c ≠ 0 := by
  induction h with
  | nada => exact hk
  | mais t n _ ih =>
    obtain ⟨c, hc, hc0⟩ := ih
    rcases sec_alloc_alloc_casos t n with ⟨_, h2⟩ | ⟨b, m, _, _, _, _, hbit⟩
    · rw [h2]
      exact ⟨c, hc, hc0⟩
    · rw [hbit, sec_alloc_preenche_get]
      split
      · exact ⟨1, rfl, by decide⟩
      · exact ⟨c, hc, hc0⟩

/-- C33: whenever `sec_alloc_alloc(n)` returns a base `b ≥ 0`, every word `b .. b+n-1` was
free before the call and `b + n ≤ size`; the call adds exactly `n` to the number of words
in use; and the range returned by any later successful `sec_alloc_alloc`, with only calls of
`sec_alloc_alloc` in between (no `sec_alloc_free`), is disjoint from `b .. b+n-1`. -/
theorem sec_alloc_sem_sobreposicao (self : sec_alloc_t) (n : Int)
    (h : 0 ≤ (sec_alloc_alloc self n).1) :
    (∀ k : Nat, (sec_alloc_alloc self n).1 ≤ (k : Int) →
      (k : Int) < (sec_alloc_alloc self n).1 + n → self.bitmap[k]? = some 0) ∧
    (sec_alloc_alloc self n).1 + n ≤ self.size ∧
    (sec_alloc_usadas (sec_alloc_alloc self n).2 : Int) = (sec_alloc_usadas self : Int) + n ∧
    (∀ (t : sec_alloc_t) (n2 : Int), sec_alloc_so_aloca (sec_alloc_alloc self n).2 t →
      0 ≤ (sec_alloc_alloc t n2).1 →
      (sec_alloc_alloc self n).1 + n ≤ (sec_alloc_alloc t n2).1 ∨
      (sec_alloc_alloc t n2).1 + n2 ≤ (sec_alloc_alloc self n).1) := by
  obtain ⟨b, m, rfl, hm, hb, hlivre, hbit⟩ := sec_alloc_alloc_sucesso self n h
  have hbound := hlivre.bound hm
  rw [hb]
  refine ⟨fun k hk1 hk2 => ?_, ?_, ?_, fun t n2 hso h2 => ?_⟩
  · have := hlivre (k - b) (by omega)
    rw [show b + (k - b) = k by omega] at this
    exact this
  · simp only [sec_alloc_t.size]
    omega
  · unfold sec_alloc_usadas
    rw [hbit, sec_alloc_preenche_usadas self.bitmap b m hlivre]
    push_cast
    rfl
  · obtain ⟨b2, m2, rfl, hm2, hb2, hlivre2, _⟩ := sec_alloc_alloc_sucesso t (n2) h2
    rw [hb2]
    by_contra hcon
    have hk1 : b ≤ max b b2 ∧ max b b2 < b + m := by omega
    have hk2 : b2 ≤ max b b2 ∧ max b b2 < b2 + m2 := by omega
    have husada : ∃ c, (sec_alloc_alloc self (m : Int)).2.bitmap[max b b2]? = some c ∧ c ≠ 0 := by
      rw [hbit, sec_alloc_preenche_get, if_pos ⟨hk1.1, hk1.2, by omega⟩]
      exact ⟨1, rfl, by decide⟩
    obtain ⟨c, hc, hc0⟩ := sec_alloc_so_aloca_usada hso (max b b2) husada
    have hz := hlivre2 (max b b2 - b2) (by omega)
    rw [show b2 + (max b b2 - b2) = max b b2 by omega, hc] at hz
    exact hc0 (Option.some.inj hz)

theorem sec_alloc_sem_sobreposicao_witness :
    (sec_alloc_alloc ⟨[1, 0, 0, 1, 0, 0, 0]⟩ 3).1 = 4 ∧
    (sec_alloc_alloc (sec_alloc_alloc ⟨[1, 0, 0, 1, 0, 0, 0]⟩ 3).2 2).1 = 1 ∧
    ((∀ k : Nat, (sec_alloc_alloc ⟨[1, 0, 0, 1, 0, 0, 0]⟩ 3).1 ≤ (k : Int) →
      (k : Int) < (sec_alloc_alloc ⟨[1, 0, 0, 1, 0, 0, 0]⟩ 3).1 + 3 →
      ([1, 0, 0, 1, 0, 0, 0] : List Nat)[k]? = some 0) ∧
    (sec_alloc_alloc ⟨[1, 0, 0, 1, 0, 0, 0]⟩ 3).1 + 3 ≤
      sec_alloc_t.size ⟨[1, 0, 0, 1, 0, 0, 0]⟩ ∧
    (sec_alloc_usadas (sec_alloc_alloc ⟨[1, 0, 0, 1, 0, 0, 0]⟩ 3).2 : Int) =
      (sec_alloc_usadas ⟨[1, 0, 0, 1, 0, 0, 0]⟩ : Int) + 3 ∧
    (∀ (t : sec_alloc_t) (n2 : Int),
      sec_alloc_so_aloca (sec_alloc_alloc ⟨[1, 0, 0, 1, 0, 0, 0]⟩ 3).2 t →
      0 ≤ (sec_alloc_alloc t n2).1 →
      (sec_alloc_alloc ⟨[1, 0, 0, 1, 0, 0, 0]⟩ 3).1 + 3 ≤ (sec_alloc_alloc t n2).1 ∨
      (sec_alloc_alloc t n2).1 + n2 ≤ (sec_alloc_alloc ⟨[1, 0, 0, 1, 0, 0, 0]⟩ 3).1)) :=
  ⟨by decide, by decide, sec_alloc_sem_sobreposicao ⟨[1, 0, 0, 1, 0, 0, 0]⟩ 3 (by decide)⟩

/-! ## T2/so.c: the limits of the quantum -/

theorem so_qigual_refl (s : so_t) : so_quantum_igual s s := ⟨rfl, rfl⟩

theorem so_qigual_trans {s t u : so_t} (h1 : so_quantum_igual s t)
    (h2 : so_quantum_igual t u) : so_quantum_igual s u :=
  ⟨h2.1.trans h1.1, h2.2.trans h1.2⟩

theorem so_qigual_de_quantum {s t : so_t} (h : so_mesmo_quantum s t) : so_quantum_igual s t :=
  ⟨h.2.1, h.2.2.1⟩

theorem so_qigual_de_controle {s t : so_t} (h : so_mesmo_controle s t) :
    so_quantum_igual s t :=
  so_qigual_de_quantum (so_quantum_de_controle h)

theorem so_qigual_remove (K : so_const_t) (s : so_t) :
    so_quantum_igual s (fila_prontos_remove K s).2 := by
  unfold fila_prontos_remove
  split <;> exact so_qigual_refl s

theorem so_qigual_inicio_ocioso (K : so_const_t) (s : so_t) :
    so_quantum_igual s (so_inicio_ocioso K s) := by
  unfold so_inicio_ocioso
  dsimp only
  split <;> exact so_qigual_refl s

theorem so_qinv_passos (K : so_const_t) {s t : so_t} (hp : so_passos K s t)
    (h : so_quantum_inv s) : so_quantum_inv t := by
  obtain ⟨a1, a2, a3, _, _⟩ := so_quantum_passos K hp
  obtain ⟨h1, h2, h3, h4⟩ := h
  exact ⟨by rw [a2]; exact h1, by rw [a3]; exact h2, by rw [a2, a3]; exact h3,
    by rw [a1, a3]; exact h4⟩

theorem so_qinv_entrada_passos (K : so_const_t) {s t : so_t} (hp : so_passos K s t)
    (h : so_quantum_inv_entrada s) : so_quantum_inv_entrada t := by
  obtain ⟨a1, a2, a3, a4, _⟩ := so_quantum_passos K hp
  obtain ⟨h1, h2, h3, h4⟩ := h
  exact ⟨by rw [a2]; exact h1, by rw [a3]; exact h2, by rw [a2, a3]; exact h3,
    by rw [a1, a3, a4]; exact h4⟩

theorem so_qinv_fraco {s : so_t} (h : so_quantum_inv s) : so_quantum_inv_entrada s :=
  ⟨h.1, h.2.1, h.2.2.1, fun hi => Or.inl (h.2.2.2 hi)⟩

/-- The quantum logic of the clock handler: the quantum left of a selected process is at
least 1 before the decrement, so it does not go below 0. -/
theorem so_qinv_quantum {s : so_t} (h : so_quantum_inv s) :
    so_quantum_inv_entrada (so_relogio_quantum s) := by
  obtain ⟨h1, h2, h3, h4⟩ := h
  unfold so_relogio_quantum
  dsimp only
  split
  · rename_i hidx
    have hq := h4 hidx
    split
    · refine ⟨h1, ?_, ?_, fun _ => Or.inr rfl⟩
      · show 0 ≤ s.quantum_restante - 1
        omega
      · show s.quantum_restante - 1 ≤ s.quantum_total
        omega
    · rename_i hz
      have hz' : ¬ s.quantum_restante - 1 = 0 := hz
      refine ⟨h1, ?_, ?_, fun _ => Or.inl ?_⟩
      · show 0 ≤ s.quantum_restante - 1
        omega
      · show s.quantum_restante - 1 ≤ s.quantum_total
        omega
      · show 1 ≤ s.quantum_restante - 1
        omega
  · exact so_qinv_fraco ⟨h1, h2, h3, h4⟩

/-- The invariant after `so_trata_irq`. -/
theorem so_qinv_trata_irq (K : so_const_t) (s : so_t) (irq : Int) (h : so_quantum_inv s) :
    so_quantum_inv_entrada (so_trata_irq K (so_salva_estado_da_cpu K s) irq) := by
  have hs := so_qinv_passos K (so_passos_salva K s) h
  obtain ⟨m, hm, hq⟩ := so_passos_trata_irq K (so_salva_estado_da_cpu K s) irq
  have hmi := so_qinv_passos K hm hs
  rcases hq with e | e
  · rw [e]
    exact so_qinv_fraco hmi
  · rw [e]
    exact so_qinv_quantum hmi

/-- The invariant at the call of the scheduler. -/
theorem so_qinv_na_entrada (K : so_const_t) (s : so_t) (irq : Int) (h : so_quantum_inv s) :
    so_quantum_inv_entrada (so_entrada K s irq) := by
  unfold so_entrada
  exact so_qinv_entrada_passos K (so_passos_pendencias K _) (so_qinv_trata_irq K s irq h)

theorem so_qinv_rr_proximo (K : so_const_t) (y : so_t) (h1 : y.quantum_total = 3)
    (h2 : 0 ≤ y.quantum_restante) (h3 : y.quantum_restante ≤ y.quantum_total) :
    so_quantum_inv (so_escalona_rr_proximo K y) := by
  have hr := so_qigual_remove K y
  unfold so_escalona_rr_proximo
  dsimp only
  split
  · have hq : (so_atualiza_estado K (so_fim_ocioso K (fila_prontos_remove K y).2)
        (fila_prontos_remove K y).1 EXECUTANDO).quantum_total = 3 := by
      rw [(so_qigual_de_controle (so_controle_atualiza K _ _ _)).1,
        (so_qigual_de_controle (so_controle_fim_ocioso K _)).1, hr.1, h1]
    refine ⟨hq, ?_, ?_, fun _ => ?_⟩
    · show 0 ≤ (so_atualiza_estado K _ _ _).quantum_total
      rw [hq]
      decide
    · show (so_atualiza_estado K _ _ _).quantum_total ≤ (so_atualiza_estado K _ _ _).quantum_total
      exact le_refl _
    · show 1 ≤ (so_atualiza_estado K _ _ _).quantum_total
      rw [hq]
      decide
  · have hi := so_qigual_trans hr (so_qigual_inicio_ocioso K _)
    refine ⟨by rw [hi.1]; exact h1, by rw [hi.2]; exact h2, by rw [hi.1, hi.2]; exact h3,
      fun hn => absurd (so_inicio_ocioso_idx K _) hn⟩

theorem so_qinv_rr (K : so_const_t) (e : so_t) (h : so_quantum_inv_entrada e) :
    so_quantum_inv (so_escalona_rr K e) := by
  obtain ⟨h1, h2, h3, h4⟩ := h
  unfold so_escalona_rr
  dsimp only
  split
  · have hc : so_quantum_igual e (so_insere_em_pronto K (so_atualiza_estado K
        (so_registra_preempcao e e.processo_em_execucao_idx) e.processo_em_execucao_idx PRONTO)
        e.processo_em_execucao_idx) :=
      so_qigual_trans (so_qigual_de_controle (so_controle_registra e _))
        (so_qigual_trans (so_qigual_de_controle (so_controle_atualiza K _ _ _))
          (so_qigual_de_quantum (so_quantum_insere K _ _)))
    apply so_qinv_rr_proximo
    · show (so_insere_em_pronto K _ _).quantum_total = 3
      rw [hc.1]
      exact h1
    · show 0 ≤ (so_insere_em_pronto K _ _).quantum_restante
      rw [hc.2]
      exact h2
    · show (so_insere_em_pronto K _ _).quantum_restante ≤ (so_insere_em_pronto K _ _).quantum_total
      rw [hc.1, hc.2]
      exact h3
  · rename_i hnp
    split
    · exact so_qinv_rr_proximo K _ h1 h2 h3
    · split
      · rename_i hidx
        refine ⟨h1, h2, h3, fun _ => ?_⟩
        rcases h4 hidx with hq | hd
        · exact hq
        · exact absurd ⟨hd, hidx⟩ hnp
      · exact so_qinv_rr_proximo K _ h1 h2 h3

theorem so_qinv_prio_proximo (K : so_const_t) (y : so_t) (h1 : y.quantum_total = 3)
    (h2 : 0 ≤ y.quantum_restante) (h3 : y.quantum_restante ≤ y.quantum_total) :
    so_quantum_inv (so_escalona_prio_proximo K y) := by
  unfold so_escalona_prio_proximo
  dsimp only
  split
  · have hq : (so_atualiza_estado K (so_fim_ocioso K y)
        ((List.range K.MAX_PROCESSOS).foldl (so_escalona_prio_passo y) (-1, 1000000000)).1
        EXECUTANDO).quantum_total = 3 := by
      rw [(so_qigual_de_controle (so_controle_atualiza K _ _ _)).1,
        (so_qigual_de_controle (so_controle_fim_ocioso K _)).1, h1]
    refine ⟨hq, ?_, ?_, fun _ => ?_⟩
    · show 0 ≤ (so_atualiza_estado K _ _ _).quantum_total
      rw [hq]
      decide
    · show (so_atualiza_estado K _ _ _).quantum_total ≤ (so_atualiza_estado K _ _ _).quantum_total
      exact le_refl _
    · show 1 ≤ (so_atualiza_estado K _ _ _).quantum_total
      rw [hq]
      decide
  · have hi := so_qigual_inicio_ocioso K y
    refine ⟨by rw [hi.1]; exact h1, by rw [hi.2]; exact h2, by rw [hi.1, hi.2]; exact h3,
      fun hn => absurd (so_inicio_ocioso_idx K _) hn⟩

/-- The first half of `so_escalona_prio`: the quantum is untouched, and the current process
is kept only when `deve_preemptar` was not set. -/
theorem so_qinv_prio_atual (K : so_const_t) (e : so_t) (h : so_quantum_inv_entrada e) :
    so_quantum_inv (so_escalona_prio_atual K e) := by
  obtain ⟨h1, h2, h3, h4⟩ := h
  unfold so_escalona_prio_atual
  dsimp only
  split
  · rename_i hidx
    split
    · have hc := so_qigual_de_controle (so_controle_calcula e e.processo_em_execucao_idx)
      refine ⟨?_, ?_, ?_, fun hn => absurd rfl hn⟩
      · show (so_calcula_prioridade e _).quantum_total = 3
        rw [hc.1]
        exact h1
      · show 0 ≤ (so_calcula_prioridade e _).quantum_restante
        rw [hc.2]
        exact h2
      · show (so_calcula_prioridade e _).quantum_restante ≤
          (so_calcula_prioridade e _).quantum_total
        rw [hc.1, hc.2]
        exact h3
    · split
      · have hc : so_quantum_igual e (so_atualiza_estado K
            (so_registra_preempcao (so_calcula_prioridade e e.processo_em_execucao_idx)
              e.processo_em_execucao_idx) e.processo_em_execucao_idx PRONTO) :=
          so_qigual_trans (so_qigual_de_controle (so_controle_calcula e _))
            (so_qigual_trans (so_qigual_de_controle (so_controle_registra _ _))
              (so_qigual_de_controle (so_controle_atualiza K _ _ _)))
        refine ⟨?_, ?_, ?_, fun hn => absurd rfl hn⟩
        · show (so_atualiza_estado K _ _ _).quantum_total = 3
          rw [hc.1]
          exact h1
        · show 0 ≤ (so_atualiza_estado K _ _ _).quantum_restante
          rw [hc.2]
          exact h2
        · show (so_atualiza_estado K _ _ _).quantum_restante ≤
            (so_atualiza_estado K _ _ _).quantum_total
          rw [hc.1, hc.2]
          exact h3
      · rename_i hd
        refine ⟨h1, h2, h3, fun _ => ?_⟩
        rcases h4 hidx with hq | hd'
        · exact hq
        · exact absurd hd' hd
  · rename_i hidx
    exact ⟨h1, h2, h3, fun hn => absurd hn hidx⟩

theorem so_qinv_escalona (K : so_const_t) (e : so_t) (h : so_quantum_inv_entrada e) :
    so_quantum_inv (so_escalona K e) := by
  unfold so_escalona
  split
  · exact so_qinv_rr K e h
  · unfold so_escalona_prio
    dsimp only
    have ha := so_qinv_prio_atual K e h
    split
    · exact so_qinv_prio_proximo K _ ha.1 ha.2.1 ha.2.2.1
    · exact ha

theorem so_qinv_despacha (K : so_const_t) (s : so_t) (h : so_quantum_inv s) :
    so_quantum_inv (so_despacha K s).2 := by
  unfold so_despacha
  dsimp only
  split
  · exact h
  · split <;> exact h

theorem so_qinv_trap (K : so_const_t) (s : so_t) (irq : Int) (h : so_quantum_inv s) :
    so_quantum_inv (so_trata_interrupcao K s irq).2 := by
  rw [so_trap_entrada]
  exact so_qinv_despacha K _ (so_qinv_escalona K _ (so_qinv_na_entrada K s irq h))

theorem so_qinv_alcancavel (K : so_const_t) (s : so_t) (h : so_alcancavel K s) :
    so_quantum_inv s := by
  induction h with
  | cria modo mem es lp lf =>
    refine ⟨rfl, le_refl _, ?_, fun hn => absurd rfl hn⟩
    show (0 : Int) ≤ 3
    decide
  | trap self irq mem es _ ih =>
    exact so_qinv_trap K { self with mem := mem, es := es } irq ih

/-- C34: in every kernel state reachable from `so_cria` by traps (any IRQ, any memory and
devices), in either scheduler mode, `0 ≤ quantum_restante ≤ quantum_total`.  In any further
trap the same holds right after `so_trata_irq`, whose clock handler is the only code that
decrements the quantum left, and at the call of the scheduler, where the execution time
`quantum_total - quantum_restante` of the priority formula is read: it lies between 0 and
`quantum_total`. -/
theorem so_quantum_limites (K : so_const_t) (self : so_t) (h : so_alcancavel K self) :
    0 ≤ self.quantum_restante ∧ self.quantum_restante ≤ self.quantum_total ∧
    (∀ (irq : Int) (mem : mem_t) (es : es_t),
      0 ≤ (so_trata_irq K (so_salva_estado_da_cpu K { self with mem := mem, es := es })
        irq).quantum_restante ∧
      (so_trata_irq K (so_salva_estado_da_cpu K { self with mem := mem, es := es })
        irq).quantum_restante ≤
        (so_trata_irq K (so_salva_estado_da_cpu K { self with mem := mem, es := es })
          irq).quantum_total ∧
      0 ≤ (so_entrada K { self with mem := mem, es := es } irq).quantum_restante ∧
      (so_entrada K { self with mem := mem, es := es } irq).quantum_restante ≤
        (so_entrada K { self with mem := mem, es := es } irq).quantum_total ∧
      0 ≤ (so_entrada K { self with mem := mem, es := es } irq).quantum_total -
        (so_entrada K { self with mem := mem, es := es } irq).quantum_restante ∧
      (so_entrada K { self with mem := mem, es := es } irq).quantum_total -
        (so_entrada K { self with mem := mem, es := es } irq).quantum_restante ≤
        (so_entrada K { self with mem := mem, es := es } irq).quantum_total) := by
  have hinv := so_qinv_alcancavel K self h
  refine ⟨hinv.2.1, hinv.2.2.1, fun irq mem es => ?_⟩
  have hinv' : so_quantum_inv { self with mem := mem, es := es } := hinv
  have ht := so_qinv_trata_irq K { self with mem := mem, es := es } irq hinv'
  have he := so_qinv_na_entrada K { self with mem := mem, es := es } irq hinv'
  have he2 := he.2.1
  have he3 := he.2.2.1
  exact ⟨ht.2.1, ht.2.2.1, he2, he3, by omega, by omega⟩

set_option maxRecDepth 1000000 in
theorem so_quantum_limites_witness :
    so_ex_um_relogio.processo_em_execucao_idx = 0 ∧
    so_ex_um_relogio.quantum_restante = 2 ∧
    so_ex_um_relogio.quantum_total = 3 ∧
    (so_entrada so_const_ex { so_ex_um_relogio with mem := mem_ex 0 0, es := es_ex }
      3).quantum_restante = 1 ∧
    0 ≤ so_ex_um_relogio.quantum_restante ∧
    so_ex_um_relogio.quantum_restante ≤ so_ex_um_relogio.quantum_total ∧
    0 ≤ (so_entrada so_const_ex { so_ex_um_relogio with mem := mem_ex 0 0, es := es_ex }
      3).quantum_restante :=
  ⟨by decide, by decide, by decide, by decide,
    (so_quantum_limites so_const_ex so_ex_um_relogio
      (.trap _ _ _ _ (.trap _ _ _ _ (.cria _ _ _ _ _)))).1,
    (so_quantum_limites so_const_ex so_ex_um_relogio
      (.trap _ _ _ _ (.trap _ _ _ _ (.cria _ _ _ _ _)))).2.1,
    ((so_quantum_limites so_const_ex so_ex_um_relogio
      (.trap _ _ _ _ (.trap _ _ _ _ (.cria _ _ _ _ _)))).2.2 3 (mem_ex 0 0) es_ex).2.2.1⟩

/-! ## quadros.c: the ring buffer is well formed -/

theorem quadros_anel_cria (mem_tam TAM_PAGINA : Nat) (lixo : Nat → Int)
    (hn : 0 < (quadros_cria mem_tam TAM_PAGINA lixo).n_quadros) :
    quadros_anel_ok (quadros_cria mem_tam TAM_PAGINA lixo) := by
  have hn' : 0 < mem_tam / TAM_PAGINA := hn
  refine ⟨by simp [quadros_cria], by simp [quadros_cria], by simp [quadros_cria],
    by simp [quadros_cria], hn', Nat.zero_le _, ?_, fun i hi => absurd hi (Nat.not_lt_zero i),
    fun f hf => ?_⟩
  · show 0 = (0 + 0) % (mem_tam / TAM_PAGINA)
    simp
  · have hf' : (List.replicate (mem_tam / TAM_PAGINA) true)[f]? = some true := hf
    have hlt : f < mem_tam / TAM_PAGINA := by
      by_contra hc
      rw [List.getElem?_eq_none_iff.mpr (by simp; omega)] at hf'
      cases hf'
    constructor
    · show (List.replicate (mem_tam / TAM_PAGINA) (-1 : Int))[f]? = some (-1)
      rw [List.getElem?_eq_getElem (by simp; omega)]
      simp
    · show (List.replicate (mem_tam / TAM_PAGINA) (-1 : Int))[f]? = some (-1)
      rw [List.getElem?_eq_getElem (by simp; omega)]
      simp

theorem mod_mais_um (a n : Nat) : (a % n + 1) % n = (a + 1) % n := by
  rw [Nat.add_mod (a % n) 1 n, Nat.mod_mod, ← Nat.add_mod]

theorem mod_mais (a b n : Nat) : (a % n + b) % n = (a + b) % n := by
  rw [Nat.add_mod (a % n) b n, Nat.mod_mod, ← Nat.add_mod]

/-- When the queue is full every cell of the array is a cell of the queue. -/
theorem mod_cobre (h p n : Nat) (hh : h < n) (hp : p < n) :
    ∃ j, j < n ∧ (h + j) % n = p := by
  by_cases hc : h ≤ p
  · exact ⟨p - h, by omega, by rw [show h + (p - h) = p by omega, Nat.mod_eq_of_lt hp]⟩
  · refine ⟨p + n - h, by omega, ?_⟩
    rw [show h + (p + n - h) = p + n by omega, Nat.add_mod_right, Nat.mod_eq_of_lt hp]

theorem quadros_anel_assign (self : quadros_t) (quadro pid pagina : Int)
    (h : quadros_anel_ok self) : quadros_anel_ok (quadros_assign self quadro pid pagina) := by
  obtain ⟨hl1, hl2, hl3, hl4, hhead, hcount, htail, hfila, hlivre⟩ := h
  by_cases hguard : quadro < 0 ∨ quadro ≥ self.n_quadros
  · have hr : quadros_assign self quadro pid pagina = self := by
      simp only [quadros_assign, hguard, if_true]
    rw [hr]
    exact ⟨hl1, hl2, hl3, hl4, hhead, hcount, htail, hfila, hlivre⟩
  · obtain ⟨f, rfl⟩ : ∃ f : Nat, quadro = (f : Int) := ⟨quadro.toNat, by omega⟩
    have hfn : f < self.n_quadros := by omega
    have hn : 0 < self.n_quadros := by omega
    have htl : self.fifo_tail < self.n_quadros := by
      rw [htail]
      exact Nat.mod_lt _ hn
    have hdono : ∀ g : Nat, (self.is_free.set f false)[g]? = some true →
        (self.owner_pid.set f pid)[g]? = some (-1) ∧
        (self.owner_pagina.set f pagina)[g]? = some (-1) := by
      intro g hg
      rw [List.getElem?_set] at hg
      by_cases hfg : f = g
      · rw [if_pos hfg] at hg
        split at hg <;> cases hg
      · rw [if_neg hfg] at hg
        rw [List.getElem?_set, if_neg hfg, List.getElem?_set, if_neg hfg]
        exact hlivre g hg
    by_cases hc : self.fifo_count < self.n_quadros
    · simp only [quadros_assign, hguard, if_false, hc, if_true, Int.toNat_ofNat]
      refine ⟨by simp [hl1], by simp [hl2], by simp [hl3], by simp [hl4], hhead, hc, ?_,
        fun i hi => ?_, hdono⟩
      · show (self.fifo_tail + 1) % self.n_quadros =
          (self.fifo_head + (self.fifo_count + 1)) % self.n_quadros
        rw [htail, mod_mais_um]
        rfl
      · show 0 ≤ (self.fifo_queue.set self.fifo_tail (f : Int)).getD
            ((self.fifo_head + i) % self.n_quadros) 0 ∧
          (self.fifo_queue.set self.fifo_tail (f : Int)).getD
            ((self.fifo_head + i) % self.n_quadros) 0 < (self.n_quadros : Int)
        by_cases hp : self.fifo_tail = (self.fifo_head + i) % self.n_quadros
        · rw [← hp, lista_getD_set_eq self.fifo_queue self.fifo_tail _ _ (by omega)]
          omega
        · rw [lista_getD_set_ne _ _ _ _ _ hp]
          have hi2 : i < self.fifo_count + 1 := hi
          have hi' : i < self.fifo_count := by
            by_contra hge
            have : i = self.fifo_count := by omega
            rw [this] at hp
            exact hp htail
          exact hfila i hi'
    · have hcn : self.fifo_count = self.n_quadros := by omega
      simp only [quadros_assign, hguard, if_false, hc, Int.toNat_ofNat]
      have hh' : (self.fifo_tail + 1) % self.n_quadros < self.n_quadros := Nat.mod_lt _ hn
      refine ⟨by simp [hl1], by simp [hl2], by simp [hl3], by simp [hl4], hh', hcount, ?_,
        fun i hi => ?_, hdono⟩
      · show (self.fifo_tail + 1) % self.n_quadros =
          ((self.fifo_tail + 1) % self.n_quadros + self.fifo_count) % self.n_quadros
        rw [hcn, Nat.add_mod_right, Nat.mod_mod]
      · show 0 ≤ (self.fifo_queue.set self.fifo_tail (f : Int)).getD
            (((self.fifo_tail + 1) % self.n_quadros + i) % self.n_quadros) 0 ∧
          (self.fifo_queue.set self.fifo_tail (f : Int)).getD
            (((self.fifo_tail + 1) % self.n_quadros + i) % self.n_quadros) 0
              < (self.n_quadros : Int)
        by_cases hp : self.fifo_tail =
            ((self.fifo_tail + 1) % self.n_quadros + i) % self.n_quadros
        · rw [← hp, lista_getD_set_eq self.fifo_queue self.fifo_tail _ _ (by omega)]
          omega
        · rw [lista_getD_set_ne _ _ _ _ _ hp]
          obtain ⟨j, hj, hjp⟩ := mod_cobre self.fifo_head
            (((self.fifo_tail + 1) % self.n_quadros + i) % self.n_quadros) self.n_quadros
            hhead (Nat.mod_lt _ hn)
          rw [← hjp]
          exact hfila j (by rw [hcn]; exact hj)

theorem quadros_anel_remove (self : quadros_t) (h : quadros_anel_ok self) :
    quadros_anel_ok (quadros_remove_vitima self).2 := by
  obtain ⟨hl1, hl2, hl3, hl4, hhead, hcount, htail, hfila, hlivre⟩ := h
  by_cases hc : self.fifo_count = 0
  · have hr : quadros_remove_vitima self = (-1, self) := by
      simp only [quadros_remove_vitima, hc, if_true]
    rw [hr]
    exact ⟨hl1, hl2, hl3, hl4, hhead, hcount, htail, hfila, hlivre⟩
  · have hn : 0 < self.n_quadros := by omega
    have hv := hfila 0 (by omega)
    rw [Nat.add_zero, Nat.mod_eq_of_lt hhead] at hv
    simp only [quadros_remove_vitima, hc, if_false]
    generalize self.fifo_queue.getD self.fifo_head 0 = v at hv ⊢
    obtain ⟨g, rfl⟩ : ∃ g : Nat, v = (g : Int) := ⟨v.toNat, by omega⟩
    have hgn : g < self.n_quadros := by omega
    simp only [Int.toNat_ofNat]
    refine ⟨by simp [hl1], by simp [hl2], hl3, by simp [hl4], Nat.mod_lt _ hn, ?_, ?_,
      fun i hi => ?_, fun f hf => ?_⟩
    · show self.fifo_count - 1 ≤ self.n_quadros
      omega
    · show self.fifo_tail =
        ((self.fifo_head + 1) % self.n_quadros + (self.fifo_count - 1)) % self.n_quadros
      rw [mod_mais, htail]
      congr 1
      omega
    · have hi2 : i < self.fifo_count - 1 := hi
      show 0 ≤ self.fifo_queue.getD
          (((self.fifo_head + 1) % self.n_quadros + i) % self.n_quadros) 0 ∧
        self.fifo_queue.getD
          (((self.fifo_head + 1) % self.n_quadros + i) % self.n_quadros) 0
            < (self.n_quadros : Int)
      rw [mod_mais, show self.fifo_head + 1 + i = self.fifo_head + (i + 1) by omega]
      exact hfila (i + 1) (by omega)
    · have hf2 : (self.is_free.set g true)[f]? = some true := hf
      show (self.owner_pid.set g (-1))[f]? = some (-1) ∧
        (self.owner_pagina.set g (-1))[f]? = some (-1)
      rw [List.getElem?_set] at hf2
      rw [List.getElem?_set, List.getElem?_set]
      by_cases hgf : g = f
      · rw [if_pos hgf, if_pos (by omega), if_pos hgf, if_pos (by omega)]
        exact ⟨rfl, rfl⟩
      · rw [if_neg hgf] at hf2
        rw [if_neg hgf, if_neg hgf]
        exact hlivre f hf2

/-- One iteration of the first loop of `quadros_free_pid` touches neither the queue nor
its counters and keeps the ring well formed. -/
theorem quadros_anel_marca (pid : Int) (self : quadros_t) (i : Nat)
    (h : quadros_anel_ok self) :
    quadros_anel_ok (quadros_free_pid_marca pid self i) ∧
    (quadros_free_pid_marca pid self i).n_quadros = self.n_quadros ∧
    (quadros_free_pid_marca pid self i).fifo_queue = self.fifo_queue ∧
    (quadros_free_pid_marca pid self i).fifo_head = self.fifo_head ∧
    (quadros_free_pid_marca pid self i).fifo_count = self.fifo_count := by
  obtain ⟨hl1, hl2, hl3, hl4, hhead, hcount, htail, hfila, hlivre⟩ := h
  unfold quadros_free_pid_marca
  split
  · refine ⟨⟨by simp [hl1], by simp [hl2], hl3, by simp [hl4], hhead, hcount, htail, hfila,
      fun f hf => ?_⟩, rfl, rfl, rfl, rfl⟩
    have hf2 : (self.is_free.set i true)[f]? = some true := hf
    show (self.owner_pid.set i (-1))[f]? = some (-1) ∧
      (self.owner_pagina.set i (-1))[f]? = some (-1)
    rw [List.getElem?_set] at hf2
    rw [List.getElem?_set, List.getElem?_set]
    by_cases hif : i = f
    · rw [if_pos hif] at hf2
      have hlt : i < self.is_free.length := by
        by_contra hc
        rw [if_neg hc] at hf2
        cases hf2
      rw [if_pos hif, if_pos (by omega), if_pos hif, if_pos (by omega)]
      exact ⟨rfl, rfl⟩
    · rw [if_neg hif] at hf2
      rw [if_neg hif, if_neg hif]
      exact hlivre f hf2
  · exact ⟨⟨hl1, hl2, hl3, hl4, hhead, hcount, htail, hfila, hlivre⟩, rfl, rfl, rfl, rfl⟩

theorem quadros_anel_marcas (pid : Int) (l : List Nat) (self : quadros_t)
    (h : quadros_anel_ok self) :
    quadros_anel_ok (l.foldl (quadros_free_pid_marca pid) self) ∧
    (l.foldl (quadros_free_pid_marca pid) self).n_quadros = self.n_quadros ∧
    (l.foldl (quadros_free_pid_marca pid) self).fifo_queue = self.fifo_queue ∧
    (l.foldl (quadros_free_pid_marca pid) self).fifo_head = self.fifo_head ∧
    (l.foldl (quadros_free_pid_marca pid) self).fifo_count = self.fifo_count := by
  induction l generalizing self with
  | nil => exact ⟨h, rfl, rfl, rfl, rfl⟩
  | cons i l ih =>
    obtain ⟨a0, a1, a2, a3, a4⟩ := quadros_anel_marca pid self i h
    obtain ⟨b0, b1, b2, b3, b4⟩ := ih (quadros_free_pid_marca pid self i) a0
    exact ⟨b0, b1.trans a1, b2.trans a2, b3.trans a3, b4.trans a4⟩

/-- The second loop of `quadros_free_pid` after `m` iterations: `new_tail = new_count ≤ m`,
the cells below `new_tail` hold numbers of frames and the cells from `new_tail` on are as
they were. -/
theorem quadros_anel_compacta (self : quadros_t) (h : quadros_anel_ok self) (m : Nat)
    (hm : m ≤ self.fifo_count) :
    ((List.range m).foldl (quadros_free_pid_compacta self)
      (self.fifo_queue, 0, 0)).1.length = self.n_quadros ∧
    ((List.range m).foldl (quadros_free_pid_compacta self) (self.fifo_queue, 0, 0)).2.1 =
      ((List.range m).foldl (quadros_free_pid_compacta self) (self.fifo_queue, 0, 0)).2.2 ∧
    ((List.range m).foldl (quadros_free_pid_compacta self) (self.fifo_queue, 0, 0)).2.2 ≤ m ∧
    (∀ p, p < ((List.range m).foldl (quadros_free_pid_compacta self)
        (self.fifo_queue, 0, 0)).2.2 →
      0 ≤ ((List.range m).foldl (quadros_free_pid_compacta self)
        (self.fifo_queue, 0, 0)).1.getD p 0 ∧
      ((List.range m).foldl (quadros_free_pid_compacta self)
        (self.fifo_queue, 0, 0)).1.getD p 0 < (self.n_quadros : Int)) ∧
    (∀ p, ((List.range m).foldl (quadros_free_pid_compacta self)
        (self.fifo_queue, 0, 0)).2.2 ≤ p →
      ((List.range m).foldl (quadros_free_pid_compacta self)
        (self.fifo_queue, 0, 0)).1.getD p 0 = self.fifo_queue.getD p 0) := by
  obtain ⟨hl1, hl2, hl3, hl4, hhead, hcount, htail, hfila, hlivre⟩ := h
  induction m with
  | zero =>
    exact ⟨hl3, rfl, le_refl _, fun p hp => absurd hp (Nat.not_lt_zero p), fun p _ => rfl⟩
  | succ m ih =>
    obtain ⟨j1, j2, j3, j4, j5⟩ := ih (by omega)
    rw [List.range_succ, List.foldl_append]
    generalize (List.range m).foldl (quadros_free_pid_compacta self) (self.fifo_queue, 0, 0)
      = st at j1 j2 j3 j4 j5 ⊢
    obtain ⟨q, nt, nc⟩ := st
    simp only at j1 j2 j3 j4 j5
    subst j2
    have hn : 0 < self.n_quadros := by omega
    have hval : 0 ≤ q.getD ((self.fifo_head + m) % self.n_quadros) 0 ∧
        q.getD ((self.fifo_head + m) % self.n_quadros) 0 < (self.n_quadros : Int) := by
      by_cases hlt : (self.fifo_head + m) % self.n_quadros < nt
      · exact j4 _ hlt
      · rw [j5 _ (by omega)]
        exact hfila m (by omega)
    simp only [List.foldl_cons, List.foldl_nil, quadros_free_pid_compacta]
    split
    · refine ⟨by simp [j1], rfl, by show nt + 1 ≤ m + 1; omega, fun p hp => ?_, fun p hp => ?_⟩
      · have hp2 : p < nt + 1 := hp
        show 0 ≤ (q.set nt _).getD p 0 ∧ (q.set nt _).getD p 0 < (self.n_quadros : Int)
        by_cases hpc : nt = p
        · rw [← hpc, lista_getD_set_eq q nt _ _ (by omega)]
          exact hval
        · rw [lista_getD_set_ne _ _ _ _ _ hpc]
          exact j4 p (by omega)
      · have hp2 : nt + 1 ≤ p := hp
        show (q.set nt _).getD p 0 = self.fifo_queue.getD p 0
        rw [lista_getD_set_ne _ _ _ _ _ (by omega)]
        exact j5 p (by omega)
    · exact ⟨j1, rfl, by show nt ≤ m + 1; omega, j4, j5⟩

theorem quadros_anel_free_pid (self : quadros_t) (pid : Int) (h : quadros_anel_ok self) :
    quadros_anel_ok (quadros_free_pid self pid) := by
  obtain ⟨hM, hMn, hMq, hMh, hMc⟩ :=
    quadros_anel_marcas pid (List.range self.n_quadros) self h
  unfold quadros_free_pid
  dsimp only
  generalize (List.range self.n_quadros).foldl (quadros_free_pid_marca pid) self = M
    at hM hMn hMq hMh hMc ⊢
  obtain ⟨j1, j2, j3, j4, j5⟩ := quadros_anel_compacta M hM M.fifo_count (le_refl _)
  obtain ⟨hl1, hl2, hl3, hl4, hhead, hcount, htail, hfila, hlivre⟩ := hM
  generalize (List.range M.fifo_count).foldl (quadros_free_pid_compacta M)
    (M.fifo_queue, 0, 0) = r at j1 j2 j3 j4 j5 ⊢
  have hn : 0 < M.n_quadros := by omega
  refine ⟨hl1, hl2, j1, hl4, hn, ?_, ?_, fun i hi => ?_, hlivre⟩
  · show r.2.2 ≤ M.n_quadros
    omega
  · show r.2.1 % M.n_quadros = (0 + r.2.2) % M.n_quadros
    rw [j2, Nat.zero_add]
  · have hi2 : i < r.2.2 := hi
    show 0 ≤ r.1.getD ((0 + i) % M.n_quadros) 0 ∧
      r.1.getD ((0 + i) % M.n_quadros) 0 < (M.n_quadros : Int)
    rw [Nat.zero_add, Nat.mod_eq_of_lt (by omega)]
    exact j4 i hi2

theorem quadros_anel_alcancavel (self : quadros_t) (h : quadros_alcancavel self)
    (hn : 0 < self.n_quadros) : quadros_anel_ok self := by
  induction h with
  | cria mem_tam TAM_PAGINA lixo => exact quadros_anel_cria mem_tam TAM_PAGINA lixo hn
  | assign self quadro pid pagina _ ih =>
    have hnq : (quadros_assign self quadro pid pagina).n_quadros = self.n_quadros := by
      unfold quadros_assign
      split
      · rfl
      · dsimp only
        split <;> rfl
    exact quadros_anel_assign self quadro pid pagina (ih (by rw [← hnq]; exact hn))
  | remove self _ ih =>
    have hnq : (quadros_remove_vitima self).2.n_quadros = self.n_quadros := by
      unfold quadros_remove_vitima
      split <;> rfl
    exact quadros_anel_remove self (ih (by rw [← hnq]; exact hn))
  | free_pid self pid _ ih =>
    have hnq : (quadros_free_pid self pid).n_quadros = self.n_quadros := by
      have hmarca : ∀ (l : List Nat) (s : quadros_t),
          (l.foldl (quadros_free_pid_marca pid) s).n_quadros = s.n_quadros := by
        intro l
        induction l with
        | nil => intro s; rfl
        | cons i l ihl =>
          intro s
          rw [List.foldl_cons, ihl]
          unfold quadros_free_pid_marca
          split <;> rfl
      unfold quadros_free_pid
      exact hmarca _ self
    exact quadros_anel_free_pid self pid (ih (by rw [← hnq]; exact hn))

/-- C35: for a manager with `n_quadros ≥ 1`, in every state reachable from `quadros_cria`
by `quadros_assign` (any arguments), `quadros_remove_vitima` and `quadros_free_pid`:
`fifo_head < n_quadros`, `fifo_tail < n_quadros`, `fifo_count ≤ n_quadros`,
`fifo_tail = (fifo_head + fifo_count) mod n_quadros`, and every free frame has owner pid and
owner page -1.  (The three counters are natural numbers, never negative.) -/
theorem quadros_anel_bem_formado (self : quadros_t) (h : quadros_alcancavel self)
    (hn : 1 ≤ self.n_quadros) :
    self.fifo_head < self.n_quadros ∧ self.fifo_tail < self.n_quadros ∧
    self.fifo_count ≤ self.n_quadros ∧
    self.fifo_tail = (self.fifo_head + self.fifo_count) % self.n_quadros ∧
    (∀ f : Nat, f < self.n_quadros → self.is_free.getD f false = true →
      quadros_owner_pid self (f : Int) = -1 ∧ quadros_owner_pagina self (f : Int) = -1) := by
  obtain ⟨hl1, hl2, hl3, hl4, hhead, hcount, htail, hfila, hlivre⟩ :=
    quadros_anel_alcancavel self h hn
  refine ⟨hhead, by rw [htail]; exact Nat.mod_lt _ hn, hcount, htail, fun f hf hfree => ?_⟩
  have hfree2 : self.is_free[f]? = some true := by
    rw [List.getD_eq_getElem?_getD, List.getElem?_eq_getElem (by omega)] at hfree
    rw [List.getElem?_eq_getElem (by omega)]
    simpa using hfree
  obtain ⟨h1, h2⟩ := hlivre f hfree2
  have hguard : ¬ ((f : Int) < 0 ∨ (f : Int) ≥ self.n_quadros) := by omega
  constructor
  · simp only [quadros_owner_pid, hguard, if_false, Int.toNat_ofNat,
      List.getD_eq_getElem?_getD, h1, Option.getD_some]
  · simp only [quadros_owner_pagina, hguard, if_false, Int.toNat_ofNat,
      List.getD_eq_getElem?_getD, h2, Option.getD_some]

theorem quadros_anel_bem_formado_witness :
    (quadros_free_pid quadros_ex_volta 99).n_quadros = 2 ∧
    ((quadros_free_pid quadros_ex_volta 99).fifo_head <
        (quadros_free_pid quadros_ex_volta 99).n_quadros ∧
      (quadros_free_pid quadros_ex_volta 99).fifo_tail <
        (quadros_free_pid quadros_ex_volta 99).n_quadros ∧
      (quadros_free_pid quadros_ex_volta 99).fifo_count ≤
        (quadros_free_pid quadros_ex_volta 99).n_quadros ∧
      (quadros_free_pid quadros_ex_volta 99).fifo_tail =
        ((quadros_free_pid quadros_ex_volta 99).fifo_head +
          (quadros_free_pid quadros_ex_volta 99).fifo_count) %
          (quadros_free_pid quadros_ex_volta 99).n_quadros ∧
      (∀ f : Nat, f < (quadros_free_pid quadros_ex_volta 99).n_quadros →
        (quadros_free_pid quadros_ex_volta 99).is_free.getD f false = true →
        quadros_owner_pid (quadros_free_pid quadros_ex_volta 99) (f : Int) = -1 ∧
        quadros_owner_pagina (quadros_free_pid quadros_ex_volta 99) (f : Int) = -1)) :=
  ⟨by decide,
    quadros_anel_bem_formado (quadros_free_pid quadros_ex_volta 99)
      (.free_pid _ _ (.assign _ _ _ _ (.remove _ (.assign _ _ _ _ (.assign _ _ _ _
        (.cria 2 1 (fun _ => 0))))))) (by decide)⟩
